import Mathlib

/-!
FastForward dispatch wrappers (src/src/H5FF.c)

A shallow embedding of the eight wrappers `H5Fcreate_ff`, `H5Fopen_ff`,
`H5Gcreate_ff`, `H5Gopen_ff`, `H5Dcreate_ff`, `H5Dopen_ff`, `H5Dwrite_ff`,
`H5Dread_ff`.

* Identifiers (`hid_t`), statuses (`herr_t`) and tri-states (`htri_t`) are `Int`.
* A C string argument is an `Option String`: `none` is the NULL pointer.
* A pointer result is an `Option`: `none` is NULL.
* The body of each wrapper is embedded from the statement after
  `FUNC_ENTER_API(FAIL)` (the library is initialised and the error stack has
  been cleared) up to `FUNC_LEAVE_API(ret_value)`.
* `HGOTO_ERROR(maj, min, FAIL, msg)` pushes one record on the error stack, sets
  `ret_value` to `FAIL` and jumps to the `done:` block of the wrapper.
* The VOL layer is a parameter: every `H5VL_*` routine is a function of the
  backend state, the identifier registry it may read, and its C arguments.
  Each invocation is logged (ghost state) with the registry it saw and the
  value it returned.
* The parameter `trans` (a `uint64_t`) is a `Nat`; `flags` (an `unsigned`) is a
  `Nat`, the one 32-bit operation on it being the complement `H5_bitnot32`.
* The bodies of `H5Gcreate_ff` and `H5Dcreate_ff` are embedded in two pieces:
  the argument checks up to the `H5P_set` calls, and the statements from
  `loc_params.type = ...` to the end (`H5Gcreate_ff_vol`, `H5Dcreate_ff_vol`).
* `H5AOtest` and `H5AOwait` (H5FF.c, inside `#if 0`) are embedded over the
  memory of one request; a call that reads a released request is `none`.
* The member functions `getComment`, `getObjType`, `getRefObjType` of
  src/c++/src/H5Location.cpp are embedded over the C routines they call, which
  are parameters; a `char` buffer is a list of bytes, `size_t` arithmetic is
  modulo 2^64, and a C++ call ends with a value, an exception or undefined
  behaviour.
-/

set_option linter.unusedVariables false

namespace H5FF

/-! ## Basic C types and constants -/

abbrev hid_t := Int
abbrev herr_t := Int
abbrev htri_t := Int

/-- Negative failure value of `herr_t` and `hid_t` (H5public.h). -/
def FAIL : Int := -1

/-- Success value of `herr_t` (H5public.h). -/
def SUCCEED : Int := 0

/-- C truth value compared against the result of `H5P_isa_class`. -/
def TRUE : Int := 1

/-- C false value of `htri_t`. -/
def FALSE : Int := 0

/-- The sentinel "use the default property list" (H5Ppublic.h). -/
def H5P_DEFAULT : hid_t := 0

/-- Bitwise complement of an `unsigned` (32 bit) value: the C operator `~`. -/
def H5_bitnot32 (x : Nat) : Nat := (2 ^ 32 - 1) - x % 2 ^ 32

/-- Type tags of identifiers (H5Ipublic.h). -/
inductive H5I_type_t where
  | H5I_UNINIT
  | H5I_BADID
  | H5I_FILE
  | H5I_GROUP
  | H5I_DATATYPE
  | H5I_DATASPACE
  | H5I_DATASET
  | H5I_ATTR
  | H5I_REFERENCE
  | H5I_VFL
  | H5I_VOL
  | H5I_GENPROP_CLS
  | H5I_GENPROP_LST
  | H5I_ERROR_CLASS
  | H5I_ERROR_MSG
  | H5I_ERROR_STACK
  deriving DecidableEq, Repr

/-- Property-list classes named in H5FF.c. -/
inductive H5P_class_t where
  | H5P_FILE_CREATE
  | H5P_FILE_ACCESS
  | H5P_LINK_CREATE
  | H5P_GROUP_CREATE
  | H5P_GROUP_ACCESS
  | H5P_DATASET_CREATE
  | H5P_DATASET_ACCESS
  | H5P_DATASET_XFER
  deriving DecidableEq, Repr

/-- Property names written by H5FF.c (the `H5VL_*_ID` keys); `other` stands for
any other property a list may hold. -/
inductive H5P_key where
  | H5VL_GRP_LCPL_ID
  | H5VL_DSET_TYPE_ID
  | H5VL_DSET_SPACE_ID
  | H5VL_DSET_LCPL_ID
  | other (n : Nat)
  deriving DecidableEq, Repr

/-- Major error numbers used by H5FF.c. -/
inductive H5E_major where
  | H5E_ARGS
  | H5E_FILE
  | H5E_ATOM
  | H5E_PLIST
  | H5E_SYM
  | H5E_DATASET
  deriving DecidableEq, Repr

/-- Minor error numbers used by H5FF.c. -/
inductive H5E_minor where
  | H5E_BADVALUE
  | H5E_BADTYPE
  | H5E_CANTOPENFILE
  | H5E_CANTREGISTER
  | H5E_BADATOM
  | H5E_CANTGET
  | H5E_CANTINIT
  | H5E_CLOSEERROR
  | H5E_WRITEERROR
  | H5E_READERROR
  deriving DecidableEq, Repr

/-- One record of the error stack: what `HGOTO_ERROR` / `HDONE_ERROR` push. -/
structure H5E_error where
  maj : H5E_major
  min : H5E_minor
  msg : String
  deriving DecidableEq, Repr

/-- Backend descriptor (`H5VL_t *`): names the plugin an object belongs to. -/
abbrev H5VL_t := Nat

/-- A generic property list: its class and its stored properties. -/
structure H5P_genplist_t where
  pclass : H5P_class_t
  props : List (H5P_key × hid_t)
  deriving DecidableEq, Repr

/-- What an identifier is bound to: a property list, or an object owned by a
backend and known to the library only as a token. -/
inductive H5_object where
  | plist (p : H5P_genplist_t)
  | token (t : Nat)
  deriving DecidableEq, Repr

/-- One entry of the identifier registry. -/
structure H5I_id_info_t where
  id : hid_t
  type : H5I_type_t
  obj_ptr : H5_object
  aux_ptr : Option H5VL_t
  count : Nat
  app_count : Nat
  deriving DecidableEq, Repr

/-- The identifier registry: its live entries and the number of entries it can
hold. -/
structure H5I_registry where
  entries : List H5I_id_info_t
  capacity : Nat
  deriving DecidableEq, Repr

/-- The identifiers that are live in a registry. -/
def H5I_ids (ids : H5I_registry) : List hid_t :=
  ids.entries.map (fun e => e.id)

/-! ## Registry and property-list routines (not in src/) -/

/-- Modelled from the spec: the lookup behind `resolve` and `get_backend`
(H5I.c is not part of the sources); the first live entry carrying the
identifier. -/
def H5I_find_id (ids : H5I_registry) (id : hid_t) : Option H5I_id_info_t :=
  ids.entries.find? (fun e => decide (e.id = id))

/-- Modelled from the spec: `resolve(identifier) -> object_ptr` (H5I_object of
H5I.c); NULL when the identifier is unknown. -/
def H5I_object (ids : H5I_registry) (id : hid_t) : Option H5_object :=
  (H5I_find_id ids id).map (fun e => e.obj_ptr)

/-- Modelled from the spec: `resolve` as used for dataset locations
(H5VL_get_object of H5VL.c); NULL when the identifier is unknown. -/
def H5VL_get_object (ids : H5I_registry) (id : hid_t) : Option H5_object :=
  (H5I_find_id ids id).map (fun e => e.obj_ptr)

/-- Modelled from the spec: `get_backend(identifier) -> backend_descriptor`
(H5I_get_aux of H5I.c); NULL when the identifier is unknown or no backend is
attached. -/
def H5I_get_aux (ids : H5I_registry) (id : hid_t) : Option H5VL_t :=
  (H5I_find_id ids id).bind (fun e => e.aux_ptr)

/-- Modelled from the spec: the type tag of an identifier (H5I_get_type of
H5I.c); `H5I_BADID` when the identifier is unknown. -/
def H5I_get_type (ids : H5I_registry) (id : hid_t) : H5I_type_t :=
  match H5I_find_id ids id with
  | some e => e.type
  | none => H5I_type_t.H5I_BADID

/-- Largest identifier among the entries (0 when there is none below it). -/
def H5I_max_id : List H5I_id_info_t → hid_t
  | [] => 0
  | e :: es => max e.id (H5I_max_id es)

/-- Modelled from the spec: `register(type_tag, object_ptr, backend_descriptor,
protect_flag) -> identifier` (H5I_register2 of H5I.c): allocates a fresh
identifier, stores the triple with reference count 1; fails when the table is
exhausted or the type tag is invalid, and then stores nothing. -/
def H5I_register2 (ids : H5I_registry) (type : H5I_type_t) (object : H5_object)
    (aux_ptr : Option H5VL_t) (app_ref : Bool) : hid_t × H5I_registry :=
  if type = H5I_type_t.H5I_UNINIT ∨ type = H5I_type_t.H5I_BADID then (FAIL, ids)
  else if ids.capacity ≤ ids.entries.length then (FAIL, ids)
  else
    let new_id := H5I_max_id ids.entries + 1
    (new_id,
      { ids with
        entries := ids.entries ++
          [{ id := new_id, type := type, obj_ptr := object, aux_ptr := aux_ptr,
             count := 1, app_count := if app_ref then 1 else 0 }] })

/-- Modelled from the spec: class validation of a property list (H5P_isa_class
of H5P.c): `TRUE` when the identifier names a property list created as that
class, `FALSE` for a list of another class, negative when the identifier is not
a property list. -/
def H5P_isa_class (ids : H5I_registry) (plist_id : hid_t) (pclass : H5P_class_t) : htri_t :=
  match H5I_find_id ids plist_id with
  | some e =>
    match e.obj_ptr with
    | H5_object.plist p =>
      if e.type = H5I_type_t.H5I_GENPROP_LST then
        (if p.pclass = pclass then TRUE else FALSE)
      else FAIL
    | H5_object.token _ => FAIL
  | none => FAIL

/-- Replace the value stored under a key that is present in a property map. -/
def H5P_props_set (key : H5P_key) (value : hid_t) :
    List (H5P_key × hid_t) → List (H5P_key × hid_t)
  | [] => []
  | (k, v) :: rest =>
    if k = key then (k, value) :: rest else (k, v) :: H5P_props_set key value rest

/-- Store an object in the first entry carrying the identifier. -/
def H5I_subst (id : hid_t) (object : H5_object) : List H5I_id_info_t → List H5I_id_info_t
  | [] => []
  | e :: es =>
    if e.id = id then { e with obj_ptr := object } :: es
    else e :: H5I_subst id object es

/-- Modelled from the spec: property storage (H5P_set of H5Pint.c), applied to
the list obtained from `H5I_object(plist_id)`: the value of an existing
property is overwritten in place; the call fails, changing nothing, when the
object is not a property list or the property does not exist in it. -/
def H5P_set (ids : H5I_registry) (plist_id : hid_t) (key : H5P_key) (value : hid_t) :
    herr_t × H5I_registry :=
  match H5I_object ids plist_id with
  | some (H5_object.plist p) =>
    if (p.props.lookup key).isSome then
      (SUCCEED,
        { ids with
          entries := H5I_subst plist_id
            (H5_object.plist { p with props := H5P_props_set key value p.props })
            ids.entries })
    else (FAIL, ids)
  | _ => (FAIL, ids)

/-- Modelled from the spec: property retrieval (H5P_get of H5Pint.c) through an
identifier: the value stored under a key of the list the identifier names. -/
def H5P_get (ids : H5I_registry) (plist_id : hid_t) (key : H5P_key) : Option hid_t :=
  match H5I_object ids plist_id with
  | some (H5_object.plist p) => p.props.lookup key
  | _ => none

/-! ## The VOL layer, as seen from H5FF.c -/

/-- Kinds of location addressing (H5VLpublic.h); H5FF.c only builds the first. -/
inductive H5VL_loc_type_t where
  | H5VL_OBJECT_BY_SELF
  | H5VL_OBJECT_BY_NAME
  | H5VL_OBJECT_BY_IDX
  | H5VL_OBJECT_BY_ADDR
  | H5VL_OBJECT_BY_REF
  deriving DecidableEq, Repr

/-- Location parameters, the two fields H5FF.c fills in. -/
structure H5VL_loc_params_t where
  type : H5VL_loc_type_t
  obj_type : H5I_type_t
  deriving DecidableEq, Repr

/-- A call of a VOL routine together with the C arguments it received. -/
inductive H5VL_call where
  | file_create (filename : String) (flags : Nat) (fcpl_id fapl_id dxpl_id eq_id : hid_t)
  | file_open (filename : String) (flags : Nat) (fapl_id dxpl_id eq_id : hid_t)
  | group_create (obj : H5_object) (loc_params : H5VL_loc_params_t) (vol_plugin : H5VL_t)
      (name : String) (gcpl_id gapl_id dxpl_id eq_id : hid_t)
  | group_open (obj : H5_object) (loc_params : H5VL_loc_params_t) (vol_plugin : H5VL_t)
      (name : String) (gapl_id dxpl_id eq_id : hid_t)
  | group_close (grp : Nat) (vol_plugin : H5VL_t) (dxpl_id eq_id : hid_t)
  | dataset_create (obj : H5_object) (loc_params : H5VL_loc_params_t) (vol_plugin : H5VL_t)
      (name : String) (dcpl_id dapl_id dxpl_id eq_id : hid_t)
  | dataset_open (obj : H5_object) (loc_params : H5VL_loc_params_t) (vol_plugin : H5VL_t)
      (name : String) (dapl_id dxpl_id eq_id : hid_t)
  | dataset_close (dset : Nat) (vol_plugin : H5VL_t) (dxpl_id eq_id : hid_t)
  | dataset_write (dset : H5_object) (vol_plugin : H5VL_t)
      (mem_type_id mem_space_id file_space_id dxpl_id : hid_t) (buf : List Nat) (eq_id : hid_t)
  | dataset_read (dset : H5_object) (vol_plugin : H5VL_t)
      (mem_type_id mem_space_id file_space_id dxpl_id : hid_t) (buf : List Nat) (eq_id : hid_t)
  deriving DecidableEq, Repr

/-- What a VOL routine handed back. -/
inductive H5VL_ret where
  | file (r : Option (Nat × H5VL_t))
  | ptr (r : Option Nat)
  | status (r : herr_t)
  | data (r : herr_t) (buf : List Nat)
  deriving DecidableEq, Repr

/-- Ghost record of one VOL invocation: the call, the registry the backend
could read at that moment, and the value returned. -/
structure H5VL_event where
  call : H5VL_call
  ids : H5I_registry
  ret : H5VL_ret
  deriving DecidableEq, Repr

/-- True of the two close routines. -/
def H5VL_call.is_close : H5VL_call → Bool
  | H5VL_call.group_close _ _ _ _ => true
  | H5VL_call.dataset_close _ _ _ _ => true
  | _ => false

/-- The VOL routines called by H5FF.c (H5VL.c is not part of the sources): each
is a function of the backend state and of the registry it may read, returning
its C result and the next backend state.  `H5VL_file_create` and
`H5VL_file_open` return the file token together with the plugin they store
through their first argument. -/
structure H5VL_class_t (σ : Type) where
  H5VL_file_create : σ → H5I_registry → String → Nat → hid_t → hid_t → hid_t → hid_t →
    Option (Nat × H5VL_t) × σ
  H5VL_file_open : σ → H5I_registry → String → Nat → hid_t → hid_t → hid_t →
    Option (Nat × H5VL_t) × σ
  H5VL_group_create : σ → H5I_registry → H5_object → H5VL_loc_params_t → H5VL_t → String →
    hid_t → hid_t → hid_t → hid_t → Option Nat × σ
  H5VL_group_open : σ → H5I_registry → H5_object → H5VL_loc_params_t → H5VL_t → String →
    hid_t → hid_t → hid_t → Option Nat × σ
  H5VL_group_close : σ → H5I_registry → Nat → H5VL_t → hid_t → hid_t → herr_t × σ
  H5VL_dataset_create : σ → H5I_registry → H5_object → H5VL_loc_params_t → H5VL_t → String →
    hid_t → hid_t → hid_t → hid_t → Option Nat × σ
  H5VL_dataset_open : σ → H5I_registry → H5_object → H5VL_loc_params_t → H5VL_t → String →
    hid_t → hid_t → hid_t → Option Nat × σ
  H5VL_dataset_close : σ → H5I_registry → Nat → H5VL_t → hid_t → hid_t → herr_t × σ
  H5VL_dataset_write : σ → H5I_registry → H5_object → H5VL_t → hid_t → hid_t → hid_t →
    hid_t → List Nat → hid_t → herr_t × σ
  H5VL_dataset_read : σ → H5I_registry → H5_object → H5VL_t → hid_t → hid_t → hid_t →
    hid_t → List Nat → hid_t → (herr_t × List Nat) × σ

/-- Constants and routines H5FF.c takes from headers and files that are not
part of the sources: the file access flags (H5Fpublic.h, H5Fprivate.h), the
identifiers of the default property lists (H5Pprivate.h), the metadata
transfer list `H5AC_dxpl_id`, and the VOL routines. -/
structure H5_env (σ : Type) where
  H5F_ACC_EXCL : Nat
  H5F_ACC_TRUNC : Nat
  H5F_ACC_DEBUG : Nat
  H5F_ACC_PUBLIC_FLAGS : Nat
  H5P_FILE_CREATE_DEFAULT : hid_t
  H5P_FILE_ACCESS_DEFAULT : hid_t
  H5P_LINK_CREATE_DEFAULT : hid_t
  H5P_GROUP_CREATE_DEFAULT : hid_t
  H5P_GROUP_ACCESS_DEFAULT : hid_t
  H5P_DATASET_CREATE_DEFAULT : hid_t
  H5P_DATASET_ACCESS_DEFAULT : hid_t
  H5P_DATASET_XFER_DEFAULT : hid_t
  H5AC_dxpl_id : hid_t
  vol : H5VL_class_t σ

/-- Library state between two API calls: the identifier registry and the
private state of the backends. -/
structure H5_state (σ : Type) where
  ids : H5I_registry
  vol : σ

/-- Outcome of one API call: the value returned, the error stack it left
(oldest record first), the VOL invocations it made (oldest first), the state
it left, and the contents of the caller buffer (used by `H5Dread_ff`). -/
structure H5_result (σ : Type) where
  ret_value : Int
  errs : List H5E_error
  calls : List H5VL_event
  st : H5_state σ
  buf : List Nat

/-- The cause of a failure: major and minor number of the first record pushed
on the error stack. -/
def H5_result.err_kind {σ : Type} (r : H5_result σ) : Option (H5E_major × H5E_minor) :=
  r.errs.head?.map (fun e => (e.maj, e.min))

/-- The macro `HGOTO_ERROR(maj, min, FAIL, msg)` before the jump to `done:`:
one record pushed, `ret_value` set to `FAIL`. -/
def HGOTO_ERROR {σ : Type} (st : H5_state σ) (calls : List H5VL_event) (buf : List Nat)
    (maj : H5E_major) (min : H5E_minor) (msg : String) : H5_result σ :=
  { ret_value := FAIL, errs := [{ maj := maj, min := min, msg := msg }],
    calls := calls, st := st, buf := buf }

/-- The macro `HDONE_ERROR(maj, min, FAIL, msg)` inside a `done:` block: one more
record pushed, `ret_value` set to `FAIL`. -/
def HDONE_ERROR {σ : Type} (r : H5_result σ)
    (maj : H5E_major) (min : H5E_minor) (msg : String) : H5_result σ :=
  { r with ret_value := FAIL, errs := r.errs ++ [{ maj := maj, min := min, msg := msg }] }

/-! ## The wrappers of H5FF.c -/

/-- H5FF.c, `H5Fcreate_ff` (lines 94-142); the interface initialisation
`H5F_init()` of line 103 touches nothing of the state embedded here. -/
def H5Fcreate_ff {σ : Type} (env : H5_env σ) (st : H5_state σ) (filename : Option String)
    (flags : Nat) (fcpl_id fapl_id eq_id : hid_t) : H5_result σ :=
  -- if(!filename || !*filename)
  if filename = none ∨ filename = some "" then
    HGOTO_ERROR st [] [] H5E_major.H5E_ARGS H5E_minor.H5E_BADVALUE "invalid file name"
  -- if(flags & ~(H5F_ACC_EXCL | H5F_ACC_TRUNC | H5F_ACC_DEBUG))
  else if flags &&& H5_bitnot32 (env.H5F_ACC_EXCL ||| env.H5F_ACC_TRUNC ||| env.H5F_ACC_DEBUG)
      ≠ 0 then
    HGOTO_ERROR st [] [] H5E_major.H5E_ARGS H5E_minor.H5E_BADVALUE "invalid flags"
  -- if((flags & H5F_ACC_EXCL) && (flags & H5F_ACC_TRUNC))
  else if flags &&& env.H5F_ACC_EXCL ≠ 0 ∧ flags &&& env.H5F_ACC_TRUNC ≠ 0 then
    HGOTO_ERROR st [] [] H5E_major.H5E_ARGS H5E_minor.H5E_BADVALUE
      "mutually exclusive flags for file creation"
  -- Check file creation property list
  else if H5P_DEFAULT ≠ fcpl_id ∧
      TRUE ≠ H5P_isa_class st.ids fcpl_id H5P_class_t.H5P_FILE_CREATE then
    HGOTO_ERROR st [] [] H5E_major.H5E_ARGS H5E_minor.H5E_BADTYPE
      "not file create property list"
  -- Check the file access property list
  else if H5P_DEFAULT ≠ fapl_id ∧
      TRUE ≠ H5P_isa_class st.ids fapl_id H5P_class_t.H5P_FILE_ACCESS then
    HGOTO_ERROR st [] [] H5E_major.H5E_ARGS H5E_minor.H5E_BADTYPE
      "not file access property list"
  else
    let fcpl_id := if H5P_DEFAULT = fcpl_id then env.H5P_FILE_CREATE_DEFAULT else fcpl_id
    let fapl_id := if H5P_DEFAULT = fapl_id then env.H5P_FILE_ACCESS_DEFAULT else fapl_id
    let fname := filename.getD ""
    -- create a new file or truncate an existing file through the VOL
    let r := env.vol.H5VL_file_create st.vol st.ids fname flags fcpl_id fapl_id
      env.H5AC_dxpl_id eq_id
    let calls := [{ call := H5VL_call.file_create fname flags fcpl_id fapl_id
                      env.H5AC_dxpl_id eq_id,
                    ids := st.ids, ret := H5VL_ret.file r.1 }]
    match r.1 with
    | none =>
      HGOTO_ERROR { st with vol := r.2 } calls [] H5E_major.H5E_FILE
        H5E_minor.H5E_CANTOPENFILE "unable to create file"
    | some (file, vol_plugin) =>
      -- Get an atom for the file with the VOL information as the auxilary struct
      let reg := H5I_register2 st.ids H5I_type_t.H5I_FILE (H5_object.token file)
        (some vol_plugin) true
      if reg.1 < 0 then
        HGOTO_ERROR { ids := reg.2, vol := r.2 } calls [] H5E_major.H5E_ATOM
          H5E_minor.H5E_CANTREGISTER "unable to atomize file handle"
      else
        { ret_value := reg.1, errs := [], calls := calls,
          st := { ids := reg.2, vol := r.2 }, buf := [] }

/-- H5FF.c, `H5Fopen_ff` (lines 161-194). -/
def H5Fopen_ff {σ : Type} (env : H5_env σ) (st : H5_state σ) (filename : Option String)
    (flags : Nat) (fapl_id eq_id : hid_t) : H5_result σ :=
  -- if(!filename || !*filename)
  if filename = none ∨ filename = some "" then
    HGOTO_ERROR st [] [] H5E_major.H5E_ARGS H5E_minor.H5E_BADVALUE "invalid file name"
  -- Reject undefined flags (~H5F_ACC_PUBLIC_FLAGS) and the H5F_ACC_TRUNC & H5F_ACC_EXCL flags
  else if flags &&& H5_bitnot32 env.H5F_ACC_PUBLIC_FLAGS ≠ 0 ∨
      flags &&& env.H5F_ACC_TRUNC ≠ 0 ∨ flags &&& env.H5F_ACC_EXCL ≠ 0 then
    HGOTO_ERROR st [] [] H5E_major.H5E_ARGS H5E_minor.H5E_BADVALUE "invalid file open flags"
  else if H5P_DEFAULT ≠ fapl_id ∧
      TRUE ≠ H5P_isa_class st.ids fapl_id H5P_class_t.H5P_FILE_ACCESS then
    HGOTO_ERROR st [] [] H5E_major.H5E_ARGS H5E_minor.H5E_BADTYPE
      "not file access property list"
  else
    let fapl_id := if H5P_DEFAULT = fapl_id then env.H5P_FILE_ACCESS_DEFAULT else fapl_id
    let fname := filename.getD ""
    -- Open the file through the VOL layer
    let r := env.vol.H5VL_file_open st.vol st.ids fname flags fapl_id env.H5AC_dxpl_id eq_id
    let calls := [{ call := H5VL_call.file_open fname flags fapl_id env.H5AC_dxpl_id eq_id,
                    ids := st.ids, ret := H5VL_ret.file r.1 }]
    match r.1 with
    | none =>
      HGOTO_ERROR { st with vol := r.2 } calls [] H5E_major.H5E_FILE
        H5E_minor.H5E_CANTOPENFILE "unable to create file"
    | some (file, vol_plugin) =>
      -- Get an atom for the file with the VOL information as the auxilary struct
      let reg := H5I_register2 st.ids H5I_type_t.H5I_FILE (H5_object.token file)
        (some vol_plugin) true
      if reg.1 < 0 then
        HGOTO_ERROR { ids := reg.2, vol := r.2 } calls [] H5E_major.H5E_ATOM
          H5E_minor.H5E_CANTREGISTER "unable to atomize file handle"
      else
        { ret_value := reg.1, errs := [], calls := calls,
          st := { ids := reg.2, vol := r.2 }, buf := [] }

/-- H5FF.c, the `done:` block of `H5Gcreate_ff` (lines 277-282): `r` is the
outcome reached at the jump, `grp` and `vol_plugin` the locals of that name. -/
def H5Gcreate_ff_done {σ : Type} (env : H5_env σ) (r : H5_result σ) (grp : Option Nat)
    (vol_plugin : Option H5VL_t) (eq_id : hid_t) : H5_result σ :=
  match grp, vol_plugin with
  | some g, some vp =>
    -- if (ret_value < 0 && grp)
    if r.ret_value < 0 then
      let c := env.vol.H5VL_group_close r.st.vol r.st.ids g vp env.H5AC_dxpl_id eq_id
      let r1 : H5_result σ :=
        { r with
          calls := r.calls ++
            [{ call := H5VL_call.group_close g vp env.H5AC_dxpl_id eq_id,
               ids := r.st.ids, ret := H5VL_ret.status c.1 }],
          st := { r.st with vol := c.2 } }
      if c.1 < 0 then
        HDONE_ERROR r1 H5E_major.H5E_SYM H5E_minor.H5E_CLOSEERROR "unable to release group"
      else r1
    else r
  | _, _ => r

/-- H5FF.c, `H5Gcreate_ff`, lines 258-282: the statements that follow the
property-list checks, run in the state `st` those left, with the locals `name`,
`gcpl_id`, `gapl_id` as they are at line 258. -/
def H5Gcreate_ff_vol {σ : Type} (env : H5_env σ) (st : H5_state σ) (loc_id : hid_t)
    (name : String) (gcpl_id gapl_id eq_id : hid_t) : H5_result σ :=
  let loc_params : H5VL_loc_params_t :=
    { type := H5VL_loc_type_t.H5VL_OBJECT_BY_SELF, obj_type := H5I_get_type st.ids loc_id }
  -- get the file object
  match H5I_object st.ids loc_id with
  | none =>
    H5Gcreate_ff_done env
      (HGOTO_ERROR st [] [] H5E_major.H5E_ARGS H5E_minor.H5E_BADTYPE
        "invalid file identifier")
      none none eq_id
  | some obj =>
    -- get the plugin pointer
    match H5I_get_aux st.ids loc_id with
    | none =>
      H5Gcreate_ff_done env
        (HGOTO_ERROR st [] [] H5E_major.H5E_ARGS H5E_minor.H5E_BADTYPE
          "ID does not contain VOL information")
        none none eq_id
    | some vol_plugin =>
      -- Create the group through the VOL
      let r := env.vol.H5VL_group_create st.vol st.ids obj loc_params vol_plugin name
        gcpl_id gapl_id env.H5AC_dxpl_id eq_id
      let calls := [{ call := H5VL_call.group_create obj loc_params vol_plugin name
                        gcpl_id gapl_id env.H5AC_dxpl_id eq_id,
                      ids := st.ids, ret := H5VL_ret.ptr r.1 }]
      match r.1 with
      | none =>
        H5Gcreate_ff_done env
          (HGOTO_ERROR { st with vol := r.2 } calls [] H5E_major.H5E_SYM
            H5E_minor.H5E_CANTINIT "unable to create group")
          none (some vol_plugin) eq_id
      | some grp =>
        -- Get an atom for the group
        let reg := H5I_register2 st.ids H5I_type_t.H5I_GROUP (H5_object.token grp)
          (some vol_plugin) true
        if reg.1 < 0 then
          H5Gcreate_ff_done env
            (HGOTO_ERROR { ids := reg.2, vol := r.2 } calls [] H5E_major.H5E_ATOM
              H5E_minor.H5E_CANTREGISTER "unable to atomize dataset handle")
            (some grp) (some vol_plugin) eq_id
        else
          H5Gcreate_ff_done env
            { ret_value := reg.1, errs := [], calls := calls,
              st := { ids := reg.2, vol := r.2 }, buf := [] }
            (some grp) (some vol_plugin) eq_id

/-- H5FF.c, `H5Gcreate_ff` (lines 213-283); lines 258-282 are
`H5Gcreate_ff_vol`. -/
def H5Gcreate_ff {σ : Type} (env : H5_env σ) (st : H5_state σ) (loc_id : hid_t)
    (name : Option String) (lcpl_id gcpl_id gapl_id : hid_t) (trans : Nat) (eq_id : hid_t) :
    H5_result σ :=
  -- if(!name || !*name)
  if name = none ∨ name = some "" then
    H5Gcreate_ff_done env
      (HGOTO_ERROR st [] [] H5E_major.H5E_ARGS H5E_minor.H5E_BADVALUE "no name")
      none none eq_id
  -- Get correct property list
  else if H5P_DEFAULT ≠ lcpl_id ∧
      TRUE ≠ H5P_isa_class st.ids lcpl_id H5P_class_t.H5P_LINK_CREATE then
    H5Gcreate_ff_done env
      (HGOTO_ERROR st [] [] H5E_major.H5E_ARGS H5E_minor.H5E_BADTYPE
        "not link creation property list")
      none none eq_id
  -- Check group creation property list
  else if H5P_DEFAULT ≠ gcpl_id ∧
      TRUE ≠ H5P_isa_class st.ids gcpl_id H5P_class_t.H5P_GROUP_CREATE then
    H5Gcreate_ff_done env
      (HGOTO_ERROR st [] [] H5E_major.H5E_ARGS H5E_minor.H5E_BADTYPE
        "not group create property list")
      none none eq_id
  -- Check the group access property list
  else if H5P_DEFAULT ≠ gapl_id ∧
      TRUE ≠ H5P_isa_class st.ids gapl_id H5P_class_t.H5P_GROUP_ACCESS then
    H5Gcreate_ff_done env
      (HGOTO_ERROR st [] [] H5E_major.H5E_ARGS H5E_minor.H5E_BADTYPE
        "not group access property list")
      none none eq_id
  else
    let lcpl_id := if H5P_DEFAULT = lcpl_id then env.H5P_LINK_CREATE_DEFAULT else lcpl_id
    let gcpl_id := if H5P_DEFAULT = gcpl_id then env.H5P_GROUP_CREATE_DEFAULT else gcpl_id
    let gapl_id := if H5P_DEFAULT = gapl_id then env.H5P_GROUP_ACCESS_DEFAULT else gapl_id
    let nm := name.getD ""
    -- Get the plist structure
    match H5I_object st.ids gcpl_id with
    | none =>
      H5Gcreate_ff_done env
        (HGOTO_ERROR st [] [] H5E_major.H5E_ATOM H5E_minor.H5E_BADATOM
          "can't find object for ID")
        none none eq_id
    | some _ =>
      let set := H5P_set st.ids gcpl_id H5P_key.H5VL_GRP_LCPL_ID lcpl_id
      if set.1 < 0 then
        H5Gcreate_ff_done env
          (HGOTO_ERROR { st with ids := set.2 } [] [] H5E_major.H5E_PLIST
            H5E_minor.H5E_CANTGET "can't set property value for lcpl id")
          none none eq_id
      else
        H5Gcreate_ff_vol env { st with ids := set.2 } loc_id nm gcpl_id gapl_id eq_id

/-- H5FF.c, `H5Gopen_ff` (lines 302-347); its `done:` block is empty. -/
def H5Gopen_ff {σ : Type} (env : H5_env σ) (st : H5_state σ) (loc_id : hid_t)
    (name : Option String) (gapl_id : hid_t) (trans : Nat) (eq_id : hid_t) : H5_result σ :=
  -- if(!name || !*name)
  if name = none ∨ name = some "" then
    HGOTO_ERROR st [] [] H5E_major.H5E_ARGS H5E_minor.H5E_BADVALUE "no name"
  -- Check the group access property list
  else if H5P_DEFAULT ≠ gapl_id ∧
      TRUE ≠ H5P_isa_class st.ids gapl_id H5P_class_t.H5P_GROUP_ACCESS then
    HGOTO_ERROR st [] [] H5E_major.H5E_ARGS H5E_minor.H5E_BADTYPE
      "not group access property list"
  else
    let gapl_id := if H5P_DEFAULT = gapl_id then env.H5P_GROUP_ACCESS_DEFAULT else gapl_id
    let nm := name.getD ""
    let loc_params : H5VL_loc_params_t :=
      { type := H5VL_loc_type_t.H5VL_OBJECT_BY_SELF, obj_type := H5I_get_type st.ids loc_id }
    -- get the file object
    match H5I_object st.ids loc_id with
    | none =>
      HGOTO_ERROR st [] [] H5E_major.H5E_ARGS H5E_minor.H5E_BADTYPE "invalid file identifier"
    | some obj =>
      -- get the plugin pointer
      match H5I_get_aux st.ids loc_id with
      | none =>
        HGOTO_ERROR st [] [] H5E_major.H5E_ARGS H5E_minor.H5E_BADTYPE
          "ID does not contain VOL information"
      | some vol_plugin =>
        -- Create the group through the VOL
        let r := env.vol.H5VL_group_open st.vol st.ids obj loc_params vol_plugin nm gapl_id
          env.H5AC_dxpl_id eq_id
        let calls := [{ call := H5VL_call.group_open obj loc_params vol_plugin nm gapl_id
                          env.H5AC_dxpl_id eq_id,
                        ids := st.ids, ret := H5VL_ret.ptr r.1 }]
        match r.1 with
        | none =>
          HGOTO_ERROR { st with vol := r.2 } calls [] H5E_major.H5E_SYM
            H5E_minor.H5E_CANTINIT "unable to create group"
        | some grp =>
          -- Get an atom for the group
          let reg := H5I_register2 st.ids H5I_type_t.H5I_GROUP (H5_object.token grp)
            (some vol_plugin) true
          if reg.1 < 0 then
            HGOTO_ERROR { ids := reg.2, vol := r.2 } calls [] H5E_major.H5E_ATOM
              H5E_minor.H5E_CANTREGISTER "unable to atomize dataset handle"
          else
            { ret_value := reg.1, errs := [], calls := calls,
              st := { ids := reg.2, vol := r.2 }, buf := [] }

/-- H5FF.c, the `done:` block shared by `H5Dcreate_ff` (lines 434-439) and
`H5Dopen_ff` (lines 501-506): `r` is the outcome reached at the jump, `dset` and
`vol_plugin` the locals of that name. -/
def H5Dcreate_ff_done {σ : Type} (env : H5_env σ) (r : H5_result σ) (dset : Option Nat)
    (vol_plugin : Option H5VL_t) (eq_id : hid_t) : H5_result σ :=
  match dset, vol_plugin with
  | some d, some vp =>
    -- if (ret_value < 0 && dset)
    if r.ret_value < 0 then
      let c := env.vol.H5VL_dataset_close r.st.vol r.st.ids d vp env.H5AC_dxpl_id eq_id
      let r1 : H5_result σ :=
        { r with
          calls := r.calls ++
            [{ call := H5VL_call.dataset_close d vp env.H5AC_dxpl_id eq_id,
               ids := r.st.ids, ret := H5VL_ret.status c.1 }],
          st := { r.st with vol := c.2 } }
      if c.1 < 0 then
        HDONE_ERROR r1 H5E_major.H5E_DATASET H5E_minor.H5E_CLOSEERROR
          "unable to release dataset"
      else r1
    else r
  | _, _ => r

/-- H5FF.c, `H5Dcreate_ff`, lines 415-439: the statements that follow the
property-list checks and the three `H5P_set` calls, run in the state `st` those
left, with the locals `name`, `dcpl_id`, `dapl_id` as they are at line 415. -/
def H5Dcreate_ff_vol {σ : Type} (env : H5_env σ) (st : H5_state σ) (loc_id : hid_t)
    (name : String) (dcpl_id dapl_id eq_id : hid_t) : H5_result σ :=
  let loc_params : H5VL_loc_params_t :=
    { type := H5VL_loc_type_t.H5VL_OBJECT_BY_SELF, obj_type := H5I_get_type st.ids loc_id }
  -- get the file object
  match H5VL_get_object st.ids loc_id with
  | none =>
    H5Dcreate_ff_done env
      (HGOTO_ERROR st [] [] H5E_major.H5E_ARGS H5E_minor.H5E_BADTYPE
        "invalid file identifier")
      none none eq_id
  | some obj =>
    -- get the plugin pointer
    match H5I_get_aux st.ids loc_id with
    | none =>
      H5Dcreate_ff_done env
        (HGOTO_ERROR st [] [] H5E_major.H5E_ARGS H5E_minor.H5E_BADTYPE
          "ID does not contain VOL information")
        none none eq_id
    | some vol_plugin =>
      -- Create the dataset through the VOL
      let r := env.vol.H5VL_dataset_create st.vol st.ids obj loc_params vol_plugin name
        dcpl_id dapl_id env.H5AC_dxpl_id eq_id
      let calls := [{ call := H5VL_call.dataset_create obj loc_params vol_plugin name
                        dcpl_id dapl_id env.H5AC_dxpl_id eq_id,
                      ids := st.ids, ret := H5VL_ret.ptr r.1 }]
      match r.1 with
      | none =>
        H5Dcreate_ff_done env
          (HGOTO_ERROR { st with vol := r.2 } calls [] H5E_major.H5E_DATASET
            H5E_minor.H5E_CANTINIT "unable to create dataset")
          none (some vol_plugin) eq_id
      | some dset =>
        -- Get an atom for the dataset
        let reg := H5I_register2 st.ids H5I_type_t.H5I_DATASET (H5_object.token dset)
          (some vol_plugin) true
        if reg.1 < 0 then
          H5Dcreate_ff_done env
            (HGOTO_ERROR { ids := reg.2, vol := r.2 } calls [] H5E_major.H5E_ATOM
              H5E_minor.H5E_CANTREGISTER "unable to atomize dataset handle")
            (some dset) (some vol_plugin) eq_id
        else
          H5Dcreate_ff_done env
            { ret_value := reg.1, errs := [], calls := calls,
              st := { ids := reg.2, vol := r.2 }, buf := [] }
            (some dset) (some vol_plugin) eq_id

/-- H5FF.c, `H5Dcreate_ff` (lines 366-440); lines 415-439 are
`H5Dcreate_ff_vol`. -/
def H5Dcreate_ff {σ : Type} (env : H5_env σ) (st : H5_state σ) (loc_id : hid_t)
    (name : Option String) (type_id space_id lcpl_id dcpl_id dapl_id : hid_t) (trans : Nat)
    (eq_id : hid_t) : H5_result σ :=
  -- if(!name || !*name)
  if name = none ∨ name = some "" then
    H5Dcreate_ff_done env
      (HGOTO_ERROR st [] [] H5E_major.H5E_ARGS H5E_minor.H5E_BADVALUE "no name")
      none none eq_id
  -- Get correct property list
  else if H5P_DEFAULT ≠ lcpl_id ∧
      TRUE ≠ H5P_isa_class st.ids lcpl_id H5P_class_t.H5P_LINK_CREATE then
    H5Dcreate_ff_done env
      (HGOTO_ERROR st [] [] H5E_major.H5E_ARGS H5E_minor.H5E_BADTYPE
        "not link creation property list")
      none none eq_id
  -- Get correct property list
  else if H5P_DEFAULT ≠ dcpl_id ∧
      TRUE ≠ H5P_isa_class st.ids dcpl_id H5P_class_t.H5P_DATASET_CREATE then
    H5Dcreate_ff_done env
      (HGOTO_ERROR st [] [] H5E_major.H5E_ARGS H5E_minor.H5E_BADTYPE
        "not dataset create property list ID")
      none none eq_id
  -- Get correct property list
  else if H5P_DEFAULT ≠ dapl_id ∧
      TRUE ≠ H5P_isa_class st.ids dapl_id H5P_class_t.H5P_DATASET_ACCESS then
    H5Dcreate_ff_done env
      (HGOTO_ERROR st [] [] H5E_major.H5E_ARGS H5E_minor.H5E_BADTYPE
        "not dataset access property list")
      none none eq_id
  else
    let lcpl_id := if H5P_DEFAULT = lcpl_id then env.H5P_LINK_CREATE_DEFAULT else lcpl_id
    let dcpl_id := if H5P_DEFAULT = dcpl_id then env.H5P_DATASET_CREATE_DEFAULT else dcpl_id
    let dapl_id := if H5P_DEFAULT = dapl_id then env.H5P_DATASET_ACCESS_DEFAULT else dapl_id
    let nm := name.getD ""
    -- Get the plist structure
    match H5I_object st.ids dcpl_id with
    | none =>
      H5Dcreate_ff_done env
        (HGOTO_ERROR st [] [] H5E_major.H5E_ATOM H5E_minor.H5E_BADATOM
          "can't find object for ID")
        none none eq_id
    | some _ =>
      -- set creation properties
      let set1 := H5P_set st.ids dcpl_id H5P_key.H5VL_DSET_TYPE_ID type_id
      if set1.1 < 0 then
        H5Dcreate_ff_done env
          (HGOTO_ERROR { st with ids := set1.2 } [] [] H5E_major.H5E_PLIST
            H5E_minor.H5E_CANTGET "can't set property value for datatype id")
          none none eq_id
      else
        let set2 := H5P_set set1.2 dcpl_id H5P_key.H5VL_DSET_SPACE_ID space_id
        if set2.1 < 0 then
          H5Dcreate_ff_done env
            (HGOTO_ERROR { st with ids := set2.2 } [] [] H5E_major.H5E_PLIST
              H5E_minor.H5E_CANTGET "can't set property value for space id")
            none none eq_id
        else
          let set3 := H5P_set set2.2 dcpl_id H5P_key.H5VL_DSET_LCPL_ID lcpl_id
          if set3.1 < 0 then
            H5Dcreate_ff_done env
              (HGOTO_ERROR { st with ids := set3.2 } [] [] H5E_major.H5E_PLIST
                H5E_minor.H5E_CANTGET "can't set property value for lcpl id")
              none none eq_id
          else
            H5Dcreate_ff_vol env { st with ids := set3.2 } loc_id nm dcpl_id dapl_id eq_id

/-- H5FF.c, `H5Dopen_ff` (lines 459-507). -/
def H5Dopen_ff {σ : Type} (env : H5_env σ) (st : H5_state σ) (loc_id : hid_t)
    (name : Option String) (dapl_id : hid_t) (trans : Nat) (eq_id : hid_t) : H5_result σ :=
  -- if(!name || !*name)
  if name = none ∨ name = some "" then
    H5Dcreate_ff_done env
      (HGOTO_ERROR st [] [] H5E_major.H5E_ARGS H5E_minor.H5E_BADVALUE "no name")
      none none eq_id
  -- Get correct property list
  else if H5P_DEFAULT ≠ dapl_id ∧
      TRUE ≠ H5P_isa_class st.ids dapl_id H5P_class_t.H5P_DATASET_ACCESS then
    H5Dcreate_ff_done env
      (HGOTO_ERROR st [] [] H5E_major.H5E_ARGS H5E_minor.H5E_BADTYPE
        "not dataset access property list")
      none none eq_id
  else
    let dapl_id := if H5P_DEFAULT = dapl_id then env.H5P_DATASET_ACCESS_DEFAULT else dapl_id
    let nm := name.getD ""
    let loc_params : H5VL_loc_params_t :=
      { type := H5VL_loc_type_t.H5VL_OBJECT_BY_SELF, obj_type := H5I_get_type st.ids loc_id }
    -- get the file object
    match H5VL_get_object st.ids loc_id with
    | none =>
      H5Dcreate_ff_done env
        (HGOTO_ERROR st [] [] H5E_major.H5E_ARGS H5E_minor.H5E_BADTYPE
          "invalid file identifier")
        none none eq_id
    | some obj =>
      -- get the plugin pointer
      match H5I_get_aux st.ids loc_id with
      | none =>
        H5Dcreate_ff_done env
          (HGOTO_ERROR st [] [] H5E_major.H5E_ARGS H5E_minor.H5E_BADTYPE
            "ID does not contain VOL information")
          none none eq_id
      | some vol_plugin =>
        -- Create the dataset through the VOL
        let r := env.vol.H5VL_dataset_open st.vol st.ids obj loc_params vol_plugin nm
          dapl_id env.H5AC_dxpl_id eq_id
        let calls := [{ call := H5VL_call.dataset_open obj loc_params vol_plugin nm dapl_id
                          env.H5AC_dxpl_id eq_id,
                        ids := st.ids, ret := H5VL_ret.ptr r.1 }]
        match r.1 with
        | none =>
          H5Dcreate_ff_done env
            (HGOTO_ERROR { st with vol := r.2 } calls [] H5E_major.H5E_DATASET
              H5E_minor.H5E_CANTINIT "unable to create dataset")
            none (some vol_plugin) eq_id
        | some dset =>
          -- Get an atom for the dataset
          let reg := H5I_register2 st.ids H5I_type_t.H5I_DATASET (H5_object.token dset)
            (some vol_plugin) true
          if reg.1 < 0 then
            H5Dcreate_ff_done env
              (HGOTO_ERROR { ids := reg.2, vol := r.2 } calls [] H5E_major.H5E_ATOM
                H5E_minor.H5E_CANTREGISTER "unable to atomize dataset handle")
              (some dset) (some vol_plugin) eq_id
          else
            H5Dcreate_ff_done env
              { ret_value := reg.1, errs := [], calls := calls,
                st := { ids := reg.2, vol := r.2 }, buf := [] }
              (some dset) (some vol_plugin) eq_id

/-- H5FF.c, `H5Dwrite_ff` (lines 523-559). -/
def H5Dwrite_ff {σ : Type} (env : H5_env σ) (st : H5_state σ) (dset_id mem_type_id
    mem_space_id file_space_id dxpl_id : hid_t) (buf : List Nat) (trans : Nat)
    (eq_id : hid_t) : H5_result σ :=
  -- if(!dset_id)
  if dset_id = 0 then
    HGOTO_ERROR st [] buf H5E_major.H5E_ARGS H5E_minor.H5E_BADTYPE "not a dataset"
  -- Get the default dataset transfer property list if the user didn't provide one
  else if H5P_DEFAULT ≠ dxpl_id ∧
      TRUE ≠ H5P_isa_class st.ids dxpl_id H5P_class_t.H5P_DATASET_XFER then
    HGOTO_ERROR st [] buf H5E_major.H5E_ARGS H5E_minor.H5E_BADTYPE "not xfer parms"
  else
    let dxpl_id := if H5P_DEFAULT = dxpl_id then env.H5P_DATASET_XFER_DEFAULT else dxpl_id
    -- get the plugin pointer
    match H5I_get_aux st.ids dset_id with
    | none =>
      HGOTO_ERROR st [] buf H5E_major.H5E_ARGS H5E_minor.H5E_BADTYPE
        "ID does not contain VOL information"
    | some vol_plugin =>
      -- get the dataset object
      match H5I_object st.ids dset_id with
      | none =>
        HGOTO_ERROR st [] buf H5E_major.H5E_ARGS H5E_minor.H5E_BADTYPE
          "invalid dataset identifier"
      | some dset =>
        -- Write the data through the VOL
        let r := env.vol.H5VL_dataset_write st.vol st.ids dset vol_plugin mem_type_id
          mem_space_id file_space_id dxpl_id buf eq_id
        let calls := [{ call := H5VL_call.dataset_write dset vol_plugin mem_type_id
                          mem_space_id file_space_id dxpl_id buf eq_id,
                        ids := st.ids, ret := H5VL_ret.status r.1 }]
        if r.1 < 0 then
          HGOTO_ERROR { st with vol := r.2 } calls buf H5E_major.H5E_DATASET
            H5E_minor.H5E_WRITEERROR "can't write data"
        else
          { ret_value := r.1, errs := [], calls := calls, st := { st with vol := r.2 },
            buf := buf }

/-- H5FF.c, `H5Dread_ff` (lines 575-610); the field `buf` of the outcome is the
contents of the caller buffer after the call. -/
def H5Dread_ff {σ : Type} (env : H5_env σ) (st : H5_state σ) (dset_id mem_type_id
    mem_space_id file_space_id dxpl_id : hid_t) (buf : List Nat) (trans : Nat)
    (eq_id : hid_t) : H5_result σ :=
  -- if(mem_space_id < 0 || file_space_id < 0)
  if mem_space_id < 0 ∨ file_space_id < 0 then
    HGOTO_ERROR st [] buf H5E_major.H5E_ARGS H5E_minor.H5E_BADTYPE "not a data space"
  -- Get the default dataset transfer property list if the user didn't provide one
  else if H5P_DEFAULT ≠ dxpl_id ∧
      TRUE ≠ H5P_isa_class st.ids dxpl_id H5P_class_t.H5P_DATASET_XFER then
    HGOTO_ERROR st [] buf H5E_major.H5E_ARGS H5E_minor.H5E_BADTYPE "not xfer parms"
  else
    let dxpl_id := if H5P_DEFAULT = dxpl_id then env.H5P_DATASET_XFER_DEFAULT else dxpl_id
    -- get the plugin pointer
    match H5I_get_aux st.ids dset_id with
    | none =>
      HGOTO_ERROR st [] buf H5E_major.H5E_ARGS H5E_minor.H5E_BADTYPE
        "ID does not contain VOL information"
    | some vol_plugin =>
      -- get the dataset object
      match H5I_object st.ids dset_id with
      | none =>
        HGOTO_ERROR st [] buf H5E_major.H5E_ARGS H5E_minor.H5E_BADTYPE
          "invalid dataset identifier"
      | some dset =>
        -- Read the data through the VOL
        let r := env.vol.H5VL_dataset_read st.vol st.ids dset vol_plugin mem_type_id
          mem_space_id file_space_id dxpl_id buf eq_id
        let calls := [{ call := H5VL_call.dataset_read dset vol_plugin mem_type_id
                          mem_space_id file_space_id dxpl_id buf eq_id,
                        ids := st.ids, ret := H5VL_ret.data r.1.1 r.1.2 }]
        if r.1.1 < 0 then
          HGOTO_ERROR { st with vol := r.2 } calls r.1.2 H5E_major.H5E_DATASET
            H5E_minor.H5E_READERROR "can't read data"
        else
          { ret_value := r.1.1, errs := [], calls := calls, st := { st with vol := r.2 },
            buf := r.1.2 }

/-! ## A concrete configuration, used to evaluate the wrappers -/

/-- A backend whose state counts the objects it has handed out: every create
and open returns the next token (files under plugin 7), close and write
succeed, read returns the buffer it was given. -/
def sample_vol : H5VL_class_t Nat where
  H5VL_file_create := fun s _ _ _ _ _ _ _ => (some (s, 7), s + 1)
  H5VL_file_open := fun s _ _ _ _ _ _ => (some (s, 7), s + 1)
  H5VL_group_create := fun s _ _ _ _ _ _ _ _ _ => (some s, s + 1)
  H5VL_group_open := fun s _ _ _ _ _ _ _ _ => (some s, s + 1)
  H5VL_group_close := fun s _ _ _ _ _ => (SUCCEED, s)
  H5VL_dataset_create := fun s _ _ _ _ _ _ _ _ _ => (some s, s + 1)
  H5VL_dataset_open := fun s _ _ _ _ _ _ _ _ => (some s, s + 1)
  H5VL_dataset_close := fun s _ _ _ _ _ => (SUCCEED, s)
  H5VL_dataset_write := fun s _ _ _ _ _ _ _ _ _ => (SUCCEED, s)
  H5VL_dataset_read := fun s _ _ _ _ _ _ _ buf _ => ((SUCCEED, buf), s)

/-- The flag values of H5Fpublic.h, default lists 101 to 108, `H5AC_dxpl_id`
109, over the counting backend. -/
def sample_env : H5_env Nat where
  H5F_ACC_EXCL := 4
  H5F_ACC_TRUNC := 2
  H5F_ACC_DEBUG := 8
  H5F_ACC_PUBLIC_FLAGS := 31
  H5P_FILE_CREATE_DEFAULT := 101
  H5P_FILE_ACCESS_DEFAULT := 102
  H5P_LINK_CREATE_DEFAULT := 103
  H5P_GROUP_CREATE_DEFAULT := 104
  H5P_GROUP_ACCESS_DEFAULT := 105
  H5P_DATASET_CREATE_DEFAULT := 106
  H5P_DATASET_ACCESS_DEFAULT := 107
  H5P_DATASET_XFER_DEFAULT := 108
  H5AC_dxpl_id := 109
  vol := sample_vol

/-- A registry entry holding a property list of the given class. -/
def sample_plist (id : hid_t) (pclass : H5P_class_t) (props : List (H5P_key × hid_t)) :
    H5I_id_info_t :=
  { id := id, type := H5I_type_t.H5I_GENPROP_LST,
    obj_ptr := H5_object.plist { pclass := pclass, props := props },
    aux_ptr := none, count := 1, app_count := 0 }

/-- The eight default lists, a file (identifier 1, token 50, plugin 7) and a
dataset (identifier 2, token 51, plugin 7). -/
def sample_entries : List H5I_id_info_t :=
  [ sample_plist 101 H5P_class_t.H5P_FILE_CREATE [],
    sample_plist 102 H5P_class_t.H5P_FILE_ACCESS [],
    sample_plist 103 H5P_class_t.H5P_LINK_CREATE [],
    sample_plist 104 H5P_class_t.H5P_GROUP_CREATE [(H5P_key.H5VL_GRP_LCPL_ID, 0)],
    sample_plist 105 H5P_class_t.H5P_GROUP_ACCESS [],
    sample_plist 106 H5P_class_t.H5P_DATASET_CREATE
      [(H5P_key.H5VL_DSET_TYPE_ID, 0), (H5P_key.H5VL_DSET_SPACE_ID, 0),
       (H5P_key.H5VL_DSET_LCPL_ID, 0)],
    sample_plist 107 H5P_class_t.H5P_DATASET_ACCESS [],
    sample_plist 108 H5P_class_t.H5P_DATASET_XFER [],
    { id := 1, type := H5I_type_t.H5I_FILE, obj_ptr := H5_object.token 50,
      aux_ptr := some 7, count := 1, app_count := 1 },
    { id := 2, type := H5I_type_t.H5I_DATASET, obj_ptr := H5_object.token 51,
      aux_ptr := some 7, count := 1, app_count := 1 } ]

/-- A state with room for more identifiers. -/
def sample_st : H5_state Nat :=
  { ids := { entries := sample_entries, capacity := 64 }, vol := 60 }

/-- The same state with an exhausted registry: every registration fails. -/
def sample_full : H5_state Nat :=
  { ids := { entries := sample_entries, capacity := 10 }, vol := 60 }

/-! ## Further configurations and registry operations used by later statements -/

/-- The counting backend, except that a write reports success with the
positive status 5 and a read with the positive status 7. -/
def sample_vol_pos : H5VL_class_t Nat :=
  { sample_vol with
    H5VL_dataset_write := fun s _ _ _ _ _ _ _ _ _ => (5, s),
    H5VL_dataset_read := fun s _ _ _ _ _ _ _ buf _ => ((7, buf), s) }

/-- The sample environment over `sample_vol_pos`. -/
def sample_env_pos : H5_env Nat :=
  { sample_env with vol := sample_vol_pos }

/-- Modelled from the spec: `promote(identifier, new_object_ptr)`, the in-place
replacement of the stored object behind an existing identifier, used when an
asynchronous placeholder operation completes (no such routine is part of the
sources).  Identifier, type tag, backend descriptor and reference counts of the
entry stay as they are; an unknown identifier leaves the registry as it was. -/
def H5I_promote (ids : H5I_registry) (id : hid_t) (new_object : H5_object) : H5I_registry :=
  { ids with entries := H5I_subst id new_object ids.entries }

/-- State of a backend that stores data: the next token to hand out, and for
each dataset token the bytes last written to it (newest first). -/
structure sample_store where
  next : Nat
  data : List (Nat × List Nat)
  deriving DecidableEq, Repr

/-- A backend that stores what is written: create and open hand out the next
token (files under plugin 7), close succeeds, write records the buffer under
the dataset token, read returns the bytes recorded last under the token and
fails when nothing was written. -/
def sample_store_vol : H5VL_class_t sample_store where
  H5VL_file_create := fun s _ _ _ _ _ _ _ => (some (s.next, 7), { s with next := s.next + 1 })
  H5VL_file_open := fun s _ _ _ _ _ _ => (some (s.next, 7), { s with next := s.next + 1 })
  H5VL_group_create := fun s _ _ _ _ _ _ _ _ _ => (some s.next, { s with next := s.next + 1 })
  H5VL_group_open := fun s _ _ _ _ _ _ _ _ => (some s.next, { s with next := s.next + 1 })
  H5VL_group_close := fun s _ _ _ _ _ => (SUCCEED, s)
  H5VL_dataset_create := fun s _ _ _ _ _ _ _ _ _ => (some s.next, { s with next := s.next + 1 })
  H5VL_dataset_open := fun s _ _ _ _ _ _ _ _ => (some s.next, { s with next := s.next + 1 })
  H5VL_dataset_close := fun s _ _ _ _ _ => (SUCCEED, s)
  H5VL_dataset_write := fun s _ dset _ _ _ _ _ buf _ =>
    match dset with
    | H5_object.token t => (SUCCEED, { s with data := (t, buf) :: s.data })
    | H5_object.plist _ => (FAIL, s)
  H5VL_dataset_read := fun s _ dset _ _ _ _ _ buf _ =>
    match dset with
    | H5_object.token t =>
      match s.data.lookup t with
      | some b => ((SUCCEED, b), s)
      | none => ((FAIL, buf), s)
    | H5_object.plist _ => ((FAIL, buf), s)

/-- The sample environment over the storing backend. -/
def sample_store_env : H5_env sample_store :=
  { H5F_ACC_EXCL := 4, H5F_ACC_TRUNC := 2, H5F_ACC_DEBUG := 8, H5F_ACC_PUBLIC_FLAGS := 31,
    H5P_FILE_CREATE_DEFAULT := 101, H5P_FILE_ACCESS_DEFAULT := 102,
    H5P_LINK_CREATE_DEFAULT := 103, H5P_GROUP_CREATE_DEFAULT := 104,
    H5P_GROUP_ACCESS_DEFAULT := 105, H5P_DATASET_CREATE_DEFAULT := 106,
    H5P_DATASET_ACCESS_DEFAULT := 107, H5P_DATASET_XFER_DEFAULT := 108,
    H5AC_dxpl_id := 109, vol := sample_store_vol }

/-- The sample registry over a storing backend that has written nothing. -/
def sample_store_st : H5_state sample_store :=
  { ids := { entries := sample_entries, capacity := 64 }, vol := { next := 60, data := [] } }

/-! ## The request routines of H5FF.c (lines 612-802, inside `#if 0`) -/

/-- States of a request (`H5VL_iod_state_t`); H5FF.c names two of them. -/
inductive H5VL_iod_state_t where
  | H5VL_IOD_PENDING
  | H5VL_IOD_COMPLETED
  | other (n : Nat)
  deriving DecidableEq, Repr

/-- The fields of `H5VL_iod_request_t` that H5FF.c reads: `state`, `status`, the
pointer `req` (`none` is NULL) and the file `obj->file`. -/
structure H5VL_iod_request_t where
  state : H5VL_iod_state_t
  status : Nat
  req : Option Nat
  file : Nat
  deriving DecidableEq, Repr

/-- The memory behind a request handle `H5_request_t *req`: the block `*req`
points to (`none` once `H5MM_xfree` has released it; the handle itself is never
written by H5FF.c and keeps pointing to the block), and how often the request
block and the block `request->req` have been released. -/
structure H5AO_heap where
  request : Option H5VL_iod_request_t
  request_frees : Nat
  req_frees : Nat
  deriving DecidableEq, Repr

/-- Outcome of `H5AOtest` and `H5AOwait`: the value returned, the value stored
in `*status`, whether `H5VL_iod_request_wait` was called, and the memory left. -/
structure H5AO_result where
  ret_value : herr_t
  status : Nat
  waited : Bool
  heap : H5AO_heap
  deriving DecidableEq, Repr

/-- H5FF.c, `H5AOtest` (lines 627-655, inside `#if 0`).  `none` stands for a
call whose first read, `request->status`, is of a block that has been released.
`HDONE_ERROR` is a braced block, so `request->req = H5MM_xfree(request->req)`
runs whenever the state is COMPLETED; `H5MM_xfree(NULL)` releases nothing.
`req = NULL` assigns the parameter, not the caller's handle.  The error record
of `HDONE_ERROR` is not kept. -/
def H5AOtest (H5VL_iod_request_wait : Nat → H5VL_iod_request_t → herr_t × H5VL_iod_request_t)
    (heap : H5AO_heap) : Option H5AO_result :=
  -- H5VL_iod_request_t *request = *((H5VL_iod_request_t **)req);
  match heap.request with
  | none => none
  | some request =>
    -- *status = request->status;
    let status := request.status
    -- if(H5VL_IOD_COMPLETED == request->state)
    if H5VL_iod_state_t.H5VL_IOD_COMPLETED = request.state then
      -- if(H5VL_iod_request_wait(request->obj->file, request) < 0) HDONE_ERROR(...)
      let w := H5VL_iod_request_wait request.file request
      let ret_value := if w.1 < 0 then FAIL else SUCCEED
      -- request->req = H5MM_xfree(request->req); request = H5MM_xfree(request); req = NULL;
      some { ret_value := ret_value, status := status, waited := true,
             heap := { request := none,
                       request_frees := heap.request_frees + 1,
                       req_frees := heap.req_frees + (if w.2.req.isSome then 1 else 0) } }
    else
      some { ret_value := SUCCEED, status := status, waited := false, heap := heap }

/-- H5FF.c, `H5AOwait` (lines 671-699, inside `#if 0`).  `none` stands for a
call whose first read, `request->state`, is of a block that has been released.
`req = NULL` assigns the parameter, not the caller's handle.  The error record
of `HDONE_ERROR` is not kept. -/
def H5AOwait (H5VL_iod_request_wait : Nat → H5VL_iod_request_t → herr_t × H5VL_iod_request_t)
    (heap : H5AO_heap) : Option H5AO_result :=
  -- H5VL_iod_request_t *request = *((H5VL_iod_request_t **)req);
  match heap.request with
  | none => none
  | some request =>
    -- if(H5VL_IOD_PENDING == request->state)
    --     if(H5VL_iod_request_wait(request->obj->file, request) < 0) HDONE_ERROR(...)
    let w := if H5VL_iod_state_t.H5VL_IOD_PENDING = request.state then
        H5VL_iod_request_wait request.file request
      else (SUCCEED, request)
    let ret_value := if w.1 < 0 then FAIL else SUCCEED
    -- *status = request->status;
    let status := w.2.status
    -- request->req = H5MM_xfree(request->req); request = H5MM_xfree(request); req = NULL;
    some { ret_value := ret_value, status := status,
           waited := decide (H5VL_iod_state_t.H5VL_IOD_PENDING = request.state),
           heap := { request := none,
                     request_frees := heap.request_frees + 1,
                     req_frees := heap.req_frees + (if w.2.req.isSome then 1 else 0) } }

/-- A backend wait that completes the request with status 1. -/
def sample_request_wait (file : Nat) (request : H5VL_iod_request_t) :
    herr_t × H5VL_iod_request_t :=
  (SUCCEED, { request with state := H5VL_iod_state_t.H5VL_IOD_COMPLETED, status := 1 })

/-- A pending request with status 0, whose `req` points to a block, in memory
where nothing has been released. -/
def sample_request_heap : H5AO_heap :=
  { request := some { state := H5VL_iod_state_t.H5VL_IOD_PENDING, status := 0, req := some 9,
                      file := 3 },
    request_frees := 0, req_frees := 0 }

/-! ## The wrappers of H5Location.cpp -/

/-- Number of bits of `size_t` and `ssize_t` (an LP64 platform). -/
def H5_SIZE_BITS : Nat := 64

/-- The exceptions H5Location.cpp throws: the function name handed to the
constructor (the argument of `inMemFunc` where that is used) and the detail
message. -/
inductive H5_Exception where
  | LocationException (func_name : String) (message : String)
  | ReferenceException (func_name : String) (message : String)
  deriving DecidableEq, Repr

/-- The detail message of an exception (`E.getDetailMsg()`). -/
def H5_Exception.getDetailMsg : H5_Exception → String
  | H5_Exception.LocationException _ m => m
  | H5_Exception.ReferenceException _ m => m

/-- How a C++ member function ends: with a value, with an exception, or with
undefined behaviour (a memory access outside the object it belongs to). -/
inductive H5_cxx (α : Type) where
  | value (a : α)
  | throws (e : H5_Exception)
  | undefined
  deriving DecidableEq, Repr

/-- The C routines H5Location.cpp calls and the enumerators it compares with
(H5O.c, H5R.c, H5Gpublic.h, H5Opublic.h are not part of the sources).
`H5Oget_comment_by_name` returns the length and the buffer after the call
(`none` is the NULL buffer); `H5Rget_obj_type2` receives the value `*obj_type`
holds before the call and returns the status and the value it holds after. -/
structure H5Location_env where
  H5Oget_comment_by_name : hid_t → String → Option (List Nat) → Nat → hid_t →
    Int × Option (List Nat)
  H5Rget_obj_type1 : hid_t → Int → Nat → Int
  H5Rget_obj_type2 : hid_t → Int → Nat → Int → herr_t × Int
  H5G_UNKNOWN : Int
  H5O_TYPE_UNKNOWN : Int
  H5O_TYPE_NTYPES : Int

/-- The string a `char*` denotes: the bytes before the first NUL; `none` when
the buffer holds no NUL, so that reading the string runs past the buffer. -/
def H5_cstring : List Nat → Option (List Nat)
  | [] => none
  | c :: cs => if c = 0 then some [] else (H5_cstring cs).map (fun s => c :: s)

/-- Outcome of `getComment(name, buf_size, comment)`: how the call ends, the
caller's buffer after the call, and the index of the element the function
itself assigned (`comment[buf_size-1]`), if it assigned one.  When that index
is not below the length of the buffer the assignment is outside the buffer and
`comment` shows the buffer without it. -/
structure H5_getComment_result where
  ret : H5_cxx Int
  comment : List Nat
  store : Option Nat
  deriving DecidableEq, Repr

/-- H5Location.cpp, `H5Location::getComment(const char*, size_t, char*)` (lines
234-253); `id` is `getId()`, `comment` the `buf_size` bytes (or whatever the
caller supplied) that `char* comment` points to.  `buf_size-1` is computed in
`size_t`. -/
def H5Location.getComment (env : H5Location_env) (id : hid_t) (name : String)
    (buf_size : Nat) (comment : List Nat) : H5_getComment_result :=
  -- comment_len = H5Oget_comment_by_name(getId(), name, comment, buf_size, H5P_DEFAULT);
  let r := env.H5Oget_comment_by_name id name (some comment) buf_size H5P_DEFAULT
  let comment_len := r.1
  let buf := r.2.getD comment
  -- if (comment_len < 0)
  if comment_len < 0 then
    { ret := H5_cxx.throws (H5_Exception.LocationException "H5Location::getComment"
        "H5Oget_comment_by_name failed"),
      comment := buf, store := none }
  -- if (static_cast<size_t>(comment_len) >= buf_size)
  else if buf_size ≤ comment_len.toNat % 2 ^ H5_SIZE_BITS then
    -- comment[buf_size-1] = '\0';
    let i := (buf_size + 2 ^ H5_SIZE_BITS - 1) % 2 ^ H5_SIZE_BITS
    { ret := H5_cxx.value comment_len, comment := buf.set i 0, store := some i }
  else
    { ret := H5_cxx.value comment_len, comment := buf, store := none }

/-- H5Location.cpp, `H5Location::getComment(const char*, size_t)` (lines
266-310).  `new char[tmp_len+1]` is taken to succeed; `tmp_len+1` is computed
in `size_t`.  The conversion `comment = comment_C` reads the buffer as a C
string; it is undefined behaviour when the overloaded function assigned an
element outside the buffer or when the buffer holds no NUL. -/
def H5Location.getComment_string (env : H5Location_env) (id : hid_t) (name : String)
    (buf_size : Nat) : H5_cxx (List Nat) :=
  -- ssize_t comment_len = H5Oget_comment_by_name(getId(), name, NULL, (size_t)0, H5P_DEFAULT);
  let comment_len := (env.H5Oget_comment_by_name id name none 0 H5P_DEFAULT).1
  -- if (comment_len < 0)
  if comment_len < 0 then
    H5_cxx.throws (H5_Exception.LocationException "H5Location::getComment"
      "H5Oget_comment_by_name failed")
  -- else if (comment_len > 0)
  else if 0 < comment_len then
    -- size_t tmp_len = buf_size; if (tmp_len == 0) tmp_len = comment_len;
    let tmp_len := if buf_size = 0 then comment_len.toNat % 2 ^ H5_SIZE_BITS else buf_size
    -- char* comment_C = new char[tmp_len+1]; HDmemset(comment_C, 0, tmp_len+1);
    let n := (tmp_len + 1) % 2 ^ H5_SIZE_BITS
    let comment_C := List.replicate n 0
    -- ssize_t temp_len = getComment(name, tmp_len+1, comment_C);
    let g := H5Location.getComment env id name n comment_C
    match g.ret with
    | H5_cxx.throws e => H5_cxx.throws e
    | H5_cxx.undefined => H5_cxx.undefined
    | H5_cxx.value temp_len =>
      -- if (temp_len < 0)
      if temp_len < 0 then
        H5_cxx.throws (H5_Exception.LocationException "H5Location::getComment"
          "H5Oget_comment_by_name failed")
      else
        -- comment = comment_C;
        match g.store with
        | some i =>
          if i < comment_C.length then
            (match H5_cstring g.comment with
             | some s => H5_cxx.value s
             | none => H5_cxx.undefined)
          else H5_cxx.undefined
        | none =>
          (match H5_cstring g.comment with
           | some s => H5_cxx.value s
           | none => H5_cxx.undefined)
  else
    -- H5std_string comment("");
    H5_cxx.value []

/-- H5Location.cpp, `H5Location::p_get_obj_type` (lines 556-565). -/
def H5Location.p_get_obj_type (env : H5Location_env) (id : hid_t) (ref : Nat)
    (ref_type : Int) : H5_cxx Int :=
  -- H5G_obj_t obj_type = H5Rget_obj_type1(getId(), ref_type, ref);
  let obj_type := env.H5Rget_obj_type1 id ref_type ref
  -- if (obj_type == H5G_UNKNOWN)
  if obj_type = env.H5G_UNKNOWN then
    H5_cxx.throws (H5_Exception.ReferenceException "getObjType" "H5Rget_obj_type1 failed")
  else H5_cxx.value obj_type

/-- H5Location.cpp, `H5Location::getObjType` (lines 529-537): a
`ReferenceException` of `p_get_obj_type` is caught and thrown again with the
same detail message. -/
def H5Location.getObjType (env : H5Location_env) (id : hid_t) (ref : Nat)
    (ref_type : Int) : H5_cxx Int :=
  match H5Location.p_get_obj_type env id ref ref_type with
  | H5_cxx.throws (H5_Exception.ReferenceException _ m) =>
    H5_cxx.throws (H5_Exception.ReferenceException "getObjType" m)
  | r => r

/-- H5Location.cpp, `H5Location::p_get_ref_obj_type` (lines 611-624). -/
def H5Location.p_get_ref_obj_type (env : H5Location_env) (id : hid_t) (ref : Nat)
    (ref_type : Int) : H5_cxx Int :=
  -- H5O_type_t obj_type = H5O_TYPE_UNKNOWN;
  -- herr_t ret_value = H5Rget_obj_type2(getId(), ref_type, ref, &obj_type);
  let r := env.H5Rget_obj_type2 id ref_type ref env.H5O_TYPE_UNKNOWN
  let ret_value := r.1
  let obj_type := r.2
  if ret_value < 0 then
    H5_cxx.throws (H5_Exception.ReferenceException "getRefObjType" "H5Rget_obj_type2 failed")
  -- if (obj_type == H5O_TYPE_UNKNOWN || obj_type >= H5O_TYPE_NTYPES)
  else if obj_type = env.H5O_TYPE_UNKNOWN ∨ env.H5O_TYPE_NTYPES ≤ obj_type then
    H5_cxx.throws (H5_Exception.ReferenceException "getRefObjType"
      "H5Rget_obj_type2 returned invalid type")
  else H5_cxx.value obj_type

/-- H5Location.cpp, `H5Location::getRefObjType` (lines 585-593): a
`ReferenceException` of `p_get_ref_obj_type` is caught and thrown again with
the same detail message. -/
def H5Location.getRefObjType (env : H5Location_env) (id : hid_t) (ref : Nat)
    (ref_type : Int) : H5_cxx Int :=
  match H5Location.p_get_ref_obj_type env id ref ref_type with
  | H5_cxx.throws (H5_Exception.ReferenceException _ m) =>
    H5_cxx.throws (H5_Exception.ReferenceException "getRefObjType" m)
  | r => r

/-- A C library for the evaluation of the wrappers: every object has the stored
comment `stored` (`none`: the query fails with -1), copied into the buffer the
way `strncpy` does; reference `r` points to an object of type `r - 1` for both
of the type queries, and the second query fails for references above 10. -/
def sample_location_env (stored : Option (List Nat)) : H5Location_env where
  H5Oget_comment_by_name := fun _ _ buf n _ =>
    match stored with
    | none => (-1, buf)
    | some c =>
      (c.length,
       buf.map (fun b => c.take n ++ List.replicate (n - c.length) 0 ++ b.drop n))
  H5Rget_obj_type1 := fun _ _ r => (r : Int) - 1
  H5Rget_obj_type2 := fun _ _ r t => if 10 < r then (-1, t) else (0, (r : Int) - 1)
  H5G_UNKNOWN := -1
  H5O_TYPE_UNKNOWN := -1
  H5O_TYPE_NTYPES := 3

/-! ## Auxiliary facts about the registry routines and the `done:` blocks -/

theorem FAIL_neg : FAIL < 0 := by decide

theorem H5I_register2_fail {ids : H5I_registry} {type : H5I_type_t} {object : H5_object}
    {aux : Option H5VL_t} {app : Bool}
    (h : (H5I_register2 ids type object aux app).1 < 0) :
    (H5I_register2 ids type object aux app).2 = ids := by
  unfold H5I_register2 at h ⊢
  split
  · rfl
  · split
    · rfl
    · rename_i h1 h2
      rw [if_neg h1, if_neg h2] at h
      exfalso
      have hmax : ∀ l : List H5I_id_info_t, 0 ≤ H5I_max_id l := by
        intro l
        induction l with
        | nil => simp [H5I_max_id]
        | cons e es ih => simp only [H5I_max_id]; exact le_max_of_le_right ih
      have h0 : (0 : Int) ≤ H5I_max_id ids.entries := hmax ids.entries
      have h1 : (H5I_max_id ids.entries : Int) + 1 < (0 : Int) := h
      linarith

theorem H5I_subst_ids (id : hid_t) (object : H5_object) (l : List H5I_id_info_t) :
    (H5I_subst id object l).map (fun e => e.id) = l.map (fun e => e.id) := by
  induction l with
  | nil => rfl
  | cons e es ih =>
    simp only [H5I_subst]
    split
    · simp
    · simp [ih]

theorem H5P_set_ids (ids : H5I_registry) (plist_id : hid_t) (key : H5P_key) (value : hid_t) :
    H5I_ids (H5P_set ids plist_id key value).2 = H5I_ids ids := by
  unfold H5P_set
  split
  · split
    · simp [H5I_ids, H5I_subst_ids]
    · rfl
  · rfl

theorem H5Gcreate_ff_done_none {σ : Type} (env : H5_env σ) (r : H5_result σ)
    (vp : Option H5VL_t) (eq_id : hid_t) : H5Gcreate_ff_done env r none vp eq_id = r := by
  simp [H5Gcreate_ff_done]

theorem H5Dcreate_ff_done_none {σ : Type} (env : H5_env σ) (r : H5_result σ)
    (vp : Option H5VL_t) (eq_id : hid_t) : H5Dcreate_ff_done env r none vp eq_id = r := by
  simp [H5Dcreate_ff_done]

theorem H5Gcreate_ff_done_ids {σ : Type} (env : H5_env σ) (r : H5_result σ)
    (grp : Option Nat) (vp : Option H5VL_t) (eq_id : hid_t) :
    (H5Gcreate_ff_done env r grp vp eq_id).st.ids = r.st.ids := by
  unfold H5Gcreate_ff_done
  split
  · split
    · dsimp only
      split <;> rfl
    · rfl
  · rfl

theorem H5Dcreate_ff_done_ids {σ : Type} (env : H5_env σ) (r : H5_result σ)
    (dset : Option Nat) (vp : Option H5VL_t) (eq_id : hid_t) :
    (H5Dcreate_ff_done env r dset vp eq_id).st.ids = r.st.ids := by
  unfold H5Dcreate_ff_done
  split
  · split
    · dsimp only
      split <;> rfl
    · rfl
  · rfl

theorem H5Gcreate_ff_done_ok {σ : Type} (env : H5_env σ) (r : H5_result σ)
    (grp : Option Nat) (vp : Option H5VL_t) (eq_id : hid_t) (h : ¬ r.ret_value < 0) :
    H5Gcreate_ff_done env r grp vp eq_id = r := by
  unfold H5Gcreate_ff_done
  split
  · rw [if_neg h]
  · rfl

theorem H5Dcreate_ff_done_ok {σ : Type} (env : H5_env σ) (r : H5_result σ)
    (dset : Option Nat) (vp : Option H5VL_t) (eq_id : hid_t) (h : ¬ r.ret_value < 0) :
    H5Dcreate_ff_done env r dset vp eq_id = r := by
  unfold H5Dcreate_ff_done
  split
  · rw [if_neg h]
  · rfl

theorem H5Gcreate_ff_done_neg {σ : Type} (env : H5_env σ) (r : H5_result σ)
    (grp : Option Nat) (vp : Option H5VL_t) (eq_id : hid_t) :
    (H5Gcreate_ff_done env r grp vp eq_id).ret_value < 0 ↔ r.ret_value < 0 := by
  unfold H5Gcreate_ff_done
  split
  · split
    · rename_i h
      dsimp only
      split
      · simp [HDONE_ERROR, FAIL_neg, h]
      · rfl
    · rfl
  · rfl

theorem H5Dcreate_ff_done_neg {σ : Type} (env : H5_env σ) (r : H5_result σ)
    (dset : Option Nat) (vp : Option H5VL_t) (eq_id : hid_t) :
    (H5Dcreate_ff_done env r dset vp eq_id).ret_value < 0 ↔ r.ret_value < 0 := by
  unfold H5Dcreate_ff_done
  split
  · split
    · rename_i h
      dsimp only
      split
      · simp [HDONE_ERROR, FAIL_neg, h]
      · rfl
    · rfl
  · rfl

/-! ## Auxiliary facts: lookups after registration and after `H5P_set` -/

theorem H5I_max_id_ge (l : List H5I_id_info_t) : ∀ e ∈ l, (e.id : Int) ≤ H5I_max_id l := by
  induction l with
  | nil => intro e he; cases he
  | cons a as ih =>
    intro e he
    simp only [H5I_max_id]
    rcases List.mem_cons.mp he with h | h
    · subst h; exact le_max_left _ _
    · exact le_trans (ih e h) (le_max_right _ _)

theorem H5I_find_fresh (l : List H5I_id_info_t) :
    l.find? (fun e => decide (e.id = H5I_max_id l + 1)) = none := by
  rw [List.find?_eq_none]
  intro e he
  have h := H5I_max_id_ge l e he
  simp only [decide_eq_true_eq]
  intro h2
  have h3 : (e.id : Int) = H5I_max_id l + 1 := h2
  linarith

theorem H5I_register2_ok {ids : H5I_registry} {type : H5I_type_t} {object : H5_object}
    {aux : Option H5VL_t} {app : Bool}
    (h : ¬ (H5I_register2 ids type object aux app).1 < 0) :
    H5I_find_id (H5I_register2 ids type object aux app).2
        (H5I_register2 ids type object aux app).1 =
      some { id := (H5I_register2 ids type object aux app).1, type := type, obj_ptr := object,
             aux_ptr := aux, count := 1, app_count := if app then 1 else 0 } ∧
    (∀ id e, H5I_find_id ids id = some e →
      H5I_find_id (H5I_register2 ids type object aux app).2 id = some e) ∧
    H5I_ids (H5I_register2 ids type object aux app).2 =
      H5I_ids ids ++ [(H5I_register2 ids type object aux app).1] := by
  unfold H5I_register2 at h ⊢
  split
  · rename_i h1; rw [if_pos h1] at h; exact absurd FAIL_neg h
  · split
    · rename_i h1 h2; rw [if_neg h1, if_pos h2] at h; exact absurd FAIL_neg h
    · refine ⟨?_, ?_, ?_⟩
      · simp [H5I_find_id, List.find?_append, H5I_find_fresh]
      · intro id e he
        simp only [H5I_find_id] at he ⊢
        simp [List.find?_append, he]
      · simp [H5I_ids]

theorem H5I_subst_find (pid : hid_t) (object : H5_object) (l : List H5I_id_info_t)
    (id : hid_t) :
    (H5I_subst pid object l).find? (fun e => decide (e.id = id)) =
      (l.find? (fun e => decide (e.id = id))).map
        (fun e => if id = pid then { e with obj_ptr := object } else e) := by
  induction l with
  | nil => rfl
  | cons a as ih =>
    simp only [H5I_subst]
    by_cases h1 : a.id = pid
    · rw [if_pos h1]
      by_cases h2 : a.id = id
      · have h3 : id = pid := by rw [← h2, h1]
        simp [List.find?_cons, h2, h3]
      · have h3 : ¬ id = pid := fun h => h2 (by rw [h1, h])
        simp [List.find?_cons, h2, h3]
    · rw [if_neg h1]
      by_cases h2 : a.id = id
      · have h3 : ¬ id = pid := by rw [← h2]; exact h1
        simp [List.find?_cons, h2, h3]
      · simp [List.find?_cons, h2, ih]

theorem H5P_set_find (ids : H5I_registry) (plist_id : hid_t) (key : H5P_key) (value : hid_t)
    (id : hid_t) :
    ∃ f : H5_object → H5_object,
      H5I_find_id (H5P_set ids plist_id key value).2 id =
        (H5I_find_id ids id).map (fun e => { e with obj_ptr := f e.obj_ptr }) := by
  unfold H5P_set
  split
  · split
    · rename_i p _ _
      by_cases h : id = plist_id
      · refine ⟨fun _ => H5_object.plist
          { p with props := H5P_props_set key value p.props }, ?_⟩
        simp [H5I_find_id, H5I_subst_find, h]
      · refine ⟨fun o => o, ?_⟩
        simp [H5I_find_id, H5I_subst_find, h]
    · exact ⟨fun o => o, by simp⟩
  · exact ⟨fun o => o, by simp⟩

theorem H5P_set_get_aux (ids : H5I_registry) (plist_id : hid_t) (key : H5P_key)
    (value : hid_t) (id : hid_t) :
    H5I_get_aux (H5P_set ids plist_id key value).2 id = H5I_get_aux ids id := by
  obtain ⟨f, hf⟩ := H5P_set_find ids plist_id key value id
  simp only [H5I_get_aux, hf]
  cases H5I_find_id ids id <;> rfl

theorem H5P_set_get_type (ids : H5I_registry) (plist_id : hid_t) (key : H5P_key)
    (value : hid_t) (id : hid_t) :
    H5I_get_type (H5P_set ids plist_id key value).2 id = H5I_get_type ids id := by
  obtain ⟨f, hf⟩ := H5P_set_find ids plist_id key value id
  simp only [H5I_get_type, hf]
  cases H5I_find_id ids id <;> rfl

theorem H5P_set_find_ne (ids : H5I_registry) (plist_id : hid_t) (key : H5P_key) (value : hid_t)
    (id : hid_t) (h : id ≠ plist_id) :
    H5I_find_id (H5P_set ids plist_id key value).2 id = H5I_find_id ids id := by
  unfold H5P_set
  split
  · split
    · simp only [H5I_find_id, H5I_subst_find, if_neg h]
      cases ids.entries.find? (fun e => decide (e.id = id)) <;> rfl
    · rfl
  · rfl



theorem H5P_set_fail {ids : H5I_registry} {plist_id : hid_t} {key : H5P_key} {value : hid_t}
    (h : (H5P_set ids plist_id key value).1 < 0) : (H5P_set ids plist_id key value).2 = ids := by
  unfold H5P_set at h ⊢
  cases ho : H5I_object ids plist_id with
  | none => rfl
  | some o =>
    cases o with
    | token t => rfl
    | plist p =>
      by_cases hk : (p.props.lookup key).isSome
      · rw [ho] at h
        simp only [hk, if_true] at h
        exact absurd h (by decide)
      · simp only [hk]
        rfl

theorem H5P_set_ok {ids : H5I_registry} {plist_id : hid_t} {key : H5P_key} {value : hid_t}
    (h : ¬ (H5P_set ids plist_id key value).1 < 0) :
    H5P_set ids plist_id key value = (SUCCEED, (H5P_set ids plist_id key value).2) := by
  unfold H5P_set at h ⊢
  cases ho : H5I_object ids plist_id with
  | none => rw [ho] at h; exact absurd FAIL_neg h
  | some o =>
    cases o with
    | token t => rw [ho] at h; exact absurd FAIL_neg h
    | plist p =>
      by_cases hk : (p.props.lookup key).isSome
      · simp only [hk, if_true]
      · rw [ho] at h
        simp only [hk] at h
        exact absurd FAIL_neg h

/-! ## Case analyses of the wrappers that close on failure -/

theorem H5Gcreate_ff_done_fail {σ : Type} (env : H5_env σ) (r : H5_result σ) (g : Nat)
    (vp : H5VL_t) (eq_id : hid_t) (h : r.ret_value = FAIL) :
    (H5Gcreate_ff_done env r (some g) (some vp) eq_id).calls = r.calls ++
      [{ call := H5VL_call.group_close g vp env.H5AC_dxpl_id eq_id, ids := r.st.ids,
         ret := H5VL_ret.status
           (env.vol.H5VL_group_close r.st.vol r.st.ids g vp env.H5AC_dxpl_id eq_id).1 }] ∧
    (H5Gcreate_ff_done env r (some g) (some vp) eq_id).ret_value = FAIL ∧
    (H5Gcreate_ff_done env r (some g) (some vp) eq_id).st =
      { ids := r.st.ids,
        vol := (env.vol.H5VL_group_close r.st.vol r.st.ids g vp env.H5AC_dxpl_id eq_id).2 } ∧
    (∃ more, (H5Gcreate_ff_done env r (some g) (some vp) eq_id).errs = r.errs ++ more) := by
  have hneg : r.ret_value < 0 := by rw [h]; exact FAIL_neg
  unfold H5Gcreate_ff_done
  simp only [if_pos hneg]
  split
  · exact ⟨rfl, rfl, rfl, ⟨_, rfl⟩⟩
  · exact ⟨rfl, h, rfl, ⟨[], (List.append_nil _).symm⟩⟩

theorem H5Dcreate_ff_done_fail {σ : Type} (env : H5_env σ) (r : H5_result σ) (d : Nat)
    (vp : H5VL_t) (eq_id : hid_t) (h : r.ret_value = FAIL) :
    (H5Dcreate_ff_done env r (some d) (some vp) eq_id).calls = r.calls ++
      [{ call := H5VL_call.dataset_close d vp env.H5AC_dxpl_id eq_id, ids := r.st.ids,
         ret := H5VL_ret.status
           (env.vol.H5VL_dataset_close r.st.vol r.st.ids d vp env.H5AC_dxpl_id eq_id).1 }] ∧
    (H5Dcreate_ff_done env r (some d) (some vp) eq_id).ret_value = FAIL ∧
    (H5Dcreate_ff_done env r (some d) (some vp) eq_id).st =
      { ids := r.st.ids,
        vol := (env.vol.H5VL_dataset_close r.st.vol r.st.ids d vp env.H5AC_dxpl_id eq_id).2 } ∧
    (∃ more, (H5Dcreate_ff_done env r (some d) (some vp) eq_id).errs = r.errs ++ more) := by
  have hneg : r.ret_value < 0 := by rw [h]; exact FAIL_neg
  unfold H5Dcreate_ff_done
  simp only [if_pos hneg]
  split
  · exact ⟨rfl, rfl, rfl, ⟨_, rfl⟩⟩
  · exact ⟨rfl, h, rfl, ⟨[], (List.append_nil _).symm⟩⟩

theorem H5Gcreate_ff_vol_cases {σ : Type} (env : H5_env σ) (st : H5_state σ) (loc_id : hid_t)
    (name : String) (gcpl_id gapl_id eq_id : hid_t) :
    ((H5I_object st.ids loc_id = none ∨ H5I_get_aux st.ids loc_id = none) ∧
      ∃ msg, H5Gcreate_ff_vol env st loc_id name gcpl_id gapl_id eq_id =
        HGOTO_ERROR st [] [] H5E_major.H5E_ARGS H5E_minor.H5E_BADTYPE msg) ∨
    (∃ obj vp b ev, H5I_object st.ids loc_id = some obj ∧ H5I_get_aux st.ids loc_id = some vp ∧
      b = env.vol.H5VL_group_create st.vol st.ids obj
        { type := H5VL_loc_type_t.H5VL_OBJECT_BY_SELF, obj_type := H5I_get_type st.ids loc_id }
        vp name gcpl_id gapl_id env.H5AC_dxpl_id eq_id ∧
      ev = { call := H5VL_call.group_create obj
               { type := H5VL_loc_type_t.H5VL_OBJECT_BY_SELF,
                 obj_type := H5I_get_type st.ids loc_id }
               vp name gcpl_id gapl_id env.H5AC_dxpl_id eq_id,
             ids := st.ids, ret := H5VL_ret.ptr b.1 } ∧
      ((b.1 = none ∧ H5Gcreate_ff_vol env st loc_id name gcpl_id gapl_id eq_id =
          HGOTO_ERROR { ids := st.ids, vol := b.2 } [ev] [] H5E_major.H5E_SYM
            H5E_minor.H5E_CANTINIT "unable to create group") ∨
       (∃ grp, b.1 = some grp ∧
          (H5I_register2 st.ids H5I_type_t.H5I_GROUP (H5_object.token grp) (some vp) true).1
            < 0 ∧
          H5Gcreate_ff_vol env st loc_id name gcpl_id gapl_id eq_id =
            H5Gcreate_ff_done env
              (HGOTO_ERROR { ids := st.ids, vol := b.2 } [ev] [] H5E_major.H5E_ATOM
                H5E_minor.H5E_CANTREGISTER "unable to atomize dataset handle")
              (some grp) (some vp) eq_id) ∨
       (∃ grp, b.1 = some grp ∧
          ¬ (H5I_register2 st.ids H5I_type_t.H5I_GROUP (H5_object.token grp) (some vp) true).1
            < 0 ∧
          H5Gcreate_ff_vol env st loc_id name gcpl_id gapl_id eq_id =
            { ret_value := (H5I_register2 st.ids H5I_type_t.H5I_GROUP (H5_object.token grp)
                (some vp) true).1,
              errs := [], calls := [ev],
              st := { ids := (H5I_register2 st.ids H5I_type_t.H5I_GROUP (H5_object.token grp)
                        (some vp) true).2, vol := b.2 },
              buf := [] }))) := by
  unfold H5Gcreate_ff_vol
  dsimp only
  split
  · rename_i h
    exact Or.inl ⟨Or.inl h, _, H5Gcreate_ff_done_none _ _ _ _⟩
  · split
    · rename_i h
      exact Or.inl ⟨Or.inr h, _, H5Gcreate_ff_done_none _ _ _ _⟩
    · rename_i obj hobj _ vp hvp
      refine Or.inr ⟨obj, vp, _, _, hobj, hvp, rfl, rfl, ?_⟩
      split
      · rename_i hb
        exact Or.inl ⟨hb, H5Gcreate_ff_done_none _ _ _ _⟩
      · rename_i grp hb
        split
        · rename_i hreg
          refine Or.inr (Or.inl ⟨grp, hb, hreg, ?_⟩)
          rw [H5I_register2_fail hreg]
        · rename_i hreg
          exact Or.inr (Or.inr ⟨grp, hb, hreg, H5Gcreate_ff_done_ok _ _ _ _ _ hreg⟩)

theorem H5Dcreate_ff_vol_cases {σ : Type} (env : H5_env σ) (st : H5_state σ) (loc_id : hid_t)
    (name : String) (dcpl_id dapl_id eq_id : hid_t) :
    ((H5VL_get_object st.ids loc_id = none ∨ H5I_get_aux st.ids loc_id = none) ∧
      ∃ msg, H5Dcreate_ff_vol env st loc_id name dcpl_id dapl_id eq_id =
        HGOTO_ERROR st [] [] H5E_major.H5E_ARGS H5E_minor.H5E_BADTYPE msg) ∨
    (∃ obj vp b ev, H5VL_get_object st.ids loc_id = some obj ∧ H5I_get_aux st.ids loc_id = some vp ∧
      b = env.vol.H5VL_dataset_create st.vol st.ids obj
        { type := H5VL_loc_type_t.H5VL_OBJECT_BY_SELF, obj_type := H5I_get_type st.ids loc_id }
        vp name dcpl_id dapl_id env.H5AC_dxpl_id eq_id ∧
      ev = { call := H5VL_call.dataset_create obj
               { type := H5VL_loc_type_t.H5VL_OBJECT_BY_SELF,
                 obj_type := H5I_get_type st.ids loc_id }
               vp name dcpl_id dapl_id env.H5AC_dxpl_id eq_id,
             ids := st.ids, ret := H5VL_ret.ptr b.1 } ∧
      ((b.1 = none ∧ H5Dcreate_ff_vol env st loc_id name dcpl_id dapl_id eq_id =
          HGOTO_ERROR { ids := st.ids, vol := b.2 } [ev] [] H5E_major.H5E_DATASET
            H5E_minor.H5E_CANTINIT "unable to create dataset") ∨
       (∃ dset, b.1 = some dset ∧
          (H5I_register2 st.ids H5I_type_t.H5I_DATASET (H5_object.token dset) (some vp) true).1
            < 0 ∧
          H5Dcreate_ff_vol env st loc_id name dcpl_id dapl_id eq_id =
            H5Dcreate_ff_done env
              (HGOTO_ERROR { ids := st.ids, vol := b.2 } [ev] [] H5E_major.H5E_ATOM
                H5E_minor.H5E_CANTREGISTER "unable to atomize dataset handle")
              (some dset) (some vp) eq_id) ∨
       (∃ dset, b.1 = some dset ∧
          ¬ (H5I_register2 st.ids H5I_type_t.H5I_DATASET (H5_object.token dset) (some vp) true).1
            < 0 ∧
          H5Dcreate_ff_vol env st loc_id name dcpl_id dapl_id eq_id =
            { ret_value := (H5I_register2 st.ids H5I_type_t.H5I_DATASET (H5_object.token dset)
                (some vp) true).1,
              errs := [], calls := [ev],
              st := { ids := (H5I_register2 st.ids H5I_type_t.H5I_DATASET (H5_object.token dset)
                        (some vp) true).2, vol := b.2 },
              buf := [] }))) := by
  unfold H5Dcreate_ff_vol
  dsimp only
  split
  · rename_i h
    exact Or.inl ⟨Or.inl h, _, H5Dcreate_ff_done_none _ _ _ _⟩
  · split
    · rename_i h
      exact Or.inl ⟨Or.inr h, _, H5Dcreate_ff_done_none _ _ _ _⟩
    · rename_i obj hobj _ vp hvp
      refine Or.inr ⟨obj, vp, _, _, hobj, hvp, rfl, rfl, ?_⟩
      split
      · rename_i hb
        exact Or.inl ⟨hb, H5Dcreate_ff_done_none _ _ _ _⟩
      · rename_i dset hb
        split
        · rename_i hreg
          refine Or.inr (Or.inl ⟨dset, hb, hreg, ?_⟩)
          rw [H5I_register2_fail hreg]
        · rename_i hreg
          exact Or.inr (Or.inr ⟨dset, hb, hreg, H5Dcreate_ff_done_ok _ _ _ _ _ hreg⟩)

theorem H5_name_ok {name : Option String} (h : ¬ (name = none ∨ name = some "")) :
    ∃ nm, name = some nm ∧ nm ≠ "" ∧ name.getD "" = nm := by
  cases name with
  | none => exact absurd (Or.inl rfl) h
  | some nm => exact ⟨nm, rfl, fun h2 => h (Or.inr (by rw [h2])), rfl⟩

theorem H5Gcreate_ff_cases {σ : Type} (env : H5_env σ) (st : H5_state σ) (loc_id : hid_t)
    (name : Option String) (lcpl_id gcpl_id gapl_id : hid_t) (trans : Nat) (eq_id : hid_t) :
    (∃ maj min msg, H5Gcreate_ff env st loc_id name lcpl_id gcpl_id gapl_id trans eq_id =
      HGOTO_ERROR st [] [] maj min msg) ∨
    (∃ nm ids1, name = some nm ∧ nm ≠ "" ∧
      (H5P_set st.ids
        (if H5P_DEFAULT = gcpl_id then env.H5P_GROUP_CREATE_DEFAULT else gcpl_id)
        H5P_key.H5VL_GRP_LCPL_ID
        (if H5P_DEFAULT = lcpl_id then env.H5P_LINK_CREATE_DEFAULT else lcpl_id)) =
        (SUCCEED, ids1) ∧
      H5Gcreate_ff env st loc_id name lcpl_id gcpl_id gapl_id trans eq_id =
        H5Gcreate_ff_vol env { ids := ids1, vol := st.vol } loc_id nm
          (if H5P_DEFAULT = gcpl_id then env.H5P_GROUP_CREATE_DEFAULT else gcpl_id)
          (if H5P_DEFAULT = gapl_id then env.H5P_GROUP_ACCESS_DEFAULT else gapl_id) eq_id) := by
  unfold H5Gcreate_ff
  dsimp only
  generalize (if H5P_DEFAULT = lcpl_id then env.H5P_LINK_CREATE_DEFAULT else lcpl_id) = lcpl
  generalize (if H5P_DEFAULT = gcpl_id then env.H5P_GROUP_CREATE_DEFAULT else gcpl_id) = gcpl
  generalize (if H5P_DEFAULT = gapl_id then env.H5P_GROUP_ACCESS_DEFAULT else gapl_id) = gapl
  split
  · exact Or.inl ⟨_, _, _, H5Gcreate_ff_done_none _ _ _ _⟩
  rename_i hname
  obtain ⟨nm, hnm, hne, hget⟩ := H5_name_ok hname
  split
  · exact Or.inl ⟨_, _, _, H5Gcreate_ff_done_none _ _ _ _⟩
  split
  · exact Or.inl ⟨_, _, _, H5Gcreate_ff_done_none _ _ _ _⟩
  split
  · exact Or.inl ⟨_, _, _, H5Gcreate_ff_done_none _ _ _ _⟩
  split
  · exact Or.inl ⟨_, _, _, H5Gcreate_ff_done_none _ _ _ _⟩
  split
  · rename_i hset
    rw [H5P_set_fail hset]
    exact Or.inl ⟨_, _, _, H5Gcreate_ff_done_none _ _ _ _⟩
  · rename_i hset
    refine Or.inr ⟨nm, _, hnm, hne, H5P_set_ok hset, ?_⟩
    rw [hget]

theorem H5Dcreate_ff_cases {σ : Type} (env : H5_env σ) (st : H5_state σ) (loc_id : hid_t)
    (name : Option String) (type_id space_id lcpl_id dcpl_id dapl_id : hid_t) (trans : Nat)
    (eq_id : hid_t) :
    (∃ st1 maj min msg,
      H5Dcreate_ff env st loc_id name type_id space_id lcpl_id dcpl_id dapl_id trans eq_id =
        HGOTO_ERROR st1 [] [] maj min msg ∧
      st1.vol = st.vol ∧ H5I_ids st1.ids = H5I_ids st.ids) ∨
    (∃ nm ids1 ids2 ids3, name = some nm ∧ nm ≠ "" ∧
      H5P_set st.ids
        (if H5P_DEFAULT = dcpl_id then env.H5P_DATASET_CREATE_DEFAULT else dcpl_id)
        H5P_key.H5VL_DSET_TYPE_ID type_id = (SUCCEED, ids1) ∧
      H5P_set ids1
        (if H5P_DEFAULT = dcpl_id then env.H5P_DATASET_CREATE_DEFAULT else dcpl_id)
        H5P_key.H5VL_DSET_SPACE_ID space_id = (SUCCEED, ids2) ∧
      H5P_set ids2
        (if H5P_DEFAULT = dcpl_id then env.H5P_DATASET_CREATE_DEFAULT else dcpl_id)
        H5P_key.H5VL_DSET_LCPL_ID
        (if H5P_DEFAULT = lcpl_id then env.H5P_LINK_CREATE_DEFAULT else lcpl_id) =
        (SUCCEED, ids3) ∧
      H5Dcreate_ff env st loc_id name type_id space_id lcpl_id dcpl_id dapl_id trans eq_id =
        H5Dcreate_ff_vol env { ids := ids3, vol := st.vol } loc_id nm
          (if H5P_DEFAULT = dcpl_id then env.H5P_DATASET_CREATE_DEFAULT else dcpl_id)
          (if H5P_DEFAULT = dapl_id then env.H5P_DATASET_ACCESS_DEFAULT else dapl_id)
          eq_id) := by
  unfold H5Dcreate_ff
  dsimp only
  generalize (if H5P_DEFAULT = lcpl_id then env.H5P_LINK_CREATE_DEFAULT else lcpl_id) = lcpl
  generalize (if H5P_DEFAULT = dcpl_id then env.H5P_DATASET_CREATE_DEFAULT else dcpl_id) = dcpl
  generalize (if H5P_DEFAULT = dapl_id then env.H5P_DATASET_ACCESS_DEFAULT else dapl_id) = dapl
  split
  · exact Or.inl ⟨_, _, _, _, H5Dcreate_ff_done_none _ _ _ _, rfl, rfl⟩
  rename_i hname
  obtain ⟨nm, hnm, hne, hget⟩ := H5_name_ok hname
  split
  · exact Or.inl ⟨_, _, _, _, H5Dcreate_ff_done_none _ _ _ _, rfl, rfl⟩
  split
  · exact Or.inl ⟨_, _, _, _, H5Dcreate_ff_done_none _ _ _ _, rfl, rfl⟩
  split
  · exact Or.inl ⟨_, _, _, _, H5Dcreate_ff_done_none _ _ _ _, rfl, rfl⟩
  split
  · exact Or.inl ⟨_, _, _, _, H5Dcreate_ff_done_none _ _ _ _, rfl, rfl⟩
  split
  · exact Or.inl ⟨_, _, _, _, H5Dcreate_ff_done_none _ _ _ _, rfl, H5P_set_ids _ _ _ _⟩
  rename_i hset1
  split
  · refine Or.inl ⟨_, _, _, _, H5Dcreate_ff_done_none _ _ _ _, rfl, ?_⟩
    simp only [H5P_set_ids]
  rename_i hset2
  split
  · refine Or.inl ⟨_, _, _, _, H5Dcreate_ff_done_none _ _ _ _, rfl, ?_⟩
    simp only [H5P_set_ids]
  rename_i hset3
  refine Or.inr ⟨nm, _, _, _, hnm, hne, H5P_set_ok hset1, H5P_set_ok hset2,
    H5P_set_ok hset3, ?_⟩
  rw [hget]

theorem H5P_set_eq_ids {ids ids1 : H5I_registry} {plist_id : hid_t} {key : H5P_key}
    {value : hid_t} {rc : herr_t} (h : H5P_set ids plist_id key value = (rc, ids1)) :
    H5I_ids ids1 = H5I_ids ids ∧ ∀ id, H5I_get_aux ids1 id = H5I_get_aux ids id := by
  have h2 : ids1 = (H5P_set ids plist_id key value).2 := by rw [h]
  subst h2
  exact ⟨H5P_set_ids _ _ _ _, fun id => H5P_set_get_aux _ _ _ _ id⟩

theorem H5Gcreate_ff_vol_fail_ids {σ : Type} (env : H5_env σ) (st : H5_state σ)
    (loc_id : hid_t) (name : String) (gcpl_id gapl_id eq_id : hid_t)
    (h : (H5Gcreate_ff_vol env st loc_id name gcpl_id gapl_id eq_id).ret_value < 0) :
    H5I_ids (H5Gcreate_ff_vol env st loc_id name gcpl_id gapl_id eq_id).st.ids =
      H5I_ids st.ids := by
  rcases H5Gcreate_ff_vol_cases env st loc_id name gcpl_id gapl_id eq_id with
    ⟨_, msg, hr⟩ | ⟨obj, vp, b, ev, _, _, _, _, ⟨_, hr⟩ | ⟨grp, _, _, hr⟩ | ⟨grp, _, hreg, hr⟩⟩
  · rw [hr]; rfl
  · rw [hr]; rfl
  · rw [hr, H5Gcreate_ff_done_ids]; rfl
  · rw [hr] at h; exact absurd h hreg

theorem H5Gcreate_ff_vol_success {σ : Type} (env : H5_env σ) (st : H5_state σ)
    (loc_id : hid_t) (name : String) (gcpl_id gapl_id eq_id : hid_t)
    (h : ¬ (H5Gcreate_ff_vol env st loc_id name gcpl_id gapl_id eq_id).ret_value < 0) :
    ∃ (grp : Nat) (vp : H5VL_t),
      (H5Gcreate_ff_vol env st loc_id name gcpl_id gapl_id eq_id).calls.map
        (fun ev => ev.ret) = [H5VL_ret.ptr (some grp)] ∧
      H5I_object (H5Gcreate_ff_vol env st loc_id name gcpl_id gapl_id eq_id).st.ids
        (H5Gcreate_ff_vol env st loc_id name gcpl_id gapl_id eq_id).ret_value =
        some (H5_object.token grp) ∧
      H5I_get_aux (H5Gcreate_ff_vol env st loc_id name gcpl_id gapl_id eq_id).st.ids
        (H5Gcreate_ff_vol env st loc_id name gcpl_id gapl_id eq_id).ret_value = some vp ∧
      H5I_get_aux st.ids loc_id = some vp ∧
      H5I_get_aux (H5Gcreate_ff_vol env st loc_id name gcpl_id gapl_id eq_id).st.ids loc_id =
        some vp := by
  rcases H5Gcreate_ff_vol_cases env st loc_id name gcpl_id gapl_id eq_id with
    ⟨_, msg, hr⟩ | ⟨obj, vp, b, ev, _, haux, _, hev, ⟨_, hr⟩ | ⟨grp, _, _, hr⟩ |
      ⟨grp, hb, hreg, hr⟩⟩
  · rw [hr] at h; exact absurd FAIL_neg h
  · rw [hr] at h; exact absurd FAIL_neg h
  · rw [hr] at h
    exact absurd (by rw [(H5Gcreate_ff_done_fail env _ grp vp eq_id rfl).2.1]; exact FAIL_neg) h
  · obtain ⟨h1, h2, _⟩ := H5I_register2_ok hreg
    rw [hr]
    refine ⟨grp, vp, ?_, ?_, ?_, haux, ?_⟩
    · simp [hev, hb]
    · simp only [H5I_object, h1]; rfl
    · simp only [H5I_get_aux, h1]; rfl
    · simp only [H5I_get_aux] at haux ⊢
      cases hf : H5I_find_id st.ids loc_id with
      | none => rw [hf] at haux; cases haux
      | some e => rw [hf] at haux; rw [h2 loc_id e hf]; exact haux

theorem H5Dcreate_ff_vol_fail_ids {σ : Type} (env : H5_env σ) (st : H5_state σ)
    (loc_id : hid_t) (name : String) (dcpl_id dapl_id eq_id : hid_t)
    (h : (H5Dcreate_ff_vol env st loc_id name dcpl_id dapl_id eq_id).ret_value < 0) :
    H5I_ids (H5Dcreate_ff_vol env st loc_id name dcpl_id dapl_id eq_id).st.ids =
      H5I_ids st.ids := by
  rcases H5Dcreate_ff_vol_cases env st loc_id name dcpl_id dapl_id eq_id with
    ⟨_, msg, hr⟩ | ⟨obj, vp, b, ev, _, _, _, _, ⟨_, hr⟩ | ⟨dset, _, _, hr⟩ | ⟨dset, _, hreg, hr⟩⟩
  · rw [hr]; rfl
  · rw [hr]; rfl
  · rw [hr, H5Dcreate_ff_done_ids]; rfl
  · rw [hr] at h; exact absurd h hreg

theorem H5Dcreate_ff_vol_success {σ : Type} (env : H5_env σ) (st : H5_state σ)
    (loc_id : hid_t) (name : String) (dcpl_id dapl_id eq_id : hid_t)
    (h : ¬ (H5Dcreate_ff_vol env st loc_id name dcpl_id dapl_id eq_id).ret_value < 0) :
    ∃ (dset : Nat) (vp : H5VL_t),
      (H5Dcreate_ff_vol env st loc_id name dcpl_id dapl_id eq_id).calls.map
        (fun ev => ev.ret) = [H5VL_ret.ptr (some dset)] ∧
      H5I_object (H5Dcreate_ff_vol env st loc_id name dcpl_id dapl_id eq_id).st.ids
        (H5Dcreate_ff_vol env st loc_id name dcpl_id dapl_id eq_id).ret_value =
        some (H5_object.token dset) ∧
      H5I_get_aux (H5Dcreate_ff_vol env st loc_id name dcpl_id dapl_id eq_id).st.ids
        (H5Dcreate_ff_vol env st loc_id name dcpl_id dapl_id eq_id).ret_value = some vp ∧
      H5I_get_aux st.ids loc_id = some vp ∧
      H5I_get_aux (H5Dcreate_ff_vol env st loc_id name dcpl_id dapl_id eq_id).st.ids loc_id =
        some vp := by
  rcases H5Dcreate_ff_vol_cases env st loc_id name dcpl_id dapl_id eq_id with
    ⟨_, msg, hr⟩ | ⟨obj, vp, b, ev, _, haux, _, hev, ⟨_, hr⟩ | ⟨dset, _, _, hr⟩ |
      ⟨dset, hb, hreg, hr⟩⟩
  · rw [hr] at h; exact absurd FAIL_neg h
  · rw [hr] at h; exact absurd FAIL_neg h
  · rw [hr] at h
    exact absurd (by rw [(H5Dcreate_ff_done_fail env _ dset vp eq_id rfl).2.1]; exact FAIL_neg) h
  · obtain ⟨h1, h2, _⟩ := H5I_register2_ok hreg
    rw [hr]
    refine ⟨dset, vp, ?_, ?_, ?_, haux, ?_⟩
    · simp [hev, hb]
    · simp only [H5I_object, h1]; rfl
    · simp only [H5I_get_aux, h1]; rfl
    · simp only [H5I_get_aux] at haux ⊢
      cases hf : H5I_find_id st.ids loc_id with
      | none => rw [hf] at haux; cases haux
      | some e => rw [hf] at haux; rw [h2 loc_id e hf]; exact haux

theorem H5Fcreate_ff_fail_ids {σ : Type} (env : H5_env σ) (st : H5_state σ)
    (filename : Option String) (flags : Nat) (fcpl_id fapl_id eq_id : hid_t) :
    (H5Fcreate_ff env st filename flags fcpl_id fapl_id eq_id).ret_value < 0 →
    H5I_ids (H5Fcreate_ff env st filename flags fcpl_id fapl_id eq_id).st.ids = H5I_ids st.ids := by
  unfold H5Fcreate_ff
  dsimp only
  generalize (if H5P_DEFAULT = fcpl_id then env.H5P_FILE_CREATE_DEFAULT else fcpl_id) = fcpl
  generalize (if H5P_DEFAULT = fapl_id then env.H5P_FILE_ACCESS_DEFAULT else fapl_id) = fapl
  repeat' split
  all_goals (first | (intro _; rfl) | skip)
  · rename_i h; intro _; dsimp only [HGOTO_ERROR]; rw [H5I_register2_fail h]
  · rename_i h; intro h2; exact absurd h2 h


theorem H5Gcreate_ff_fail_ids {σ : Type} (env : H5_env σ) (st : H5_state σ) (loc_id : hid_t)
    (name : Option String) (lcpl_id gcpl_id gapl_id : hid_t) (trans : Nat) (eq_id : hid_t) :
    (H5Gcreate_ff env st loc_id name lcpl_id gcpl_id gapl_id trans eq_id).ret_value < 0 →
    H5I_ids (H5Gcreate_ff env st loc_id name lcpl_id gcpl_id gapl_id trans eq_id).st.ids =
      H5I_ids st.ids := by
  rcases H5Gcreate_ff_cases env st loc_id name lcpl_id gcpl_id gapl_id trans eq_id with
    ⟨maj, min, msg, hr⟩ | ⟨nm, ids1, _, _, hset, hr⟩
  · intro _; rw [hr]; rfl
  · rw [hr]
    intro h
    rw [H5Gcreate_ff_vol_fail_ids env _ loc_id nm _ _ eq_id h]
    exact (H5P_set_eq_ids hset).1

theorem H5Dcreate_ff_fail_ids {σ : Type} (env : H5_env σ) (st : H5_state σ) (loc_id : hid_t)
    (name : Option String) (type_id space_id lcpl_id dcpl_id dapl_id : hid_t) (trans : Nat)
    (eq_id : hid_t) :
    (H5Dcreate_ff env st loc_id name type_id space_id lcpl_id dcpl_id dapl_id trans
      eq_id).ret_value < 0 →
    H5I_ids (H5Dcreate_ff env st loc_id name type_id space_id lcpl_id dcpl_id dapl_id trans
      eq_id).st.ids = H5I_ids st.ids := by
  rcases H5Dcreate_ff_cases env st loc_id name type_id space_id lcpl_id dcpl_id dapl_id trans
      eq_id with
    ⟨st1, maj, min, msg, hr, _, hids⟩ | ⟨nm, ids1, ids2, ids3, _, _, hs1, hs2, hs3, hr⟩
  · intro _; rw [hr]; exact hids
  · rw [hr]
    intro h
    rw [H5Dcreate_ff_vol_fail_ids env _ loc_id nm _ _ eq_id h]
    exact (H5P_set_eq_ids hs3).1.trans ((H5P_set_eq_ids hs2).1.trans (H5P_set_eq_ids hs1).1)

theorem H5Gcreate_ff_success {σ : Type} (env : H5_env σ) (st : H5_state σ) (loc_id : hid_t)
    (name : Option String) (lcpl_id gcpl_id gapl_id : hid_t) (trans : Nat) (eq_id : hid_t) :
    ¬ (H5Gcreate_ff env st loc_id name lcpl_id gcpl_id gapl_id trans eq_id).ret_value < 0 →
    ∃ (grp : Nat) (vp : H5VL_t),
      (H5Gcreate_ff env st loc_id name lcpl_id gcpl_id gapl_id trans eq_id).calls.map
        (fun ev => ev.ret) = [H5VL_ret.ptr (some grp)] ∧
      H5I_object (H5Gcreate_ff env st loc_id name lcpl_id gcpl_id gapl_id trans eq_id).st.ids
        (H5Gcreate_ff env st loc_id name lcpl_id gcpl_id gapl_id trans eq_id).ret_value =
        some (H5_object.token grp) ∧
      H5I_get_aux (H5Gcreate_ff env st loc_id name lcpl_id gcpl_id gapl_id trans eq_id).st.ids
        (H5Gcreate_ff env st loc_id name lcpl_id gcpl_id gapl_id trans eq_id).ret_value =
        some vp ∧
      H5I_get_aux st.ids loc_id = some vp ∧
      H5I_get_aux (H5Gcreate_ff env st loc_id name lcpl_id gcpl_id gapl_id trans eq_id).st.ids
        loc_id = some vp := by
  rcases H5Gcreate_ff_cases env st loc_id name lcpl_id gcpl_id gapl_id trans eq_id with
    ⟨maj, min, msg, hr⟩ | ⟨nm, ids1, _, _, hset, hr⟩
  · intro h; rw [hr] at h; exact absurd FAIL_neg h
  · rw [hr]
    intro h
    obtain ⟨grp, vp, h1, h2, h3, h4, h5⟩ :=
      H5Gcreate_ff_vol_success env _ loc_id nm _ _ eq_id h
    refine ⟨grp, vp, h1, h2, h3, ?_, h5⟩
    rw [← (H5P_set_eq_ids hset).2 loc_id]; exact h4

theorem H5Dcreate_ff_success {σ : Type} (env : H5_env σ) (st : H5_state σ) (loc_id : hid_t)
    (name : Option String) (type_id space_id lcpl_id dcpl_id dapl_id : hid_t) (trans : Nat)
    (eq_id : hid_t) :
    ¬ (H5Dcreate_ff env st loc_id name type_id space_id lcpl_id dcpl_id dapl_id trans
      eq_id).ret_value < 0 →
    ∃ (dset : Nat) (vp : H5VL_t),
      (H5Dcreate_ff env st loc_id name type_id space_id lcpl_id dcpl_id dapl_id trans
        eq_id).calls.map (fun ev => ev.ret) = [H5VL_ret.ptr (some dset)] ∧
      H5I_object (H5Dcreate_ff env st loc_id name type_id space_id lcpl_id dcpl_id dapl_id
          trans eq_id).st.ids
        (H5Dcreate_ff env st loc_id name type_id space_id lcpl_id dcpl_id dapl_id trans
          eq_id).ret_value = some (H5_object.token dset) ∧
      H5I_get_aux (H5Dcreate_ff env st loc_id name type_id space_id lcpl_id dcpl_id dapl_id
          trans eq_id).st.ids
        (H5Dcreate_ff env st loc_id name type_id space_id lcpl_id dcpl_id dapl_id trans
          eq_id).ret_value = some vp ∧
      H5I_get_aux st.ids loc_id = some vp ∧
      H5I_get_aux (H5Dcreate_ff env st loc_id name type_id space_id lcpl_id dcpl_id dapl_id
          trans eq_id).st.ids loc_id = some vp := by
  rcases H5Dcreate_ff_cases env st loc_id name type_id space_id lcpl_id dcpl_id dapl_id trans
      eq_id with
    ⟨st1, maj, min, msg, hr, _, _⟩ | ⟨nm, ids1, ids2, ids3, _, _, hs1, hs2, hs3, hr⟩
  · intro h; rw [hr] at h; exact absurd FAIL_neg h
  · rw [hr]
    intro h
    obtain ⟨dset, vp, h1, h2, h3, h4, h5⟩ :=
      H5Dcreate_ff_vol_success env _ loc_id nm _ _ eq_id h
    refine ⟨dset, vp, h1, h2, h3, ?_, h5⟩
    rw [← (H5P_set_eq_ids hs1).2 loc_id, ← (H5P_set_eq_ids hs2).2 loc_id,
      ← (H5P_set_eq_ids hs3).2 loc_id]
    exact h4

/-! ## C1: a failed create leaves the identifier space as it was -/

/-- C1: for every failed create call (`H5Fcreate_ff`, `H5Gcreate_ff`,
`H5Dcreate_ff` returning a negative value), whatever made it fail, the
identifiers live in the registry after the call are exactly those live before
the call. -/
theorem C1_failed_create_keeps_identifiers {σ : Type} (env : H5_env σ) (st : H5_state σ) :
    (∀ (filename : Option String) (flags : Nat) (fcpl_id fapl_id eq_id : hid_t),
      (H5Fcreate_ff env st filename flags fcpl_id fapl_id eq_id).ret_value < 0 →
      H5I_ids (H5Fcreate_ff env st filename flags fcpl_id fapl_id eq_id).st.ids =
        H5I_ids st.ids) ∧
    (∀ (loc_id : hid_t) (name : Option String) (lcpl_id gcpl_id gapl_id : hid_t)
        (trans : Nat) (eq_id : hid_t),
      (H5Gcreate_ff env st loc_id name lcpl_id gcpl_id gapl_id trans eq_id).ret_value < 0 →
      H5I_ids (H5Gcreate_ff env st loc_id name lcpl_id gcpl_id gapl_id trans eq_id).st.ids =
        H5I_ids st.ids) ∧
    (∀ (loc_id : hid_t) (name : Option String)
        (type_id space_id lcpl_id dcpl_id dapl_id : hid_t) (trans : Nat) (eq_id : hid_t),
      (H5Dcreate_ff env st loc_id name type_id space_id lcpl_id dcpl_id dapl_id trans
        eq_id).ret_value < 0 →
      H5I_ids (H5Dcreate_ff env st loc_id name type_id space_id lcpl_id dcpl_id dapl_id trans
        eq_id).st.ids = H5I_ids st.ids) :=
  ⟨H5Fcreate_ff_fail_ids env st, H5Gcreate_ff_fail_ids env st, H5Dcreate_ff_fail_ids env st⟩

/-- Witness for C1: with an exhausted registry `H5Gcreate_ff` reaches the
backend, fails at registration, and the identifiers are those of before. -/
theorem C1_failed_create_keeps_identifiers_witness :
    (H5Gcreate_ff sample_env sample_full 1 (some "/g") 0 0 0 5 0).ret_value < 0 ∧
    H5I_ids (H5Gcreate_ff sample_env sample_full 1 (some "/g") 0 0 0 5 0).st.ids =
      H5I_ids sample_full.ids :=
  ⟨by decide,
   (C1_failed_create_keeps_identifiers sample_env sample_full).2.1 1 (some "/g") 0 0 0 5 0
     (by decide)⟩


/-! ## C2: a successful create resolves to the backend object, on the parent backend -/

/-- C2: for every successful `H5Gcreate_ff` or `H5Dcreate_ff` call (non-negative
return value) on a parent `loc_id`, the one backend call made returned an
object, the returned identifier resolves to that object, and the backend
descriptor attached to the returned identifier is the descriptor attached to
`loc_id` (before the call, and still after it). -/
theorem C2_successful_create_resolves {σ : Type} (env : H5_env σ) (st : H5_state σ) :
    (∀ (loc_id : hid_t) (name : Option String) (lcpl_id gcpl_id gapl_id : hid_t)
        (trans : Nat) (eq_id : hid_t),
      0 ≤ (H5Gcreate_ff env st loc_id name lcpl_id gcpl_id gapl_id trans eq_id).ret_value →
      ∃ (grp : Nat) (vp : H5VL_t),
        (H5Gcreate_ff env st loc_id name lcpl_id gcpl_id gapl_id trans eq_id).calls.map
          (fun ev => ev.ret) = [H5VL_ret.ptr (some grp)] ∧
        H5I_object (H5Gcreate_ff env st loc_id name lcpl_id gcpl_id gapl_id trans
            eq_id).st.ids
          (H5Gcreate_ff env st loc_id name lcpl_id gcpl_id gapl_id trans eq_id).ret_value =
          some (H5_object.token grp) ∧
        H5I_get_aux (H5Gcreate_ff env st loc_id name lcpl_id gcpl_id gapl_id trans
            eq_id).st.ids
          (H5Gcreate_ff env st loc_id name lcpl_id gcpl_id gapl_id trans eq_id).ret_value =
          some vp ∧
        H5I_get_aux st.ids loc_id = some vp ∧
        H5I_get_aux (H5Gcreate_ff env st loc_id name lcpl_id gcpl_id gapl_id trans
          eq_id).st.ids loc_id = some vp) ∧
    (∀ (loc_id : hid_t) (name : Option String)
        (type_id space_id lcpl_id dcpl_id dapl_id : hid_t) (trans : Nat) (eq_id : hid_t),
      0 ≤ (H5Dcreate_ff env st loc_id name type_id space_id lcpl_id dcpl_id dapl_id trans
        eq_id).ret_value →
      ∃ (dset : Nat) (vp : H5VL_t),
        (H5Dcreate_ff env st loc_id name type_id space_id lcpl_id dcpl_id dapl_id trans
          eq_id).calls.map (fun ev => ev.ret) = [H5VL_ret.ptr (some dset)] ∧
        H5I_object (H5Dcreate_ff env st loc_id name type_id space_id lcpl_id dcpl_id dapl_id
            trans eq_id).st.ids
          (H5Dcreate_ff env st loc_id name type_id space_id lcpl_id dcpl_id dapl_id trans
            eq_id).ret_value = some (H5_object.token dset) ∧
        H5I_get_aux (H5Dcreate_ff env st loc_id name type_id space_id lcpl_id dcpl_id dapl_id
            trans eq_id).st.ids
          (H5Dcreate_ff env st loc_id name type_id space_id lcpl_id dcpl_id dapl_id trans
            eq_id).ret_value = some vp ∧
        H5I_get_aux st.ids loc_id = some vp ∧
        H5I_get_aux (H5Dcreate_ff env st loc_id name type_id space_id lcpl_id dcpl_id dapl_id
          trans eq_id).st.ids loc_id = some vp) :=
  ⟨fun loc_id name lcpl_id gcpl_id gapl_id trans eq_id h =>
      H5Gcreate_ff_success env st loc_id name lcpl_id gcpl_id gapl_id trans eq_id
        (not_lt.mpr h),
   fun loc_id name type_id space_id lcpl_id dcpl_id dapl_id trans eq_id h =>
      H5Dcreate_ff_success env st loc_id name type_id space_id lcpl_id dcpl_id dapl_id trans
        eq_id (not_lt.mpr h)⟩

/-- Witness for C2: creating dataset "d" under the file 1 with default lists
succeeds with identifier 109, which resolves to the token 60 the backend
returned and carries plugin 7, the plugin of the file. -/
theorem C2_successful_create_resolves_witness :
    0 ≤ (H5Dcreate_ff sample_env sample_st 1 (some "d") 3 4 0 0 0 0 0).ret_value ∧
    ∃ (dset : Nat) (vp : H5VL_t),
      (H5Dcreate_ff sample_env sample_st 1 (some "d") 3 4 0 0 0 0 0).calls.map
        (fun ev => ev.ret) = [H5VL_ret.ptr (some dset)] ∧
      H5I_object (H5Dcreate_ff sample_env sample_st 1 (some "d") 3 4 0 0 0 0 0).st.ids
        (H5Dcreate_ff sample_env sample_st 1 (some "d") 3 4 0 0 0 0 0).ret_value =
        some (H5_object.token dset) ∧
      H5I_get_aux (H5Dcreate_ff sample_env sample_st 1 (some "d") 3 4 0 0 0 0 0).st.ids
        (H5Dcreate_ff sample_env sample_st 1 (some "d") 3 4 0 0 0 0 0).ret_value = some vp ∧
      H5I_get_aux sample_st.ids 1 = some vp ∧
      H5I_get_aux (H5Dcreate_ff sample_env sample_st 1 (some "d") 3 4 0 0 0 0 0).st.ids 1 =
        some vp :=
  ⟨by decide,
   (C2_successful_create_resolves sample_env sample_st).2 1 (some "d") 3 4 0 0 0 0 0
     (by decide)⟩

/-! ## Shape of the VOL invocations: the part after the argument checks -/

theorem H5Gcreate_ff_vol_shape {σ : Type} (env : H5_env σ) (st : H5_state σ)
    (loc_id : hid_t) (name : String) (gcpl_id gapl_id eq_id : hid_t) :
    ((H5Gcreate_ff_vol env st loc_id name gcpl_id gapl_id eq_id).calls = [] ∧
      (H5Gcreate_ff_vol env st loc_id name gcpl_id gapl_id eq_id).ret_value = FAIL) ∨
    (∃ obj lp vp ids,
      (H5Gcreate_ff_vol env st loc_id name gcpl_id gapl_id eq_id).calls =
        [{ call := H5VL_call.group_create obj lp vp name gcpl_id gapl_id env.H5AC_dxpl_id
             eq_id, ids := ids, ret := H5VL_ret.ptr none }] ∧
      (H5Gcreate_ff_vol env st loc_id name gcpl_id gapl_id eq_id).ret_value = FAIL) ∨
    (∃ obj lp vp ids g,
      (H5Gcreate_ff_vol env st loc_id name gcpl_id gapl_id eq_id).calls =
        [{ call := H5VL_call.group_create obj lp vp name gcpl_id gapl_id env.H5AC_dxpl_id
             eq_id, ids := ids, ret := H5VL_ret.ptr (some g) }] ∧
      ¬ (H5Gcreate_ff_vol env st loc_id name gcpl_id gapl_id eq_id).ret_value < 0) ∨
    (∃ obj lp vp ids g ids2 rc,
      (H5Gcreate_ff_vol env st loc_id name gcpl_id gapl_id eq_id).calls =
        [{ call := H5VL_call.group_create obj lp vp name gcpl_id gapl_id env.H5AC_dxpl_id
             eq_id, ids := ids, ret := H5VL_ret.ptr (some g) },
         { call := H5VL_call.group_close g vp env.H5AC_dxpl_id eq_id, ids := ids2,
           ret := H5VL_ret.status rc }] ∧
      (H5Gcreate_ff_vol env st loc_id name gcpl_id gapl_id eq_id).ret_value = FAIL) := by
  rcases H5Gcreate_ff_vol_cases env st loc_id name gcpl_id gapl_id eq_id with
    ⟨_, msg, hr⟩ | ⟨obj, vp, b, ev, _, _, _, hev, ⟨hb, hr⟩ | ⟨grp, hb, _, hr⟩ |
      ⟨grp, hb, hreg, hr⟩⟩
  · exact Or.inl (by rw [hr]; exact ⟨rfl, rfl⟩)
  · refine Or.inr (Or.inl ⟨obj,
      { type := H5VL_loc_type_t.H5VL_OBJECT_BY_SELF, obj_type := H5I_get_type st.ids loc_id },
      vp, st.ids, ?_⟩)
    rw [hr, hev, hb]; exact ⟨rfl, rfl⟩
  · refine Or.inr (Or.inr (Or.inr ⟨obj,
      { type := H5VL_loc_type_t.H5VL_OBJECT_BY_SELF, obj_type := H5I_get_type st.ids loc_id },
      vp, st.ids, grp, st.ids,
      (env.vol.H5VL_group_close b.2 st.ids grp vp env.H5AC_dxpl_id eq_id).1, ?_⟩))
    rw [hr]
    obtain ⟨h1, h2, _, _⟩ := H5Gcreate_ff_done_fail env
      (HGOTO_ERROR { ids := st.ids, vol := b.2 } [ev] [] H5E_major.H5E_ATOM
        H5E_minor.H5E_CANTREGISTER "unable to atomize dataset handle") grp vp eq_id rfl
    refine ⟨?_, h2⟩
    rw [h1, hev, hb]; rfl
  · refine Or.inr (Or.inr (Or.inl ⟨obj,
      { type := H5VL_loc_type_t.H5VL_OBJECT_BY_SELF, obj_type := H5I_get_type st.ids loc_id },
      vp, st.ids, grp, ?_⟩))
    rw [hr, hev, hb]; exact ⟨rfl, hreg⟩

theorem H5Dcreate_ff_vol_shape {σ : Type} (env : H5_env σ) (st : H5_state σ)
    (loc_id : hid_t) (name : String) (dcpl_id dapl_id eq_id : hid_t) :
    ((H5Dcreate_ff_vol env st loc_id name dcpl_id dapl_id eq_id).calls = [] ∧
      (H5Dcreate_ff_vol env st loc_id name dcpl_id dapl_id eq_id).ret_value = FAIL) ∨
    (∃ obj lp vp ids,
      (H5Dcreate_ff_vol env st loc_id name dcpl_id dapl_id eq_id).calls =
        [{ call := H5VL_call.dataset_create obj lp vp name dcpl_id dapl_id env.H5AC_dxpl_id
             eq_id, ids := ids, ret := H5VL_ret.ptr none }] ∧
      (H5Dcreate_ff_vol env st loc_id name dcpl_id dapl_id eq_id).ret_value = FAIL) ∨
    (∃ obj lp vp ids g,
      (H5Dcreate_ff_vol env st loc_id name dcpl_id dapl_id eq_id).calls =
        [{ call := H5VL_call.dataset_create obj lp vp name dcpl_id dapl_id env.H5AC_dxpl_id
             eq_id, ids := ids, ret := H5VL_ret.ptr (some g) }] ∧
      ¬ (H5Dcreate_ff_vol env st loc_id name dcpl_id dapl_id eq_id).ret_value < 0) ∨
    (∃ obj lp vp ids g ids2 rc,
      (H5Dcreate_ff_vol env st loc_id name dcpl_id dapl_id eq_id).calls =
        [{ call := H5VL_call.dataset_create obj lp vp name dcpl_id dapl_id env.H5AC_dxpl_id
             eq_id, ids := ids, ret := H5VL_ret.ptr (some g) },
         { call := H5VL_call.dataset_close g vp env.H5AC_dxpl_id eq_id, ids := ids2,
           ret := H5VL_ret.status rc }] ∧
      (H5Dcreate_ff_vol env st loc_id name dcpl_id dapl_id eq_id).ret_value = FAIL) := by
  rcases H5Dcreate_ff_vol_cases env st loc_id name dcpl_id dapl_id eq_id with
    ⟨_, msg, hr⟩ | ⟨obj, vp, b, ev, _, _, _, hev, ⟨hb, hr⟩ | ⟨dset, hb, _, hr⟩ |
      ⟨dset, hb, hreg, hr⟩⟩
  · exact Or.inl (by rw [hr]; exact ⟨rfl, rfl⟩)
  · refine Or.inr (Or.inl ⟨obj,
      { type := H5VL_loc_type_t.H5VL_OBJECT_BY_SELF, obj_type := H5I_get_type st.ids loc_id },
      vp, st.ids, ?_⟩)
    rw [hr, hev, hb]; exact ⟨rfl, rfl⟩
  · refine Or.inr (Or.inr (Or.inr ⟨obj,
      { type := H5VL_loc_type_t.H5VL_OBJECT_BY_SELF, obj_type := H5I_get_type st.ids loc_id },
      vp, st.ids, dset, st.ids,
      (env.vol.H5VL_dataset_close b.2 st.ids dset vp env.H5AC_dxpl_id eq_id).1, ?_⟩))
    rw [hr]
    obtain ⟨h1, h2, _, _⟩ := H5Dcreate_ff_done_fail env
      (HGOTO_ERROR { ids := st.ids, vol := b.2 } [ev] [] H5E_major.H5E_ATOM
        H5E_minor.H5E_CANTREGISTER "unable to atomize dataset handle") dset vp eq_id rfl
    refine ⟨?_, h2⟩
    rw [h1, hev, hb]; rfl
  · refine Or.inr (Or.inr (Or.inl ⟨obj,
      { type := H5VL_loc_type_t.H5VL_OBJECT_BY_SELF, obj_type := H5I_get_type st.ids loc_id },
      vp, st.ids, dset, ?_⟩))
    rw [hr, hev, hb]; exact ⟨rfl, hreg⟩

/-! ## Shape of the VOL invocations: the whole call -/

theorem H5Gcreate_ff_shape {σ : Type} (env : H5_env σ) (st : H5_state σ) (loc_id : hid_t)
    (name : Option String) (lcpl_id gcpl_id gapl_id : hid_t) (trans : Nat) (eq_id : hid_t) :
    ((H5Gcreate_ff env st loc_id name lcpl_id gcpl_id gapl_id trans eq_id).calls = [] ∧
      (H5Gcreate_ff env st loc_id name lcpl_id gcpl_id gapl_id trans eq_id).ret_value = FAIL) ∨
    (∃ obj lp vp nm cpl apl ids,
      (H5Gcreate_ff env st loc_id name lcpl_id gcpl_id gapl_id trans eq_id).calls =
        [{ call := H5VL_call.group_create obj lp vp nm cpl apl env.H5AC_dxpl_id eq_id, ids := ids,
           ret := H5VL_ret.ptr none }] ∧
      (H5Gcreate_ff env st loc_id name lcpl_id gcpl_id gapl_id trans eq_id).ret_value = FAIL) ∨
    (∃ obj lp vp nm cpl apl ids g,
      (H5Gcreate_ff env st loc_id name lcpl_id gcpl_id gapl_id trans eq_id).calls =
        [{ call := H5VL_call.group_create obj lp vp nm cpl apl env.H5AC_dxpl_id eq_id, ids := ids,
           ret := H5VL_ret.ptr (some g) }] ∧
      ¬ (H5Gcreate_ff env st loc_id name lcpl_id gcpl_id gapl_id trans eq_id).ret_value < 0) ∨
    (∃ obj lp vp nm cpl apl ids g ids2 rc,
      (H5Gcreate_ff env st loc_id name lcpl_id gcpl_id gapl_id trans eq_id).calls =
        [{ call := H5VL_call.group_create obj lp vp nm cpl apl env.H5AC_dxpl_id eq_id, ids := ids,
           ret := H5VL_ret.ptr (some g) },
         { call := H5VL_call.group_close g vp env.H5AC_dxpl_id eq_id, ids := ids2,
           ret := H5VL_ret.status rc }] ∧
      (H5Gcreate_ff env st loc_id name lcpl_id gcpl_id gapl_id trans eq_id).ret_value = FAIL) := by
  rcases H5Gcreate_ff_cases env st loc_id name lcpl_id gcpl_id gapl_id trans eq_id with
    ⟨maj, min, msg, hr⟩ | ⟨nm, ids1, _, _, _, hr⟩
  · rw [hr]; exact Or.inl ⟨rfl, rfl⟩
  · rw [hr]
    rcases H5Gcreate_ff_vol_shape env _ loc_id nm _ _ eq_id with
      h | ⟨obj, lp, vp, ids, h⟩ | ⟨obj, lp, vp, ids, g, h⟩ | ⟨obj, lp, vp, ids, g, ids2, rc, h⟩
    · exact Or.inl h
    · exact Or.inr (Or.inl ⟨obj, lp, vp, nm, _, _, ids, h⟩)
    · exact Or.inr (Or.inr (Or.inl ⟨obj, lp, vp, nm, _, _, ids, g, h⟩))
    · exact Or.inr (Or.inr (Or.inr ⟨obj, lp, vp, nm, _, _, ids, g, ids2, rc, h⟩))

theorem H5Dcreate_ff_shape {σ : Type} (env : H5_env σ) (st : H5_state σ) (loc_id : hid_t)
    (name : Option String) (type_id space_id lcpl_id dcpl_id dapl_id : hid_t) (trans : Nat)
    (eq_id : hid_t) :
    ((H5Dcreate_ff env st loc_id name type_id space_id lcpl_id dcpl_id dapl_id trans eq_id).calls = [] ∧
      (H5Dcreate_ff env st loc_id name type_id space_id lcpl_id dcpl_id dapl_id trans eq_id).ret_value = FAIL) ∨
    (∃ obj lp vp nm cpl apl ids,
      (H5Dcreate_ff env st loc_id name type_id space_id lcpl_id dcpl_id dapl_id trans eq_id).calls =
        [{ call := H5VL_call.dataset_create obj lp vp nm cpl apl env.H5AC_dxpl_id eq_id, ids := ids,
           ret := H5VL_ret.ptr none }] ∧
      (H5Dcreate_ff env st loc_id name type_id space_id lcpl_id dcpl_id dapl_id trans eq_id).ret_value = FAIL) ∨
    (∃ obj lp vp nm cpl apl ids g,
      (H5Dcreate_ff env st loc_id name type_id space_id lcpl_id dcpl_id dapl_id trans eq_id).calls =
        [{ call := H5VL_call.dataset_create obj lp vp nm cpl apl env.H5AC_dxpl_id eq_id, ids := ids,
           ret := H5VL_ret.ptr (some g) }] ∧
      ¬ (H5Dcreate_ff env st loc_id name type_id space_id lcpl_id dcpl_id dapl_id trans eq_id).ret_value < 0) ∨
    (∃ obj lp vp nm cpl apl ids g ids2 rc,
      (H5Dcreate_ff env st loc_id name type_id space_id lcpl_id dcpl_id dapl_id trans eq_id).calls =
        [{ call := H5VL_call.dataset_create obj lp vp nm cpl apl env.H5AC_dxpl_id eq_id, ids := ids,
           ret := H5VL_ret.ptr (some g) },
         { call := H5VL_call.dataset_close g vp env.H5AC_dxpl_id eq_id, ids := ids2,
           ret := H5VL_ret.status rc }] ∧
      (H5Dcreate_ff env st loc_id name type_id space_id lcpl_id dcpl_id dapl_id trans eq_id).ret_value = FAIL) := by
  rcases H5Dcreate_ff_cases env st loc_id name type_id space_id lcpl_id dcpl_id dapl_id trans eq_id with
    ⟨st1, maj, min, msg, hr, _, _⟩ | ⟨nm, ids1, ids2, ids3, _, _, _, _, _, hr⟩
  · rw [hr]; exact Or.inl ⟨rfl, rfl⟩
  · rw [hr]
    rcases H5Dcreate_ff_vol_shape env _ loc_id nm _ _ eq_id with
      h | ⟨obj, lp, vp, ids, h⟩ | ⟨obj, lp, vp, ids, g, h⟩ | ⟨obj, lp, vp, ids, g, ids2, rc, h⟩
    · exact Or.inl h
    · exact Or.inr (Or.inl ⟨obj, lp, vp, nm, _, _, ids, h⟩)
    · exact Or.inr (Or.inr (Or.inl ⟨obj, lp, vp, nm, _, _, ids, g, h⟩))
    · exact Or.inr (Or.inr (Or.inr ⟨obj, lp, vp, nm, _, _, ids, g, ids2, rc, h⟩))

theorem H5Dopen_ff_shape {σ : Type} (env : H5_env σ) (st : H5_state σ) (loc_id : hid_t)
    (name : Option String) (dapl_id : hid_t) (trans : Nat) (eq_id : hid_t) :
    ((H5Dopen_ff env st loc_id name dapl_id trans eq_id).calls = [] ∧
      (H5Dopen_ff env st loc_id name dapl_id trans eq_id).ret_value = FAIL) ∨
    (∃ obj lp vp nm apl ids,
      (H5Dopen_ff env st loc_id name dapl_id trans eq_id).calls =
        [{ call := H5VL_call.dataset_open obj lp vp nm apl env.H5AC_dxpl_id eq_id, ids := ids,
           ret := H5VL_ret.ptr none }] ∧
      (H5Dopen_ff env st loc_id name dapl_id trans eq_id).ret_value = FAIL) ∨
    (∃ obj lp vp nm apl ids g,
      (H5Dopen_ff env st loc_id name dapl_id trans eq_id).calls =
        [{ call := H5VL_call.dataset_open obj lp vp nm apl env.H5AC_dxpl_id eq_id, ids := ids,
           ret := H5VL_ret.ptr (some g) }] ∧
      ¬ (H5Dopen_ff env st loc_id name dapl_id trans eq_id).ret_value < 0) ∨
    (∃ obj lp vp nm apl ids g ids2 rc,
      (H5Dopen_ff env st loc_id name dapl_id trans eq_id).calls =
        [{ call := H5VL_call.dataset_open obj lp vp nm apl env.H5AC_dxpl_id eq_id, ids := ids,
           ret := H5VL_ret.ptr (some g) },
         { call := H5VL_call.dataset_close g vp env.H5AC_dxpl_id eq_id, ids := ids2,
           ret := H5VL_ret.status rc }] ∧
      (H5Dopen_ff env st loc_id name dapl_id trans eq_id).ret_value = FAIL) := by
  unfold H5Dopen_ff
  dsimp only
  generalize (if H5P_DEFAULT = dapl_id then env.H5P_DATASET_ACCESS_DEFAULT else dapl_id) = dapl
  simp only [H5Dcreate_ff_done_none]
  split
  · exact Or.inl ⟨rfl, rfl⟩
  split
  · exact Or.inl ⟨rfl, rfl⟩
  split
  · exact Or.inl ⟨rfl, rfl⟩
  rename_i obj _
  split
  · exact Or.inl ⟨rfl, rfl⟩
  rename_i vp _
  split
  · rename_i hb
    refine Or.inr (Or.inl ⟨obj,
      { type := H5VL_loc_type_t.H5VL_OBJECT_BY_SELF, obj_type := H5I_get_type st.ids loc_id },
      vp, name.getD "", dapl, st.ids, ?_, rfl⟩)
    simp only [HGOTO_ERROR, hb]
  rename_i dset hb
  split
  · rename_i hreg
    rw [H5I_register2_fail hreg]
    obtain ⟨h1, h2, _, _⟩ := H5Dcreate_ff_done_fail env
      (HGOTO_ERROR { ids := st.ids, vol := (env.vol.H5VL_dataset_open st.vol st.ids obj
          { type := H5VL_loc_type_t.H5VL_OBJECT_BY_SELF, obj_type := H5I_get_type st.ids loc_id }
          vp (name.getD "") dapl env.H5AC_dxpl_id eq_id).2 }
        [{ call := H5VL_call.dataset_open obj
             { type := H5VL_loc_type_t.H5VL_OBJECT_BY_SELF,
               obj_type := H5I_get_type st.ids loc_id }
             vp (name.getD "") dapl env.H5AC_dxpl_id eq_id,
           ids := st.ids,
           ret := H5VL_ret.ptr (env.vol.H5VL_dataset_open st.vol st.ids obj
             { type := H5VL_loc_type_t.H5VL_OBJECT_BY_SELF,
               obj_type := H5I_get_type st.ids loc_id }
             vp (name.getD "") dapl env.H5AC_dxpl_id eq_id).1 }]
        [] H5E_major.H5E_ATOM H5E_minor.H5E_CANTREGISTER "unable to atomize dataset handle")
      dset vp eq_id rfl
    refine Or.inr (Or.inr (Or.inr ⟨obj,
      { type := H5VL_loc_type_t.H5VL_OBJECT_BY_SELF, obj_type := H5I_get_type st.ids loc_id },
      vp, name.getD "", dapl, st.ids, dset, st.ids,
      (env.vol.H5VL_dataset_close (env.vol.H5VL_dataset_open st.vol st.ids obj
          { type := H5VL_loc_type_t.H5VL_OBJECT_BY_SELF, obj_type := H5I_get_type st.ids loc_id }
          vp (name.getD "") dapl env.H5AC_dxpl_id eq_id).2 st.ids dset vp env.H5AC_dxpl_id
        eq_id).1, ?_, h2⟩))
    rw [h1]
    simp only [HGOTO_ERROR, hb, List.singleton_append]
  · rename_i hreg
    rw [H5Dcreate_ff_done_ok _ _ _ _ _ hreg]
    refine Or.inr (Or.inr (Or.inl ⟨obj,
      { type := H5VL_loc_type_t.H5VL_OBJECT_BY_SELF, obj_type := H5I_get_type st.ids loc_id },
      vp, name.getD "", dapl, st.ids, dset, ?_, hreg⟩))
    simp only [hb]

theorem H5Gcreate_ff_close {σ : Type} (env : H5_env σ) (st : H5_state σ) (loc_id : hid_t)
    (name : Option String) (lcpl_id gcpl_id gapl_id : hid_t) (trans : Nat) (eq_id : hid_t) :
      ((∃ ev ∈ (H5Gcreate_ff env st loc_id name lcpl_id gcpl_id gapl_id trans eq_id).calls, ev.call.is_close = true) ↔
        ((∃ ev ∈ (H5Gcreate_ff env st loc_id name lcpl_id gcpl_id gapl_id trans eq_id).calls, ev.call.is_close = false ∧
            ∃ g, ev.ret = H5VL_ret.ptr (some g)) ∧
          (H5Gcreate_ff env st loc_id name lcpl_id gcpl_id gapl_id trans eq_id).ret_value < 0)) ∧
      (∀ ev ∈ (H5Gcreate_ff env st loc_id name lcpl_id gcpl_id gapl_id trans eq_id).calls, ∀ obj lp vp nm cpl apl dx q g,
        ev.call = H5VL_call.group_create obj lp vp nm cpl apl dx q →
        ev.ret = H5VL_ret.ptr (some g) →
        (H5Gcreate_ff env st loc_id name lcpl_id gcpl_id gapl_id trans eq_id).ret_value < 0 →
        (H5Gcreate_ff env st loc_id name lcpl_id gcpl_id gapl_id trans eq_id).calls.map (fun e => e.call) =
            [ev.call, H5VL_call.group_close g vp env.H5AC_dxpl_id eq_id] ∧
          q = eq_id ∧
          (H5Gcreate_ff env st loc_id name lcpl_id gcpl_id gapl_id trans eq_id).ret_value = FAIL) ∧
      (0 ≤ (H5Gcreate_ff env st loc_id name lcpl_id gcpl_id gapl_id trans eq_id).ret_value →
        ∀ ev ∈ (H5Gcreate_ff env st loc_id name lcpl_id gcpl_id gapl_id trans eq_id).calls, ev.call.is_close = false) ∧
      ((∀ ev ∈ (H5Gcreate_ff env st loc_id name lcpl_id gcpl_id gapl_id trans eq_id).calls, ∀ g, ev.ret ≠ H5VL_ret.ptr (some g)) →
        ∀ ev ∈ (H5Gcreate_ff env st loc_id name lcpl_id gcpl_id gapl_id trans eq_id).calls, ev.call.is_close = false) := by
  rcases H5Gcreate_ff_shape env st loc_id name lcpl_id gcpl_id gapl_id trans eq_id with
    ⟨hc, hr⟩ | ⟨obj, lp, vp, nm, cpl, apl, ids, hc, hr⟩ |
      ⟨obj, lp, vp, nm, cpl, apl, ids, g, hc, hr⟩ |
      ⟨obj, lp, vp, nm, cpl, apl, ids, g, ids2, rc, hc, hr⟩
  · rw [hc]
    simp
  · rw [hc, hr]
    simp [H5VL_call.is_close]
  · rw [hc]
    have hr2 : 0 ≤ (H5Gcreate_ff env st loc_id name lcpl_id gcpl_id gapl_id trans eq_id).ret_value := not_lt.mp hr
    simp [H5VL_call.is_close, hr, hr2]
  · rw [hc, hr]
    simp only [List.map_cons, List.map_nil, List.mem_cons, List.mem_singleton,
      List.not_mem_nil, or_false]
    refine ⟨?_, ?_, ?_, ?_⟩
    · constructor
      · intro _
        exact ⟨⟨_, Or.inl rfl, rfl, g, rfl⟩, FAIL_neg⟩
      · intro _
        exact ⟨_, Or.inr rfl, rfl⟩
    · intro ev hev obj2 lp2 vp2 nm2 cpl2 apl2 dx q g2 hcall hret _
      rcases hev with hev | hev
      · subst hev
        simp only [H5VL_call.group_create.injEq] at hcall
        simp only [H5VL_ret.ptr.injEq, Option.some.injEq] at hret
        obtain ⟨_, _, hvp, _, _, _, _, hq⟩ := hcall
        subst hvp hret
        exact ⟨rfl, hq.symm, trivial⟩
      · subst hev
        cases hcall
    · intro h
      exact absurd h (by decide)
    · intro h
      exact absurd rfl (h _ (Or.inl rfl) g)

theorem H5Dcreate_ff_close {σ : Type} (env : H5_env σ) (st : H5_state σ) (loc_id : hid_t)
    (name : Option String) (type_id space_id lcpl_id dcpl_id dapl_id : hid_t) (trans : Nat)
    (eq_id : hid_t) :
      ((∃ ev ∈ (H5Dcreate_ff env st loc_id name type_id space_id lcpl_id dcpl_id dapl_id trans eq_id).calls, ev.call.is_close = true) ↔
        ((∃ ev ∈ (H5Dcreate_ff env st loc_id name type_id space_id lcpl_id dcpl_id dapl_id trans eq_id).calls, ev.call.is_close = false ∧
            ∃ g, ev.ret = H5VL_ret.ptr (some g)) ∧
          (H5Dcreate_ff env st loc_id name type_id space_id lcpl_id dcpl_id dapl_id trans eq_id).ret_value < 0)) ∧
      (∀ ev ∈ (H5Dcreate_ff env st loc_id name type_id space_id lcpl_id dcpl_id dapl_id trans eq_id).calls, ∀ obj lp vp nm cpl apl dx q g,
        ev.call = H5VL_call.dataset_create obj lp vp nm cpl apl dx q →
        ev.ret = H5VL_ret.ptr (some g) →
        (H5Dcreate_ff env st loc_id name type_id space_id lcpl_id dcpl_id dapl_id trans eq_id).ret_value < 0 →
        (H5Dcreate_ff env st loc_id name type_id space_id lcpl_id dcpl_id dapl_id trans eq_id).calls.map (fun e => e.call) =
            [ev.call, H5VL_call.dataset_close g vp env.H5AC_dxpl_id eq_id] ∧
          q = eq_id ∧
          (H5Dcreate_ff env st loc_id name type_id space_id lcpl_id dcpl_id dapl_id trans eq_id).ret_value = FAIL) ∧
      (0 ≤ (H5Dcreate_ff env st loc_id name type_id space_id lcpl_id dcpl_id dapl_id trans eq_id).ret_value →
        ∀ ev ∈ (H5Dcreate_ff env st loc_id name type_id space_id lcpl_id dcpl_id dapl_id trans eq_id).calls, ev.call.is_close = false) ∧
      ((∀ ev ∈ (H5Dcreate_ff env st loc_id name type_id space_id lcpl_id dcpl_id dapl_id trans eq_id).calls, ∀ g, ev.ret ≠ H5VL_ret.ptr (some g)) →
        ∀ ev ∈ (H5Dcreate_ff env st loc_id name type_id space_id lcpl_id dcpl_id dapl_id trans eq_id).calls, ev.call.is_close = false) := by
  rcases H5Dcreate_ff_shape env st loc_id name type_id space_id lcpl_id dcpl_id dapl_id trans eq_id with
    ⟨hc, hr⟩ | ⟨obj, lp, vp, nm, cpl, apl, ids, hc, hr⟩ |
      ⟨obj, lp, vp, nm, cpl, apl, ids, g, hc, hr⟩ |
      ⟨obj, lp, vp, nm, cpl, apl, ids, g, ids2, rc, hc, hr⟩
  · rw [hc]
    simp
  · rw [hc, hr]
    simp [H5VL_call.is_close]
  · rw [hc]
    have hr2 : 0 ≤ (H5Dcreate_ff env st loc_id name type_id space_id lcpl_id dcpl_id dapl_id trans eq_id).ret_value := not_lt.mp hr
    simp [H5VL_call.is_close, hr, hr2]
  · rw [hc, hr]
    simp only [List.map_cons, List.map_nil, List.mem_cons, List.mem_singleton,
      List.not_mem_nil, or_false]
    refine ⟨?_, ?_, ?_, ?_⟩
    · constructor
      · intro _
        exact ⟨⟨_, Or.inl rfl, rfl, g, rfl⟩, FAIL_neg⟩
      · intro _
        exact ⟨_, Or.inr rfl, rfl⟩
    · intro ev hev obj2 lp2 vp2 nm2 cpl2 apl2 dx q g2 hcall hret _
      rcases hev with hev | hev
      · subst hev
        simp only [H5VL_call.dataset_create.injEq] at hcall
        simp only [H5VL_ret.ptr.injEq, Option.some.injEq] at hret
        obtain ⟨_, _, hvp, _, _, _, _, hq⟩ := hcall
        subst hvp hret
        exact ⟨rfl, hq.symm, trivial⟩
      · subst hev
        cases hcall
    · intro h
      exact absurd h (by decide)
    · intro h
      exact absurd rfl (h _ (Or.inl rfl) g)

theorem H5Dopen_ff_close {σ : Type} (env : H5_env σ) (st : H5_state σ) (loc_id : hid_t)
    (name : Option String) (dapl_id : hid_t) (trans : Nat) (eq_id : hid_t) :
      ((∃ ev ∈ (H5Dopen_ff env st loc_id name dapl_id trans eq_id).calls, ev.call.is_close = true) ↔
        ((∃ ev ∈ (H5Dopen_ff env st loc_id name dapl_id trans eq_id).calls, ev.call.is_close = false ∧
            ∃ g, ev.ret = H5VL_ret.ptr (some g)) ∧
          (H5Dopen_ff env st loc_id name dapl_id trans eq_id).ret_value < 0)) ∧
      (∀ ev ∈ (H5Dopen_ff env st loc_id name dapl_id trans eq_id).calls, ∀ obj lp vp nm apl dx q g,
        ev.call = H5VL_call.dataset_open obj lp vp nm apl dx q →
        ev.ret = H5VL_ret.ptr (some g) →
        (H5Dopen_ff env st loc_id name dapl_id trans eq_id).ret_value < 0 →
        (H5Dopen_ff env st loc_id name dapl_id trans eq_id).calls.map (fun e => e.call) =
            [ev.call, H5VL_call.dataset_close g vp env.H5AC_dxpl_id eq_id] ∧
          q = eq_id ∧
          (H5Dopen_ff env st loc_id name dapl_id trans eq_id).ret_value = FAIL) ∧
      (0 ≤ (H5Dopen_ff env st loc_id name dapl_id trans eq_id).ret_value →
        ∀ ev ∈ (H5Dopen_ff env st loc_id name dapl_id trans eq_id).calls, ev.call.is_close = false) ∧
      ((∀ ev ∈ (H5Dopen_ff env st loc_id name dapl_id trans eq_id).calls, ∀ g, ev.ret ≠ H5VL_ret.ptr (some g)) →
        ∀ ev ∈ (H5Dopen_ff env st loc_id name dapl_id trans eq_id).calls, ev.call.is_close = false) := by
  rcases H5Dopen_ff_shape env st loc_id name dapl_id trans eq_id with
    ⟨hc, hr⟩ | ⟨obj, lp, vp, nm, apl, ids, hc, hr⟩ |
      ⟨obj, lp, vp, nm, apl, ids, g, hc, hr⟩ |
      ⟨obj, lp, vp, nm, apl, ids, g, ids2, rc, hc, hr⟩
  · rw [hc]
    simp
  · rw [hc, hr]
    simp [H5VL_call.is_close]
  · rw [hc]
    have hr2 : 0 ≤ (H5Dopen_ff env st loc_id name dapl_id trans eq_id).ret_value := not_lt.mp hr
    simp [H5VL_call.is_close, hr, hr2]
  · rw [hc, hr]
    simp only [List.map_cons, List.map_nil, List.mem_cons, List.mem_singleton,
      List.not_mem_nil, or_false]
    refine ⟨?_, ?_, ?_, ?_⟩
    · constructor
      · intro _
        exact ⟨⟨_, Or.inl rfl, rfl, g, rfl⟩, FAIL_neg⟩
      · intro _
        exact ⟨_, Or.inr rfl, rfl⟩
    · intro ev hev obj2 lp2 vp2 nm2 apl2 dx q g2 hcall hret _
      rcases hev with hev | hev
      · subst hev
        simp only [H5VL_call.dataset_open.injEq] at hcall
        simp only [H5VL_ret.ptr.injEq, Option.some.injEq] at hret
        obtain ⟨_, _, hvp, _, _, _, hq⟩ := hcall
        subst hvp hret
        exact ⟨rfl, hq.symm, trivial⟩
      · subst hev
        cases hcall
    · intro h
      exact absurd h (by decide)
    · intro h
      exact absurd rfl (h _ (Or.inl rfl) g)

/-! ## C3: the transaction number -/

/-- C3, as stated, fails: were the transaction number handed to the backend,
it could be read off the arguments of the backend call; but `H5Gcreate_ff`
on the file 1 makes the same backend call for every transaction number, so no
function of the call arguments returns the number the caller gave. -/
theorem C3_transaction_not_forwarded :
    ¬ ∃ recv : H5VL_call → Nat, ∀ trans : Nat,
      ∀ ev ∈ (H5Gcreate_ff sample_env sample_st 1 (some "/g") 0 0 0 trans 0).calls,
        recv ev.call = trans := by
  rintro ⟨recv, h⟩
  have hne : (H5Gcreate_ff sample_env sample_st 1 (some "/g") 0 0 0 0 0).calls ≠ [] := by
    decide
  have h0 := h 0 _ (List.head_mem hne)
  have h1 := h 1 _ (List.head_mem hne)
  rw [h0] at h1
  exact absurd h1 (by decide)

/-- C3, amended: the six wrappers that take a transaction number do not use it:
the value returned, the error stack, the backend calls with all their
arguments, and the state left behind are the same for any two transaction
numbers. -/
theorem C3_transaction_ignored {σ : Type} (env : H5_env σ) (st : H5_state σ)
    (t1 t2 : Nat) :
    (∀ (loc_id : hid_t) (name : Option String) (lcpl_id gcpl_id gapl_id eq_id : hid_t),
      H5Gcreate_ff env st loc_id name lcpl_id gcpl_id gapl_id t1 eq_id =
        H5Gcreate_ff env st loc_id name lcpl_id gcpl_id gapl_id t2 eq_id) ∧
    (∀ (loc_id : hid_t) (name : Option String) (gapl_id eq_id : hid_t),
      H5Gopen_ff env st loc_id name gapl_id t1 eq_id =
        H5Gopen_ff env st loc_id name gapl_id t2 eq_id) ∧
    (∀ (loc_id : hid_t) (name : Option String)
        (type_id space_id lcpl_id dcpl_id dapl_id eq_id : hid_t),
      H5Dcreate_ff env st loc_id name type_id space_id lcpl_id dcpl_id dapl_id t1 eq_id =
        H5Dcreate_ff env st loc_id name type_id space_id lcpl_id dcpl_id dapl_id t2 eq_id) ∧
    (∀ (loc_id : hid_t) (name : Option String) (dapl_id eq_id : hid_t),
      H5Dopen_ff env st loc_id name dapl_id t1 eq_id =
        H5Dopen_ff env st loc_id name dapl_id t2 eq_id) ∧
    (∀ (dset_id mem_type_id mem_space_id file_space_id dxpl_id : hid_t) (buf : List Nat)
        (eq_id : hid_t),
      H5Dwrite_ff env st dset_id mem_type_id mem_space_id file_space_id dxpl_id buf t1 eq_id =
        H5Dwrite_ff env st dset_id mem_type_id mem_space_id file_space_id dxpl_id buf t2
          eq_id) ∧
    (∀ (dset_id mem_type_id mem_space_id file_space_id dxpl_id : hid_t) (buf : List Nat)
        (eq_id : hid_t),
      H5Dread_ff env st dset_id mem_type_id mem_space_id file_space_id dxpl_id buf t1 eq_id =
        H5Dread_ff env st dset_id mem_type_id mem_space_id file_space_id dxpl_id buf t2
          eq_id) :=
  ⟨fun _ _ _ _ _ _ => rfl, fun _ _ _ _ => rfl, fun _ _ _ _ _ _ _ _ => rfl,
   fun _ _ _ _ => rfl, fun _ _ _ _ _ _ _ => rfl, fun _ _ _ _ _ _ _ => rfl⟩

/-! ## C4: close on failure in `H5Gcreate_ff`, `H5Dcreate_ff`, `H5Dopen_ff` -/

/-- C4: in `H5Gcreate_ff`, `H5Dcreate_ff` and `H5Dopen_ff` the backend close
routine is invoked if and only if the backend returned a non-null object and
the call fails; then the invocations are exactly the create/open call followed
by one close call on that object, with the plugin of the create/open call and
the queue identifier of the caller (the one the create/open call received), and
the call returns `FAIL`.  On success, and when no backend call returned an
object, close is not invoked. -/
theorem C4_close_iff_object_and_failure {σ : Type} (env : H5_env σ) (st : H5_state σ) :
    (∀ (loc_id : hid_t) (name : Option String) (lcpl_id gcpl_id gapl_id : hid_t)
        (trans : Nat) (eq_id : hid_t),
      ((∃ ev ∈ (H5Gcreate_ff env st loc_id name lcpl_id gcpl_id gapl_id trans eq_id).calls, ev.call.is_close = true) ↔
        ((∃ ev ∈ (H5Gcreate_ff env st loc_id name lcpl_id gcpl_id gapl_id trans eq_id).calls, ev.call.is_close = false ∧
            ∃ g, ev.ret = H5VL_ret.ptr (some g)) ∧
          (H5Gcreate_ff env st loc_id name lcpl_id gcpl_id gapl_id trans eq_id).ret_value < 0)) ∧
      (∀ ev ∈ (H5Gcreate_ff env st loc_id name lcpl_id gcpl_id gapl_id trans eq_id).calls, ∀ obj lp vp nm cpl apl dx q g,
        ev.call = H5VL_call.group_create obj lp vp nm cpl apl dx q →
        ev.ret = H5VL_ret.ptr (some g) →
        (H5Gcreate_ff env st loc_id name lcpl_id gcpl_id gapl_id trans eq_id).ret_value < 0 →
        (H5Gcreate_ff env st loc_id name lcpl_id gcpl_id gapl_id trans eq_id).calls.map (fun e => e.call) =
            [ev.call, H5VL_call.group_close g vp env.H5AC_dxpl_id eq_id] ∧
          q = eq_id ∧
          (H5Gcreate_ff env st loc_id name lcpl_id gcpl_id gapl_id trans eq_id).ret_value = FAIL) ∧
      (0 ≤ (H5Gcreate_ff env st loc_id name lcpl_id gcpl_id gapl_id trans eq_id).ret_value →
        ∀ ev ∈ (H5Gcreate_ff env st loc_id name lcpl_id gcpl_id gapl_id trans eq_id).calls, ev.call.is_close = false) ∧
      ((∀ ev ∈ (H5Gcreate_ff env st loc_id name lcpl_id gcpl_id gapl_id trans eq_id).calls, ∀ g, ev.ret ≠ H5VL_ret.ptr (some g)) →
        ∀ ev ∈ (H5Gcreate_ff env st loc_id name lcpl_id gcpl_id gapl_id trans eq_id).calls, ev.call.is_close = false)) ∧
    (∀ (loc_id : hid_t) (name : Option String)
        (type_id space_id lcpl_id dcpl_id dapl_id : hid_t) (trans : Nat) (eq_id : hid_t),
      ((∃ ev ∈ (H5Dcreate_ff env st loc_id name type_id space_id lcpl_id dcpl_id dapl_id trans eq_id).calls, ev.call.is_close = true) ↔
        ((∃ ev ∈ (H5Dcreate_ff env st loc_id name type_id space_id lcpl_id dcpl_id dapl_id trans eq_id).calls, ev.call.is_close = false ∧
            ∃ g, ev.ret = H5VL_ret.ptr (some g)) ∧
          (H5Dcreate_ff env st loc_id name type_id space_id lcpl_id dcpl_id dapl_id trans eq_id).ret_value < 0)) ∧
      (∀ ev ∈ (H5Dcreate_ff env st loc_id name type_id space_id lcpl_id dcpl_id dapl_id trans eq_id).calls, ∀ obj lp vp nm cpl apl dx q g,
        ev.call = H5VL_call.dataset_create obj lp vp nm cpl apl dx q →
        ev.ret = H5VL_ret.ptr (some g) →
        (H5Dcreate_ff env st loc_id name type_id space_id lcpl_id dcpl_id dapl_id trans eq_id).ret_value < 0 →
        (H5Dcreate_ff env st loc_id name type_id space_id lcpl_id dcpl_id dapl_id trans eq_id).calls.map (fun e => e.call) =
            [ev.call, H5VL_call.dataset_close g vp env.H5AC_dxpl_id eq_id] ∧
          q = eq_id ∧
          (H5Dcreate_ff env st loc_id name type_id space_id lcpl_id dcpl_id dapl_id trans eq_id).ret_value = FAIL) ∧
      (0 ≤ (H5Dcreate_ff env st loc_id name type_id space_id lcpl_id dcpl_id dapl_id trans eq_id).ret_value →
        ∀ ev ∈ (H5Dcreate_ff env st loc_id name type_id space_id lcpl_id dcpl_id dapl_id trans eq_id).calls, ev.call.is_close = false) ∧
      ((∀ ev ∈ (H5Dcreate_ff env st loc_id name type_id space_id lcpl_id dcpl_id dapl_id trans eq_id).calls, ∀ g, ev.ret ≠ H5VL_ret.ptr (some g)) →
        ∀ ev ∈ (H5Dcreate_ff env st loc_id name type_id space_id lcpl_id dcpl_id dapl_id trans eq_id).calls, ev.call.is_close = false)) ∧
    (∀ (loc_id : hid_t) (name : Option String) (dapl_id : hid_t) (trans : Nat)
        (eq_id : hid_t),
      ((∃ ev ∈ (H5Dopen_ff env st loc_id name dapl_id trans eq_id).calls, ev.call.is_close = true) ↔
        ((∃ ev ∈ (H5Dopen_ff env st loc_id name dapl_id trans eq_id).calls, ev.call.is_close = false ∧
            ∃ g, ev.ret = H5VL_ret.ptr (some g)) ∧
          (H5Dopen_ff env st loc_id name dapl_id trans eq_id).ret_value < 0)) ∧
      (∀ ev ∈ (H5Dopen_ff env st loc_id name dapl_id trans eq_id).calls, ∀ obj lp vp nm apl dx q g,
        ev.call = H5VL_call.dataset_open obj lp vp nm apl dx q →
        ev.ret = H5VL_ret.ptr (some g) →
        (H5Dopen_ff env st loc_id name dapl_id trans eq_id).ret_value < 0 →
        (H5Dopen_ff env st loc_id name dapl_id trans eq_id).calls.map (fun e => e.call) =
            [ev.call, H5VL_call.dataset_close g vp env.H5AC_dxpl_id eq_id] ∧
          q = eq_id ∧
          (H5Dopen_ff env st loc_id name dapl_id trans eq_id).ret_value = FAIL) ∧
      (0 ≤ (H5Dopen_ff env st loc_id name dapl_id trans eq_id).ret_value →
        ∀ ev ∈ (H5Dopen_ff env st loc_id name dapl_id trans eq_id).calls, ev.call.is_close = false) ∧
      ((∀ ev ∈ (H5Dopen_ff env st loc_id name dapl_id trans eq_id).calls, ∀ g, ev.ret ≠ H5VL_ret.ptr (some g)) →
        ∀ ev ∈ (H5Dopen_ff env st loc_id name dapl_id trans eq_id).calls, ev.call.is_close = false)) :=
  ⟨H5Gcreate_ff_close env st, H5Dcreate_ff_close env st, H5Dopen_ff_close env st⟩

/-- Witness for C4: with an exhausted registry `H5Gcreate_ff` gets an object
from the backend and fails at registration, hence a close call is made. -/
theorem C4_close_iff_object_and_failure_witness :
    ∃ ev ∈ (H5Gcreate_ff sample_env sample_full 1 (some "/g") 0 0 0 5 0).calls,
      ev.call.is_close = true :=
  ((C4_close_iff_object_and_failure sample_env sample_full).1 1 (some "/g") 0 0 0 5 0).1.mpr
    ⟨⟨(H5Gcreate_ff sample_env sample_full 1 (some "/g") 0 0 0 5 0).calls.head (by decide),
      List.head_mem _, by decide, 60, by decide⟩, by decide⟩

/-! ## C5: no close on failure in `H5Gopen_ff`, `H5Fcreate_ff`, `H5Fopen_ff` -/

/-- C5 fails on the code: with an exhausted registry the backend returns an
object to `H5Gopen_ff`, `H5Fcreate_ff` and `H5Fopen_ff` (tokens 60), registration
fails, the call returns `FAIL`, and the only backend call made is the open or
create itself: the object is never closed.  On the same input `H5Gcreate_ff`
does close the object it obtained. -/
theorem C5_no_close_after_failed_registration :
    ((H5Gopen_ff sample_env sample_full 1 (some "/g") 0 0 0).ret_value = FAIL ∧
      (H5Gopen_ff sample_env sample_full 1 (some "/g") 0 0 0).err_kind =
        some (H5E_major.H5E_ATOM, H5E_minor.H5E_CANTREGISTER) ∧
      (H5Gopen_ff sample_env sample_full 1 (some "/g") 0 0 0).calls.map
          (fun e => (e.call, e.ret)) =
        [(H5VL_call.group_open (H5_object.token 50)
            { type := H5VL_loc_type_t.H5VL_OBJECT_BY_SELF, obj_type := H5I_type_t.H5I_FILE }
            7 "/g" 105 109 0, H5VL_ret.ptr (some 60))]) ∧
    ((H5Fcreate_ff sample_env sample_full (some "x.dat") 2 0 0 0).ret_value = FAIL ∧
      (H5Fcreate_ff sample_env sample_full (some "x.dat") 2 0 0 0).err_kind =
        some (H5E_major.H5E_ATOM, H5E_minor.H5E_CANTREGISTER) ∧
      (H5Fcreate_ff sample_env sample_full (some "x.dat") 2 0 0 0).calls.map
          (fun e => (e.call, e.ret)) =
        [(H5VL_call.file_create "x.dat" 2 101 102 109 0, H5VL_ret.file (some (60, 7)))]) ∧
    ((H5Fopen_ff sample_env sample_full (some "x.dat") 0 0 0).ret_value = FAIL ∧
      (H5Fopen_ff sample_env sample_full (some "x.dat") 0 0 0).err_kind =
        some (H5E_major.H5E_ATOM, H5E_minor.H5E_CANTREGISTER) ∧
      (H5Fopen_ff sample_env sample_full (some "x.dat") 0 0 0).calls.map
          (fun e => (e.call, e.ret)) =
        [(H5VL_call.file_open "x.dat" 0 102 109 0, H5VL_ret.file (some (60, 7)))]) ∧
    (H5Gcreate_ff sample_env sample_full 1 (some "/g") 0 0 0 0 0).calls.map
        (fun e => (e.call, e.ret)) =
      [(H5VL_call.group_create (H5_object.token 50)
          { type := H5VL_loc_type_t.H5VL_OBJECT_BY_SELF, obj_type := H5I_type_t.H5I_FILE }
          7 "/g" 104 105 109 0, H5VL_ret.ptr (some 60)),
       (H5VL_call.group_close 60 7 109 0, H5VL_ret.status 0)] := by
  decide


/-! ## C6: a property list of the wrong class -/

theorem H5Fcreate_ff_bad_plist {σ : Type} (env : H5_env σ) (st : H5_state σ)
    (filename : Option String) (flags : Nat) (fcpl_id fapl_id eq_id : hid_t) :
    ((H5P_DEFAULT ≠ fcpl_id ∧ TRUE ≠ H5P_isa_class st.ids fcpl_id H5P_class_t.H5P_FILE_CREATE) ∨
        (H5P_DEFAULT ≠ fapl_id ∧ TRUE ≠ H5P_isa_class st.ids fapl_id H5P_class_t.H5P_FILE_ACCESS)) →
      (H5Fcreate_ff env st filename flags fcpl_id fapl_id eq_id).ret_value = FAIL ∧
        (H5Fcreate_ff env st filename flags fcpl_id fapl_id eq_id).calls = [] ∧
        (H5Fcreate_ff env st filename flags fcpl_id fapl_id eq_id).st = st ∧
        (filename ≠ none →
          filename ≠ some "" →
          flags &&& H5_bitnot32 (env.H5F_ACC_EXCL ||| env.H5F_ACC_TRUNC ||| env.H5F_ACC_DEBUG) = 0 →
          (flags &&& env.H5F_ACC_EXCL = 0 ∨ flags &&& env.H5F_ACC_TRUNC = 0) →
          (H5Fcreate_ff env st filename flags fcpl_id fapl_id eq_id).err_kind =
            some (H5E_major.H5E_ARGS, H5E_minor.H5E_BADTYPE)) := by
  intro h
  unfold H5Fcreate_ff
  dsimp only
  by_cases hc : filename = none ∨ filename = some ""
  · rw [if_pos hc]
    exact ⟨rfl, rfl, rfl, fun p0 p1 p2 p3 => (hc.elim p0 p1).elim⟩
  rw [if_neg hc]
  clear hc
  by_cases hc : flags &&& H5_bitnot32 (env.H5F_ACC_EXCL ||| env.H5F_ACC_TRUNC ||| env.H5F_ACC_DEBUG) ≠ 0
  · rw [if_pos hc]
    exact ⟨rfl, rfl, rfl, fun p0 p1 p2 p3 => (hc p2).elim⟩
  rw [if_neg hc]
  clear hc
  by_cases hc : flags &&& env.H5F_ACC_EXCL ≠ 0 ∧ flags &&& env.H5F_ACC_TRUNC ≠ 0
  · rw [if_pos hc]
    exact ⟨rfl, rfl, rfl, fun p0 p1 p2 p3 => (p3.elim hc.1 hc.2).elim⟩
  rw [if_neg hc]
  clear hc
  by_cases h0 : H5P_DEFAULT ≠ fcpl_id ∧ TRUE ≠ H5P_isa_class st.ids fcpl_id H5P_class_t.H5P_FILE_CREATE
  · rw [if_pos h0]
    exact ⟨rfl, rfl, rfl, fun p0 p1 p2 p3 => rfl⟩
  rw [if_neg h0]
  by_cases h1 : H5P_DEFAULT ≠ fapl_id ∧ TRUE ≠ H5P_isa_class st.ids fapl_id H5P_class_t.H5P_FILE_ACCESS
  · rw [if_pos h1]
    exact ⟨rfl, rfl, rfl, fun p0 p1 p2 p3 => rfl⟩
  exact (h.elim h0 h1).elim

theorem H5Fopen_ff_bad_plist {σ : Type} (env : H5_env σ) (st : H5_state σ)
    (filename : Option String) (flags : Nat) (fapl_id eq_id : hid_t) :
    (H5P_DEFAULT ≠ fapl_id ∧ TRUE ≠ H5P_isa_class st.ids fapl_id H5P_class_t.H5P_FILE_ACCESS) →
      (H5Fopen_ff env st filename flags fapl_id eq_id).ret_value = FAIL ∧
        (H5Fopen_ff env st filename flags fapl_id eq_id).calls = [] ∧
        (H5Fopen_ff env st filename flags fapl_id eq_id).st = st ∧
        (filename ≠ none →
          filename ≠ some "" →
          flags &&& H5_bitnot32 env.H5F_ACC_PUBLIC_FLAGS = 0 →
          flags &&& env.H5F_ACC_TRUNC = 0 →
          flags &&& env.H5F_ACC_EXCL = 0 →
          (H5Fopen_ff env st filename flags fapl_id eq_id).err_kind =
            some (H5E_major.H5E_ARGS, H5E_minor.H5E_BADTYPE)) := by
  intro h
  unfold H5Fopen_ff
  dsimp only
  by_cases hc : filename = none ∨ filename = some ""
  · rw [if_pos hc]
    exact ⟨rfl, rfl, rfl, fun p0 p1 p2 p3 p4 => (hc.elim p0 p1).elim⟩
  rw [if_neg hc]
  clear hc
  by_cases hc : flags &&& H5_bitnot32 env.H5F_ACC_PUBLIC_FLAGS ≠ 0 ∨
      flags &&& env.H5F_ACC_TRUNC ≠ 0 ∨ flags &&& env.H5F_ACC_EXCL ≠ 0
  · rw [if_pos hc]
    exact ⟨rfl, rfl, rfl, fun p0 p1 p2 p3 p4 => (hc.elim (fun h => h p2) (fun h => h.elim (fun h => h p3) (fun h => h p4))).elim⟩
  rw [if_neg hc]
  clear hc
  by_cases h0 : H5P_DEFAULT ≠ fapl_id ∧ TRUE ≠ H5P_isa_class st.ids fapl_id H5P_class_t.H5P_FILE_ACCESS
  · rw [if_pos h0]
    exact ⟨rfl, rfl, rfl, fun p0 p1 p2 p3 p4 => rfl⟩
  exact absurd h h0

theorem H5Gcreate_ff_bad_plist {σ : Type} (env : H5_env σ) (st : H5_state σ)
    (loc_id : hid_t) (name : Option String) (lcpl_id gcpl_id gapl_id : hid_t)
    (trans : Nat) (eq_id : hid_t) :
    ((H5P_DEFAULT ≠ lcpl_id ∧ TRUE ≠ H5P_isa_class st.ids lcpl_id H5P_class_t.H5P_LINK_CREATE) ∨
        (H5P_DEFAULT ≠ gcpl_id ∧ TRUE ≠ H5P_isa_class st.ids gcpl_id H5P_class_t.H5P_GROUP_CREATE) ∨
        (H5P_DEFAULT ≠ gapl_id ∧ TRUE ≠ H5P_isa_class st.ids gapl_id H5P_class_t.H5P_GROUP_ACCESS)) →
      (H5Gcreate_ff env st loc_id name lcpl_id gcpl_id gapl_id trans eq_id).ret_value = FAIL ∧
        (H5Gcreate_ff env st loc_id name lcpl_id gcpl_id gapl_id trans eq_id).calls = [] ∧
        (H5Gcreate_ff env st loc_id name lcpl_id gcpl_id gapl_id trans eq_id).st = st ∧
        (name ≠ none →
          name ≠ some "" →
          (H5Gcreate_ff env st loc_id name lcpl_id gcpl_id gapl_id trans eq_id).err_kind =
            some (H5E_major.H5E_ARGS, H5E_minor.H5E_BADTYPE)) := by
  intro h
  unfold H5Gcreate_ff
  dsimp only
  simp only [H5Gcreate_ff_done_none]
  by_cases hc : name = none ∨ name = some ""
  · rw [if_pos hc]
    exact ⟨rfl, rfl, rfl, fun p0 p1 => (hc.elim p0 p1).elim⟩
  rw [if_neg hc]
  clear hc
  by_cases h0 : H5P_DEFAULT ≠ lcpl_id ∧ TRUE ≠ H5P_isa_class st.ids lcpl_id H5P_class_t.H5P_LINK_CREATE
  · rw [if_pos h0]
    exact ⟨rfl, rfl, rfl, fun p0 p1 => rfl⟩
  rw [if_neg h0]
  by_cases h1 : H5P_DEFAULT ≠ gcpl_id ∧ TRUE ≠ H5P_isa_class st.ids gcpl_id H5P_class_t.H5P_GROUP_CREATE
  · rw [if_pos h1]
    exact ⟨rfl, rfl, rfl, fun p0 p1 => rfl⟩
  rw [if_neg h1]
  by_cases h2 : H5P_DEFAULT ≠ gapl_id ∧ TRUE ≠ H5P_isa_class st.ids gapl_id H5P_class_t.H5P_GROUP_ACCESS
  · rw [if_pos h2]
    exact ⟨rfl, rfl, rfl, fun p0 p1 => rfl⟩
  exact (h.elim h0 (fun h => h.elim h1 h2)).elim

theorem H5Gopen_ff_bad_plist {σ : Type} (env : H5_env σ) (st : H5_state σ)
    (loc_id : hid_t) (name : Option String) (gapl_id : hid_t) (trans : Nat)
    (eq_id : hid_t) :
    (H5P_DEFAULT ≠ gapl_id ∧ TRUE ≠ H5P_isa_class st.ids gapl_id H5P_class_t.H5P_GROUP_ACCESS) →
      (H5Gopen_ff env st loc_id name gapl_id trans eq_id).ret_value = FAIL ∧
        (H5Gopen_ff env st loc_id name gapl_id trans eq_id).calls = [] ∧
        (H5Gopen_ff env st loc_id name gapl_id trans eq_id).st = st ∧
        (name ≠ none →
          name ≠ some "" →
          (H5Gopen_ff env st loc_id name gapl_id trans eq_id).err_kind =
            some (H5E_major.H5E_ARGS, H5E_minor.H5E_BADTYPE)) := by
  intro h
  unfold H5Gopen_ff
  dsimp only
  by_cases hc : name = none ∨ name = some ""
  · rw [if_pos hc]
    exact ⟨rfl, rfl, rfl, fun p0 p1 => (hc.elim p0 p1).elim⟩
  rw [if_neg hc]
  clear hc
  by_cases h0 : H5P_DEFAULT ≠ gapl_id ∧ TRUE ≠ H5P_isa_class st.ids gapl_id H5P_class_t.H5P_GROUP_ACCESS
  · rw [if_pos h0]
    exact ⟨rfl, rfl, rfl, fun p0 p1 => rfl⟩
  exact absurd h h0

theorem H5Dcreate_ff_bad_plist {σ : Type} (env : H5_env σ) (st : H5_state σ)
    (loc_id : hid_t) (name : Option String)
    (type_id space_id lcpl_id dcpl_id dapl_id : hid_t) (trans : Nat) (eq_id : hid_t) :
    ((H5P_DEFAULT ≠ lcpl_id ∧ TRUE ≠ H5P_isa_class st.ids lcpl_id H5P_class_t.H5P_LINK_CREATE) ∨
        (H5P_DEFAULT ≠ dcpl_id ∧ TRUE ≠ H5P_isa_class st.ids dcpl_id H5P_class_t.H5P_DATASET_CREATE) ∨
        (H5P_DEFAULT ≠ dapl_id ∧ TRUE ≠ H5P_isa_class st.ids dapl_id H5P_class_t.H5P_DATASET_ACCESS)) →
      (H5Dcreate_ff env st loc_id name type_id space_id lcpl_id dcpl_id dapl_id trans eq_id).ret_value = FAIL ∧
        (H5Dcreate_ff env st loc_id name type_id space_id lcpl_id dcpl_id dapl_id trans eq_id).calls = [] ∧
        (H5Dcreate_ff env st loc_id name type_id space_id lcpl_id dcpl_id dapl_id trans eq_id).st = st ∧
        (name ≠ none →
          name ≠ some "" →
          (H5Dcreate_ff env st loc_id name type_id space_id lcpl_id dcpl_id dapl_id trans eq_id).err_kind =
            some (H5E_major.H5E_ARGS, H5E_minor.H5E_BADTYPE)) := by
  intro h
  unfold H5Dcreate_ff
  dsimp only
  simp only [H5Dcreate_ff_done_none]
  by_cases hc : name = none ∨ name = some ""
  · rw [if_pos hc]
    exact ⟨rfl, rfl, rfl, fun p0 p1 => (hc.elim p0 p1).elim⟩
  rw [if_neg hc]
  clear hc
  by_cases h0 : H5P_DEFAULT ≠ lcpl_id ∧ TRUE ≠ H5P_isa_class st.ids lcpl_id H5P_class_t.H5P_LINK_CREATE
  · rw [if_pos h0]
    exact ⟨rfl, rfl, rfl, fun p0 p1 => rfl⟩
  rw [if_neg h0]
  by_cases h1 : H5P_DEFAULT ≠ dcpl_id ∧ TRUE ≠ H5P_isa_class st.ids dcpl_id H5P_class_t.H5P_DATASET_CREATE
  · rw [if_pos h1]
    exact ⟨rfl, rfl, rfl, fun p0 p1 => rfl⟩
  rw [if_neg h1]
  by_cases h2 : H5P_DEFAULT ≠ dapl_id ∧ TRUE ≠ H5P_isa_class st.ids dapl_id H5P_class_t.H5P_DATASET_ACCESS
  · rw [if_pos h2]
    exact ⟨rfl, rfl, rfl, fun p0 p1 => rfl⟩
  exact (h.elim h0 (fun h => h.elim h1 h2)).elim

theorem H5Dopen_ff_bad_plist {σ : Type} (env : H5_env σ) (st : H5_state σ)
    (loc_id : hid_t) (name : Option String) (dapl_id : hid_t) (trans : Nat)
    (eq_id : hid_t) :
    (H5P_DEFAULT ≠ dapl_id ∧ TRUE ≠ H5P_isa_class st.ids dapl_id H5P_class_t.H5P_DATASET_ACCESS) →
      (H5Dopen_ff env st loc_id name dapl_id trans eq_id).ret_value = FAIL ∧
        (H5Dopen_ff env st loc_id name dapl_id trans eq_id).calls = [] ∧
        (H5Dopen_ff env st loc_id name dapl_id trans eq_id).st = st ∧
        (name ≠ none →
          name ≠ some "" →
          (H5Dopen_ff env st loc_id name dapl_id trans eq_id).err_kind =
            some (H5E_major.H5E_ARGS, H5E_minor.H5E_BADTYPE)) := by
  intro h
  unfold H5Dopen_ff
  dsimp only
  simp only [H5Dcreate_ff_done_none]
  by_cases hc : name = none ∨ name = some ""
  · rw [if_pos hc]
    exact ⟨rfl, rfl, rfl, fun p0 p1 => (hc.elim p0 p1).elim⟩
  rw [if_neg hc]
  clear hc
  by_cases h0 : H5P_DEFAULT ≠ dapl_id ∧ TRUE ≠ H5P_isa_class st.ids dapl_id H5P_class_t.H5P_DATASET_ACCESS
  · rw [if_pos h0]
    exact ⟨rfl, rfl, rfl, fun p0 p1 => rfl⟩
  exact absurd h h0

theorem H5Dwrite_ff_bad_plist {σ : Type} (env : H5_env σ) (st : H5_state σ)
    (dset_id mem_type_id mem_space_id file_space_id dxpl_id : hid_t)
    (buf : List Nat) (trans : Nat) (eq_id : hid_t) :
    (H5P_DEFAULT ≠ dxpl_id ∧ TRUE ≠ H5P_isa_class st.ids dxpl_id H5P_class_t.H5P_DATASET_XFER) →
      (H5Dwrite_ff env st dset_id mem_type_id mem_space_id file_space_id dxpl_id buf trans eq_id).ret_value = FAIL ∧
        (H5Dwrite_ff env st dset_id mem_type_id mem_space_id file_space_id dxpl_id buf trans eq_id).calls = [] ∧
        (H5Dwrite_ff env st dset_id mem_type_id mem_space_id file_space_id dxpl_id buf trans eq_id).st = st ∧
        ((H5Dwrite_ff env st dset_id mem_type_id mem_space_id file_space_id dxpl_id buf trans eq_id).err_kind =
            some (H5E_major.H5E_ARGS, H5E_minor.H5E_BADTYPE)) := by
  intro h
  unfold H5Dwrite_ff
  dsimp only
  by_cases hc : dset_id = 0
  · rw [if_pos hc]
    exact ⟨rfl, rfl, rfl, rfl⟩
  rw [if_neg hc]
  clear hc
  by_cases h0 : H5P_DEFAULT ≠ dxpl_id ∧ TRUE ≠ H5P_isa_class st.ids dxpl_id H5P_class_t.H5P_DATASET_XFER
  · rw [if_pos h0]
    exact ⟨rfl, rfl, rfl, rfl⟩
  exact absurd h h0

theorem H5Dread_ff_bad_plist {σ : Type} (env : H5_env σ) (st : H5_state σ)
    (dset_id mem_type_id mem_space_id file_space_id dxpl_id : hid_t)
    (buf : List Nat) (trans : Nat) (eq_id : hid_t) :
    (H5P_DEFAULT ≠ dxpl_id ∧ TRUE ≠ H5P_isa_class st.ids dxpl_id H5P_class_t.H5P_DATASET_XFER) →
      (H5Dread_ff env st dset_id mem_type_id mem_space_id file_space_id dxpl_id buf trans eq_id).ret_value = FAIL ∧
        (H5Dread_ff env st dset_id mem_type_id mem_space_id file_space_id dxpl_id buf trans eq_id).calls = [] ∧
        (H5Dread_ff env st dset_id mem_type_id mem_space_id file_space_id dxpl_id buf trans eq_id).st = st ∧
        ((H5Dread_ff env st dset_id mem_type_id mem_space_id file_space_id dxpl_id buf trans eq_id).err_kind =
            some (H5E_major.H5E_ARGS, H5E_minor.H5E_BADTYPE)) := by
  intro h
  unfold H5Dread_ff
  dsimp only
  by_cases hc : mem_space_id < 0 ∨ file_space_id < 0
  · rw [if_pos hc]
    exact ⟨rfl, rfl, rfl, rfl⟩
  rw [if_neg hc]
  clear hc
  by_cases h0 : H5P_DEFAULT ≠ dxpl_id ∧ TRUE ≠ H5P_isa_class st.ids dxpl_id H5P_class_t.H5P_DATASET_XFER
  · rw [if_pos h0]
    exact ⟨rfl, rfl, rfl, rfl⟩
  exact absurd h h0

/-- C6, as stated, fails: identifier 107 is a dataset-access list, neither the
sentinel nor a group-creation list, yet `H5Gcreate_ff` called with it as
`gcpl_id` and with an empty name fails with the bad-argument error
(H5E_ARGS, H5E_BADVALUE) of the name check, not with the
wrong-property-list-class error (H5E_ARGS, H5E_BADTYPE). -/
theorem C6_empty_name_masks_plist_error :
    H5P_DEFAULT ≠ (107 : hid_t) ∧
    TRUE ≠ H5P_isa_class sample_st.ids 107 H5P_class_t.H5P_GROUP_CREATE ∧
    (H5Gcreate_ff sample_env sample_st 1 (some "") 0 107 0 0 0).err_kind =
      some (H5E_major.H5E_ARGS, H5E_minor.H5E_BADVALUE) ∧
    (H5Gcreate_ff sample_env sample_st 1 (some "") 0 107 0 0 0).err_kind ≠
      some (H5E_major.H5E_ARGS, H5E_minor.H5E_BADTYPE) := by
  decide

/-- C6, amended: for every wrapper and every property-list parameter of it, if
the identifier supplied is not the sentinel and `H5P_isa_class` does not
answer `TRUE` for the class the parameter requires, the call returns `FAIL`,
invokes no backend routine and leaves the state unchanged, whatever the other
arguments and the backend; the error reported is the wrong-class error
(H5E_ARGS, H5E_BADTYPE) provided the checks placed before the property-list
checks pass (a non-empty name, and valid flags for the two file wrappers);
`H5Dwrite_ff` and `H5Dread_ff` always report (H5E_ARGS, H5E_BADTYPE). -/
theorem C6_wrong_plist_class_fails {σ : Type} (env : H5_env σ) (st : H5_state σ) :
    (∀ (filename : Option String) (flags : Nat) (fcpl_id fapl_id eq_id : hid_t),
      ((H5P_DEFAULT ≠ fcpl_id ∧ TRUE ≠ H5P_isa_class st.ids fcpl_id H5P_class_t.H5P_FILE_CREATE) ∨
        (H5P_DEFAULT ≠ fapl_id ∧ TRUE ≠ H5P_isa_class st.ids fapl_id H5P_class_t.H5P_FILE_ACCESS)) →
      (H5Fcreate_ff env st filename flags fcpl_id fapl_id eq_id).ret_value = FAIL ∧
        (H5Fcreate_ff env st filename flags fcpl_id fapl_id eq_id).calls = [] ∧
        (H5Fcreate_ff env st filename flags fcpl_id fapl_id eq_id).st = st ∧
        (filename ≠ none →
          filename ≠ some "" →
          flags &&& H5_bitnot32 (env.H5F_ACC_EXCL ||| env.H5F_ACC_TRUNC ||| env.H5F_ACC_DEBUG) = 0 →
          (flags &&& env.H5F_ACC_EXCL = 0 ∨ flags &&& env.H5F_ACC_TRUNC = 0) →
          (H5Fcreate_ff env st filename flags fcpl_id fapl_id eq_id).err_kind =
            some (H5E_major.H5E_ARGS, H5E_minor.H5E_BADTYPE))) ∧
    (∀ (filename : Option String) (flags : Nat) (fapl_id eq_id : hid_t),
      (H5P_DEFAULT ≠ fapl_id ∧ TRUE ≠ H5P_isa_class st.ids fapl_id H5P_class_t.H5P_FILE_ACCESS) →
      (H5Fopen_ff env st filename flags fapl_id eq_id).ret_value = FAIL ∧
        (H5Fopen_ff env st filename flags fapl_id eq_id).calls = [] ∧
        (H5Fopen_ff env st filename flags fapl_id eq_id).st = st ∧
        (filename ≠ none →
          filename ≠ some "" →
          flags &&& H5_bitnot32 env.H5F_ACC_PUBLIC_FLAGS = 0 →
          flags &&& env.H5F_ACC_TRUNC = 0 →
          flags &&& env.H5F_ACC_EXCL = 0 →
          (H5Fopen_ff env st filename flags fapl_id eq_id).err_kind =
            some (H5E_major.H5E_ARGS, H5E_minor.H5E_BADTYPE))) ∧
    (∀ (loc_id : hid_t) (name : Option String) (lcpl_id gcpl_id gapl_id : hid_t)
        (trans : Nat) (eq_id : hid_t),
      ((H5P_DEFAULT ≠ lcpl_id ∧ TRUE ≠ H5P_isa_class st.ids lcpl_id H5P_class_t.H5P_LINK_CREATE) ∨
        (H5P_DEFAULT ≠ gcpl_id ∧ TRUE ≠ H5P_isa_class st.ids gcpl_id H5P_class_t.H5P_GROUP_CREATE) ∨
        (H5P_DEFAULT ≠ gapl_id ∧ TRUE ≠ H5P_isa_class st.ids gapl_id H5P_class_t.H5P_GROUP_ACCESS)) →
      (H5Gcreate_ff env st loc_id name lcpl_id gcpl_id gapl_id trans eq_id).ret_value = FAIL ∧
        (H5Gcreate_ff env st loc_id name lcpl_id gcpl_id gapl_id trans eq_id).calls = [] ∧
        (H5Gcreate_ff env st loc_id name lcpl_id gcpl_id gapl_id trans eq_id).st = st ∧
        (name ≠ none →
          name ≠ some "" →
          (H5Gcreate_ff env st loc_id name lcpl_id gcpl_id gapl_id trans eq_id).err_kind =
            some (H5E_major.H5E_ARGS, H5E_minor.H5E_BADTYPE))) ∧
    (∀ (loc_id : hid_t) (name : Option String) (gapl_id : hid_t) (trans : Nat)
        (eq_id : hid_t),
      (H5P_DEFAULT ≠ gapl_id ∧ TRUE ≠ H5P_isa_class st.ids gapl_id H5P_class_t.H5P_GROUP_ACCESS) →
      (H5Gopen_ff env st loc_id name gapl_id trans eq_id).ret_value = FAIL ∧
        (H5Gopen_ff env st loc_id name gapl_id trans eq_id).calls = [] ∧
        (H5Gopen_ff env st loc_id name gapl_id trans eq_id).st = st ∧
        (name ≠ none →
          name ≠ some "" →
          (H5Gopen_ff env st loc_id name gapl_id trans eq_id).err_kind =
            some (H5E_major.H5E_ARGS, H5E_minor.H5E_BADTYPE))) ∧
    (∀ (loc_id : hid_t) (name : Option String)
        (type_id space_id lcpl_id dcpl_id dapl_id : hid_t) (trans : Nat) (eq_id : hid_t),
      ((H5P_DEFAULT ≠ lcpl_id ∧ TRUE ≠ H5P_isa_class st.ids lcpl_id H5P_class_t.H5P_LINK_CREATE) ∨
        (H5P_DEFAULT ≠ dcpl_id ∧ TRUE ≠ H5P_isa_class st.ids dcpl_id H5P_class_t.H5P_DATASET_CREATE) ∨
        (H5P_DEFAULT ≠ dapl_id ∧ TRUE ≠ H5P_isa_class st.ids dapl_id H5P_class_t.H5P_DATASET_ACCESS)) →
      (H5Dcreate_ff env st loc_id name type_id space_id lcpl_id dcpl_id dapl_id trans eq_id).ret_value = FAIL ∧
        (H5Dcreate_ff env st loc_id name type_id space_id lcpl_id dcpl_id dapl_id trans eq_id).calls = [] ∧
        (H5Dcreate_ff env st loc_id name type_id space_id lcpl_id dcpl_id dapl_id trans eq_id).st = st ∧
        (name ≠ none →
          name ≠ some "" →
          (H5Dcreate_ff env st loc_id name type_id space_id lcpl_id dcpl_id dapl_id trans eq_id).err_kind =
            some (H5E_major.H5E_ARGS, H5E_minor.H5E_BADTYPE))) ∧
    (∀ (loc_id : hid_t) (name : Option String) (dapl_id : hid_t) (trans : Nat)
        (eq_id : hid_t),
      (H5P_DEFAULT ≠ dapl_id ∧ TRUE ≠ H5P_isa_class st.ids dapl_id H5P_class_t.H5P_DATASET_ACCESS) →
      (H5Dopen_ff env st loc_id name dapl_id trans eq_id).ret_value = FAIL ∧
        (H5Dopen_ff env st loc_id name dapl_id trans eq_id).calls = [] ∧
        (H5Dopen_ff env st loc_id name dapl_id trans eq_id).st = st ∧
        (name ≠ none →
          name ≠ some "" →
          (H5Dopen_ff env st loc_id name dapl_id trans eq_id).err_kind =
            some (H5E_major.H5E_ARGS, H5E_minor.H5E_BADTYPE))) ∧
    (∀ (dset_id mem_type_id mem_space_id file_space_id dxpl_id : hid_t)
        (buf : List Nat) (trans : Nat) (eq_id : hid_t),
      (H5P_DEFAULT ≠ dxpl_id ∧ TRUE ≠ H5P_isa_class st.ids dxpl_id H5P_class_t.H5P_DATASET_XFER) →
      (H5Dwrite_ff env st dset_id mem_type_id mem_space_id file_space_id dxpl_id buf trans eq_id).ret_value = FAIL ∧
        (H5Dwrite_ff env st dset_id mem_type_id mem_space_id file_space_id dxpl_id buf trans eq_id).calls = [] ∧
        (H5Dwrite_ff env st dset_id mem_type_id mem_space_id file_space_id dxpl_id buf trans eq_id).st = st ∧
        ((H5Dwrite_ff env st dset_id mem_type_id mem_space_id file_space_id dxpl_id buf trans eq_id).err_kind =
            some (H5E_major.H5E_ARGS, H5E_minor.H5E_BADTYPE))) ∧
    (∀ (dset_id mem_type_id mem_space_id file_space_id dxpl_id : hid_t)
        (buf : List Nat) (trans : Nat) (eq_id : hid_t),
      (H5P_DEFAULT ≠ dxpl_id ∧ TRUE ≠ H5P_isa_class st.ids dxpl_id H5P_class_t.H5P_DATASET_XFER) →
      (H5Dread_ff env st dset_id mem_type_id mem_space_id file_space_id dxpl_id buf trans eq_id).ret_value = FAIL ∧
        (H5Dread_ff env st dset_id mem_type_id mem_space_id file_space_id dxpl_id buf trans eq_id).calls = [] ∧
        (H5Dread_ff env st dset_id mem_type_id mem_space_id file_space_id dxpl_id buf trans eq_id).st = st ∧
        ((H5Dread_ff env st dset_id mem_type_id mem_space_id file_space_id dxpl_id buf trans eq_id).err_kind =
            some (H5E_major.H5E_ARGS, H5E_minor.H5E_BADTYPE))) :=
  ⟨H5Fcreate_ff_bad_plist env st,
   H5Fopen_ff_bad_plist env st,
   H5Gcreate_ff_bad_plist env st,
   H5Gopen_ff_bad_plist env st,
   H5Dcreate_ff_bad_plist env st,
   H5Dopen_ff_bad_plist env st,
   H5Dwrite_ff_bad_plist env st,
   H5Dread_ff_bad_plist env st⟩

/-- Witness for C6: `H5Gcreate_ff` with the name "/g" and the dataset-access
list 107 as `gcpl_id` reports (H5E_ARGS, H5E_BADTYPE). -/
theorem C6_wrong_plist_class_fails_witness :
    (H5Gcreate_ff sample_env sample_st 1 (some "/g") 0 107 0 0 0).err_kind =
      some (H5E_major.H5E_ARGS, H5E_minor.H5E_BADTYPE) :=
  ((C6_wrong_plist_class_fails sample_env sample_st).2.2.1 1 (some "/g") 0 107 0 0 0
    (Or.inr (Or.inl ⟨by decide, by decide⟩))).2.2.2 (by decide) (by decide)

/-! ## When the backend is reached, and with which property lists -/

theorem H5Fcreate_ff_reach {σ : Type} (env : H5_env σ) (st : H5_state σ)
    (filename : Option String) (flags : Nat) (fcpl_id fapl_id eq_id : hid_t) :
    (((H5Fcreate_ff env st filename flags fcpl_id fapl_id eq_id).calls ≠ [] ↔
          (filename ≠ none ∧ filename ≠ some "") ∧
          flags &&& H5_bitnot32 (env.H5F_ACC_EXCL ||| env.H5F_ACC_TRUNC ||| env.H5F_ACC_DEBUG) = 0 ∧
          (flags &&& env.H5F_ACC_EXCL = 0 ∨ flags &&& env.H5F_ACC_TRUNC = 0) ∧
          (H5P_DEFAULT = fcpl_id ∨ TRUE = H5P_isa_class st.ids fcpl_id H5P_class_t.H5P_FILE_CREATE) ∧
          (H5P_DEFAULT = fapl_id ∨ TRUE = H5P_isa_class st.ids fapl_id H5P_class_t.H5P_FILE_ACCESS)) ∧
      (∀ ev ∈ (H5Fcreate_ff env st filename flags fcpl_id fapl_id eq_id).calls, ev.call = H5VL_call.file_create (filename.getD "") flags
          (if H5P_DEFAULT = fcpl_id then env.H5P_FILE_CREATE_DEFAULT else fcpl_id)
          (if H5P_DEFAULT = fapl_id then env.H5P_FILE_ACCESS_DEFAULT else fapl_id)
          env.H5AC_dxpl_id eq_id)) := by
  unfold H5Fcreate_ff
  dsimp only
  by_cases hc0 : filename = none ∨ filename = some ""
  · rw [if_pos hc0]
    refine ⟨⟨fun h => absurd rfl h, fun h => ?_⟩, fun ev hev => absurd hev (List.not_mem_nil ev)⟩
    exfalso
    tauto
  rw [if_neg hc0]
  by_cases hc1 : flags &&& H5_bitnot32 (env.H5F_ACC_EXCL ||| env.H5F_ACC_TRUNC ||| env.H5F_ACC_DEBUG) ≠ 0
  · rw [if_pos hc1]
    refine ⟨⟨fun h => absurd rfl h, fun h => ?_⟩, fun ev hev => absurd hev (List.not_mem_nil ev)⟩
    exfalso
    tauto
  rw [if_neg hc1]
  by_cases hc2 : flags &&& env.H5F_ACC_EXCL ≠ 0 ∧ flags &&& env.H5F_ACC_TRUNC ≠ 0
  · rw [if_pos hc2]
    refine ⟨⟨fun h => absurd rfl h, fun h => ?_⟩, fun ev hev => absurd hev (List.not_mem_nil ev)⟩
    exfalso
    tauto
  rw [if_neg hc2]
  by_cases hc3 : H5P_DEFAULT ≠ fcpl_id ∧ TRUE ≠ H5P_isa_class st.ids fcpl_id H5P_class_t.H5P_FILE_CREATE
  · rw [if_pos hc3]
    refine ⟨⟨fun h => absurd rfl h, fun h => ?_⟩, fun ev hev => absurd hev (List.not_mem_nil ev)⟩
    exfalso
    tauto
  rw [if_neg hc3]
  by_cases hc4 : H5P_DEFAULT ≠ fapl_id ∧ TRUE ≠ H5P_isa_class st.ids fapl_id H5P_class_t.H5P_FILE_ACCESS
  · rw [if_pos hc4]
    refine ⟨⟨fun h => absurd rfl h, fun h => ?_⟩, fun ev hev => absurd hev (List.not_mem_nil ev)⟩
    exfalso
    tauto
  rw [if_neg hc4]
  have hreach : (filename ≠ none ∧ filename ≠ some "") ∧ flags &&& H5_bitnot32 (env.H5F_ACC_EXCL ||| env.H5F_ACC_TRUNC ||| env.H5F_ACC_DEBUG) = 0 ∧ (flags &&& env.H5F_ACC_EXCL = 0 ∨ flags &&& env.H5F_ACC_TRUNC = 0) ∧ (H5P_DEFAULT = fcpl_id ∨ TRUE = H5P_isa_class st.ids fcpl_id H5P_class_t.H5P_FILE_CREATE) ∧ (H5P_DEFAULT = fapl_id ∨ TRUE = H5P_isa_class st.ids fapl_id H5P_class_t.H5P_FILE_ACCESS) := by tauto
  split
  · exact ⟨⟨fun _ => hreach, fun _ => List.cons_ne_nil _ _⟩,
      fun ev hev => by rw [List.mem_singleton.mp hev]⟩
  · split
    · exact ⟨⟨fun _ => hreach, fun _ => List.cons_ne_nil _ _⟩,
        fun ev hev => by rw [List.mem_singleton.mp hev]⟩
    · exact ⟨⟨fun _ => hreach, fun _ => List.cons_ne_nil _ _⟩,
        fun ev hev => by rw [List.mem_singleton.mp hev]⟩

theorem H5Fopen_ff_reach {σ : Type} (env : H5_env σ) (st : H5_state σ)
    (filename : Option String) (flags : Nat) (fapl_id eq_id : hid_t) :
    (((H5Fopen_ff env st filename flags fapl_id eq_id).calls ≠ [] ↔
          (filename ≠ none ∧ filename ≠ some "") ∧
          flags &&& H5_bitnot32 env.H5F_ACC_PUBLIC_FLAGS = 0 ∧
          flags &&& env.H5F_ACC_TRUNC = 0 ∧
          flags &&& env.H5F_ACC_EXCL = 0 ∧
          (H5P_DEFAULT = fapl_id ∨ TRUE = H5P_isa_class st.ids fapl_id H5P_class_t.H5P_FILE_ACCESS)) ∧
      (∀ ev ∈ (H5Fopen_ff env st filename flags fapl_id eq_id).calls, ev.call = H5VL_call.file_open (filename.getD "") flags
          (if H5P_DEFAULT = fapl_id then env.H5P_FILE_ACCESS_DEFAULT else fapl_id)
          env.H5AC_dxpl_id eq_id)) := by
  unfold H5Fopen_ff
  dsimp only
  by_cases hc0 : filename = none ∨ filename = some ""
  · rw [if_pos hc0]
    refine ⟨⟨fun h => absurd rfl h, fun h => ?_⟩, fun ev hev => absurd hev (List.not_mem_nil ev)⟩
    exfalso
    tauto
  rw [if_neg hc0]
  by_cases hc1 : flags &&& H5_bitnot32 env.H5F_ACC_PUBLIC_FLAGS ≠ 0 ∨
      flags &&& env.H5F_ACC_TRUNC ≠ 0 ∨ flags &&& env.H5F_ACC_EXCL ≠ 0
  · rw [if_pos hc1]
    refine ⟨⟨fun h => absurd rfl h, fun h => ?_⟩, fun ev hev => absurd hev (List.not_mem_nil ev)⟩
    exfalso
    tauto
  rw [if_neg hc1]
  by_cases hc2 : H5P_DEFAULT ≠ fapl_id ∧ TRUE ≠ H5P_isa_class st.ids fapl_id H5P_class_t.H5P_FILE_ACCESS
  · rw [if_pos hc2]
    refine ⟨⟨fun h => absurd rfl h, fun h => ?_⟩, fun ev hev => absurd hev (List.not_mem_nil ev)⟩
    exfalso
    tauto
  rw [if_neg hc2]
  have hreach : (filename ≠ none ∧ filename ≠ some "") ∧ flags &&& H5_bitnot32 env.H5F_ACC_PUBLIC_FLAGS = 0 ∧ flags &&& env.H5F_ACC_TRUNC = 0 ∧ flags &&& env.H5F_ACC_EXCL = 0 ∧ (H5P_DEFAULT = fapl_id ∨ TRUE = H5P_isa_class st.ids fapl_id H5P_class_t.H5P_FILE_ACCESS) := by tauto
  split
  · exact ⟨⟨fun _ => hreach, fun _ => List.cons_ne_nil _ _⟩,
      fun ev hev => by rw [List.mem_singleton.mp hev]⟩
  · split
    · exact ⟨⟨fun _ => hreach, fun _ => List.cons_ne_nil _ _⟩,
        fun ev hev => by rw [List.mem_singleton.mp hev]⟩
    · exact ⟨⟨fun _ => hreach, fun _ => List.cons_ne_nil _ _⟩,
        fun ev hev => by rw [List.mem_singleton.mp hev]⟩

theorem H5Gopen_ff_reach {σ : Type} (env : H5_env σ) (st : H5_state σ)
    (loc_id : hid_t) (name : Option String) (gapl_id : hid_t) (trans : Nat)
    (eq_id : hid_t) :
    (((H5Gopen_ff env st loc_id name gapl_id trans eq_id).calls ≠ [] ↔
          (name ≠ none ∧ name ≠ some "") ∧
          (H5P_DEFAULT = gapl_id ∨ TRUE = H5P_isa_class st.ids gapl_id H5P_class_t.H5P_GROUP_ACCESS) ∧
          H5I_object st.ids loc_id ≠ none ∧
          H5I_get_aux st.ids loc_id ≠ none) ∧
      (∀ ev ∈ (H5Gopen_ff env st loc_id name gapl_id trans eq_id).calls, ∃ obj lp vp, ev.call = H5VL_call.group_open obj lp vp (name.getD "")
          (if H5P_DEFAULT = gapl_id then env.H5P_GROUP_ACCESS_DEFAULT else gapl_id)
          env.H5AC_dxpl_id eq_id)) := by
  unfold H5Gopen_ff
  dsimp only
  by_cases hc0 : name = none ∨ name = some ""
  · rw [if_pos hc0]
    refine ⟨⟨fun h => absurd rfl h, fun h => ?_⟩, fun ev hev => absurd hev (List.not_mem_nil ev)⟩
    exfalso
    tauto
  rw [if_neg hc0]
  by_cases hc1 : H5P_DEFAULT ≠ gapl_id ∧ TRUE ≠ H5P_isa_class st.ids gapl_id H5P_class_t.H5P_GROUP_ACCESS
  · rw [if_pos hc1]
    refine ⟨⟨fun h => absurd rfl h, fun h => ?_⟩, fun ev hev => absurd hev (List.not_mem_nil ev)⟩
    exfalso
    tauto
  rw [if_neg hc1]
  split
  · rename_i h1
    refine ⟨⟨fun h => absurd rfl h, fun h => ?_⟩, fun ev hev => absurd hev (List.not_mem_nil ev)⟩
    exact absurd h1 h.2.2.1
  rename_i obj h1
  split
  · rename_i h2
    refine ⟨⟨fun h => absurd rfl h, fun h => ?_⟩, fun ev hev => absurd hev (List.not_mem_nil ev)⟩
    exact absurd h2 h.2.2.2
  rename_i vp h2
  have hreach : (name ≠ none ∧ name ≠ some "") ∧ (H5P_DEFAULT = gapl_id ∨ TRUE = H5P_isa_class st.ids gapl_id H5P_class_t.H5P_GROUP_ACCESS) ∧ H5I_object st.ids loc_id ≠ none ∧ H5I_get_aux st.ids loc_id ≠ none := by
    refine ⟨by tauto, by tauto, ?_, ?_⟩
    · rw [h1]; exact Option.some_ne_none _
    · rw [h2]; exact Option.some_ne_none _
  split
  · exact ⟨⟨fun _ => hreach, fun _ => List.cons_ne_nil _ _⟩,
      fun ev hev => ⟨obj, { type := H5VL_loc_type_t.H5VL_OBJECT_BY_SELF, obj_type := H5I_get_type st.ids loc_id },
        vp, by rw [List.mem_singleton.mp hev]⟩⟩
  · split
    · exact ⟨⟨fun _ => hreach, fun _ => List.cons_ne_nil _ _⟩,
        fun ev hev => ⟨obj, { type := H5VL_loc_type_t.H5VL_OBJECT_BY_SELF, obj_type := H5I_get_type st.ids loc_id },
        vp, by rw [List.mem_singleton.mp hev]⟩⟩
    · exact ⟨⟨fun _ => hreach, fun _ => List.cons_ne_nil _ _⟩,
        fun ev hev => ⟨obj, { type := H5VL_loc_type_t.H5VL_OBJECT_BY_SELF, obj_type := H5I_get_type st.ids loc_id },
        vp, by rw [List.mem_singleton.mp hev]⟩⟩

theorem H5Dopen_ff_reach {σ : Type} (env : H5_env σ) (st : H5_state σ)
    (loc_id : hid_t) (name : Option String) (dapl_id : hid_t) (trans : Nat)
    (eq_id : hid_t) :
    (((H5Dopen_ff env st loc_id name dapl_id trans eq_id).calls ≠ [] ↔
          (name ≠ none ∧ name ≠ some "") ∧
          (H5P_DEFAULT = dapl_id ∨ TRUE = H5P_isa_class st.ids dapl_id H5P_class_t.H5P_DATASET_ACCESS) ∧
          H5VL_get_object st.ids loc_id ≠ none ∧
          H5I_get_aux st.ids loc_id ≠ none) ∧
      (∀ ev ∈ (H5Dopen_ff env st loc_id name dapl_id trans eq_id).calls, ev.call.is_close = false →
        ∃ obj lp vp, ev.call = H5VL_call.dataset_open obj lp vp (name.getD "")
          (if H5P_DEFAULT = dapl_id then env.H5P_DATASET_ACCESS_DEFAULT else dapl_id)
          env.H5AC_dxpl_id eq_id)) := by
  unfold H5Dopen_ff
  dsimp only
  simp only [H5Dcreate_ff_done_none]
  by_cases hc0 : name = none ∨ name = some ""
  · rw [if_pos hc0]
    refine ⟨⟨fun h => absurd rfl h, fun h => ?_⟩, fun ev hev => absurd hev (List.not_mem_nil ev)⟩
    exfalso
    tauto
  rw [if_neg hc0]
  by_cases hc1 : H5P_DEFAULT ≠ dapl_id ∧ TRUE ≠ H5P_isa_class st.ids dapl_id H5P_class_t.H5P_DATASET_ACCESS
  · rw [if_pos hc1]
    refine ⟨⟨fun h => absurd rfl h, fun h => ?_⟩, fun ev hev => absurd hev (List.not_mem_nil ev)⟩
    exfalso
    tauto
  rw [if_neg hc1]
  split
  · rename_i h1
    refine ⟨⟨fun h => absurd rfl h, fun h => ?_⟩, fun ev hev => absurd hev (List.not_mem_nil ev)⟩
    exact absurd h1 h.2.2.1
  rename_i obj h1
  split
  · rename_i h2
    refine ⟨⟨fun h => absurd rfl h, fun h => ?_⟩, fun ev hev => absurd hev (List.not_mem_nil ev)⟩
    exact absurd h2 h.2.2.2
  rename_i vp h2
  have hreach : (name ≠ none ∧ name ≠ some "") ∧ (H5P_DEFAULT = dapl_id ∨ TRUE = H5P_isa_class st.ids dapl_id H5P_class_t.H5P_DATASET_ACCESS) ∧ H5VL_get_object st.ids loc_id ≠ none ∧ H5I_get_aux st.ids loc_id ≠ none := by
    refine ⟨by tauto, by tauto, ?_, ?_⟩
    · rw [h1]; exact Option.some_ne_none _
    · rw [h2]; exact Option.some_ne_none _
  split
  · exact ⟨⟨fun _ => hreach, fun _ => List.cons_ne_nil _ _⟩,
      fun ev hev _ => ⟨obj, { type := H5VL_loc_type_t.H5VL_OBJECT_BY_SELF, obj_type := H5I_get_type st.ids loc_id },
        vp, by rw [List.mem_singleton.mp hev]⟩⟩
  · rename_i dset hb
    split
    · rename_i hreg
      obtain ⟨hcalls, _, _, _⟩ := H5Dcreate_ff_done_fail env
        (HGOTO_ERROR
          { ids := (H5I_register2 st.ids H5I_type_t.H5I_DATASET (H5_object.token dset)
              (some vp) true).2,
            vol := (env.vol.H5VL_dataset_open st.vol st.ids obj
              { type := H5VL_loc_type_t.H5VL_OBJECT_BY_SELF,
                obj_type := H5I_get_type st.ids loc_id }
              vp (name.getD "") (if H5P_DEFAULT = dapl_id then env.H5P_DATASET_ACCESS_DEFAULT else dapl_id)
              env.H5AC_dxpl_id eq_id).2 }
          [{ call := H5VL_call.dataset_open obj
               { type := H5VL_loc_type_t.H5VL_OBJECT_BY_SELF,
                 obj_type := H5I_get_type st.ids loc_id }
               vp (name.getD "") (if H5P_DEFAULT = dapl_id then env.H5P_DATASET_ACCESS_DEFAULT else dapl_id)
               env.H5AC_dxpl_id eq_id,
             ids := st.ids,
             ret := H5VL_ret.ptr (env.vol.H5VL_dataset_open st.vol st.ids obj
               { type := H5VL_loc_type_t.H5VL_OBJECT_BY_SELF,
                 obj_type := H5I_get_type st.ids loc_id }
               vp (name.getD "") (if H5P_DEFAULT = dapl_id then env.H5P_DATASET_ACCESS_DEFAULT else dapl_id)
               env.H5AC_dxpl_id eq_id).1 }]
          [] H5E_major.H5E_ATOM H5E_minor.H5E_CANTREGISTER "unable to atomize dataset handle")
        dset vp eq_id rfl
      rw [hcalls]
      refine ⟨⟨fun _ => hreach, fun _ => by simp [HGOTO_ERROR]⟩, fun ev hev hcl => ?_⟩
      simp only [HGOTO_ERROR, List.singleton_append, List.mem_cons, List.mem_singleton,
        List.not_mem_nil, or_false] at hev
      rcases hev with hev | hev
      · exact ⟨obj, { type := H5VL_loc_type_t.H5VL_OBJECT_BY_SELF, obj_type := H5I_get_type st.ids loc_id },
          vp, by rw [hev]⟩
      · rw [hev] at hcl
        exact absurd hcl (by simp [H5VL_call.is_close])
    · rename_i hreg
      rw [H5Dcreate_ff_done_ok _ _ _ _ _ hreg]
      exact ⟨⟨fun _ => hreach, fun _ => List.cons_ne_nil _ _⟩,
        fun ev hev _ => ⟨obj, { type := H5VL_loc_type_t.H5VL_OBJECT_BY_SELF, obj_type := H5I_get_type st.ids loc_id },
        vp, by rw [List.mem_singleton.mp hev]⟩⟩

theorem H5Dwrite_ff_reach {σ : Type} (env : H5_env σ) (st : H5_state σ)
    (dset_id mem_type_id mem_space_id file_space_id dxpl_id : hid_t)
    (buf : List Nat) (trans : Nat) (eq_id : hid_t) :
    (((H5Dwrite_ff env st dset_id mem_type_id mem_space_id file_space_id dxpl_id buf trans eq_id).calls ≠ [] ↔
          dset_id ≠ 0 ∧
          (H5P_DEFAULT = dxpl_id ∨ TRUE = H5P_isa_class st.ids dxpl_id H5P_class_t.H5P_DATASET_XFER) ∧
          H5I_get_aux st.ids dset_id ≠ none ∧
          H5I_object st.ids dset_id ≠ none) ∧
      (∀ ev ∈ (H5Dwrite_ff env st dset_id mem_type_id mem_space_id file_space_id dxpl_id buf trans eq_id).calls, ∃ dset vp, ev.call = H5VL_call.dataset_write dset vp mem_type_id mem_space_id
          file_space_id (if H5P_DEFAULT = dxpl_id then env.H5P_DATASET_XFER_DEFAULT else dxpl_id)
          buf eq_id)) := by
  unfold H5Dwrite_ff
  dsimp only
  by_cases hc0 : dset_id = 0
  · rw [if_pos hc0]
    refine ⟨⟨fun h => absurd rfl h, fun h => ?_⟩, fun ev hev => absurd hev (List.not_mem_nil ev)⟩
    exfalso
    tauto
  rw [if_neg hc0]
  by_cases hc1 : H5P_DEFAULT ≠ dxpl_id ∧ TRUE ≠ H5P_isa_class st.ids dxpl_id H5P_class_t.H5P_DATASET_XFER
  · rw [if_pos hc1]
    refine ⟨⟨fun h => absurd rfl h, fun h => ?_⟩, fun ev hev => absurd hev (List.not_mem_nil ev)⟩
    exfalso
    tauto
  rw [if_neg hc1]
  generalize (if H5P_DEFAULT = dxpl_id then env.H5P_DATASET_XFER_DEFAULT else dxpl_id) = dxpl
  split
  · rename_i h1
    refine ⟨⟨fun h => absurd rfl h, fun h => ?_⟩, fun ev hev => absurd hev (List.not_mem_nil ev)⟩
    exact absurd h1 h.2.2.1
  rename_i vp h1
  split
  · rename_i h2
    refine ⟨⟨fun h => absurd rfl h, fun h => ?_⟩, fun ev hev => absurd hev (List.not_mem_nil ev)⟩
    exact absurd h2 h.2.2.2
  rename_i dset h2
  have hreach : dset_id ≠ 0 ∧ (H5P_DEFAULT = dxpl_id ∨ TRUE = H5P_isa_class st.ids dxpl_id H5P_class_t.H5P_DATASET_XFER) ∧ H5I_get_aux st.ids dset_id ≠ none ∧ H5I_object st.ids dset_id ≠ none := by
    refine ⟨by tauto, by tauto, ?_, ?_⟩
    · rw [h1]; exact Option.some_ne_none _
    · rw [h2]; exact Option.some_ne_none _
  split
  · exact ⟨⟨fun _ => hreach, fun _ => List.cons_ne_nil _ _⟩,
      fun ev hev => ⟨dset, vp, by rw [List.mem_singleton.mp hev]⟩⟩
  · exact ⟨⟨fun _ => hreach, fun _ => List.cons_ne_nil _ _⟩,
      fun ev hev => ⟨dset, vp, by rw [List.mem_singleton.mp hev]⟩⟩

theorem H5Dread_ff_reach {σ : Type} (env : H5_env σ) (st : H5_state σ)
    (dset_id mem_type_id mem_space_id file_space_id dxpl_id : hid_t)
    (buf : List Nat) (trans : Nat) (eq_id : hid_t) :
    (((H5Dread_ff env st dset_id mem_type_id mem_space_id file_space_id dxpl_id buf trans eq_id).calls ≠ [] ↔
          (¬ mem_space_id < 0 ∧ ¬ file_space_id < 0) ∧
          (H5P_DEFAULT = dxpl_id ∨ TRUE = H5P_isa_class st.ids dxpl_id H5P_class_t.H5P_DATASET_XFER) ∧
          H5I_get_aux st.ids dset_id ≠ none ∧
          H5I_object st.ids dset_id ≠ none) ∧
      (∀ ev ∈ (H5Dread_ff env st dset_id mem_type_id mem_space_id file_space_id dxpl_id buf trans eq_id).calls, ∃ dset vp, ev.call = H5VL_call.dataset_read dset vp mem_type_id mem_space_id
          file_space_id (if H5P_DEFAULT = dxpl_id then env.H5P_DATASET_XFER_DEFAULT else dxpl_id)
          buf eq_id)) := by
  unfold H5Dread_ff
  dsimp only
  by_cases hc0 : mem_space_id < 0 ∨ file_space_id < 0
  · rw [if_pos hc0]
    refine ⟨⟨fun h => absurd rfl h, fun h => ?_⟩, fun ev hev => absurd hev (List.not_mem_nil ev)⟩
    exfalso
    tauto
  rw [if_neg hc0]
  by_cases hc1 : H5P_DEFAULT ≠ dxpl_id ∧ TRUE ≠ H5P_isa_class st.ids dxpl_id H5P_class_t.H5P_DATASET_XFER
  · rw [if_pos hc1]
    refine ⟨⟨fun h => absurd rfl h, fun h => ?_⟩, fun ev hev => absurd hev (List.not_mem_nil ev)⟩
    exfalso
    tauto
  rw [if_neg hc1]
  generalize (if H5P_DEFAULT = dxpl_id then env.H5P_DATASET_XFER_DEFAULT else dxpl_id) = dxpl
  split
  · rename_i h1
    refine ⟨⟨fun h => absurd rfl h, fun h => ?_⟩, fun ev hev => absurd hev (List.not_mem_nil ev)⟩
    exact absurd h1 h.2.2.1
  rename_i vp h1
  split
  · rename_i h2
    refine ⟨⟨fun h => absurd rfl h, fun h => ?_⟩, fun ev hev => absurd hev (List.not_mem_nil ev)⟩
    exact absurd h2 h.2.2.2
  rename_i dset h2
  have hreach : (¬ mem_space_id < 0 ∧ ¬ file_space_id < 0) ∧ (H5P_DEFAULT = dxpl_id ∨ TRUE = H5P_isa_class st.ids dxpl_id H5P_class_t.H5P_DATASET_XFER) ∧ H5I_get_aux st.ids dset_id ≠ none ∧ H5I_object st.ids dset_id ≠ none := by
    refine ⟨by tauto, by tauto, ?_, ?_⟩
    · rw [h1]; exact Option.some_ne_none _
    · rw [h2]; exact Option.some_ne_none _
  split
  · exact ⟨⟨fun _ => hreach, fun _ => List.cons_ne_nil _ _⟩,
      fun ev hev => ⟨dset, vp, by rw [List.mem_singleton.mp hev]⟩⟩
  · exact ⟨⟨fun _ => hreach, fun _ => List.cons_ne_nil _ _⟩,
      fun ev hev => ⟨dset, vp, by rw [List.mem_singleton.mp hev]⟩⟩

theorem H5P_props_set_lookup (key : H5P_key) (value : hid_t) (props : List (H5P_key × hid_t))
    (h : (props.lookup key).isSome) : (H5P_props_set key value props).lookup key = some value := by
  induction props with
  | nil => simp at h
  | cons a rest ih =>
    obtain ⟨k, v⟩ := a
    by_cases hk : k = key
    · subst hk
      simp [H5P_props_set, List.lookup]
    · have hk2 : (key == k) = false := by
        simp only [beq_eq_false_iff_ne, ne_eq]
        exact fun h2 => hk h2.symm
      simp only [H5P_props_set, if_neg hk, List.lookup, hk2] at h ⊢
      exact ih h

theorem H5P_set_none {ids : H5I_registry} {plist_id : hid_t} (key : H5P_key) (value : hid_t)
    (h : H5I_object ids plist_id = none) : H5P_set ids plist_id key value = (FAIL, ids) := by
  unfold H5P_set
  rw [h]

theorem H5P_set_get {ids ids1 : H5I_registry} {plist_id : hid_t} {key : H5P_key}
    {value : hid_t} (h : H5P_set ids plist_id key value = (SUCCEED, ids1)) :
    H5P_get ids1 plist_id key = some value := by
  unfold H5P_set at h
  cases ho : H5I_object ids plist_id with
  | none =>
    rw [ho] at h
    have h1 : FAIL = SUCCEED := congrArg Prod.fst h
    exact absurd h1 (by decide)
  | some o =>
    cases o with
    | token t =>
      rw [ho] at h
      have h1 : FAIL = SUCCEED := congrArg Prod.fst h
      exact absurd h1 (by decide)
    | plist p =>
      rw [ho] at h
      by_cases hk : (p.props.lookup key).isSome
      · simp only [hk, if_true] at h
        have h2 := congrArg Prod.snd h
        simp only at h2
        subst h2
        simp only [H5I_object, H5I_find_id] at ho
        cases hf : ids.entries.find? (fun e => decide (e.id = plist_id)) with
        | none => rw [hf] at ho; cases ho
        | some e =>
          simp only [H5P_get, H5I_object, H5I_find_id, H5I_subst_find, hf, Option.map_some',
            if_true]
          exact H5P_props_set_lookup key value p.props hk
      · simp only [hk] at h
        have h1 : FAIL = SUCCEED := congrArg Prod.fst h
        exact absurd h1 (by decide)

theorem H5P_set_object_none {ids ids1 : H5I_registry} {plist_id : hid_t} {key : H5P_key}
    {value : hid_t} {rc : herr_t} (h : H5P_set ids plist_id key value = (rc, ids1))
    (id : hid_t) :
    (H5I_object ids1 id = none ↔ H5I_object ids id = none) ∧
    (H5VL_get_object ids1 id = none ↔ H5VL_get_object ids id = none) := by
  have h2 : ids1 = (H5P_set ids plist_id key value).2 := by rw [h]
  subst h2
  obtain ⟨f, hf⟩ := H5P_set_find ids plist_id key value id
  simp only [H5I_object, H5VL_get_object, hf]
  cases H5I_find_id ids id <;> simp

theorem H5Gcreate_ff_vol_calls {σ : Type} (env : H5_env σ) (st : H5_state σ) (loc_id : hid_t)
    (name : String) (gcpl_id gapl_id eq_id : hid_t) :
    ((H5I_object st.ids loc_id = none ∨ H5I_get_aux st.ids loc_id = none) ∧
      (H5Gcreate_ff_vol env st loc_id name gcpl_id gapl_id eq_id).calls = []) ∨
    (∃ obj vp ret rest, H5I_object st.ids loc_id = some obj ∧
      H5I_get_aux st.ids loc_id = some vp ∧
      (H5Gcreate_ff_vol env st loc_id name gcpl_id gapl_id eq_id).calls =
          { call := H5VL_call.group_create obj
               { type := H5VL_loc_type_t.H5VL_OBJECT_BY_SELF, obj_type := H5I_get_type st.ids loc_id }
               vp name gcpl_id gapl_id env.H5AC_dxpl_id eq_id,
             ids := st.ids, ret := ret } :: rest ∧
      ∀ ev ∈ rest, ev.call.is_close = true ∧ ev.ids = st.ids) := by
  rcases H5Gcreate_ff_vol_cases env st loc_id name gcpl_id gapl_id eq_id with
    ⟨hno, msg, hr⟩ | ⟨obj, vp, b, ev, hobj, haux, _, hev, ⟨_, hr⟩ | ⟨grp, _, _, hr⟩ |
      ⟨grp, _, _, hr⟩⟩
  · exact Or.inl ⟨hno, by rw [hr]; rfl⟩
  · refine Or.inr ⟨obj, vp, H5VL_ret.ptr b.1, [], hobj, haux, ?_, fun e he => absurd he (List.not_mem_nil e)⟩
    rw [hr, hev]; rfl
  · obtain ⟨h1, _, _, _⟩ := H5Gcreate_ff_done_fail env
      (HGOTO_ERROR { ids := st.ids, vol := b.2 } [ev] [] H5E_major.H5E_ATOM
        H5E_minor.H5E_CANTREGISTER "unable to atomize dataset handle") grp vp eq_id rfl
    refine Or.inr ⟨obj, vp, H5VL_ret.ptr b.1,
      [{ call := H5VL_call.group_close grp vp env.H5AC_dxpl_id eq_id, ids := st.ids,
         ret := H5VL_ret.status
           (env.vol.H5VL_group_close b.2 st.ids grp vp env.H5AC_dxpl_id eq_id).1 }],
      hobj, haux, ?_, ?_⟩
    · rw [hr, h1, hev]; rfl
    · intro e he
      rw [List.mem_singleton.mp he]
      exact ⟨rfl, rfl⟩
  · refine Or.inr ⟨obj, vp, H5VL_ret.ptr b.1, [], hobj, haux, ?_, fun e he => absurd he (List.not_mem_nil e)⟩
    rw [hr, hev]

theorem H5Dcreate_ff_vol_calls {σ : Type} (env : H5_env σ) (st : H5_state σ) (loc_id : hid_t)
    (name : String) (dcpl_id dapl_id eq_id : hid_t) :
    ((H5VL_get_object st.ids loc_id = none ∨ H5I_get_aux st.ids loc_id = none) ∧
      (H5Dcreate_ff_vol env st loc_id name dcpl_id dapl_id eq_id).calls = []) ∨
    (∃ obj vp ret rest, H5VL_get_object st.ids loc_id = some obj ∧
      H5I_get_aux st.ids loc_id = some vp ∧
      (H5Dcreate_ff_vol env st loc_id name dcpl_id dapl_id eq_id).calls =
          { call := H5VL_call.dataset_create obj
               { type := H5VL_loc_type_t.H5VL_OBJECT_BY_SELF, obj_type := H5I_get_type st.ids loc_id }
               vp name dcpl_id dapl_id env.H5AC_dxpl_id eq_id,
             ids := st.ids, ret := ret } :: rest ∧
      ∀ ev ∈ rest, ev.call.is_close = true ∧ ev.ids = st.ids) := by
  rcases H5Dcreate_ff_vol_cases env st loc_id name dcpl_id dapl_id eq_id with
    ⟨hno, msg, hr⟩ | ⟨obj, vp, b, ev, hobj, haux, _, hev, ⟨_, hr⟩ | ⟨dset, _, _, hr⟩ |
      ⟨dset, _, _, hr⟩⟩
  · exact Or.inl ⟨hno, by rw [hr]; rfl⟩
  · refine Or.inr ⟨obj, vp, H5VL_ret.ptr b.1, [], hobj, haux, ?_, fun e he => absurd he (List.not_mem_nil e)⟩
    rw [hr, hev]; rfl
  · obtain ⟨h1, _, _, _⟩ := H5Dcreate_ff_done_fail env
      (HGOTO_ERROR { ids := st.ids, vol := b.2 } [ev] [] H5E_major.H5E_ATOM
        H5E_minor.H5E_CANTREGISTER "unable to atomize dataset handle") dset vp eq_id rfl
    refine Or.inr ⟨obj, vp, H5VL_ret.ptr b.1,
      [{ call := H5VL_call.dataset_close dset vp env.H5AC_dxpl_id eq_id, ids := st.ids,
         ret := H5VL_ret.status
           (env.vol.H5VL_dataset_close b.2 st.ids dset vp env.H5AC_dxpl_id eq_id).1 }],
      hobj, haux, ?_, ?_⟩
    · rw [hr, h1, hev]; rfl
    · intro e he
      rw [List.mem_singleton.mp he]
      exact ⟨rfl, rfl⟩
  · refine Or.inr ⟨obj, vp, H5VL_ret.ptr b.1, [], hobj, haux, ?_, fun e he => absurd he (List.not_mem_nil e)⟩
    rw [hr, hev]

theorem H5Gcreate_ff_reach {σ : Type} (env : H5_env σ) (st : H5_state σ)
    (loc_id : hid_t) (name : Option String) (lcpl_id gcpl_id gapl_id : hid_t)
    (trans : Nat) (eq_id : hid_t) :
    (((H5Gcreate_ff env st loc_id name lcpl_id gcpl_id gapl_id trans eq_id).calls ≠ [] ↔
          (name ≠ none ∧ name ≠ some "") ∧
          (H5P_DEFAULT = lcpl_id ∨ TRUE = H5P_isa_class st.ids lcpl_id H5P_class_t.H5P_LINK_CREATE) ∧
          (H5P_DEFAULT = gcpl_id ∨ TRUE = H5P_isa_class st.ids gcpl_id H5P_class_t.H5P_GROUP_CREATE) ∧
          (H5P_DEFAULT = gapl_id ∨ TRUE = H5P_isa_class st.ids gapl_id H5P_class_t.H5P_GROUP_ACCESS) ∧
          (∃ ids1, H5P_set st.ids
              (if H5P_DEFAULT = gcpl_id then env.H5P_GROUP_CREATE_DEFAULT else gcpl_id)
              H5P_key.H5VL_GRP_LCPL_ID
              (if H5P_DEFAULT = lcpl_id then env.H5P_LINK_CREATE_DEFAULT else lcpl_id) =
            (SUCCEED, ids1)) ∧
          H5I_object st.ids loc_id ≠ none ∧ H5I_get_aux st.ids loc_id ≠ none) ∧
      (∀ ev ∈ (H5Gcreate_ff env st loc_id name lcpl_id gcpl_id gapl_id trans eq_id).calls,
        ev.call.is_close = false →
        ∃ obj lp vp, ev.call = H5VL_call.group_create obj lp vp (name.getD "")
          (if H5P_DEFAULT = gcpl_id then env.H5P_GROUP_CREATE_DEFAULT else gcpl_id)
          (if H5P_DEFAULT = gapl_id then env.H5P_GROUP_ACCESS_DEFAULT else gapl_id)
          env.H5AC_dxpl_id eq_id) ∧
      (∀ ev ∈ (H5Gcreate_ff env st loc_id name lcpl_id gcpl_id gapl_id trans eq_id).calls,
        H5P_get ev.ids (if H5P_DEFAULT = gcpl_id then env.H5P_GROUP_CREATE_DEFAULT else gcpl_id)
          H5P_key.H5VL_GRP_LCPL_ID =
          some (if H5P_DEFAULT = lcpl_id then env.H5P_LINK_CREATE_DEFAULT else lcpl_id))) := by
  unfold H5Gcreate_ff
  dsimp only
  simp only [H5Gcreate_ff_done_none]
  by_cases hc0 : name = none ∨ name = some ""
  · rw [if_pos hc0]
    refine ⟨⟨fun h => absurd rfl h, fun h => ?_⟩, fun ev hev => absurd hev (List.not_mem_nil ev),
      fun ev hev => absurd hev (List.not_mem_nil ev)⟩
    exfalso
    tauto
  rw [if_neg hc0]
  by_cases hc1 : H5P_DEFAULT ≠ lcpl_id ∧ TRUE ≠ H5P_isa_class st.ids lcpl_id H5P_class_t.H5P_LINK_CREATE
  · rw [if_pos hc1]
    refine ⟨⟨fun h => absurd rfl h, fun h => ?_⟩, fun ev hev => absurd hev (List.not_mem_nil ev),
      fun ev hev => absurd hev (List.not_mem_nil ev)⟩
    exfalso
    tauto
  rw [if_neg hc1]
  by_cases hc2 : H5P_DEFAULT ≠ gcpl_id ∧ TRUE ≠ H5P_isa_class st.ids gcpl_id H5P_class_t.H5P_GROUP_CREATE
  · rw [if_pos hc2]
    refine ⟨⟨fun h => absurd rfl h, fun h => ?_⟩, fun ev hev => absurd hev (List.not_mem_nil ev),
      fun ev hev => absurd hev (List.not_mem_nil ev)⟩
    exfalso
    tauto
  rw [if_neg hc2]
  by_cases hc3 : H5P_DEFAULT ≠ gapl_id ∧ TRUE ≠ H5P_isa_class st.ids gapl_id H5P_class_t.H5P_GROUP_ACCESS
  · rw [if_pos hc3]
    refine ⟨⟨fun h => absurd rfl h, fun h => ?_⟩, fun ev hev => absurd hev (List.not_mem_nil ev),
      fun ev hev => absurd hev (List.not_mem_nil ev)⟩
    exfalso
    tauto
  rw [if_neg hc3]
  obtain ⟨nm, hnm, _, hget⟩ := H5_name_ok hc0
  rw [hget]
  generalize (if H5P_DEFAULT = lcpl_id then env.H5P_LINK_CREATE_DEFAULT else lcpl_id) = lcpl
  generalize (if H5P_DEFAULT = gcpl_id then env.H5P_GROUP_CREATE_DEFAULT else gcpl_id) = gcpl
  generalize (if H5P_DEFAULT = gapl_id then env.H5P_GROUP_ACCESS_DEFAULT else gapl_id) = gapl
  cases hobj : H5I_object st.ids gcpl with
  | none =>
    refine ⟨⟨fun h => absurd rfl h, fun h => ?_⟩, fun ev hev => absurd hev (List.not_mem_nil ev),
      fun ev hev => absurd hev (List.not_mem_nil ev)⟩
    obtain ⟨_, _, _, _, ⟨ids1, hs⟩, _⟩ := h
    rw [H5P_set_none _ _ hobj] at hs
    have h1 : FAIL = SUCCEED := congrArg Prod.fst hs
    exact absurd h1 (by decide)
  | some o =>
    dsimp only
    by_cases hset : (H5P_set st.ids gcpl H5P_key.H5VL_GRP_LCPL_ID lcpl).1 < 0
    · rw [if_pos hset]
      refine ⟨⟨fun h => absurd rfl h, fun h => ?_⟩, fun ev hev => absurd hev (List.not_mem_nil ev),
      fun ev hev => absurd hev (List.not_mem_nil ev)⟩
      obtain ⟨_, _, _, _, ⟨ids1, hs⟩, _⟩ := h
      rw [hs] at hset
      have hlt : SUCCEED < 0 := hset
      exact absurd hlt (by decide)
    · rw [if_neg hset]
      have hs := H5P_set_ok hset
      generalize (H5P_set st.ids gcpl H5P_key.H5VL_GRP_LCPL_ID lcpl).2 = ids1 at hs ⊢
      have hnone := H5P_set_object_none hs loc_id
      have haux := (H5P_set_eq_ids hs).2 loc_id
      rcases H5Gcreate_ff_vol_calls env { ids := ids1, vol := st.vol } loc_id nm gcpl gapl
          eq_id with
        ⟨hno, hc⟩ | ⟨obj, vp, ret, rest, ho, ha, hc, hrest⟩
      · rw [hc]
        refine ⟨⟨fun h => absurd rfl h, fun h => ?_⟩, fun ev hev => absurd hev (List.not_mem_nil ev),
      fun ev hev => absurd hev (List.not_mem_nil ev)⟩
        obtain ⟨_, _, _, _, _, h5, h6⟩ := h
        exfalso
        rcases hno with hno | hno
        · exact h5 (hnone.1.mp hno)
        · exact h6 (by rw [← haux]; exact hno)
      · rw [hc]
        refine ⟨⟨fun _ => ⟨?_, by tauto, by tauto, by tauto, ⟨ids1, hs⟩, ?_, ?_⟩,
          fun _ => List.cons_ne_nil _ _⟩, ?_, ?_⟩
        · rw [hnm]; exact ⟨Option.some_ne_none _, fun h2 => by cases h2; contradiction⟩
        · intro h2
          have h3 := hnone.1.mpr h2
          dsimp only at ho
          rw [ho] at h3
          cases h3
        · intro h2
          rw [← haux] at h2
          dsimp only at ha
          rw [ha] at h2
          cases h2
        · intro ev hev hcl
          rcases List.mem_cons.mp hev with hev | hev
          · exact ⟨obj, _, vp, by rw [hev]⟩
          · rw [(hrest ev hev).1] at hcl
            cases hcl
        · intro ev hev
          rcases List.mem_cons.mp hev with hev | hev
          · rw [hev]; exact H5P_set_get hs
          · rw [(hrest ev hev).2]; exact H5P_set_get hs

theorem H5Dcreate_ff_reach {σ : Type} (env : H5_env σ) (st : H5_state σ)
    (loc_id : hid_t) (name : Option String)
    (type_id space_id lcpl_id dcpl_id dapl_id : hid_t) (trans : Nat) (eq_id : hid_t) :
    (((H5Dcreate_ff env st loc_id name type_id space_id lcpl_id dcpl_id dapl_id trans eq_id).calls ≠ [] ↔
          (name ≠ none ∧ name ≠ some "") ∧
          (H5P_DEFAULT = lcpl_id ∨ TRUE = H5P_isa_class st.ids lcpl_id H5P_class_t.H5P_LINK_CREATE) ∧
          (H5P_DEFAULT = dcpl_id ∨ TRUE = H5P_isa_class st.ids dcpl_id H5P_class_t.H5P_DATASET_CREATE) ∧
          (H5P_DEFAULT = dapl_id ∨ TRUE = H5P_isa_class st.ids dapl_id H5P_class_t.H5P_DATASET_ACCESS) ∧
          (∃ ids1 ids2 ids3,
            H5P_set st.ids
              (if H5P_DEFAULT = dcpl_id then env.H5P_DATASET_CREATE_DEFAULT else dcpl_id)
              H5P_key.H5VL_DSET_TYPE_ID type_id = (SUCCEED, ids1) ∧
            H5P_set ids1
              (if H5P_DEFAULT = dcpl_id then env.H5P_DATASET_CREATE_DEFAULT else dcpl_id)
              H5P_key.H5VL_DSET_SPACE_ID space_id = (SUCCEED, ids2) ∧
            H5P_set ids2
              (if H5P_DEFAULT = dcpl_id then env.H5P_DATASET_CREATE_DEFAULT else dcpl_id)
              H5P_key.H5VL_DSET_LCPL_ID
              (if H5P_DEFAULT = lcpl_id then env.H5P_LINK_CREATE_DEFAULT else lcpl_id) =
              (SUCCEED, ids3)) ∧
          H5VL_get_object st.ids loc_id ≠ none ∧ H5I_get_aux st.ids loc_id ≠ none) ∧
      (∀ ev ∈ (H5Dcreate_ff env st loc_id name type_id space_id lcpl_id dcpl_id dapl_id trans eq_id).calls,
        ev.call.is_close = false →
        ∃ obj lp vp, ev.call = H5VL_call.dataset_create obj lp vp (name.getD "")
          (if H5P_DEFAULT = dcpl_id then env.H5P_DATASET_CREATE_DEFAULT else dcpl_id)
          (if H5P_DEFAULT = dapl_id then env.H5P_DATASET_ACCESS_DEFAULT else dapl_id)
          env.H5AC_dxpl_id eq_id) ∧
      (∀ ev ∈ (H5Dcreate_ff env st loc_id name type_id space_id lcpl_id dcpl_id dapl_id trans eq_id).calls,
        H5P_get ev.ids (if H5P_DEFAULT = dcpl_id then env.H5P_DATASET_CREATE_DEFAULT else dcpl_id)
          H5P_key.H5VL_DSET_LCPL_ID =
          some (if H5P_DEFAULT = lcpl_id then env.H5P_LINK_CREATE_DEFAULT else lcpl_id))) := by
  unfold H5Dcreate_ff
  dsimp only
  simp only [H5Dcreate_ff_done_none]
  by_cases hc0 : name = none ∨ name = some ""
  · rw [if_pos hc0]
    refine ⟨⟨fun h => absurd rfl h, fun h => ?_⟩, fun ev hev => absurd hev (List.not_mem_nil ev),
      fun ev hev => absurd hev (List.not_mem_nil ev)⟩
    exfalso
    tauto
  rw [if_neg hc0]
  by_cases hc1 : H5P_DEFAULT ≠ lcpl_id ∧ TRUE ≠ H5P_isa_class st.ids lcpl_id H5P_class_t.H5P_LINK_CREATE
  · rw [if_pos hc1]
    refine ⟨⟨fun h => absurd rfl h, fun h => ?_⟩, fun ev hev => absurd hev (List.not_mem_nil ev),
      fun ev hev => absurd hev (List.not_mem_nil ev)⟩
    exfalso
    tauto
  rw [if_neg hc1]
  by_cases hc2 : H5P_DEFAULT ≠ dcpl_id ∧ TRUE ≠ H5P_isa_class st.ids dcpl_id H5P_class_t.H5P_DATASET_CREATE
  · rw [if_pos hc2]
    refine ⟨⟨fun h => absurd rfl h, fun h => ?_⟩, fun ev hev => absurd hev (List.not_mem_nil ev),
      fun ev hev => absurd hev (List.not_mem_nil ev)⟩
    exfalso
    tauto
  rw [if_neg hc2]
  by_cases hc3 : H5P_DEFAULT ≠ dapl_id ∧ TRUE ≠ H5P_isa_class st.ids dapl_id H5P_class_t.H5P_DATASET_ACCESS
  · rw [if_pos hc3]
    refine ⟨⟨fun h => absurd rfl h, fun h => ?_⟩, fun ev hev => absurd hev (List.not_mem_nil ev),
      fun ev hev => absurd hev (List.not_mem_nil ev)⟩
    exfalso
    tauto
  rw [if_neg hc3]
  obtain ⟨nm, hnm, _, hget⟩ := H5_name_ok hc0
  rw [hget]
  generalize (if H5P_DEFAULT = lcpl_id then env.H5P_LINK_CREATE_DEFAULT else lcpl_id) = lcpl
  generalize (if H5P_DEFAULT = dcpl_id then env.H5P_DATASET_CREATE_DEFAULT else dcpl_id) = dcpl
  generalize (if H5P_DEFAULT = dapl_id then env.H5P_DATASET_ACCESS_DEFAULT else dapl_id) = dapl
  cases hobj : H5I_object st.ids dcpl with
  | none =>
    refine ⟨⟨fun h => absurd rfl h, fun h => ?_⟩, fun ev hev => absurd hev (List.not_mem_nil ev),
      fun ev hev => absurd hev (List.not_mem_nil ev)⟩
    obtain ⟨_, _, _, _, ⟨ids1, ids2, ids3, hs, _, _⟩, _⟩ := h
    rw [H5P_set_none _ _ hobj] at hs
    have h1 : FAIL = SUCCEED := congrArg Prod.fst hs
    exact absurd h1 (by decide)
  | some o =>
    dsimp only
    by_cases hset1 : (H5P_set st.ids dcpl H5P_key.H5VL_DSET_TYPE_ID type_id).1 < 0
    · rw [if_pos hset1]
      refine ⟨⟨fun h => absurd rfl h, fun h => ?_⟩, fun ev hev => absurd hev (List.not_mem_nil ev),
      fun ev hev => absurd hev (List.not_mem_nil ev)⟩
      obtain ⟨_, _, _, _, ⟨ids1, ids2, ids3, hs, _, _⟩, _⟩ := h
      rw [hs] at hset1
      have hlt : SUCCEED < 0 := hset1
      exact absurd hlt (by decide)
    rw [if_neg hset1]
    have hs1 := H5P_set_ok hset1
    generalize (H5P_set st.ids dcpl H5P_key.H5VL_DSET_TYPE_ID type_id).2 = ids1 at hs1 ⊢
    by_cases hset2 : (H5P_set ids1 dcpl H5P_key.H5VL_DSET_SPACE_ID space_id).1 < 0
    · rw [if_pos hset2]
      refine ⟨⟨fun h => absurd rfl h, fun h => ?_⟩, fun ev hev => absurd hev (List.not_mem_nil ev),
      fun ev hev => absurd hev (List.not_mem_nil ev)⟩
      obtain ⟨_, _, _, _, ⟨j1, j2, j3, k1, k2, _⟩, _⟩ := h
      rw [hs1] at k1
      have e1 : ids1 = j1 := congrArg Prod.snd k1
      subst e1
      rw [k2] at hset2
      have hlt : SUCCEED < 0 := hset2
      exact absurd hlt (by decide)
    rw [if_neg hset2]
    have hs2 := H5P_set_ok hset2
    generalize (H5P_set ids1 dcpl H5P_key.H5VL_DSET_SPACE_ID space_id).2 = ids2 at hs2 ⊢
    by_cases hset3 : (H5P_set ids2 dcpl H5P_key.H5VL_DSET_LCPL_ID lcpl).1 < 0
    · rw [if_pos hset3]
      refine ⟨⟨fun h => absurd rfl h, fun h => ?_⟩, fun ev hev => absurd hev (List.not_mem_nil ev),
      fun ev hev => absurd hev (List.not_mem_nil ev)⟩
      obtain ⟨_, _, _, _, ⟨j1, j2, j3, k1, k2, k3⟩, _⟩ := h
      rw [hs1] at k1
      have e1 : ids1 = j1 := congrArg Prod.snd k1
      subst e1
      rw [hs2] at k2
      have e2 : ids2 = j2 := congrArg Prod.snd k2
      subst e2
      rw [k3] at hset3
      have hlt : SUCCEED < 0 := hset3
      exact absurd hlt (by decide)
    rw [if_neg hset3]
    have hs3 := H5P_set_ok hset3
    generalize (H5P_set ids2 dcpl H5P_key.H5VL_DSET_LCPL_ID lcpl).2 = ids3 at hs3 ⊢
    have hnone : H5VL_get_object ids3 loc_id = none ↔ H5VL_get_object st.ids loc_id = none :=
      ((H5P_set_object_none hs3 loc_id).2.trans (H5P_set_object_none hs2 loc_id).2).trans
        (H5P_set_object_none hs1 loc_id).2
    have haux : H5I_get_aux ids3 loc_id = H5I_get_aux st.ids loc_id :=
      (((H5P_set_eq_ids hs3).2 loc_id).trans ((H5P_set_eq_ids hs2).2 loc_id)).trans
        ((H5P_set_eq_ids hs1).2 loc_id)
    rcases H5Dcreate_ff_vol_calls env { ids := ids3, vol := st.vol } loc_id nm dcpl dapl
        eq_id with
      ⟨hno, hc⟩ | ⟨obj, vp, ret, rest, ho, ha, hc, hrest⟩
    · rw [hc]
      refine ⟨⟨fun h => absurd rfl h, fun h => ?_⟩, fun ev hev => absurd hev (List.not_mem_nil ev),
      fun ev hev => absurd hev (List.not_mem_nil ev)⟩
      obtain ⟨_, _, _, _, _, h5, h6⟩ := h
      exfalso
      rcases hno with hno | hno
      · exact h5 (hnone.mp hno)
      · exact h6 (by rw [← haux]; exact hno)
    · rw [hc]
      refine ⟨⟨fun _ => ⟨?_, by tauto, by tauto, by tauto, ⟨ids1, ids2, ids3, hs1, hs2, hs3⟩,
        ?_, ?_⟩, fun _ => List.cons_ne_nil _ _⟩, ?_, ?_⟩
      · rw [hnm]; exact ⟨Option.some_ne_none _, fun h2 => by cases h2; contradiction⟩
      · intro h2
        have h3 := hnone.mpr h2
        dsimp only at ho
        rw [ho] at h3
        cases h3
      · intro h2
        rw [← haux] at h2
        dsimp only at ha
        rw [ha] at h2
        cases h2
      · intro ev hev hcl
        rcases List.mem_cons.mp hev with hev | hev
        · exact ⟨obj, _, vp, by rw [hev]⟩
        · rw [(hrest ev hev).1] at hcl
          cases hcl
      · intro ev hev
        rcases List.mem_cons.mp hev with hev | hev
        · rw [hev]; exact H5P_set_get hs3
        · rw [(hrest ev hev).2]; exact H5P_set_get hs3

/-! ## C7: the default sentinel -/

/-- C7: for each wrapper, (1) the backend is reached exactly when the checks
other than class checks pass and every property-list parameter is either the
sentinel `H5P_DEFAULT` or answers `TRUE` to `H5P_isa_class` for the class it
requires (so the sentinel is accepted without a class check, whatever the
registry holds under the default identifiers); (2) the create/open/write/read
call the backend receives carries, for each property-list parameter, the
default list of the class of that parameter when the sentinel was given and
the identifier of the caller otherwise; (3) for `H5Gcreate_ff` and
`H5Dcreate_ff` the link-creation identifier, substituted the same way, is the
value the creation list holds under `H5VL_GRP_LCPL_ID` / `H5VL_DSET_LCPL_ID`
in the registry every backend call sees. -/
theorem C7_default_sentinel_substituted {σ : Type} (env : H5_env σ) (st : H5_state σ) :
    (∀ (filename : Option String) (flags : Nat) (fcpl_id fapl_id eq_id : hid_t),
      (((H5Fcreate_ff env st filename flags fcpl_id fapl_id eq_id).calls ≠ [] ↔
          (filename ≠ none ∧ filename ≠ some "") ∧
          flags &&& H5_bitnot32 (env.H5F_ACC_EXCL ||| env.H5F_ACC_TRUNC ||| env.H5F_ACC_DEBUG) = 0 ∧
          (flags &&& env.H5F_ACC_EXCL = 0 ∨ flags &&& env.H5F_ACC_TRUNC = 0) ∧
          (H5P_DEFAULT = fcpl_id ∨ TRUE = H5P_isa_class st.ids fcpl_id H5P_class_t.H5P_FILE_CREATE) ∧
          (H5P_DEFAULT = fapl_id ∨ TRUE = H5P_isa_class st.ids fapl_id H5P_class_t.H5P_FILE_ACCESS)) ∧
      (∀ ev ∈ (H5Fcreate_ff env st filename flags fcpl_id fapl_id eq_id).calls, ev.call = H5VL_call.file_create (filename.getD "") flags
          (if H5P_DEFAULT = fcpl_id then env.H5P_FILE_CREATE_DEFAULT else fcpl_id)
          (if H5P_DEFAULT = fapl_id then env.H5P_FILE_ACCESS_DEFAULT else fapl_id)
          env.H5AC_dxpl_id eq_id))) ∧
    (∀ (filename : Option String) (flags : Nat) (fapl_id eq_id : hid_t),
      (((H5Fopen_ff env st filename flags fapl_id eq_id).calls ≠ [] ↔
          (filename ≠ none ∧ filename ≠ some "") ∧
          flags &&& H5_bitnot32 env.H5F_ACC_PUBLIC_FLAGS = 0 ∧
          flags &&& env.H5F_ACC_TRUNC = 0 ∧
          flags &&& env.H5F_ACC_EXCL = 0 ∧
          (H5P_DEFAULT = fapl_id ∨ TRUE = H5P_isa_class st.ids fapl_id H5P_class_t.H5P_FILE_ACCESS)) ∧
      (∀ ev ∈ (H5Fopen_ff env st filename flags fapl_id eq_id).calls, ev.call = H5VL_call.file_open (filename.getD "") flags
          (if H5P_DEFAULT = fapl_id then env.H5P_FILE_ACCESS_DEFAULT else fapl_id)
          env.H5AC_dxpl_id eq_id))) ∧
    (∀ (loc_id : hid_t) (name : Option String) (lcpl_id gcpl_id gapl_id : hid_t)
        (trans : Nat) (eq_id : hid_t),
      (((H5Gcreate_ff env st loc_id name lcpl_id gcpl_id gapl_id trans eq_id).calls ≠ [] ↔
          (name ≠ none ∧ name ≠ some "") ∧
          (H5P_DEFAULT = lcpl_id ∨ TRUE = H5P_isa_class st.ids lcpl_id H5P_class_t.H5P_LINK_CREATE) ∧
          (H5P_DEFAULT = gcpl_id ∨ TRUE = H5P_isa_class st.ids gcpl_id H5P_class_t.H5P_GROUP_CREATE) ∧
          (H5P_DEFAULT = gapl_id ∨ TRUE = H5P_isa_class st.ids gapl_id H5P_class_t.H5P_GROUP_ACCESS) ∧
          (∃ ids1, H5P_set st.ids
              (if H5P_DEFAULT = gcpl_id then env.H5P_GROUP_CREATE_DEFAULT else gcpl_id)
              H5P_key.H5VL_GRP_LCPL_ID
              (if H5P_DEFAULT = lcpl_id then env.H5P_LINK_CREATE_DEFAULT else lcpl_id) =
            (SUCCEED, ids1)) ∧
          H5I_object st.ids loc_id ≠ none ∧ H5I_get_aux st.ids loc_id ≠ none) ∧
      (∀ ev ∈ (H5Gcreate_ff env st loc_id name lcpl_id gcpl_id gapl_id trans eq_id).calls,
        ev.call.is_close = false →
        ∃ obj lp vp, ev.call = H5VL_call.group_create obj lp vp (name.getD "")
          (if H5P_DEFAULT = gcpl_id then env.H5P_GROUP_CREATE_DEFAULT else gcpl_id)
          (if H5P_DEFAULT = gapl_id then env.H5P_GROUP_ACCESS_DEFAULT else gapl_id)
          env.H5AC_dxpl_id eq_id) ∧
      (∀ ev ∈ (H5Gcreate_ff env st loc_id name lcpl_id gcpl_id gapl_id trans eq_id).calls,
        H5P_get ev.ids (if H5P_DEFAULT = gcpl_id then env.H5P_GROUP_CREATE_DEFAULT else gcpl_id)
          H5P_key.H5VL_GRP_LCPL_ID =
          some (if H5P_DEFAULT = lcpl_id then env.H5P_LINK_CREATE_DEFAULT else lcpl_id)))) ∧
    (∀ (loc_id : hid_t) (name : Option String) (gapl_id : hid_t) (trans : Nat)
        (eq_id : hid_t),
      (((H5Gopen_ff env st loc_id name gapl_id trans eq_id).calls ≠ [] ↔
          (name ≠ none ∧ name ≠ some "") ∧
          (H5P_DEFAULT = gapl_id ∨ TRUE = H5P_isa_class st.ids gapl_id H5P_class_t.H5P_GROUP_ACCESS) ∧
          H5I_object st.ids loc_id ≠ none ∧
          H5I_get_aux st.ids loc_id ≠ none) ∧
      (∀ ev ∈ (H5Gopen_ff env st loc_id name gapl_id trans eq_id).calls, ∃ obj lp vp, ev.call = H5VL_call.group_open obj lp vp (name.getD "")
          (if H5P_DEFAULT = gapl_id then env.H5P_GROUP_ACCESS_DEFAULT else gapl_id)
          env.H5AC_dxpl_id eq_id))) ∧
    (∀ (loc_id : hid_t) (name : Option String)
        (type_id space_id lcpl_id dcpl_id dapl_id : hid_t) (trans : Nat) (eq_id : hid_t),
      (((H5Dcreate_ff env st loc_id name type_id space_id lcpl_id dcpl_id dapl_id trans eq_id).calls ≠ [] ↔
          (name ≠ none ∧ name ≠ some "") ∧
          (H5P_DEFAULT = lcpl_id ∨ TRUE = H5P_isa_class st.ids lcpl_id H5P_class_t.H5P_LINK_CREATE) ∧
          (H5P_DEFAULT = dcpl_id ∨ TRUE = H5P_isa_class st.ids dcpl_id H5P_class_t.H5P_DATASET_CREATE) ∧
          (H5P_DEFAULT = dapl_id ∨ TRUE = H5P_isa_class st.ids dapl_id H5P_class_t.H5P_DATASET_ACCESS) ∧
          (∃ ids1 ids2 ids3,
            H5P_set st.ids
              (if H5P_DEFAULT = dcpl_id then env.H5P_DATASET_CREATE_DEFAULT else dcpl_id)
              H5P_key.H5VL_DSET_TYPE_ID type_id = (SUCCEED, ids1) ∧
            H5P_set ids1
              (if H5P_DEFAULT = dcpl_id then env.H5P_DATASET_CREATE_DEFAULT else dcpl_id)
              H5P_key.H5VL_DSET_SPACE_ID space_id = (SUCCEED, ids2) ∧
            H5P_set ids2
              (if H5P_DEFAULT = dcpl_id then env.H5P_DATASET_CREATE_DEFAULT else dcpl_id)
              H5P_key.H5VL_DSET_LCPL_ID
              (if H5P_DEFAULT = lcpl_id then env.H5P_LINK_CREATE_DEFAULT else lcpl_id) =
              (SUCCEED, ids3)) ∧
          H5VL_get_object st.ids loc_id ≠ none ∧ H5I_get_aux st.ids loc_id ≠ none) ∧
      (∀ ev ∈ (H5Dcreate_ff env st loc_id name type_id space_id lcpl_id dcpl_id dapl_id trans eq_id).calls,
        ev.call.is_close = false →
        ∃ obj lp vp, ev.call = H5VL_call.dataset_create obj lp vp (name.getD "")
          (if H5P_DEFAULT = dcpl_id then env.H5P_DATASET_CREATE_DEFAULT else dcpl_id)
          (if H5P_DEFAULT = dapl_id then env.H5P_DATASET_ACCESS_DEFAULT else dapl_id)
          env.H5AC_dxpl_id eq_id) ∧
      (∀ ev ∈ (H5Dcreate_ff env st loc_id name type_id space_id lcpl_id dcpl_id dapl_id trans eq_id).calls,
        H5P_get ev.ids (if H5P_DEFAULT = dcpl_id then env.H5P_DATASET_CREATE_DEFAULT else dcpl_id)
          H5P_key.H5VL_DSET_LCPL_ID =
          some (if H5P_DEFAULT = lcpl_id then env.H5P_LINK_CREATE_DEFAULT else lcpl_id)))) ∧
    (∀ (loc_id : hid_t) (name : Option String) (dapl_id : hid_t) (trans : Nat)
        (eq_id : hid_t),
      (((H5Dopen_ff env st loc_id name dapl_id trans eq_id).calls ≠ [] ↔
          (name ≠ none ∧ name ≠ some "") ∧
          (H5P_DEFAULT = dapl_id ∨ TRUE = H5P_isa_class st.ids dapl_id H5P_class_t.H5P_DATASET_ACCESS) ∧
          H5VL_get_object st.ids loc_id ≠ none ∧
          H5I_get_aux st.ids loc_id ≠ none) ∧
      (∀ ev ∈ (H5Dopen_ff env st loc_id name dapl_id trans eq_id).calls, ev.call.is_close = false →
        ∃ obj lp vp, ev.call = H5VL_call.dataset_open obj lp vp (name.getD "")
          (if H5P_DEFAULT = dapl_id then env.H5P_DATASET_ACCESS_DEFAULT else dapl_id)
          env.H5AC_dxpl_id eq_id))) ∧
    (∀ (dset_id mem_type_id mem_space_id file_space_id dxpl_id : hid_t)
        (buf : List Nat) (trans : Nat) (eq_id : hid_t),
      (((H5Dwrite_ff env st dset_id mem_type_id mem_space_id file_space_id dxpl_id buf trans eq_id).calls ≠ [] ↔
          dset_id ≠ 0 ∧
          (H5P_DEFAULT = dxpl_id ∨ TRUE = H5P_isa_class st.ids dxpl_id H5P_class_t.H5P_DATASET_XFER) ∧
          H5I_get_aux st.ids dset_id ≠ none ∧
          H5I_object st.ids dset_id ≠ none) ∧
      (∀ ev ∈ (H5Dwrite_ff env st dset_id mem_type_id mem_space_id file_space_id dxpl_id buf trans eq_id).calls, ∃ dset vp, ev.call = H5VL_call.dataset_write dset vp mem_type_id mem_space_id
          file_space_id (if H5P_DEFAULT = dxpl_id then env.H5P_DATASET_XFER_DEFAULT else dxpl_id)
          buf eq_id))) ∧
    (∀ (dset_id mem_type_id mem_space_id file_space_id dxpl_id : hid_t)
        (buf : List Nat) (trans : Nat) (eq_id : hid_t),
      (((H5Dread_ff env st dset_id mem_type_id mem_space_id file_space_id dxpl_id buf trans eq_id).calls ≠ [] ↔
          (¬ mem_space_id < 0 ∧ ¬ file_space_id < 0) ∧
          (H5P_DEFAULT = dxpl_id ∨ TRUE = H5P_isa_class st.ids dxpl_id H5P_class_t.H5P_DATASET_XFER) ∧
          H5I_get_aux st.ids dset_id ≠ none ∧
          H5I_object st.ids dset_id ≠ none) ∧
      (∀ ev ∈ (H5Dread_ff env st dset_id mem_type_id mem_space_id file_space_id dxpl_id buf trans eq_id).calls, ∃ dset vp, ev.call = H5VL_call.dataset_read dset vp mem_type_id mem_space_id
          file_space_id (if H5P_DEFAULT = dxpl_id then env.H5P_DATASET_XFER_DEFAULT else dxpl_id)
          buf eq_id))) :=
  ⟨H5Fcreate_ff_reach env st,
   H5Fopen_ff_reach env st,
   H5Gcreate_ff_reach env st,
   H5Gopen_ff_reach env st,
   H5Dcreate_ff_reach env st,
   H5Dopen_ff_reach env st,
   H5Dwrite_ff_reach env st,
   H5Dread_ff_reach env st⟩

/-- Witness for C7: `H5Gcreate_ff` with the three sentinels on the file 1
reaches the backend, and the call carries the default group-creation list 104
and the default group-access list 105. -/
theorem C7_default_sentinel_substituted_witness :
    ∃ obj lp vp,
      ((H5Gcreate_ff sample_env sample_st 1 (some "/g") 0 0 0 0 0).calls.head
        (by decide)).call = H5VL_call.group_create obj lp vp "/g" 104 105 109 0 :=
  ((C7_default_sentinel_substituted sample_env sample_st).2.2.1 1 (some "/g") 0 0 0 0 0).2.1
    _ (List.head_mem _) (by decide)

/-! ## C8: mutually exclusive and forbidden flags -/

theorem H5Fcreate_ff_excl_trunc {σ : Type} (env : H5_env σ) (st : H5_state σ)
    (filename : Option String) (flags : Nat) (fcpl_id fapl_id eq_id : hid_t)
    (h1 : flags &&& env.H5F_ACC_EXCL ≠ 0) (h2 : flags &&& env.H5F_ACC_TRUNC ≠ 0) :
    (H5Fcreate_ff env st filename flags fcpl_id fapl_id eq_id).ret_value = FAIL ∧
    (H5Fcreate_ff env st filename flags fcpl_id fapl_id eq_id).err_kind =
      some (H5E_major.H5E_ARGS, H5E_minor.H5E_BADVALUE) ∧
    (H5Fcreate_ff env st filename flags fcpl_id fapl_id eq_id).calls = [] := by
  unfold H5Fcreate_ff
  dsimp only
  by_cases hc0 : filename = none ∨ filename = some ""
  · rw [if_pos hc0]; exact ⟨rfl, rfl, rfl⟩
  rw [if_neg hc0]
  by_cases hc1 : flags &&& H5_bitnot32
      (env.H5F_ACC_EXCL ||| env.H5F_ACC_TRUNC ||| env.H5F_ACC_DEBUG) ≠ 0
  · rw [if_pos hc1]; exact ⟨rfl, rfl, rfl⟩
  rw [if_neg hc1, if_pos ⟨h1, h2⟩]
  exact ⟨rfl, rfl, rfl⟩

theorem H5Fopen_ff_excl_trunc {σ : Type} (env : H5_env σ) (st : H5_state σ)
    (filename : Option String) (flags : Nat) (fapl_id eq_id : hid_t)
    (h : flags &&& env.H5F_ACC_TRUNC ≠ 0 ∨ flags &&& env.H5F_ACC_EXCL ≠ 0) :
    (H5Fopen_ff env st filename flags fapl_id eq_id).ret_value = FAIL ∧
    (H5Fopen_ff env st filename flags fapl_id eq_id).err_kind =
      some (H5E_major.H5E_ARGS, H5E_minor.H5E_BADVALUE) ∧
    (H5Fopen_ff env st filename flags fapl_id eq_id).calls = [] := by
  unfold H5Fopen_ff
  dsimp only
  by_cases hc0 : filename = none ∨ filename = some ""
  · rw [if_pos hc0]; exact ⟨rfl, rfl, rfl⟩
  rw [if_neg hc0, if_pos (Or.inr h)]
  exact ⟨rfl, rfl, rfl⟩

/-- C8: whenever `flags` has both the EXCLUSIVE and the TRUNCATE bit set,
`H5Fcreate_ff` returns `FAIL` with the bad-argument error
(H5E_ARGS, H5E_BADVALUE), for every file name (NULL and empty included),
property lists and queue; whenever `flags` has the TRUNCATE or the EXCLUSIVE
bit set, so does `H5Fopen_ff`; in neither case is a backend routine invoked. -/
theorem C8_exclusive_flags_rejected {σ : Type} (env : H5_env σ) (st : H5_state σ) :
    (∀ (filename : Option String) (flags : Nat) (fcpl_id fapl_id eq_id : hid_t),
      flags &&& env.H5F_ACC_EXCL ≠ 0 → flags &&& env.H5F_ACC_TRUNC ≠ 0 →
      (H5Fcreate_ff env st filename flags fcpl_id fapl_id eq_id).ret_value = FAIL ∧
      (H5Fcreate_ff env st filename flags fcpl_id fapl_id eq_id).err_kind =
        some (H5E_major.H5E_ARGS, H5E_minor.H5E_BADVALUE) ∧
      (H5Fcreate_ff env st filename flags fcpl_id fapl_id eq_id).calls = []) ∧
    (∀ (filename : Option String) (flags : Nat) (fapl_id eq_id : hid_t),
      flags &&& env.H5F_ACC_TRUNC ≠ 0 ∨ flags &&& env.H5F_ACC_EXCL ≠ 0 →
      (H5Fopen_ff env st filename flags fapl_id eq_id).ret_value = FAIL ∧
      (H5Fopen_ff env st filename flags fapl_id eq_id).err_kind =
        some (H5E_major.H5E_ARGS, H5E_minor.H5E_BADVALUE) ∧
      (H5Fopen_ff env st filename flags fapl_id eq_id).calls = []) :=
  ⟨H5Fcreate_ff_excl_trunc env st, H5Fopen_ff_excl_trunc env st⟩

/-- Witness for C8: with the flag values of H5Fpublic.h, creating "x.dat" with
EXCL|TRUNC (6) and opening it with TRUNC (2) both fail with
(H5E_ARGS, H5E_BADVALUE) before any backend call. -/
theorem C8_exclusive_flags_rejected_witness :
    ((H5Fcreate_ff sample_env sample_st (some "x.dat") 6 0 0 0).ret_value = FAIL ∧
      (H5Fcreate_ff sample_env sample_st (some "x.dat") 6 0 0 0).err_kind =
        some (H5E_major.H5E_ARGS, H5E_minor.H5E_BADVALUE) ∧
      (H5Fcreate_ff sample_env sample_st (some "x.dat") 6 0 0 0).calls = []) ∧
    ((H5Fopen_ff sample_env sample_st (some "x.dat") 2 0 0).ret_value = FAIL ∧
      (H5Fopen_ff sample_env sample_st (some "x.dat") 2 0 0).err_kind =
        some (H5E_major.H5E_ARGS, H5E_minor.H5E_BADVALUE) ∧
      (H5Fopen_ff sample_env sample_st (some "x.dat") 2 0 0).calls = []) :=
  ⟨(C8_exclusive_flags_rejected sample_env sample_st).1 (some "x.dat") 6 0 0 0
      (by decide) (by decide),
   (C8_exclusive_flags_rejected sample_env sample_st).2 (some "x.dat") 2 0 0
      (Or.inl (by decide))⟩


/-! ## C9, C10: flag validation of the file wrappers -/

theorem H5_bitnot32_and (flags mask : Nat) (h : flags < 2 ^ 32) :
    flags &&& H5_bitnot32 mask ≠ 0 ↔
      ∃ i, flags.testBit i = true ∧ mask.testBit i = false := by
  have hm : mask % 2 ^ 32 < 2 ^ 32 := Nat.mod_lt _ (by norm_num)
  have hnot : ∀ i, (H5_bitnot32 mask).testBit i = (decide (i < 32) && !mask.testBit i) := by
    intro i
    have h1 : H5_bitnot32 mask = 2 ^ 32 - (mask % 2 ^ 32 + 1) := by
      unfold H5_bitnot32
      omega
    rw [h1, Nat.testBit_two_pow_sub_succ hm, Nat.testBit_mod_two_pow]
    by_cases hi : i < 32 <;> simp [hi]
  constructor
  · intro hne
    obtain ⟨i, hi⟩ := Nat.ne_zero_implies_bit_true hne
    rw [Nat.testBit_and, hnot] at hi
    simp only [Bool.and_eq_true, decide_eq_true_eq, Bool.not_eq_true'] at hi
    exact ⟨i, hi.1, hi.2.2⟩
  · rintro ⟨i, h1, h2⟩ hzero
    have hi : i < 32 := by
      by_contra hge
      have hle : 2 ^ 32 ≤ 2 ^ i := Nat.pow_le_pow_right (by norm_num) (not_lt.mp hge)
      have := Nat.testBit_lt_two_pow (lt_of_lt_of_le h hle)
      rw [h1] at this
      cases this
    have h3 : (flags &&& H5_bitnot32 mask).testBit i = true := by
      rw [Nat.testBit_and, hnot, h1, h2]
      simp [hi]
    rw [hzero, Nat.zero_testBit] at h3
    cases h3

theorem H5Fcreate_ff_badvalue_iff {σ : Type} (env : H5_env σ) (st : H5_state σ)
    (filename : Option String) (flags : Nat) (fcpl_id fapl_id eq_id : hid_t)
    (hn1 : filename ≠ none) (hn2 : filename ≠ some "") :
    (H5Fcreate_ff env st filename flags fcpl_id fapl_id eq_id).err_kind =
        some (H5E_major.H5E_ARGS, H5E_minor.H5E_BADVALUE) ↔
      (flags &&& H5_bitnot32 (env.H5F_ACC_EXCL ||| env.H5F_ACC_TRUNC ||| env.H5F_ACC_DEBUG) ≠ 0 ∨
        (flags &&& env.H5F_ACC_EXCL ≠ 0 ∧ flags &&& env.H5F_ACC_TRUNC ≠ 0)) := by
  have hc0 : ¬ (filename = none ∨ filename = some "") := fun h => h.elim hn1 hn2
  unfold H5Fcreate_ff
  dsimp only
  rw [if_neg hc0]
  by_cases hc1 : flags &&& H5_bitnot32 (env.H5F_ACC_EXCL ||| env.H5F_ACC_TRUNC ||| env.H5F_ACC_DEBUG) ≠ 0
  · rw [if_pos hc1]
    exact ⟨fun _ => Or.inl hc1, fun _ => rfl⟩
  rw [if_neg hc1]
  by_cases hc2 : flags &&& env.H5F_ACC_EXCL ≠ 0 ∧ flags &&& env.H5F_ACC_TRUNC ≠ 0
  · rw [if_pos hc2]
    exact ⟨fun _ => Or.inr hc2, fun _ => rfl⟩
  rw [if_neg hc2]
  have hno : ¬ (flags &&& H5_bitnot32 (env.H5F_ACC_EXCL ||| env.H5F_ACC_TRUNC ||| env.H5F_ACC_DEBUG) ≠ 0 ∨
      (flags &&& env.H5F_ACC_EXCL ≠ 0 ∧ flags &&& env.H5F_ACC_TRUNC ≠ 0)) :=
    fun h => h.elim hc1 hc2
  refine ⟨fun h => ?_, fun h => absurd h hno⟩
  exfalso
  revert h
  generalize (if H5P_DEFAULT = fcpl_id then env.H5P_FILE_CREATE_DEFAULT else fcpl_id) = fcpl
  generalize (if H5P_DEFAULT = fapl_id then env.H5P_FILE_ACCESS_DEFAULT else fapl_id) = fapl
  by_cases hc3 : H5P_DEFAULT ≠ fcpl_id ∧
      TRUE ≠ H5P_isa_class st.ids fcpl_id H5P_class_t.H5P_FILE_CREATE
  · rw [if_pos hc3]
    simp [H5_result.err_kind, HGOTO_ERROR]
  rw [if_neg hc3]
  by_cases hc4 : H5P_DEFAULT ≠ fapl_id ∧
      TRUE ≠ H5P_isa_class st.ids fapl_id H5P_class_t.H5P_FILE_ACCESS
  · rw [if_pos hc4]
    simp [H5_result.err_kind, HGOTO_ERROR]
  rw [if_neg hc4]
  split
  · simp [H5_result.err_kind, HGOTO_ERROR]
  · split
    · simp [H5_result.err_kind, HGOTO_ERROR]
    · simp [H5_result.err_kind]

theorem H5Fopen_ff_badvalue_iff {σ : Type} (env : H5_env σ) (st : H5_state σ)
    (filename : Option String) (flags : Nat) (fapl_id eq_id : hid_t)
    (hn1 : filename ≠ none) (hn2 : filename ≠ some "") :
    (H5Fopen_ff env st filename flags fapl_id eq_id).err_kind =
        some (H5E_major.H5E_ARGS, H5E_minor.H5E_BADVALUE) ↔
      (flags &&& H5_bitnot32 env.H5F_ACC_PUBLIC_FLAGS ≠ 0 ∨
        flags &&& env.H5F_ACC_TRUNC ≠ 0 ∨ flags &&& env.H5F_ACC_EXCL ≠ 0) := by
  have hc0 : ¬ (filename = none ∨ filename = some "") := fun h => h.elim hn1 hn2
  unfold H5Fopen_ff
  dsimp only
  rw [if_neg hc0]
  by_cases hc1 : flags &&& H5_bitnot32 env.H5F_ACC_PUBLIC_FLAGS ≠ 0 ∨
      flags &&& env.H5F_ACC_TRUNC ≠ 0 ∨ flags &&& env.H5F_ACC_EXCL ≠ 0
  · rw [if_pos hc1]
    exact ⟨fun _ => hc1, fun _ => rfl⟩
  rw [if_neg hc1]
  refine ⟨fun h => ?_, fun h => absurd h hc1⟩
  exfalso
  revert h
  generalize (if H5P_DEFAULT = fapl_id then env.H5P_FILE_ACCESS_DEFAULT else fapl_id) = fapl
  by_cases hc4 : H5P_DEFAULT ≠ fapl_id ∧
      TRUE ≠ H5P_isa_class st.ids fapl_id H5P_class_t.H5P_FILE_ACCESS
  · rw [if_pos hc4]
    simp [H5_result.err_kind, HGOTO_ERROR]
  rw [if_neg hc4]
  split
  · simp [H5_result.err_kind, HGOTO_ERROR]
  · split
    · simp [H5_result.err_kind, HGOTO_ERROR]
    · simp [H5_result.err_kind]

/-- C9: given a non-empty file name and an `unsigned` flags value, `H5Fcreate_ff`
rejects the flags (fails with the bad-argument error H5E_ARGS, H5E_BADVALUE)
if and only if flags has a bit that is not in EXCL|TRUNC|DEBUG or has both the
EXCL and the TRUNC bit set; in particular the value 0 passes, and DEBUG alone
passes (DEBUG being an `unsigned` value that is not both an EXCL and a TRUNC
bit). -/
theorem C9_create_flag_validation {σ : Type} (env : H5_env σ) (st : H5_state σ)
    (filename : Option String) (flags : Nat) (fcpl_id fapl_id eq_id : hid_t)
    (hn1 : filename ≠ none) (hn2 : filename ≠ some "") (hflags : flags < 2 ^ 32) :
    ((H5Fcreate_ff env st filename flags fcpl_id fapl_id eq_id).err_kind =
        some (H5E_major.H5E_ARGS, H5E_minor.H5E_BADVALUE) ↔
      ((∃ i, flags.testBit i = true ∧
          (env.H5F_ACC_EXCL ||| env.H5F_ACC_TRUNC ||| env.H5F_ACC_DEBUG).testBit i = false) ∨
        (flags &&& env.H5F_ACC_EXCL ≠ 0 ∧ flags &&& env.H5F_ACC_TRUNC ≠ 0))) ∧
    (H5Fcreate_ff env st filename 0 fcpl_id fapl_id eq_id).err_kind ≠
      some (H5E_major.H5E_ARGS, H5E_minor.H5E_BADVALUE) ∧
    (env.H5F_ACC_DEBUG < 2 ^ 32 →
      (env.H5F_ACC_DEBUG &&& env.H5F_ACC_EXCL = 0 ∨
        env.H5F_ACC_DEBUG &&& env.H5F_ACC_TRUNC = 0) →
      (H5Fcreate_ff env st filename env.H5F_ACC_DEBUG fcpl_id fapl_id eq_id).err_kind ≠
        some (H5E_major.H5E_ARGS, H5E_minor.H5E_BADVALUE)) := by
  refine ⟨?_, ?_, ?_⟩
  · rw [H5Fcreate_ff_badvalue_iff env st filename flags fcpl_id fapl_id eq_id hn1 hn2,
      H5_bitnot32_and _ _ hflags]
  · rw [Ne, H5Fcreate_ff_badvalue_iff env st filename 0 fcpl_id fapl_id eq_id hn1 hn2]
    simp
  · intro hd hdis
    rw [Ne, H5Fcreate_ff_badvalue_iff env st filename _ fcpl_id fapl_id eq_id hn1 hn2,
      H5_bitnot32_and _ _ hd]
    rintro (⟨i, h1, h2⟩ | ⟨h1, h2⟩)
    · rw [Nat.testBit_or, h1] at h2
      simp at h2
    · exact hdis.elim h1 h2

/-- Witness for C9: with the flag values of H5Fpublic.h, the flags value 16 (a
bit outside EXCL|TRUNC|DEBUG = 14) is rejected for the name "x.dat", and
DEBUG alone (8) is not. -/
theorem C9_create_flag_validation_witness :
    (H5Fcreate_ff sample_env sample_st (some "x.dat") 16 0 0 0).err_kind =
      some (H5E_major.H5E_ARGS, H5E_minor.H5E_BADVALUE) ∧
    (H5Fcreate_ff sample_env sample_st (some "x.dat") 8 0 0 0).err_kind ≠
      some (H5E_major.H5E_ARGS, H5E_minor.H5E_BADVALUE) :=
  ⟨(C9_create_flag_validation sample_env sample_st (some "x.dat") 16 0 0 0 (by decide)
      (by decide) (by decide)).1.mpr (Or.inl ⟨4, by decide, by decide⟩),
   (C9_create_flag_validation sample_env sample_st (some "x.dat") 16 0 0 0 (by decide)
      (by decide) (by decide)).2.2 (by decide) (Or.inl (by decide))⟩

/-- C10: given a non-empty file name and an `unsigned` flags value, `H5Fopen_ff`
rejects the flags (fails with the bad-argument error H5E_ARGS, H5E_BADVALUE)
if and only if flags has a bit that is not in `H5F_ACC_PUBLIC_FLAGS`, or has
the TRUNC bit set, or has the EXCL bit set; every other flags value passes
the flag validation. -/
theorem C10_open_flag_validation {σ : Type} (env : H5_env σ) (st : H5_state σ)
    (filename : Option String) (flags : Nat) (fapl_id eq_id : hid_t)
    (hn1 : filename ≠ none) (hn2 : filename ≠ some "") (hflags : flags < 2 ^ 32) :
    (H5Fopen_ff env st filename flags fapl_id eq_id).err_kind =
        some (H5E_major.H5E_ARGS, H5E_minor.H5E_BADVALUE) ↔
      ((∃ i, flags.testBit i = true ∧ env.H5F_ACC_PUBLIC_FLAGS.testBit i = false) ∨
        flags &&& env.H5F_ACC_TRUNC ≠ 0 ∨ flags &&& env.H5F_ACC_EXCL ≠ 0) := by
  rw [H5Fopen_ff_badvalue_iff env st filename flags fapl_id eq_id hn1 hn2,
    H5_bitnot32_and _ _ hflags]

/-- Witness for C10: with the flag values of H5Fpublic.h, opening "x.dat" with
the flags value 32 (a bit outside the public mask 31) is rejected. -/
theorem C10_open_flag_validation_witness :
    (H5Fopen_ff sample_env sample_st (some "x.dat") 32 0 0).err_kind =
      some (H5E_major.H5E_ARGS, H5E_minor.H5E_BADVALUE) :=
  (C10_open_flag_validation sample_env sample_st (some "x.dat") 32 0 0 (by decide)
    (by decide) (by decide)).mpr (Or.inl ⟨5, by decide, by decide⟩)


/-! ## C11: a null or empty name -/

theorem H5Fcreate_ff_bad_name {σ : Type} (env : H5_env σ) (st : H5_state σ)
    (filename : Option String) (flags : Nat) (fcpl_id fapl_id eq_id : hid_t)
    (h : filename = none ∨ filename = some "") :
    H5Fcreate_ff env st filename flags fcpl_id fapl_id eq_id =
      HGOTO_ERROR st [] [] H5E_major.H5E_ARGS H5E_minor.H5E_BADVALUE "invalid file name" := by
  unfold H5Fcreate_ff
  rw [if_pos h]

theorem H5Fopen_ff_bad_name {σ : Type} (env : H5_env σ) (st : H5_state σ)
    (filename : Option String) (flags : Nat) (fapl_id eq_id : hid_t)
    (h : filename = none ∨ filename = some "") :
    H5Fopen_ff env st filename flags fapl_id eq_id =
      HGOTO_ERROR st [] [] H5E_major.H5E_ARGS H5E_minor.H5E_BADVALUE "invalid file name" := by
  unfold H5Fopen_ff
  rw [if_pos h]

theorem H5Gcreate_ff_bad_name {σ : Type} (env : H5_env σ) (st : H5_state σ)
    (loc_id : hid_t) (name : Option String) (lcpl_id gcpl_id gapl_id : hid_t)
    (trans : Nat) (eq_id : hid_t)
    (h : name = none ∨ name = some "") :
    H5Gcreate_ff env st loc_id name lcpl_id gcpl_id gapl_id trans eq_id =
      HGOTO_ERROR st [] [] H5E_major.H5E_ARGS H5E_minor.H5E_BADVALUE "no name" := by
  unfold H5Gcreate_ff
  rw [if_pos h]
  rw [H5Gcreate_ff_done_none]

theorem H5Gopen_ff_bad_name {σ : Type} (env : H5_env σ) (st : H5_state σ)
    (loc_id : hid_t) (name : Option String) (gapl_id : hid_t) (trans : Nat)
    (eq_id : hid_t)
    (h : name = none ∨ name = some "") :
    H5Gopen_ff env st loc_id name gapl_id trans eq_id =
      HGOTO_ERROR st [] [] H5E_major.H5E_ARGS H5E_minor.H5E_BADVALUE "no name" := by
  unfold H5Gopen_ff
  rw [if_pos h]

theorem H5Dcreate_ff_bad_name {σ : Type} (env : H5_env σ) (st : H5_state σ)
    (loc_id : hid_t) (name : Option String)
    (type_id space_id lcpl_id dcpl_id dapl_id : hid_t) (trans : Nat) (eq_id : hid_t)
    (h : name = none ∨ name = some "") :
    H5Dcreate_ff env st loc_id name type_id space_id lcpl_id dcpl_id dapl_id trans eq_id =
      HGOTO_ERROR st [] [] H5E_major.H5E_ARGS H5E_minor.H5E_BADVALUE "no name" := by
  unfold H5Dcreate_ff
  rw [if_pos h]
  rw [H5Dcreate_ff_done_none]

theorem H5Dopen_ff_bad_name {σ : Type} (env : H5_env σ) (st : H5_state σ)
    (loc_id : hid_t) (name : Option String) (dapl_id : hid_t) (trans : Nat)
    (eq_id : hid_t)
    (h : name = none ∨ name = some "") :
    H5Dopen_ff env st loc_id name dapl_id trans eq_id =
      HGOTO_ERROR st [] [] H5E_major.H5E_ARGS H5E_minor.H5E_BADVALUE "no name" := by
  unfold H5Dopen_ff
  rw [if_pos h]
  rw [H5Dcreate_ff_done_none]

/-- C11: each of the six name-taking wrappers, given a null or an empty name,
returns the outcome of its first statement: `FAIL`, the single error record
(H5E_ARGS, H5E_BADVALUE), no backend call, the state it was given.  The
outcome is this same value for every value of the other arguments and for
every registry and backend, so no property list was examined and no
identifier resolved on the way. -/
theorem C11_null_or_empty_name_rejected {σ : Type} (env : H5_env σ) (st : H5_state σ) :
    (∀ (filename : Option String) (flags : Nat) (fcpl_id fapl_id eq_id : hid_t),
      filename = none ∨ filename = some "" →
      H5Fcreate_ff env st filename flags fcpl_id fapl_id eq_id =
        HGOTO_ERROR st [] [] H5E_major.H5E_ARGS H5E_minor.H5E_BADVALUE "invalid file name") ∧
    (∀ (filename : Option String) (flags : Nat) (fapl_id eq_id : hid_t),
      filename = none ∨ filename = some "" →
      H5Fopen_ff env st filename flags fapl_id eq_id =
        HGOTO_ERROR st [] [] H5E_major.H5E_ARGS H5E_minor.H5E_BADVALUE "invalid file name") ∧
    (∀ (loc_id : hid_t) (name : Option String) (lcpl_id gcpl_id gapl_id : hid_t)
        (trans : Nat) (eq_id : hid_t),
      name = none ∨ name = some "" →
      H5Gcreate_ff env st loc_id name lcpl_id gcpl_id gapl_id trans eq_id =
        HGOTO_ERROR st [] [] H5E_major.H5E_ARGS H5E_minor.H5E_BADVALUE "no name") ∧
    (∀ (loc_id : hid_t) (name : Option String) (gapl_id : hid_t) (trans : Nat)
        (eq_id : hid_t),
      name = none ∨ name = some "" →
      H5Gopen_ff env st loc_id name gapl_id trans eq_id =
        HGOTO_ERROR st [] [] H5E_major.H5E_ARGS H5E_minor.H5E_BADVALUE "no name") ∧
    (∀ (loc_id : hid_t) (name : Option String)
        (type_id space_id lcpl_id dcpl_id dapl_id : hid_t) (trans : Nat) (eq_id : hid_t),
      name = none ∨ name = some "" →
      H5Dcreate_ff env st loc_id name type_id space_id lcpl_id dcpl_id dapl_id trans eq_id =
        HGOTO_ERROR st [] [] H5E_major.H5E_ARGS H5E_minor.H5E_BADVALUE "no name") ∧
    (∀ (loc_id : hid_t) (name : Option String) (dapl_id : hid_t) (trans : Nat)
        (eq_id : hid_t),
      name = none ∨ name = some "" →
      H5Dopen_ff env st loc_id name dapl_id trans eq_id =
        HGOTO_ERROR st [] [] H5E_major.H5E_ARGS H5E_minor.H5E_BADVALUE "no name") :=
  ⟨H5Fcreate_ff_bad_name env st,
   H5Fopen_ff_bad_name env st,
   H5Gcreate_ff_bad_name env st,
   H5Gopen_ff_bad_name env st,
   H5Dcreate_ff_bad_name env st,
   H5Dopen_ff_bad_name env st⟩

/-- Witness for C11: `H5Dcreate_ff` with an empty name, on an identifier that
does not exist and with identifiers that are not property lists, fails with
(H5E_ARGS, H5E_BADVALUE) and calls no backend routine. -/
theorem C11_null_or_empty_name_rejected_witness :
    (H5Dcreate_ff sample_env sample_st 999 (some "") 3 4 1 1 1 0 0).ret_value = FAIL ∧
    (H5Dcreate_ff sample_env sample_st 999 (some "") 3 4 1 1 1 0 0).err_kind =
      some (H5E_major.H5E_ARGS, H5E_minor.H5E_BADVALUE) ∧
    (H5Dcreate_ff sample_env sample_st 999 (some "") 3 4 1 1 1 0 0).calls = [] := by
  rw [(C11_null_or_empty_name_rejected sample_env sample_st).2.2.2.2.1 999 (some "") 3 4 1 1 1
    0 0 (Or.inr rfl)]
  exact ⟨rfl, rfl, rfl⟩

/-! ## The four outcomes of a create or open -/

theorem H5Fcreate_ff_outcome {σ : Type} (env : H5_env σ) (st : H5_state σ)
    (filename : Option String) (flags : Nat) (fcpl_id fapl_id eq_id : hid_t) :
    ((H5Fcreate_ff env st filename flags fcpl_id fapl_id eq_id).calls = [] ∧ (H5Fcreate_ff env st filename flags fcpl_id fapl_id eq_id).ret_value = FAIL ∧
      H5I_ids (H5Fcreate_ff env st filename flags fcpl_id fapl_id eq_id).st.ids = H5I_ids st.ids ∧ (H5Fcreate_ff env st filename flags fcpl_id fapl_id eq_id).st.vol = st.vol ∧
      (H5Fcreate_ff env st filename flags fcpl_id fapl_id eq_id).errs ≠ []) ∨
    (∃ ev, (H5Fcreate_ff env st filename flags fcpl_id fapl_id eq_id).calls = [ev] ∧ ev.ret = H5VL_ret.file none ∧
      (H5Fcreate_ff env st filename flags fcpl_id fapl_id eq_id).ret_value = FAIL ∧
      (H5Fcreate_ff env st filename flags fcpl_id fapl_id eq_id).err_kind = some (H5E_major.H5E_FILE, H5E_minor.H5E_CANTOPENFILE) ∧
      (H5Fcreate_ff env st filename flags fcpl_id fapl_id eq_id).st.ids = ev.ids ∧ H5I_ids ev.ids = H5I_ids st.ids) ∨
    (∃ ev g vp, (H5Fcreate_ff env st filename flags fcpl_id fapl_id eq_id).calls.head? = some ev ∧ ev.ret = H5VL_ret.file (some (g, vp)) ∧
        (H5I_register2 ev.ids H5I_type_t.H5I_FILE (H5_object.token g) (some vp) true).1 < 0 ∧
      (H5Fcreate_ff env st filename flags fcpl_id fapl_id eq_id).ret_value = FAIL ∧
      (H5Fcreate_ff env st filename flags fcpl_id fapl_id eq_id).err_kind = some (H5E_major.H5E_ATOM, H5E_minor.H5E_CANTREGISTER) ∧
      (H5Fcreate_ff env st filename flags fcpl_id fapl_id eq_id).st.ids = ev.ids ∧ H5I_ids ev.ids = H5I_ids st.ids) ∨
    (∃ ev g vp, (H5Fcreate_ff env st filename flags fcpl_id fapl_id eq_id).calls = [ev] ∧ ev.ret = H5VL_ret.file (some (g, vp)) ∧
        ¬ (H5I_register2 ev.ids H5I_type_t.H5I_FILE (H5_object.token g) (some vp) true).1 < 0 ∧
      (H5Fcreate_ff env st filename flags fcpl_id fapl_id eq_id).ret_value = (H5I_register2 ev.ids H5I_type_t.H5I_FILE (H5_object.token g) (some vp) true).1 ∧
      (H5Fcreate_ff env st filename flags fcpl_id fapl_id eq_id).st.ids = (H5I_register2 ev.ids H5I_type_t.H5I_FILE (H5_object.token g) (some vp) true).2 ∧
      (H5Fcreate_ff env st filename flags fcpl_id fapl_id eq_id).errs = [] ∧ H5I_ids ev.ids = H5I_ids st.ids) := by
  unfold H5Fcreate_ff
  dsimp only
  by_cases h0 : filename = none ∨ filename = some ""
  · rw [if_pos h0]
    exact Or.inl ⟨rfl, rfl, rfl, rfl, by simp [HGOTO_ERROR]⟩
  rw [if_neg h0]
  by_cases h1 : flags &&& H5_bitnot32 (env.H5F_ACC_EXCL ||| env.H5F_ACC_TRUNC ||| env.H5F_ACC_DEBUG) ≠ 0
  · rw [if_pos h1]
    exact Or.inl ⟨rfl, rfl, rfl, rfl, by simp [HGOTO_ERROR]⟩
  rw [if_neg h1]
  by_cases h2 : flags &&& env.H5F_ACC_EXCL ≠ 0 ∧ flags &&& env.H5F_ACC_TRUNC ≠ 0
  · rw [if_pos h2]
    exact Or.inl ⟨rfl, rfl, rfl, rfl, by simp [HGOTO_ERROR]⟩
  rw [if_neg h2]
  by_cases h3 : H5P_DEFAULT ≠ fcpl_id ∧ TRUE ≠ H5P_isa_class st.ids fcpl_id H5P_class_t.H5P_FILE_CREATE
  · rw [if_pos h3]
    exact Or.inl ⟨rfl, rfl, rfl, rfl, by simp [HGOTO_ERROR]⟩
  rw [if_neg h3]
  by_cases h4 : H5P_DEFAULT ≠ fapl_id ∧ TRUE ≠ H5P_isa_class st.ids fapl_id H5P_class_t.H5P_FILE_ACCESS
  · rw [if_pos h4]
    exact Or.inl ⟨rfl, rfl, rfl, rfl, by simp [HGOTO_ERROR]⟩
  rw [if_neg h4]
  generalize (if H5P_DEFAULT = fcpl_id then env.H5P_FILE_CREATE_DEFAULT else fcpl_id) = fcpl
  generalize (if H5P_DEFAULT = fapl_id then env.H5P_FILE_ACCESS_DEFAULT else fapl_id) = fapl
  split
  · rename_i hb
    exact Or.inr (Or.inl ⟨_, rfl, by rw [hb], rfl, rfl, rfl, rfl⟩)
  · rename_i g vp hb
    split
    · rename_i hreg
      refine Or.inr (Or.inr (Or.inl ⟨_, g, vp, rfl, by rw [hb], hreg, rfl, rfl, ?_, rfl⟩))
      exact H5I_register2_fail hreg
    · rename_i hreg
      exact Or.inr (Or.inr (Or.inr ⟨_, g, vp, rfl, by rw [hb], hreg, rfl, rfl, rfl, rfl⟩))

theorem H5Fopen_ff_outcome {σ : Type} (env : H5_env σ) (st : H5_state σ)
    (filename : Option String) (flags : Nat) (fapl_id eq_id : hid_t) :
    ((H5Fopen_ff env st filename flags fapl_id eq_id).calls = [] ∧ (H5Fopen_ff env st filename flags fapl_id eq_id).ret_value = FAIL ∧
      H5I_ids (H5Fopen_ff env st filename flags fapl_id eq_id).st.ids = H5I_ids st.ids ∧ (H5Fopen_ff env st filename flags fapl_id eq_id).st.vol = st.vol ∧
      (H5Fopen_ff env st filename flags fapl_id eq_id).errs ≠ []) ∨
    (∃ ev, (H5Fopen_ff env st filename flags fapl_id eq_id).calls = [ev] ∧ ev.ret = H5VL_ret.file none ∧
      (H5Fopen_ff env st filename flags fapl_id eq_id).ret_value = FAIL ∧
      (H5Fopen_ff env st filename flags fapl_id eq_id).err_kind = some (H5E_major.H5E_FILE, H5E_minor.H5E_CANTOPENFILE) ∧
      (H5Fopen_ff env st filename flags fapl_id eq_id).st.ids = ev.ids ∧ H5I_ids ev.ids = H5I_ids st.ids) ∨
    (∃ ev g vp, (H5Fopen_ff env st filename flags fapl_id eq_id).calls.head? = some ev ∧ ev.ret = H5VL_ret.file (some (g, vp)) ∧
        (H5I_register2 ev.ids H5I_type_t.H5I_FILE (H5_object.token g) (some vp) true).1 < 0 ∧
      (H5Fopen_ff env st filename flags fapl_id eq_id).ret_value = FAIL ∧
      (H5Fopen_ff env st filename flags fapl_id eq_id).err_kind = some (H5E_major.H5E_ATOM, H5E_minor.H5E_CANTREGISTER) ∧
      (H5Fopen_ff env st filename flags fapl_id eq_id).st.ids = ev.ids ∧ H5I_ids ev.ids = H5I_ids st.ids) ∨
    (∃ ev g vp, (H5Fopen_ff env st filename flags fapl_id eq_id).calls = [ev] ∧ ev.ret = H5VL_ret.file (some (g, vp)) ∧
        ¬ (H5I_register2 ev.ids H5I_type_t.H5I_FILE (H5_object.token g) (some vp) true).1 < 0 ∧
      (H5Fopen_ff env st filename flags fapl_id eq_id).ret_value = (H5I_register2 ev.ids H5I_type_t.H5I_FILE (H5_object.token g) (some vp) true).1 ∧
      (H5Fopen_ff env st filename flags fapl_id eq_id).st.ids = (H5I_register2 ev.ids H5I_type_t.H5I_FILE (H5_object.token g) (some vp) true).2 ∧
      (H5Fopen_ff env st filename flags fapl_id eq_id).errs = [] ∧ H5I_ids ev.ids = H5I_ids st.ids) := by
  unfold H5Fopen_ff
  dsimp only
  by_cases h0 : filename = none ∨ filename = some ""
  · rw [if_pos h0]
    exact Or.inl ⟨rfl, rfl, rfl, rfl, by simp [HGOTO_ERROR]⟩
  rw [if_neg h0]
  by_cases h1 : flags &&& H5_bitnot32 env.H5F_ACC_PUBLIC_FLAGS ≠ 0 ∨
      flags &&& env.H5F_ACC_TRUNC ≠ 0 ∨ flags &&& env.H5F_ACC_EXCL ≠ 0
  · rw [if_pos h1]
    exact Or.inl ⟨rfl, rfl, rfl, rfl, by simp [HGOTO_ERROR]⟩
  rw [if_neg h1]
  by_cases h2 : H5P_DEFAULT ≠ fapl_id ∧ TRUE ≠ H5P_isa_class st.ids fapl_id H5P_class_t.H5P_FILE_ACCESS
  · rw [if_pos h2]
    exact Or.inl ⟨rfl, rfl, rfl, rfl, by simp [HGOTO_ERROR]⟩
  rw [if_neg h2]
  generalize (if H5P_DEFAULT = fapl_id then env.H5P_FILE_ACCESS_DEFAULT else fapl_id) = fapl
  split
  · rename_i hb
    exact Or.inr (Or.inl ⟨_, rfl, by rw [hb], rfl, rfl, rfl, rfl⟩)
  · rename_i g vp hb
    split
    · rename_i hreg
      refine Or.inr (Or.inr (Or.inl ⟨_, g, vp, rfl, by rw [hb], hreg, rfl, rfl, ?_, rfl⟩))
      exact H5I_register2_fail hreg
    · rename_i hreg
      exact Or.inr (Or.inr (Or.inr ⟨_, g, vp, rfl, by rw [hb], hreg, rfl, rfl, rfl, rfl⟩))

theorem H5Gopen_ff_outcome {σ : Type} (env : H5_env σ) (st : H5_state σ)
    (loc_id : hid_t) (name : Option String) (gapl_id : hid_t) (trans : Nat)
    (eq_id : hid_t) :
    ((H5Gopen_ff env st loc_id name gapl_id trans eq_id).calls = [] ∧ (H5Gopen_ff env st loc_id name gapl_id trans eq_id).ret_value = FAIL ∧
      H5I_ids (H5Gopen_ff env st loc_id name gapl_id trans eq_id).st.ids = H5I_ids st.ids ∧ (H5Gopen_ff env st loc_id name gapl_id trans eq_id).st.vol = st.vol ∧
      (H5Gopen_ff env st loc_id name gapl_id trans eq_id).errs ≠ []) ∨
    (∃ ev, (H5Gopen_ff env st loc_id name gapl_id trans eq_id).calls = [ev] ∧ ev.ret = H5VL_ret.ptr none ∧
      (H5Gopen_ff env st loc_id name gapl_id trans eq_id).ret_value = FAIL ∧
      (H5Gopen_ff env st loc_id name gapl_id trans eq_id).err_kind = some (H5E_major.H5E_SYM, H5E_minor.H5E_CANTINIT) ∧
      (H5Gopen_ff env st loc_id name gapl_id trans eq_id).st.ids = ev.ids ∧ H5I_ids ev.ids = H5I_ids st.ids) ∨
    (∃ ev g vp, (H5Gopen_ff env st loc_id name gapl_id trans eq_id).calls.head? = some ev ∧ ev.ret = H5VL_ret.ptr (some g) ∧
        H5I_get_aux st.ids loc_id = some vp ∧
        (H5I_register2 ev.ids H5I_type_t.H5I_GROUP (H5_object.token g) (some vp) true).1 < 0 ∧
      (H5Gopen_ff env st loc_id name gapl_id trans eq_id).ret_value = FAIL ∧
      (H5Gopen_ff env st loc_id name gapl_id trans eq_id).err_kind = some (H5E_major.H5E_ATOM, H5E_minor.H5E_CANTREGISTER) ∧
      (H5Gopen_ff env st loc_id name gapl_id trans eq_id).st.ids = ev.ids ∧ H5I_ids ev.ids = H5I_ids st.ids) ∨
    (∃ ev g vp, (H5Gopen_ff env st loc_id name gapl_id trans eq_id).calls = [ev] ∧ ev.ret = H5VL_ret.ptr (some g) ∧
        H5I_get_aux st.ids loc_id = some vp ∧
        ¬ (H5I_register2 ev.ids H5I_type_t.H5I_GROUP (H5_object.token g) (some vp) true).1 < 0 ∧
      (H5Gopen_ff env st loc_id name gapl_id trans eq_id).ret_value = (H5I_register2 ev.ids H5I_type_t.H5I_GROUP (H5_object.token g) (some vp) true).1 ∧
      (H5Gopen_ff env st loc_id name gapl_id trans eq_id).st.ids = (H5I_register2 ev.ids H5I_type_t.H5I_GROUP (H5_object.token g) (some vp) true).2 ∧
      (H5Gopen_ff env st loc_id name gapl_id trans eq_id).errs = [] ∧ H5I_ids ev.ids = H5I_ids st.ids) := by
  unfold H5Gopen_ff
  dsimp only
  by_cases h0 : name = none ∨ name = some ""
  · rw [if_pos h0]
    exact Or.inl ⟨rfl, rfl, rfl, rfl, by simp [HGOTO_ERROR]⟩
  rw [if_neg h0]
  by_cases h1 : H5P_DEFAULT ≠ gapl_id ∧ TRUE ≠ H5P_isa_class st.ids gapl_id H5P_class_t.H5P_GROUP_ACCESS
  · rw [if_pos h1]
    exact Or.inl ⟨rfl, rfl, rfl, rfl, by simp [HGOTO_ERROR]⟩
  rw [if_neg h1]
  generalize (if H5P_DEFAULT = gapl_id then env.H5P_GROUP_ACCESS_DEFAULT else gapl_id) = gapl
  split
  · exact Or.inl ⟨rfl, rfl, rfl, rfl, by simp [HGOTO_ERROR]⟩
  rename_i obj hobj
  split
  · exact Or.inl ⟨rfl, rfl, rfl, rfl, by simp [HGOTO_ERROR]⟩
  rename_i vp haux
  split
  · rename_i hb
    exact Or.inr (Or.inl ⟨_, rfl, by rw [hb], rfl, rfl, rfl, rfl⟩)
  · rename_i g hb
    split
    · rename_i hreg
      refine Or.inr (Or.inr (Or.inl ⟨_, g, vp, rfl, by rw [hb], haux, hreg, rfl, rfl, ?_, rfl⟩))
      exact H5I_register2_fail hreg
    · rename_i hreg
      exact Or.inr (Or.inr (Or.inr ⟨_, g, vp, rfl, by rw [hb], haux, hreg, rfl, rfl, rfl, rfl⟩))

theorem H5Dopen_ff_outcome {σ : Type} (env : H5_env σ) (st : H5_state σ)
    (loc_id : hid_t) (name : Option String) (dapl_id : hid_t) (trans : Nat)
    (eq_id : hid_t) :
    ((H5Dopen_ff env st loc_id name dapl_id trans eq_id).calls = [] ∧ (H5Dopen_ff env st loc_id name dapl_id trans eq_id).ret_value = FAIL ∧
      H5I_ids (H5Dopen_ff env st loc_id name dapl_id trans eq_id).st.ids = H5I_ids st.ids ∧ (H5Dopen_ff env st loc_id name dapl_id trans eq_id).st.vol = st.vol ∧
      (H5Dopen_ff env st loc_id name dapl_id trans eq_id).errs ≠ []) ∨
    (∃ ev, (H5Dopen_ff env st loc_id name dapl_id trans eq_id).calls = [ev] ∧ ev.ret = H5VL_ret.ptr none ∧
      (H5Dopen_ff env st loc_id name dapl_id trans eq_id).ret_value = FAIL ∧
      (H5Dopen_ff env st loc_id name dapl_id trans eq_id).err_kind = some (H5E_major.H5E_DATASET, H5E_minor.H5E_CANTINIT) ∧
      (H5Dopen_ff env st loc_id name dapl_id trans eq_id).st.ids = ev.ids ∧ H5I_ids ev.ids = H5I_ids st.ids) ∨
    (∃ ev g vp, (H5Dopen_ff env st loc_id name dapl_id trans eq_id).calls.head? = some ev ∧ ev.ret = H5VL_ret.ptr (some g) ∧
        H5I_get_aux st.ids loc_id = some vp ∧
        (H5I_register2 ev.ids H5I_type_t.H5I_DATASET (H5_object.token g) (some vp) true).1 < 0 ∧
      (H5Dopen_ff env st loc_id name dapl_id trans eq_id).ret_value = FAIL ∧
      (H5Dopen_ff env st loc_id name dapl_id trans eq_id).err_kind = some (H5E_major.H5E_ATOM, H5E_minor.H5E_CANTREGISTER) ∧
      (H5Dopen_ff env st loc_id name dapl_id trans eq_id).st.ids = ev.ids ∧ H5I_ids ev.ids = H5I_ids st.ids) ∨
    (∃ ev g vp, (H5Dopen_ff env st loc_id name dapl_id trans eq_id).calls = [ev] ∧ ev.ret = H5VL_ret.ptr (some g) ∧
        H5I_get_aux st.ids loc_id = some vp ∧
        ¬ (H5I_register2 ev.ids H5I_type_t.H5I_DATASET (H5_object.token g) (some vp) true).1 < 0 ∧
      (H5Dopen_ff env st loc_id name dapl_id trans eq_id).ret_value = (H5I_register2 ev.ids H5I_type_t.H5I_DATASET (H5_object.token g) (some vp) true).1 ∧
      (H5Dopen_ff env st loc_id name dapl_id trans eq_id).st.ids = (H5I_register2 ev.ids H5I_type_t.H5I_DATASET (H5_object.token g) (some vp) true).2 ∧
      (H5Dopen_ff env st loc_id name dapl_id trans eq_id).errs = [] ∧ H5I_ids ev.ids = H5I_ids st.ids) := by
  unfold H5Dopen_ff
  dsimp only
  simp only [H5Dcreate_ff_done_none]
  by_cases h0 : name = none ∨ name = some ""
  · rw [if_pos h0]
    exact Or.inl ⟨rfl, rfl, rfl, rfl, by simp [HGOTO_ERROR]⟩
  rw [if_neg h0]
  by_cases h1 : H5P_DEFAULT ≠ dapl_id ∧ TRUE ≠ H5P_isa_class st.ids dapl_id H5P_class_t.H5P_DATASET_ACCESS
  · rw [if_pos h1]
    exact Or.inl ⟨rfl, rfl, rfl, rfl, by simp [HGOTO_ERROR]⟩
  rw [if_neg h1]
  generalize (if H5P_DEFAULT = dapl_id then env.H5P_DATASET_ACCESS_DEFAULT else dapl_id) = dapl
  split
  · exact Or.inl ⟨rfl, rfl, rfl, rfl, by simp [HGOTO_ERROR]⟩
  rename_i obj hobj
  split
  · exact Or.inl ⟨rfl, rfl, rfl, rfl, by simp [HGOTO_ERROR]⟩
  rename_i vp haux
  split
  · rename_i hb
    exact Or.inr (Or.inl ⟨_, rfl, by rw [hb], rfl, rfl, rfl, rfl⟩)
  · rename_i g hb
    split
    · rename_i hreg
      rw [H5I_register2_fail hreg]
      obtain ⟨h1, h2, h3, more, h4⟩ := H5Dcreate_ff_done_fail env
        (HGOTO_ERROR
          { ids := st.ids,
            vol := (env.vol.H5VL_dataset_open st.vol st.ids obj
              { type := H5VL_loc_type_t.H5VL_OBJECT_BY_SELF,
                obj_type := H5I_get_type st.ids loc_id }
              vp (name.getD "") dapl env.H5AC_dxpl_id eq_id).2 }
          [{ call := H5VL_call.dataset_open obj
               { type := H5VL_loc_type_t.H5VL_OBJECT_BY_SELF,
                 obj_type := H5I_get_type st.ids loc_id }
               vp (name.getD "") dapl env.H5AC_dxpl_id eq_id,
             ids := st.ids,
             ret := H5VL_ret.ptr (env.vol.H5VL_dataset_open st.vol st.ids obj
               { type := H5VL_loc_type_t.H5VL_OBJECT_BY_SELF,
                 obj_type := H5I_get_type st.ids loc_id }
               vp (name.getD "") dapl env.H5AC_dxpl_id eq_id).1 }]
          [] H5E_major.H5E_ATOM H5E_minor.H5E_CANTREGISTER "unable to atomize dataset handle")
        g vp eq_id rfl
      refine Or.inr (Or.inr (Or.inl ⟨
        { call := H5VL_call.dataset_open obj
               { type := H5VL_loc_type_t.H5VL_OBJECT_BY_SELF,
                 obj_type := H5I_get_type st.ids loc_id }
               vp (name.getD "") dapl env.H5AC_dxpl_id eq_id,
             ids := st.ids,
             ret := H5VL_ret.ptr (env.vol.H5VL_dataset_open st.vol st.ids obj
               { type := H5VL_loc_type_t.H5VL_OBJECT_BY_SELF,
                 obj_type := H5I_get_type st.ids loc_id }
               vp (name.getD "") dapl env.H5AC_dxpl_id eq_id).1 },
        g, vp, ?_, ?_, haux, ?_, h2, ?_, ?_, ?_⟩))
      · rw [h1]; rfl
      · dsimp only; rw [hb]
      · exact hreg
      · simp only [H5_result.err_kind, h4]; rfl
      · rw [h3]; rfl
      · rfl
    · rename_i hreg
      rw [H5Dcreate_ff_done_ok _ _ _ _ _ hreg]
      exact Or.inr (Or.inr (Or.inr ⟨_, g, vp, rfl, by rw [hb], haux, hreg, rfl, rfl, rfl, rfl⟩))


theorem H5Gcreate_ff_done_error {σ : Type} (env : H5_env σ) (s : H5_state σ) (ev : H5VL_event)
    (maj : H5E_major) (min : H5E_minor) (msg : String) (g : Nat) (vp : H5VL_t) (eq_id : hid_t) :
    (H5Gcreate_ff_done env (HGOTO_ERROR s [ev] [] maj min msg) (some g) (some vp) eq_id).calls.head? =
      some ev ∧
    (H5Gcreate_ff_done env (HGOTO_ERROR s [ev] [] maj min msg) (some g) (some vp) eq_id).ret_value =
      FAIL ∧
    (H5Gcreate_ff_done env (HGOTO_ERROR s [ev] [] maj min msg) (some g) (some vp) eq_id).err_kind =
      some (maj, min) ∧
    (H5Gcreate_ff_done env (HGOTO_ERROR s [ev] [] maj min msg) (some g) (some vp) eq_id).st.ids =
      s.ids := by
  obtain ⟨h1, h2, h3, more, h4⟩ :=
    H5Gcreate_ff_done_fail env (HGOTO_ERROR s [ev] [] maj min msg) g vp eq_id rfl
  refine ⟨?_, h2, ?_, ?_⟩
  · rw [h1]; rfl
  · simp only [H5_result.err_kind, h4]; rfl
  · rw [h3]; rfl

theorem H5Dcreate_ff_done_error {σ : Type} (env : H5_env σ) (s : H5_state σ) (ev : H5VL_event)
    (maj : H5E_major) (min : H5E_minor) (msg : String) (g : Nat) (vp : H5VL_t) (eq_id : hid_t) :
    (H5Dcreate_ff_done env (HGOTO_ERROR s [ev] [] maj min msg) (some g) (some vp) eq_id).calls.head? =
      some ev ∧
    (H5Dcreate_ff_done env (HGOTO_ERROR s [ev] [] maj min msg) (some g) (some vp) eq_id).ret_value =
      FAIL ∧
    (H5Dcreate_ff_done env (HGOTO_ERROR s [ev] [] maj min msg) (some g) (some vp) eq_id).err_kind =
      some (maj, min) ∧
    (H5Dcreate_ff_done env (HGOTO_ERROR s [ev] [] maj min msg) (some g) (some vp) eq_id).st.ids =
      s.ids := by
  obtain ⟨h1, h2, h3, more, h4⟩ :=
    H5Dcreate_ff_done_fail env (HGOTO_ERROR s [ev] [] maj min msg) g vp eq_id rfl
  refine ⟨?_, h2, ?_, ?_⟩
  · rw [h1]; rfl
  · simp only [H5_result.err_kind, h4]; rfl
  · rw [h3]; rfl

theorem H5Gcreate_ff_outcome {σ : Type} (env : H5_env σ) (st : H5_state σ)
    (loc_id : hid_t) (name : Option String) (lcpl_id gcpl_id gapl_id : hid_t)
    (trans : Nat) (eq_id : hid_t) :
    ((H5Gcreate_ff env st loc_id name lcpl_id gcpl_id gapl_id trans eq_id).calls = [] ∧ (H5Gcreate_ff env st loc_id name lcpl_id gcpl_id gapl_id trans eq_id).ret_value = FAIL ∧
      H5I_ids (H5Gcreate_ff env st loc_id name lcpl_id gcpl_id gapl_id trans eq_id).st.ids = H5I_ids st.ids ∧ (H5Gcreate_ff env st loc_id name lcpl_id gcpl_id gapl_id trans eq_id).st.vol = st.vol ∧
      (H5Gcreate_ff env st loc_id name lcpl_id gcpl_id gapl_id trans eq_id).errs ≠ []) ∨
    (∃ ev, (H5Gcreate_ff env st loc_id name lcpl_id gcpl_id gapl_id trans eq_id).calls = [ev] ∧ ev.ret = H5VL_ret.ptr none ∧
      (H5Gcreate_ff env st loc_id name lcpl_id gcpl_id gapl_id trans eq_id).ret_value = FAIL ∧
      (H5Gcreate_ff env st loc_id name lcpl_id gcpl_id gapl_id trans eq_id).err_kind = some (H5E_major.H5E_SYM, H5E_minor.H5E_CANTINIT) ∧
      (H5Gcreate_ff env st loc_id name lcpl_id gcpl_id gapl_id trans eq_id).st.ids = ev.ids ∧ H5I_ids ev.ids = H5I_ids st.ids) ∨
    (∃ ev g vp, (H5Gcreate_ff env st loc_id name lcpl_id gcpl_id gapl_id trans eq_id).calls.head? = some ev ∧ ev.ret = H5VL_ret.ptr (some g) ∧
        H5I_get_aux st.ids loc_id = some vp ∧
        (H5I_register2 ev.ids H5I_type_t.H5I_GROUP (H5_object.token g) (some vp) true).1 < 0 ∧
      (H5Gcreate_ff env st loc_id name lcpl_id gcpl_id gapl_id trans eq_id).ret_value = FAIL ∧
      (H5Gcreate_ff env st loc_id name lcpl_id gcpl_id gapl_id trans eq_id).err_kind = some (H5E_major.H5E_ATOM, H5E_minor.H5E_CANTREGISTER) ∧
      (H5Gcreate_ff env st loc_id name lcpl_id gcpl_id gapl_id trans eq_id).st.ids = ev.ids ∧ H5I_ids ev.ids = H5I_ids st.ids) ∨
    (∃ ev g vp, (H5Gcreate_ff env st loc_id name lcpl_id gcpl_id gapl_id trans eq_id).calls = [ev] ∧ ev.ret = H5VL_ret.ptr (some g) ∧
        H5I_get_aux st.ids loc_id = some vp ∧
        ¬ (H5I_register2 ev.ids H5I_type_t.H5I_GROUP (H5_object.token g) (some vp) true).1 < 0 ∧
      (H5Gcreate_ff env st loc_id name lcpl_id gcpl_id gapl_id trans eq_id).ret_value = (H5I_register2 ev.ids H5I_type_t.H5I_GROUP (H5_object.token g) (some vp) true).1 ∧
      (H5Gcreate_ff env st loc_id name lcpl_id gcpl_id gapl_id trans eq_id).st.ids = (H5I_register2 ev.ids H5I_type_t.H5I_GROUP (H5_object.token g) (some vp) true).2 ∧
      (H5Gcreate_ff env st loc_id name lcpl_id gcpl_id gapl_id trans eq_id).errs = [] ∧ H5I_ids ev.ids = H5I_ids st.ids) := by
  rcases H5Gcreate_ff_cases env st loc_id name lcpl_id gcpl_id gapl_id trans eq_id with
    ⟨maj, min, msg, hr⟩ | ⟨nm, ids1, _, _, hs1, hr⟩
  · rw [hr]; exact Or.inl ⟨rfl, rfl, rfl, rfl, by simp [HGOTO_ERROR]⟩
  · rw [hr]
    have hids : H5I_ids ids1 = H5I_ids st.ids := (H5P_set_eq_ids hs1).1
    have hauxeq : ∀ id, H5I_get_aux ids1 id = H5I_get_aux st.ids id := (H5P_set_eq_ids hs1).2
    rcases H5Gcreate_ff_vol_cases env { ids := ids1, vol := st.vol } loc_id nm _ _ eq_id with
      ⟨_, msg, hv⟩ | ⟨obj, vp, b, ev, _, haux, hbdef, hev, ⟨hb, hv⟩ | ⟨g, hb, hreg, hv⟩ |
        ⟨g, hb, hreg, hv⟩⟩
    · rw [hv]; exact Or.inl ⟨rfl, rfl, hids, rfl, by simp [HGOTO_ERROR]⟩
    · rw [hv]
      subst hev
      exact Or.inr (Or.inl ⟨_, rfl, by rw [hb], rfl, rfl, rfl, hids⟩)
    · rw [hv]
      subst hev
      obtain ⟨h1, h2, h3, h4⟩ := H5Gcreate_ff_done_error env { ids := ids1, vol := b.2 }
        { call := H5VL_call.group_create obj
            { type := H5VL_loc_type_t.H5VL_OBJECT_BY_SELF,
              obj_type := H5I_get_type ids1 loc_id }
            vp nm (if H5P_DEFAULT = gcpl_id then env.H5P_GROUP_CREATE_DEFAULT else gcpl_id)
            (if H5P_DEFAULT = gapl_id then env.H5P_GROUP_ACCESS_DEFAULT else gapl_id) env.H5AC_dxpl_id eq_id,
          ids := ids1, ret := H5VL_ret.ptr b.1 }
        H5E_major.H5E_ATOM H5E_minor.H5E_CANTREGISTER "unable to atomize dataset handle"
        g vp eq_id
      refine Or.inr (Or.inr (Or.inl ⟨_, g, vp, h1, ?_, ?_, hreg, h2, h3, h4, hids⟩))
      · dsimp only; rw [hb]
      · rw [← hauxeq loc_id]; exact haux
    · rw [hv]
      subst hev
      refine Or.inr (Or.inr (Or.inr ⟨_, g, vp, rfl, ?_, ?_, hreg, rfl, rfl, rfl, hids⟩))
      · dsimp only; rw [hb]
      · rw [← hauxeq loc_id]; exact haux

theorem H5Dcreate_ff_outcome {σ : Type} (env : H5_env σ) (st : H5_state σ)
    (loc_id : hid_t) (name : Option String)
    (type_id space_id lcpl_id dcpl_id dapl_id : hid_t) (trans : Nat) (eq_id : hid_t) :
    ((H5Dcreate_ff env st loc_id name type_id space_id lcpl_id dcpl_id dapl_id trans eq_id).calls = [] ∧ (H5Dcreate_ff env st loc_id name type_id space_id lcpl_id dcpl_id dapl_id trans eq_id).ret_value = FAIL ∧
      H5I_ids (H5Dcreate_ff env st loc_id name type_id space_id lcpl_id dcpl_id dapl_id trans eq_id).st.ids = H5I_ids st.ids ∧ (H5Dcreate_ff env st loc_id name type_id space_id lcpl_id dcpl_id dapl_id trans eq_id).st.vol = st.vol ∧
      (H5Dcreate_ff env st loc_id name type_id space_id lcpl_id dcpl_id dapl_id trans eq_id).errs ≠ []) ∨
    (∃ ev, (H5Dcreate_ff env st loc_id name type_id space_id lcpl_id dcpl_id dapl_id trans eq_id).calls = [ev] ∧ ev.ret = H5VL_ret.ptr none ∧
      (H5Dcreate_ff env st loc_id name type_id space_id lcpl_id dcpl_id dapl_id trans eq_id).ret_value = FAIL ∧
      (H5Dcreate_ff env st loc_id name type_id space_id lcpl_id dcpl_id dapl_id trans eq_id).err_kind = some (H5E_major.H5E_DATASET, H5E_minor.H5E_CANTINIT) ∧
      (H5Dcreate_ff env st loc_id name type_id space_id lcpl_id dcpl_id dapl_id trans eq_id).st.ids = ev.ids ∧ H5I_ids ev.ids = H5I_ids st.ids) ∨
    (∃ ev g vp, (H5Dcreate_ff env st loc_id name type_id space_id lcpl_id dcpl_id dapl_id trans eq_id).calls.head? = some ev ∧ ev.ret = H5VL_ret.ptr (some g) ∧
        H5I_get_aux st.ids loc_id = some vp ∧
        (H5I_register2 ev.ids H5I_type_t.H5I_DATASET (H5_object.token g) (some vp) true).1 < 0 ∧
      (H5Dcreate_ff env st loc_id name type_id space_id lcpl_id dcpl_id dapl_id trans eq_id).ret_value = FAIL ∧
      (H5Dcreate_ff env st loc_id name type_id space_id lcpl_id dcpl_id dapl_id trans eq_id).err_kind = some (H5E_major.H5E_ATOM, H5E_minor.H5E_CANTREGISTER) ∧
      (H5Dcreate_ff env st loc_id name type_id space_id lcpl_id dcpl_id dapl_id trans eq_id).st.ids = ev.ids ∧ H5I_ids ev.ids = H5I_ids st.ids) ∨
    (∃ ev g vp, (H5Dcreate_ff env st loc_id name type_id space_id lcpl_id dcpl_id dapl_id trans eq_id).calls = [ev] ∧ ev.ret = H5VL_ret.ptr (some g) ∧
        H5I_get_aux st.ids loc_id = some vp ∧
        ¬ (H5I_register2 ev.ids H5I_type_t.H5I_DATASET (H5_object.token g) (some vp) true).1 < 0 ∧
      (H5Dcreate_ff env st loc_id name type_id space_id lcpl_id dcpl_id dapl_id trans eq_id).ret_value = (H5I_register2 ev.ids H5I_type_t.H5I_DATASET (H5_object.token g) (some vp) true).1 ∧
      (H5Dcreate_ff env st loc_id name type_id space_id lcpl_id dcpl_id dapl_id trans eq_id).st.ids = (H5I_register2 ev.ids H5I_type_t.H5I_DATASET (H5_object.token g) (some vp) true).2 ∧
      (H5Dcreate_ff env st loc_id name type_id space_id lcpl_id dcpl_id dapl_id trans eq_id).errs = [] ∧ H5I_ids ev.ids = H5I_ids st.ids) := by
  rcases H5Dcreate_ff_cases env st loc_id name type_id space_id lcpl_id dcpl_id dapl_id trans eq_id with
    ⟨st1, maj, min, msg, hr, hvol, hids0⟩ | ⟨nm, ids1, ids2, ids3, _, _, hs1, hs2, hs3, hr⟩
  · rw [hr]; exact Or.inl ⟨rfl, rfl, hids0, hvol, by simp [HGOTO_ERROR]⟩
  · rw [hr]
    have hids : H5I_ids ids3 = H5I_ids st.ids := by
      rw [(H5P_set_eq_ids hs3).1, (H5P_set_eq_ids hs2).1, (H5P_set_eq_ids hs1).1]
    have hauxeq : ∀ id, H5I_get_aux ids3 id = H5I_get_aux st.ids id := by
      intro id
      rw [(H5P_set_eq_ids hs3).2, (H5P_set_eq_ids hs2).2, (H5P_set_eq_ids hs1).2]
    rcases H5Dcreate_ff_vol_cases env { ids := ids3, vol := st.vol } loc_id nm _ _ eq_id with
      ⟨_, msg, hv⟩ | ⟨obj, vp, b, ev, _, haux, hbdef, hev, ⟨hb, hv⟩ | ⟨g, hb, hreg, hv⟩ |
        ⟨g, hb, hreg, hv⟩⟩
    · rw [hv]; exact Or.inl ⟨rfl, rfl, hids, rfl, by simp [HGOTO_ERROR]⟩
    · rw [hv]
      subst hev
      exact Or.inr (Or.inl ⟨_, rfl, by rw [hb], rfl, rfl, rfl, hids⟩)
    · rw [hv]
      subst hev
      obtain ⟨h1, h2, h3, h4⟩ := H5Dcreate_ff_done_error env { ids := ids3, vol := b.2 }
        { call := H5VL_call.dataset_create obj
            { type := H5VL_loc_type_t.H5VL_OBJECT_BY_SELF,
              obj_type := H5I_get_type ids3 loc_id }
            vp nm (if H5P_DEFAULT = dcpl_id then env.H5P_DATASET_CREATE_DEFAULT else dcpl_id)
            (if H5P_DEFAULT = dapl_id then env.H5P_DATASET_ACCESS_DEFAULT else dapl_id) env.H5AC_dxpl_id eq_id,
          ids := ids3, ret := H5VL_ret.ptr b.1 }
        H5E_major.H5E_ATOM H5E_minor.H5E_CANTREGISTER "unable to atomize dataset handle"
        g vp eq_id
      refine Or.inr (Or.inr (Or.inl ⟨_, g, vp, h1, ?_, ?_, hreg, h2, h3, h4, hids⟩))
      · dsimp only; rw [hb]
      · rw [← hauxeq loc_id]; exact haux
    · rw [hv]
      subst hev
      refine Or.inr (Or.inr (Or.inr ⟨_, g, vp, rfl, ?_, ?_, hreg, rfl, rfl, rfl, hids⟩))
      · dsimp only; rw [hb]
      · rw [← hauxeq loc_id]; exact haux

theorem H5Dwrite_ff_outcome {σ : Type} (env : H5_env σ) (st : H5_state σ)
    (dset_id mem_type_id mem_space_id file_space_id dxpl_id : hid_t)
    (buf : List Nat) (trans : Nat) (eq_id : hid_t) :
    ((H5Dwrite_ff env st dset_id mem_type_id mem_space_id file_space_id dxpl_id buf trans eq_id).calls = [] ∧ (H5Dwrite_ff env st dset_id mem_type_id mem_space_id file_space_id dxpl_id buf trans eq_id).ret_value = FAIL ∧
      (H5Dwrite_ff env st dset_id mem_type_id mem_space_id file_space_id dxpl_id buf trans eq_id).st = st ∧
      (H5Dwrite_ff env st dset_id mem_type_id mem_space_id file_space_id dxpl_id buf trans eq_id).err_kind = some (H5E_major.H5E_ARGS, H5E_minor.H5E_BADTYPE)) ∨
    (∃ ev rc, (H5Dwrite_ff env st dset_id mem_type_id mem_space_id file_space_id dxpl_id buf trans eq_id).calls = [ev] ∧ ev.ret = H5VL_ret.status rc ∧ rc < 0 ∧
      (H5Dwrite_ff env st dset_id mem_type_id mem_space_id file_space_id dxpl_id buf trans eq_id).ret_value = FAIL ∧
      (H5Dwrite_ff env st dset_id mem_type_id mem_space_id file_space_id dxpl_id buf trans eq_id).err_kind = some (H5E_major.H5E_DATASET, H5E_minor.H5E_WRITEERROR) ∧
      (H5Dwrite_ff env st dset_id mem_type_id mem_space_id file_space_id dxpl_id buf trans eq_id).st.ids = st.ids ∧
      (H5Dwrite_ff env st dset_id mem_type_id mem_space_id file_space_id dxpl_id buf trans eq_id).buf = buf) ∨
    (∃ ev rc, (H5Dwrite_ff env st dset_id mem_type_id mem_space_id file_space_id dxpl_id buf trans eq_id).calls = [ev] ∧ ev.ret = H5VL_ret.status rc ∧ 0 ≤ rc ∧
      (H5Dwrite_ff env st dset_id mem_type_id mem_space_id file_space_id dxpl_id buf trans eq_id).ret_value = rc ∧
      (H5Dwrite_ff env st dset_id mem_type_id mem_space_id file_space_id dxpl_id buf trans eq_id).errs = [] ∧
      (H5Dwrite_ff env st dset_id mem_type_id mem_space_id file_space_id dxpl_id buf trans eq_id).st.ids = st.ids ∧
      (H5Dwrite_ff env st dset_id mem_type_id mem_space_id file_space_id dxpl_id buf trans eq_id).buf = buf) := by
  unfold H5Dwrite_ff
  dsimp only
  by_cases h0 : dset_id = 0
  · rw [if_pos h0]; exact Or.inl ⟨rfl, rfl, rfl, rfl⟩
  rw [if_neg h0]
  by_cases h1 : H5P_DEFAULT ≠ dxpl_id ∧ TRUE ≠ H5P_isa_class st.ids dxpl_id H5P_class_t.H5P_DATASET_XFER
  · rw [if_pos h1]; exact Or.inl ⟨rfl, rfl, rfl, rfl⟩
  rw [if_neg h1]
  generalize (if H5P_DEFAULT = dxpl_id then env.H5P_DATASET_XFER_DEFAULT else dxpl_id) = dxpl
  split
  · exact Or.inl ⟨rfl, rfl, rfl, rfl⟩
  split
  · exact Or.inl ⟨rfl, rfl, rfl, rfl⟩
  split
  · rename_i hrc
    exact Or.inr (Or.inl ⟨_, _, rfl, rfl, hrc, rfl, rfl, rfl, rfl⟩)
  · rename_i hrc
    exact Or.inr (Or.inr ⟨_, _, rfl, rfl, not_lt.mp hrc, rfl, rfl, rfl, rfl⟩)

theorem H5Dread_ff_outcome {σ : Type} (env : H5_env σ) (st : H5_state σ)
    (dset_id mem_type_id mem_space_id file_space_id dxpl_id : hid_t)
    (buf : List Nat) (trans : Nat) (eq_id : hid_t) :
    ((H5Dread_ff env st dset_id mem_type_id mem_space_id file_space_id dxpl_id buf trans eq_id).calls = [] ∧ (H5Dread_ff env st dset_id mem_type_id mem_space_id file_space_id dxpl_id buf trans eq_id).ret_value = FAIL ∧
      (H5Dread_ff env st dset_id mem_type_id mem_space_id file_space_id dxpl_id buf trans eq_id).st = st ∧
      (H5Dread_ff env st dset_id mem_type_id mem_space_id file_space_id dxpl_id buf trans eq_id).err_kind = some (H5E_major.H5E_ARGS, H5E_minor.H5E_BADTYPE)) ∨
    (∃ ev rc out, (H5Dread_ff env st dset_id mem_type_id mem_space_id file_space_id dxpl_id buf trans eq_id).calls = [ev] ∧ ev.ret = H5VL_ret.data rc out ∧ rc < 0 ∧
      (H5Dread_ff env st dset_id mem_type_id mem_space_id file_space_id dxpl_id buf trans eq_id).ret_value = FAIL ∧
      (H5Dread_ff env st dset_id mem_type_id mem_space_id file_space_id dxpl_id buf trans eq_id).err_kind = some (H5E_major.H5E_DATASET, H5E_minor.H5E_READERROR) ∧
      (H5Dread_ff env st dset_id mem_type_id mem_space_id file_space_id dxpl_id buf trans eq_id).st.ids = st.ids ∧
      (H5Dread_ff env st dset_id mem_type_id mem_space_id file_space_id dxpl_id buf trans eq_id).buf = out) ∨
    (∃ ev rc out, (H5Dread_ff env st dset_id mem_type_id mem_space_id file_space_id dxpl_id buf trans eq_id).calls = [ev] ∧ ev.ret = H5VL_ret.data rc out ∧ 0 ≤ rc ∧
      (H5Dread_ff env st dset_id mem_type_id mem_space_id file_space_id dxpl_id buf trans eq_id).ret_value = rc ∧
      (H5Dread_ff env st dset_id mem_type_id mem_space_id file_space_id dxpl_id buf trans eq_id).errs = [] ∧
      (H5Dread_ff env st dset_id mem_type_id mem_space_id file_space_id dxpl_id buf trans eq_id).st.ids = st.ids ∧
      (H5Dread_ff env st dset_id mem_type_id mem_space_id file_space_id dxpl_id buf trans eq_id).buf = out) := by
  unfold H5Dread_ff
  dsimp only
  by_cases h0 : mem_space_id < 0 ∨ file_space_id < 0
  · rw [if_pos h0]; exact Or.inl ⟨rfl, rfl, rfl, rfl⟩
  rw [if_neg h0]
  by_cases h1 : H5P_DEFAULT ≠ dxpl_id ∧ TRUE ≠ H5P_isa_class st.ids dxpl_id H5P_class_t.H5P_DATASET_XFER
  · rw [if_pos h1]; exact Or.inl ⟨rfl, rfl, rfl, rfl⟩
  rw [if_neg h1]
  generalize (if H5P_DEFAULT = dxpl_id then env.H5P_DATASET_XFER_DEFAULT else dxpl_id) = dxpl
  split
  · exact Or.inl ⟨rfl, rfl, rfl, rfl⟩
  split
  · exact Or.inl ⟨rfl, rfl, rfl, rfl⟩
  split
  · rename_i hrc
    exact Or.inr (Or.inl ⟨_, _, _, rfl, rfl, hrc, rfl, rfl, rfl, rfl⟩)
  · rename_i hrc
    exact Or.inr (Or.inr ⟨_, _, _, rfl, rfl, not_lt.mp hrc, rfl, rfl, rfl, rfl⟩)

/-! ## C12: the value returned by a create or open -/

theorem H5Fcreate_ff_returns {σ : Type} (env : H5_env σ) (st : H5_state σ)
    (filename : Option String) (flags : Nat) (fcpl_id fapl_id eq_id : hid_t) :
    ((H5Fcreate_ff env st filename flags fcpl_id fapl_id eq_id).ret_value = FAIL ∨ 0 ≤ (H5Fcreate_ff env st filename flags fcpl_id fapl_id eq_id).ret_value) ∧
      (0 ≤ (H5Fcreate_ff env st filename flags fcpl_id fapl_id eq_id).ret_value ↔
        ((filename ≠ none ∧ filename ≠ some "") ∧
         flags &&& H5_bitnot32 (env.H5F_ACC_EXCL ||| env.H5F_ACC_TRUNC ||| env.H5F_ACC_DEBUG) = 0 ∧
         (flags &&& env.H5F_ACC_EXCL = 0 ∨ flags &&& env.H5F_ACC_TRUNC = 0) ∧
         (H5P_DEFAULT = fcpl_id ∨ TRUE = H5P_isa_class st.ids fcpl_id H5P_class_t.H5P_FILE_CREATE) ∧
         (H5P_DEFAULT = fapl_id ∨ TRUE = H5P_isa_class st.ids fapl_id H5P_class_t.H5P_FILE_ACCESS)) ∧
        ∃ ev g vp, (H5Fcreate_ff env st filename flags fcpl_id fapl_id eq_id).calls.head? = some ev ∧
          ev.ret = H5VL_ret.file (some (g, vp)) ∧
          0 ≤ (H5I_register2 ev.ids H5I_type_t.H5I_FILE (H5_object.token g) (some vp) true).1) ∧
      (0 ≤ (H5Fcreate_ff env st filename flags fcpl_id fapl_id eq_id).ret_value →
        ∃ ev g vp, (H5Fcreate_ff env st filename flags fcpl_id fapl_id eq_id).calls = [ev] ∧
          ev.ret = H5VL_ret.file (some (g, vp)) ∧
          (H5Fcreate_ff env st filename flags fcpl_id fapl_id eq_id).ret_value =
            (H5I_register2 ev.ids H5I_type_t.H5I_FILE (H5_object.token g) (some vp) true).1 ∧
          (H5Fcreate_ff env st filename flags fcpl_id fapl_id eq_id).st.ids =
            (H5I_register2 ev.ids H5I_type_t.H5I_FILE (H5_object.token g) (some vp) true).2) := by
  have hreach := (H5Fcreate_ff_reach env st filename flags fcpl_id fapl_id eq_id).1
  have hF : ¬ (0 : Int) ≤ FAIL := by decide
  rcases H5Fcreate_ff_outcome env st filename flags fcpl_id fapl_id eq_id with
    ⟨hc, hr, _⟩ | ⟨ev, hc, he, hr, _⟩ | ⟨ev, g, vp, hc, he, hreg, hr, _⟩ |
      ⟨ev, g, vp, hc, he, hreg, hr, hids, _⟩
  · rw [hr]
    refine ⟨Or.inl rfl, ⟨fun h => absurd h hF, fun h => ?_⟩, fun h => absurd h hF⟩
    obtain ⟨_, ev2, g2, vp2, hh, _⟩ := h
    rw [hc] at hh
    cases hh
  · rw [hr]
    refine ⟨Or.inl rfl, ⟨fun h => absurd h hF, fun h => ?_⟩, fun h => absurd h hF⟩
    obtain ⟨_, ev2, g2, vp2, hh, he2, _⟩ := h
    rw [hc] at hh
    cases hh
    rw [he] at he2
    cases he2
  · rw [hr]
    refine ⟨Or.inl rfl, ⟨fun h => absurd h hF, fun h => ?_⟩, fun h => absurd h hF⟩
    obtain ⟨_, ev2, g2, vp2, hh, he2, h0⟩ := h
    rw [hc] at hh
    cases hh
    rw [he] at he2
    cases he2
    exact absurd hreg (not_lt.mpr h0)
  · have h0 := not_lt.mp hreg
    rw [hr]
    refine ⟨Or.inr h0, ⟨fun _ => ⟨hreach.mp (by rw [hc]; exact List.cons_ne_nil _ _),
      ev, g, vp, by rw [hc]; rfl, he, h0⟩, fun _ => h0⟩,
      fun _ => ⟨ev, g, vp, hc, he, rfl, hids⟩⟩

theorem H5Fopen_ff_returns {σ : Type} (env : H5_env σ) (st : H5_state σ)
    (filename : Option String) (flags : Nat) (fapl_id eq_id : hid_t) :
    ((H5Fopen_ff env st filename flags fapl_id eq_id).ret_value = FAIL ∨ 0 ≤ (H5Fopen_ff env st filename flags fapl_id eq_id).ret_value) ∧
      (0 ≤ (H5Fopen_ff env st filename flags fapl_id eq_id).ret_value ↔
        ((filename ≠ none ∧ filename ≠ some "") ∧
         flags &&& H5_bitnot32 env.H5F_ACC_PUBLIC_FLAGS = 0 ∧
         flags &&& env.H5F_ACC_TRUNC = 0 ∧
         flags &&& env.H5F_ACC_EXCL = 0 ∧
         (H5P_DEFAULT = fapl_id ∨ TRUE = H5P_isa_class st.ids fapl_id H5P_class_t.H5P_FILE_ACCESS)) ∧
        ∃ ev g vp, (H5Fopen_ff env st filename flags fapl_id eq_id).calls.head? = some ev ∧
          ev.ret = H5VL_ret.file (some (g, vp)) ∧
          0 ≤ (H5I_register2 ev.ids H5I_type_t.H5I_FILE (H5_object.token g) (some vp) true).1) ∧
      (0 ≤ (H5Fopen_ff env st filename flags fapl_id eq_id).ret_value →
        ∃ ev g vp, (H5Fopen_ff env st filename flags fapl_id eq_id).calls = [ev] ∧
          ev.ret = H5VL_ret.file (some (g, vp)) ∧
          (H5Fopen_ff env st filename flags fapl_id eq_id).ret_value =
            (H5I_register2 ev.ids H5I_type_t.H5I_FILE (H5_object.token g) (some vp) true).1 ∧
          (H5Fopen_ff env st filename flags fapl_id eq_id).st.ids =
            (H5I_register2 ev.ids H5I_type_t.H5I_FILE (H5_object.token g) (some vp) true).2) := by
  have hreach := (H5Fopen_ff_reach env st filename flags fapl_id eq_id).1
  have hF : ¬ (0 : Int) ≤ FAIL := by decide
  rcases H5Fopen_ff_outcome env st filename flags fapl_id eq_id with
    ⟨hc, hr, _⟩ | ⟨ev, hc, he, hr, _⟩ | ⟨ev, g, vp, hc, he, hreg, hr, _⟩ |
      ⟨ev, g, vp, hc, he, hreg, hr, hids, _⟩
  · rw [hr]
    refine ⟨Or.inl rfl, ⟨fun h => absurd h hF, fun h => ?_⟩, fun h => absurd h hF⟩
    obtain ⟨_, ev2, g2, vp2, hh, _⟩ := h
    rw [hc] at hh
    cases hh
  · rw [hr]
    refine ⟨Or.inl rfl, ⟨fun h => absurd h hF, fun h => ?_⟩, fun h => absurd h hF⟩
    obtain ⟨_, ev2, g2, vp2, hh, he2, _⟩ := h
    rw [hc] at hh
    cases hh
    rw [he] at he2
    cases he2
  · rw [hr]
    refine ⟨Or.inl rfl, ⟨fun h => absurd h hF, fun h => ?_⟩, fun h => absurd h hF⟩
    obtain ⟨_, ev2, g2, vp2, hh, he2, h0⟩ := h
    rw [hc] at hh
    cases hh
    rw [he] at he2
    cases he2
    exact absurd hreg (not_lt.mpr h0)
  · have h0 := not_lt.mp hreg
    rw [hr]
    refine ⟨Or.inr h0, ⟨fun _ => ⟨hreach.mp (by rw [hc]; exact List.cons_ne_nil _ _),
      ev, g, vp, by rw [hc]; rfl, he, h0⟩, fun _ => h0⟩,
      fun _ => ⟨ev, g, vp, hc, he, rfl, hids⟩⟩

theorem H5Gcreate_ff_returns {σ : Type} (env : H5_env σ) (st : H5_state σ)
    (loc_id : hid_t) (name : Option String) (lcpl_id gcpl_id gapl_id : hid_t)
    (trans : Nat) (eq_id : hid_t) :
    ((H5Gcreate_ff env st loc_id name lcpl_id gcpl_id gapl_id trans eq_id).ret_value = FAIL ∨ 0 ≤ (H5Gcreate_ff env st loc_id name lcpl_id gcpl_id gapl_id trans eq_id).ret_value) ∧
      (0 ≤ (H5Gcreate_ff env st loc_id name lcpl_id gcpl_id gapl_id trans eq_id).ret_value ↔
        ((name ≠ none ∧ name ≠ some "") ∧
         (H5P_DEFAULT = lcpl_id ∨ TRUE = H5P_isa_class st.ids lcpl_id H5P_class_t.H5P_LINK_CREATE) ∧
         (H5P_DEFAULT = gcpl_id ∨ TRUE = H5P_isa_class st.ids gcpl_id H5P_class_t.H5P_GROUP_CREATE) ∧
         (H5P_DEFAULT = gapl_id ∨ TRUE = H5P_isa_class st.ids gapl_id H5P_class_t.H5P_GROUP_ACCESS) ∧
         (∃ ids1, H5P_set st.ids
              (if H5P_DEFAULT = gcpl_id then env.H5P_GROUP_CREATE_DEFAULT else gcpl_id)
              H5P_key.H5VL_GRP_LCPL_ID
              (if H5P_DEFAULT = lcpl_id then env.H5P_LINK_CREATE_DEFAULT else lcpl_id) =
            (SUCCEED, ids1)) ∧
         H5I_object st.ids loc_id ≠ none ∧
         H5I_get_aux st.ids loc_id ≠ none) ∧
        ∃ ev g vp, (H5Gcreate_ff env st loc_id name lcpl_id gcpl_id gapl_id trans eq_id).calls.head? = some ev ∧
          ev.ret = H5VL_ret.ptr (some g) ∧
          H5I_get_aux st.ids loc_id = some vp ∧
          0 ≤ (H5I_register2 ev.ids H5I_type_t.H5I_GROUP (H5_object.token g) (some vp) true).1) ∧
      (0 ≤ (H5Gcreate_ff env st loc_id name lcpl_id gcpl_id gapl_id trans eq_id).ret_value →
        ∃ ev g vp, (H5Gcreate_ff env st loc_id name lcpl_id gcpl_id gapl_id trans eq_id).calls = [ev] ∧
          ev.ret = H5VL_ret.ptr (some g) ∧
          H5I_get_aux st.ids loc_id = some vp ∧
          (H5Gcreate_ff env st loc_id name lcpl_id gcpl_id gapl_id trans eq_id).ret_value =
            (H5I_register2 ev.ids H5I_type_t.H5I_GROUP (H5_object.token g) (some vp) true).1 ∧
          (H5Gcreate_ff env st loc_id name lcpl_id gcpl_id gapl_id trans eq_id).st.ids =
            (H5I_register2 ev.ids H5I_type_t.H5I_GROUP (H5_object.token g) (some vp) true).2) := by
  have hreach := (H5Gcreate_ff_reach env st loc_id name lcpl_id gcpl_id gapl_id trans eq_id).1
  have hF : ¬ (0 : Int) ≤ FAIL := by decide
  rcases H5Gcreate_ff_outcome env st loc_id name lcpl_id gcpl_id gapl_id trans eq_id with
    ⟨hc, hr, _⟩ | ⟨ev, hc, he, hr, _⟩ | ⟨ev, g, vp, hc, he, haux, hreg, hr, _⟩ |
      ⟨ev, g, vp, hc, he, haux, hreg, hr, hids, _⟩
  · rw [hr]
    refine ⟨Or.inl rfl, ⟨fun h => absurd h hF, fun h => ?_⟩, fun h => absurd h hF⟩
    obtain ⟨_, ev2, g2, vp2, hh, _⟩ := h
    rw [hc] at hh
    cases hh
  · rw [hr]
    refine ⟨Or.inl rfl, ⟨fun h => absurd h hF, fun h => ?_⟩, fun h => absurd h hF⟩
    obtain ⟨_, ev2, g2, vp2, hh, he2, _⟩ := h
    rw [hc] at hh
    cases hh
    rw [he] at he2
    cases he2
  · rw [hr]
    refine ⟨Or.inl rfl, ⟨fun h => absurd h hF, fun h => ?_⟩, fun h => absurd h hF⟩
    obtain ⟨_, ev2, g2, vp2, hh, he2, haux2, h0⟩ := h
    rw [hc] at hh
    cases hh
    rw [he] at he2
    cases he2
    rw [haux] at haux2
    cases haux2
    exact absurd hreg (not_lt.mpr h0)
  · have h0 := not_lt.mp hreg
    rw [hr]
    refine ⟨Or.inr h0, ⟨fun _ => ⟨hreach.mp (by rw [hc]; exact List.cons_ne_nil _ _),
      ev, g, vp, by rw [hc]; rfl, he, haux, h0⟩, fun _ => h0⟩,
      fun _ => ⟨ev, g, vp, hc, he, haux, rfl, hids⟩⟩

theorem H5Gopen_ff_returns {σ : Type} (env : H5_env σ) (st : H5_state σ)
    (loc_id : hid_t) (name : Option String) (gapl_id : hid_t) (trans : Nat)
    (eq_id : hid_t) :
    ((H5Gopen_ff env st loc_id name gapl_id trans eq_id).ret_value = FAIL ∨ 0 ≤ (H5Gopen_ff env st loc_id name gapl_id trans eq_id).ret_value) ∧
      (0 ≤ (H5Gopen_ff env st loc_id name gapl_id trans eq_id).ret_value ↔
        ((name ≠ none ∧ name ≠ some "") ∧
         (H5P_DEFAULT = gapl_id ∨ TRUE = H5P_isa_class st.ids gapl_id H5P_class_t.H5P_GROUP_ACCESS) ∧
         H5I_object st.ids loc_id ≠ none ∧
         H5I_get_aux st.ids loc_id ≠ none) ∧
        ∃ ev g vp, (H5Gopen_ff env st loc_id name gapl_id trans eq_id).calls.head? = some ev ∧
          ev.ret = H5VL_ret.ptr (some g) ∧
          H5I_get_aux st.ids loc_id = some vp ∧
          0 ≤ (H5I_register2 ev.ids H5I_type_t.H5I_GROUP (H5_object.token g) (some vp) true).1) ∧
      (0 ≤ (H5Gopen_ff env st loc_id name gapl_id trans eq_id).ret_value →
        ∃ ev g vp, (H5Gopen_ff env st loc_id name gapl_id trans eq_id).calls = [ev] ∧
          ev.ret = H5VL_ret.ptr (some g) ∧
          H5I_get_aux st.ids loc_id = some vp ∧
          (H5Gopen_ff env st loc_id name gapl_id trans eq_id).ret_value =
            (H5I_register2 ev.ids H5I_type_t.H5I_GROUP (H5_object.token g) (some vp) true).1 ∧
          (H5Gopen_ff env st loc_id name gapl_id trans eq_id).st.ids =
            (H5I_register2 ev.ids H5I_type_t.H5I_GROUP (H5_object.token g) (some vp) true).2) := by
  have hreach := (H5Gopen_ff_reach env st loc_id name gapl_id trans eq_id).1
  have hF : ¬ (0 : Int) ≤ FAIL := by decide
  rcases H5Gopen_ff_outcome env st loc_id name gapl_id trans eq_id with
    ⟨hc, hr, _⟩ | ⟨ev, hc, he, hr, _⟩ | ⟨ev, g, vp, hc, he, haux, hreg, hr, _⟩ |
      ⟨ev, g, vp, hc, he, haux, hreg, hr, hids, _⟩
  · rw [hr]
    refine ⟨Or.inl rfl, ⟨fun h => absurd h hF, fun h => ?_⟩, fun h => absurd h hF⟩
    obtain ⟨_, ev2, g2, vp2, hh, _⟩ := h
    rw [hc] at hh
    cases hh
  · rw [hr]
    refine ⟨Or.inl rfl, ⟨fun h => absurd h hF, fun h => ?_⟩, fun h => absurd h hF⟩
    obtain ⟨_, ev2, g2, vp2, hh, he2, _⟩ := h
    rw [hc] at hh
    cases hh
    rw [he] at he2
    cases he2
  · rw [hr]
    refine ⟨Or.inl rfl, ⟨fun h => absurd h hF, fun h => ?_⟩, fun h => absurd h hF⟩
    obtain ⟨_, ev2, g2, vp2, hh, he2, haux2, h0⟩ := h
    rw [hc] at hh
    cases hh
    rw [he] at he2
    cases he2
    rw [haux] at haux2
    cases haux2
    exact absurd hreg (not_lt.mpr h0)
  · have h0 := not_lt.mp hreg
    rw [hr]
    refine ⟨Or.inr h0, ⟨fun _ => ⟨hreach.mp (by rw [hc]; exact List.cons_ne_nil _ _),
      ev, g, vp, by rw [hc]; rfl, he, haux, h0⟩, fun _ => h0⟩,
      fun _ => ⟨ev, g, vp, hc, he, haux, rfl, hids⟩⟩

theorem H5Dcreate_ff_returns {σ : Type} (env : H5_env σ) (st : H5_state σ)
    (loc_id : hid_t) (name : Option String)
    (type_id space_id lcpl_id dcpl_id dapl_id : hid_t) (trans : Nat) (eq_id : hid_t) :
    ((H5Dcreate_ff env st loc_id name type_id space_id lcpl_id dcpl_id dapl_id trans eq_id).ret_value = FAIL ∨ 0 ≤ (H5Dcreate_ff env st loc_id name type_id space_id lcpl_id dcpl_id dapl_id trans eq_id).ret_value) ∧
      (0 ≤ (H5Dcreate_ff env st loc_id name type_id space_id lcpl_id dcpl_id dapl_id trans eq_id).ret_value ↔
        ((name ≠ none ∧ name ≠ some "") ∧
         (H5P_DEFAULT = lcpl_id ∨ TRUE = H5P_isa_class st.ids lcpl_id H5P_class_t.H5P_LINK_CREATE) ∧
         (H5P_DEFAULT = dcpl_id ∨ TRUE = H5P_isa_class st.ids dcpl_id H5P_class_t.H5P_DATASET_CREATE) ∧
         (H5P_DEFAULT = dapl_id ∨ TRUE = H5P_isa_class st.ids dapl_id H5P_class_t.H5P_DATASET_ACCESS) ∧
         (∃ ids1 ids2 ids3,
            H5P_set st.ids
              (if H5P_DEFAULT = dcpl_id then env.H5P_DATASET_CREATE_DEFAULT else dcpl_id)
              H5P_key.H5VL_DSET_TYPE_ID type_id = (SUCCEED, ids1) ∧
            H5P_set ids1
              (if H5P_DEFAULT = dcpl_id then env.H5P_DATASET_CREATE_DEFAULT else dcpl_id)
              H5P_key.H5VL_DSET_SPACE_ID space_id = (SUCCEED, ids2) ∧
            H5P_set ids2
              (if H5P_DEFAULT = dcpl_id then env.H5P_DATASET_CREATE_DEFAULT else dcpl_id)
              H5P_key.H5VL_DSET_LCPL_ID
              (if H5P_DEFAULT = lcpl_id then env.H5P_LINK_CREATE_DEFAULT else lcpl_id) =
              (SUCCEED, ids3)) ∧
         H5VL_get_object st.ids loc_id ≠ none ∧
         H5I_get_aux st.ids loc_id ≠ none) ∧
        ∃ ev g vp, (H5Dcreate_ff env st loc_id name type_id space_id lcpl_id dcpl_id dapl_id trans eq_id).calls.head? = some ev ∧
          ev.ret = H5VL_ret.ptr (some g) ∧
          H5I_get_aux st.ids loc_id = some vp ∧
          0 ≤ (H5I_register2 ev.ids H5I_type_t.H5I_DATASET (H5_object.token g) (some vp) true).1) ∧
      (0 ≤ (H5Dcreate_ff env st loc_id name type_id space_id lcpl_id dcpl_id dapl_id trans eq_id).ret_value →
        ∃ ev g vp, (H5Dcreate_ff env st loc_id name type_id space_id lcpl_id dcpl_id dapl_id trans eq_id).calls = [ev] ∧
          ev.ret = H5VL_ret.ptr (some g) ∧
          H5I_get_aux st.ids loc_id = some vp ∧
          (H5Dcreate_ff env st loc_id name type_id space_id lcpl_id dcpl_id dapl_id trans eq_id).ret_value =
            (H5I_register2 ev.ids H5I_type_t.H5I_DATASET (H5_object.token g) (some vp) true).1 ∧
          (H5Dcreate_ff env st loc_id name type_id space_id lcpl_id dcpl_id dapl_id trans eq_id).st.ids =
            (H5I_register2 ev.ids H5I_type_t.H5I_DATASET (H5_object.token g) (some vp) true).2) := by
  have hreach := (H5Dcreate_ff_reach env st loc_id name type_id space_id lcpl_id dcpl_id dapl_id trans eq_id).1
  have hF : ¬ (0 : Int) ≤ FAIL := by decide
  rcases H5Dcreate_ff_outcome env st loc_id name type_id space_id lcpl_id dcpl_id dapl_id trans eq_id with
    ⟨hc, hr, _⟩ | ⟨ev, hc, he, hr, _⟩ | ⟨ev, g, vp, hc, he, haux, hreg, hr, _⟩ |
      ⟨ev, g, vp, hc, he, haux, hreg, hr, hids, _⟩
  · rw [hr]
    refine ⟨Or.inl rfl, ⟨fun h => absurd h hF, fun h => ?_⟩, fun h => absurd h hF⟩
    obtain ⟨_, ev2, g2, vp2, hh, _⟩ := h
    rw [hc] at hh
    cases hh
  · rw [hr]
    refine ⟨Or.inl rfl, ⟨fun h => absurd h hF, fun h => ?_⟩, fun h => absurd h hF⟩
    obtain ⟨_, ev2, g2, vp2, hh, he2, _⟩ := h
    rw [hc] at hh
    cases hh
    rw [he] at he2
    cases he2
  · rw [hr]
    refine ⟨Or.inl rfl, ⟨fun h => absurd h hF, fun h => ?_⟩, fun h => absurd h hF⟩
    obtain ⟨_, ev2, g2, vp2, hh, he2, haux2, h0⟩ := h
    rw [hc] at hh
    cases hh
    rw [he] at he2
    cases he2
    rw [haux] at haux2
    cases haux2
    exact absurd hreg (not_lt.mpr h0)
  · have h0 := not_lt.mp hreg
    rw [hr]
    refine ⟨Or.inr h0, ⟨fun _ => ⟨hreach.mp (by rw [hc]; exact List.cons_ne_nil _ _),
      ev, g, vp, by rw [hc]; rfl, he, haux, h0⟩, fun _ => h0⟩,
      fun _ => ⟨ev, g, vp, hc, he, haux, rfl, hids⟩⟩

theorem H5Dopen_ff_returns {σ : Type} (env : H5_env σ) (st : H5_state σ)
    (loc_id : hid_t) (name : Option String) (dapl_id : hid_t) (trans : Nat)
    (eq_id : hid_t) :
    ((H5Dopen_ff env st loc_id name dapl_id trans eq_id).ret_value = FAIL ∨ 0 ≤ (H5Dopen_ff env st loc_id name dapl_id trans eq_id).ret_value) ∧
      (0 ≤ (H5Dopen_ff env st loc_id name dapl_id trans eq_id).ret_value ↔
        ((name ≠ none ∧ name ≠ some "") ∧
         (H5P_DEFAULT = dapl_id ∨ TRUE = H5P_isa_class st.ids dapl_id H5P_class_t.H5P_DATASET_ACCESS) ∧
         H5VL_get_object st.ids loc_id ≠ none ∧
         H5I_get_aux st.ids loc_id ≠ none) ∧
        ∃ ev g vp, (H5Dopen_ff env st loc_id name dapl_id trans eq_id).calls.head? = some ev ∧
          ev.ret = H5VL_ret.ptr (some g) ∧
          H5I_get_aux st.ids loc_id = some vp ∧
          0 ≤ (H5I_register2 ev.ids H5I_type_t.H5I_DATASET (H5_object.token g) (some vp) true).1) ∧
      (0 ≤ (H5Dopen_ff env st loc_id name dapl_id trans eq_id).ret_value →
        ∃ ev g vp, (H5Dopen_ff env st loc_id name dapl_id trans eq_id).calls = [ev] ∧
          ev.ret = H5VL_ret.ptr (some g) ∧
          H5I_get_aux st.ids loc_id = some vp ∧
          (H5Dopen_ff env st loc_id name dapl_id trans eq_id).ret_value =
            (H5I_register2 ev.ids H5I_type_t.H5I_DATASET (H5_object.token g) (some vp) true).1 ∧
          (H5Dopen_ff env st loc_id name dapl_id trans eq_id).st.ids =
            (H5I_register2 ev.ids H5I_type_t.H5I_DATASET (H5_object.token g) (some vp) true).2) := by
  have hreach := (H5Dopen_ff_reach env st loc_id name dapl_id trans eq_id).1
  have hF : ¬ (0 : Int) ≤ FAIL := by decide
  rcases H5Dopen_ff_outcome env st loc_id name dapl_id trans eq_id with
    ⟨hc, hr, _⟩ | ⟨ev, hc, he, hr, _⟩ | ⟨ev, g, vp, hc, he, haux, hreg, hr, _⟩ |
      ⟨ev, g, vp, hc, he, haux, hreg, hr, hids, _⟩
  · rw [hr]
    refine ⟨Or.inl rfl, ⟨fun h => absurd h hF, fun h => ?_⟩, fun h => absurd h hF⟩
    obtain ⟨_, ev2, g2, vp2, hh, _⟩ := h
    rw [hc] at hh
    cases hh
  · rw [hr]
    refine ⟨Or.inl rfl, ⟨fun h => absurd h hF, fun h => ?_⟩, fun h => absurd h hF⟩
    obtain ⟨_, ev2, g2, vp2, hh, he2, _⟩ := h
    rw [hc] at hh
    cases hh
    rw [he] at he2
    cases he2
  · rw [hr]
    refine ⟨Or.inl rfl, ⟨fun h => absurd h hF, fun h => ?_⟩, fun h => absurd h hF⟩
    obtain ⟨_, ev2, g2, vp2, hh, he2, haux2, h0⟩ := h
    rw [hc] at hh
    cases hh
    rw [he] at he2
    cases he2
    rw [haux] at haux2
    cases haux2
    exact absurd hreg (not_lt.mpr h0)
  · have h0 := not_lt.mp hreg
    rw [hr]
    refine ⟨Or.inr h0, ⟨fun _ => ⟨hreach.mp (by rw [hc]; exact List.cons_ne_nil _ _),
      ev, g, vp, by rw [hc]; rfl, he, haux, h0⟩, fun _ => h0⟩,
      fun _ => ⟨ev, g, vp, hc, he, haux, rfl, hids⟩⟩

/-- C12: each of `H5Fcreate_ff`, `H5Fopen_ff`, `H5Gcreate_ff`, `H5Gopen_ff`,
`H5Dcreate_ff`, `H5Dopen_ff` returns `FAIL` or a non-negative identifier.  The
value is non-negative exactly when the arguments passed every check up to the
backend call, the backend routine returned an object, and `H5I_register2` on
that object returned a non-negative value; the value returned is then the value
of that `H5I_register2` call, and the registry left is the one it produced. -/
theorem C12_identifier_or_fail {σ : Type} (env : H5_env σ) (st : H5_state σ) :
    (∀ (filename : Option String) (flags : Nat) (fcpl_id fapl_id eq_id : hid_t),
      ((H5Fcreate_ff env st filename flags fcpl_id fapl_id eq_id).ret_value = FAIL ∨ 0 ≤ (H5Fcreate_ff env st filename flags fcpl_id fapl_id eq_id).ret_value) ∧
      (0 ≤ (H5Fcreate_ff env st filename flags fcpl_id fapl_id eq_id).ret_value ↔
        ((filename ≠ none ∧ filename ≠ some "") ∧
         flags &&& H5_bitnot32 (env.H5F_ACC_EXCL ||| env.H5F_ACC_TRUNC ||| env.H5F_ACC_DEBUG) = 0 ∧
         (flags &&& env.H5F_ACC_EXCL = 0 ∨ flags &&& env.H5F_ACC_TRUNC = 0) ∧
         (H5P_DEFAULT = fcpl_id ∨ TRUE = H5P_isa_class st.ids fcpl_id H5P_class_t.H5P_FILE_CREATE) ∧
         (H5P_DEFAULT = fapl_id ∨ TRUE = H5P_isa_class st.ids fapl_id H5P_class_t.H5P_FILE_ACCESS)) ∧
        ∃ ev g vp, (H5Fcreate_ff env st filename flags fcpl_id fapl_id eq_id).calls.head? = some ev ∧
          ev.ret = H5VL_ret.file (some (g, vp)) ∧
          0 ≤ (H5I_register2 ev.ids H5I_type_t.H5I_FILE (H5_object.token g) (some vp) true).1) ∧
      (0 ≤ (H5Fcreate_ff env st filename flags fcpl_id fapl_id eq_id).ret_value →
        ∃ ev g vp, (H5Fcreate_ff env st filename flags fcpl_id fapl_id eq_id).calls = [ev] ∧
          ev.ret = H5VL_ret.file (some (g, vp)) ∧
          (H5Fcreate_ff env st filename flags fcpl_id fapl_id eq_id).ret_value =
            (H5I_register2 ev.ids H5I_type_t.H5I_FILE (H5_object.token g) (some vp) true).1 ∧
          (H5Fcreate_ff env st filename flags fcpl_id fapl_id eq_id).st.ids =
            (H5I_register2 ev.ids H5I_type_t.H5I_FILE (H5_object.token g) (some vp) true).2)) ∧
    (∀ (filename : Option String) (flags : Nat) (fapl_id eq_id : hid_t),
      ((H5Fopen_ff env st filename flags fapl_id eq_id).ret_value = FAIL ∨ 0 ≤ (H5Fopen_ff env st filename flags fapl_id eq_id).ret_value) ∧
      (0 ≤ (H5Fopen_ff env st filename flags fapl_id eq_id).ret_value ↔
        ((filename ≠ none ∧ filename ≠ some "") ∧
         flags &&& H5_bitnot32 env.H5F_ACC_PUBLIC_FLAGS = 0 ∧
         flags &&& env.H5F_ACC_TRUNC = 0 ∧
         flags &&& env.H5F_ACC_EXCL = 0 ∧
         (H5P_DEFAULT = fapl_id ∨ TRUE = H5P_isa_class st.ids fapl_id H5P_class_t.H5P_FILE_ACCESS)) ∧
        ∃ ev g vp, (H5Fopen_ff env st filename flags fapl_id eq_id).calls.head? = some ev ∧
          ev.ret = H5VL_ret.file (some (g, vp)) ∧
          0 ≤ (H5I_register2 ev.ids H5I_type_t.H5I_FILE (H5_object.token g) (some vp) true).1) ∧
      (0 ≤ (H5Fopen_ff env st filename flags fapl_id eq_id).ret_value →
        ∃ ev g vp, (H5Fopen_ff env st filename flags fapl_id eq_id).calls = [ev] ∧
          ev.ret = H5VL_ret.file (some (g, vp)) ∧
          (H5Fopen_ff env st filename flags fapl_id eq_id).ret_value =
            (H5I_register2 ev.ids H5I_type_t.H5I_FILE (H5_object.token g) (some vp) true).1 ∧
          (H5Fopen_ff env st filename flags fapl_id eq_id).st.ids =
            (H5I_register2 ev.ids H5I_type_t.H5I_FILE (H5_object.token g) (some vp) true).2)) ∧
    (∀ (loc_id : hid_t) (name : Option String) (lcpl_id gcpl_id gapl_id : hid_t)
        (trans : Nat) (eq_id : hid_t),
      ((H5Gcreate_ff env st loc_id name lcpl_id gcpl_id gapl_id trans eq_id).ret_value = FAIL ∨ 0 ≤ (H5Gcreate_ff env st loc_id name lcpl_id gcpl_id gapl_id trans eq_id).ret_value) ∧
      (0 ≤ (H5Gcreate_ff env st loc_id name lcpl_id gcpl_id gapl_id trans eq_id).ret_value ↔
        ((name ≠ none ∧ name ≠ some "") ∧
         (H5P_DEFAULT = lcpl_id ∨ TRUE = H5P_isa_class st.ids lcpl_id H5P_class_t.H5P_LINK_CREATE) ∧
         (H5P_DEFAULT = gcpl_id ∨ TRUE = H5P_isa_class st.ids gcpl_id H5P_class_t.H5P_GROUP_CREATE) ∧
         (H5P_DEFAULT = gapl_id ∨ TRUE = H5P_isa_class st.ids gapl_id H5P_class_t.H5P_GROUP_ACCESS) ∧
         (∃ ids1, H5P_set st.ids
              (if H5P_DEFAULT = gcpl_id then env.H5P_GROUP_CREATE_DEFAULT else gcpl_id)
              H5P_key.H5VL_GRP_LCPL_ID
              (if H5P_DEFAULT = lcpl_id then env.H5P_LINK_CREATE_DEFAULT else lcpl_id) =
            (SUCCEED, ids1)) ∧
         H5I_object st.ids loc_id ≠ none ∧
         H5I_get_aux st.ids loc_id ≠ none) ∧
        ∃ ev g vp, (H5Gcreate_ff env st loc_id name lcpl_id gcpl_id gapl_id trans eq_id).calls.head? = some ev ∧
          ev.ret = H5VL_ret.ptr (some g) ∧
          H5I_get_aux st.ids loc_id = some vp ∧
          0 ≤ (H5I_register2 ev.ids H5I_type_t.H5I_GROUP (H5_object.token g) (some vp) true).1) ∧
      (0 ≤ (H5Gcreate_ff env st loc_id name lcpl_id gcpl_id gapl_id trans eq_id).ret_value →
        ∃ ev g vp, (H5Gcreate_ff env st loc_id name lcpl_id gcpl_id gapl_id trans eq_id).calls = [ev] ∧
          ev.ret = H5VL_ret.ptr (some g) ∧
          H5I_get_aux st.ids loc_id = some vp ∧
          (H5Gcreate_ff env st loc_id name lcpl_id gcpl_id gapl_id trans eq_id).ret_value =
            (H5I_register2 ev.ids H5I_type_t.H5I_GROUP (H5_object.token g) (some vp) true).1 ∧
          (H5Gcreate_ff env st loc_id name lcpl_id gcpl_id gapl_id trans eq_id).st.ids =
            (H5I_register2 ev.ids H5I_type_t.H5I_GROUP (H5_object.token g) (some vp) true).2)) ∧
    (∀ (loc_id : hid_t) (name : Option String) (gapl_id : hid_t) (trans : Nat)
        (eq_id : hid_t),
      ((H5Gopen_ff env st loc_id name gapl_id trans eq_id).ret_value = FAIL ∨ 0 ≤ (H5Gopen_ff env st loc_id name gapl_id trans eq_id).ret_value) ∧
      (0 ≤ (H5Gopen_ff env st loc_id name gapl_id trans eq_id).ret_value ↔
        ((name ≠ none ∧ name ≠ some "") ∧
         (H5P_DEFAULT = gapl_id ∨ TRUE = H5P_isa_class st.ids gapl_id H5P_class_t.H5P_GROUP_ACCESS) ∧
         H5I_object st.ids loc_id ≠ none ∧
         H5I_get_aux st.ids loc_id ≠ none) ∧
        ∃ ev g vp, (H5Gopen_ff env st loc_id name gapl_id trans eq_id).calls.head? = some ev ∧
          ev.ret = H5VL_ret.ptr (some g) ∧
          H5I_get_aux st.ids loc_id = some vp ∧
          0 ≤ (H5I_register2 ev.ids H5I_type_t.H5I_GROUP (H5_object.token g) (some vp) true).1) ∧
      (0 ≤ (H5Gopen_ff env st loc_id name gapl_id trans eq_id).ret_value →
        ∃ ev g vp, (H5Gopen_ff env st loc_id name gapl_id trans eq_id).calls = [ev] ∧
          ev.ret = H5VL_ret.ptr (some g) ∧
          H5I_get_aux st.ids loc_id = some vp ∧
          (H5Gopen_ff env st loc_id name gapl_id trans eq_id).ret_value =
            (H5I_register2 ev.ids H5I_type_t.H5I_GROUP (H5_object.token g) (some vp) true).1 ∧
          (H5Gopen_ff env st loc_id name gapl_id trans eq_id).st.ids =
            (H5I_register2 ev.ids H5I_type_t.H5I_GROUP (H5_object.token g) (some vp) true).2)) ∧
    (∀ (loc_id : hid_t) (name : Option String)
        (type_id space_id lcpl_id dcpl_id dapl_id : hid_t) (trans : Nat) (eq_id : hid_t),
      ((H5Dcreate_ff env st loc_id name type_id space_id lcpl_id dcpl_id dapl_id trans eq_id).ret_value = FAIL ∨ 0 ≤ (H5Dcreate_ff env st loc_id name type_id space_id lcpl_id dcpl_id dapl_id trans eq_id).ret_value) ∧
      (0 ≤ (H5Dcreate_ff env st loc_id name type_id space_id lcpl_id dcpl_id dapl_id trans eq_id).ret_value ↔
        ((name ≠ none ∧ name ≠ some "") ∧
         (H5P_DEFAULT = lcpl_id ∨ TRUE = H5P_isa_class st.ids lcpl_id H5P_class_t.H5P_LINK_CREATE) ∧
         (H5P_DEFAULT = dcpl_id ∨ TRUE = H5P_isa_class st.ids dcpl_id H5P_class_t.H5P_DATASET_CREATE) ∧
         (H5P_DEFAULT = dapl_id ∨ TRUE = H5P_isa_class st.ids dapl_id H5P_class_t.H5P_DATASET_ACCESS) ∧
         (∃ ids1 ids2 ids3,
            H5P_set st.ids
              (if H5P_DEFAULT = dcpl_id then env.H5P_DATASET_CREATE_DEFAULT else dcpl_id)
              H5P_key.H5VL_DSET_TYPE_ID type_id = (SUCCEED, ids1) ∧
            H5P_set ids1
              (if H5P_DEFAULT = dcpl_id then env.H5P_DATASET_CREATE_DEFAULT else dcpl_id)
              H5P_key.H5VL_DSET_SPACE_ID space_id = (SUCCEED, ids2) ∧
            H5P_set ids2
              (if H5P_DEFAULT = dcpl_id then env.H5P_DATASET_CREATE_DEFAULT else dcpl_id)
              H5P_key.H5VL_DSET_LCPL_ID
              (if H5P_DEFAULT = lcpl_id then env.H5P_LINK_CREATE_DEFAULT else lcpl_id) =
              (SUCCEED, ids3)) ∧
         H5VL_get_object st.ids loc_id ≠ none ∧
         H5I_get_aux st.ids loc_id ≠ none) ∧
        ∃ ev g vp, (H5Dcreate_ff env st loc_id name type_id space_id lcpl_id dcpl_id dapl_id trans eq_id).calls.head? = some ev ∧
          ev.ret = H5VL_ret.ptr (some g) ∧
          H5I_get_aux st.ids loc_id = some vp ∧
          0 ≤ (H5I_register2 ev.ids H5I_type_t.H5I_DATASET (H5_object.token g) (some vp) true).1) ∧
      (0 ≤ (H5Dcreate_ff env st loc_id name type_id space_id lcpl_id dcpl_id dapl_id trans eq_id).ret_value →
        ∃ ev g vp, (H5Dcreate_ff env st loc_id name type_id space_id lcpl_id dcpl_id dapl_id trans eq_id).calls = [ev] ∧
          ev.ret = H5VL_ret.ptr (some g) ∧
          H5I_get_aux st.ids loc_id = some vp ∧
          (H5Dcreate_ff env st loc_id name type_id space_id lcpl_id dcpl_id dapl_id trans eq_id).ret_value =
            (H5I_register2 ev.ids H5I_type_t.H5I_DATASET (H5_object.token g) (some vp) true).1 ∧
          (H5Dcreate_ff env st loc_id name type_id space_id lcpl_id dcpl_id dapl_id trans eq_id).st.ids =
            (H5I_register2 ev.ids H5I_type_t.H5I_DATASET (H5_object.token g) (some vp) true).2)) ∧
    (∀ (loc_id : hid_t) (name : Option String) (dapl_id : hid_t) (trans : Nat)
        (eq_id : hid_t),
      ((H5Dopen_ff env st loc_id name dapl_id trans eq_id).ret_value = FAIL ∨ 0 ≤ (H5Dopen_ff env st loc_id name dapl_id trans eq_id).ret_value) ∧
      (0 ≤ (H5Dopen_ff env st loc_id name dapl_id trans eq_id).ret_value ↔
        ((name ≠ none ∧ name ≠ some "") ∧
         (H5P_DEFAULT = dapl_id ∨ TRUE = H5P_isa_class st.ids dapl_id H5P_class_t.H5P_DATASET_ACCESS) ∧
         H5VL_get_object st.ids loc_id ≠ none ∧
         H5I_get_aux st.ids loc_id ≠ none) ∧
        ∃ ev g vp, (H5Dopen_ff env st loc_id name dapl_id trans eq_id).calls.head? = some ev ∧
          ev.ret = H5VL_ret.ptr (some g) ∧
          H5I_get_aux st.ids loc_id = some vp ∧
          0 ≤ (H5I_register2 ev.ids H5I_type_t.H5I_DATASET (H5_object.token g) (some vp) true).1) ∧
      (0 ≤ (H5Dopen_ff env st loc_id name dapl_id trans eq_id).ret_value →
        ∃ ev g vp, (H5Dopen_ff env st loc_id name dapl_id trans eq_id).calls = [ev] ∧
          ev.ret = H5VL_ret.ptr (some g) ∧
          H5I_get_aux st.ids loc_id = some vp ∧
          (H5Dopen_ff env st loc_id name dapl_id trans eq_id).ret_value =
            (H5I_register2 ev.ids H5I_type_t.H5I_DATASET (H5_object.token g) (some vp) true).1 ∧
          (H5Dopen_ff env st loc_id name dapl_id trans eq_id).st.ids =
            (H5I_register2 ev.ids H5I_type_t.H5I_DATASET (H5_object.token g) (some vp) true).2)) :=
  ⟨H5Fcreate_ff_returns env st,
   H5Fopen_ff_returns env st,
   H5Gcreate_ff_returns env st,
   H5Gopen_ff_returns env st,
   H5Dcreate_ff_returns env st,
   H5Dopen_ff_returns env st⟩

/-- Witness for C12: `H5Gcreate_ff` on the file identifier 1 of `sample_st`
returns the non-negative value of its registration. -/
theorem C12_identifier_or_fail_witness :
    0 ≤ (H5Gcreate_ff sample_env sample_st 1 (some "/g") 0 0 0 0 0).ret_value ∧
    ∃ ev g vp, (H5Gcreate_ff sample_env sample_st 1 (some "/g") 0 0 0 0 0).calls = [ev] ∧
      ev.ret = H5VL_ret.ptr (some g) ∧
      H5I_get_aux sample_st.ids 1 = some vp ∧
      (H5Gcreate_ff sample_env sample_st 1 (some "/g") 0 0 0 0 0).ret_value =
        (H5I_register2 ev.ids H5I_type_t.H5I_GROUP (H5_object.token g) (some vp) true).1 ∧
      (H5Gcreate_ff sample_env sample_st 1 (some "/g") 0 0 0 0 0).st.ids =
        (H5I_register2 ev.ids H5I_type_t.H5I_GROUP (H5_object.token g) (some vp) true).2 :=
  ⟨by decide,
   ((C12_identifier_or_fail sample_env sample_st).2.2.1 1 (some "/g") 0 0 0 0 0).2.2
     (by decide)⟩

/-! ## C13: the status returned by `H5Dwrite_ff` and `H5Dread_ff` -/

/-- C13, failing input: over a backend whose write reports success with the
status 5 and whose read reports success with the status 7, `H5Dwrite_ff` and
`H5Dread_ff` on the dataset identifier 2 of `sample_st` push no error record and
return 5 and 7, not `SUCCEED`; the header comments of both functions promise
"Success: SUCCEED". -/
theorem C13_backend_status_passed_through :
    (H5Dwrite_ff sample_env_pos sample_st 2 5 6 6 0 [1, 2, 3] 0 0).ret_value = 5 ∧
    (H5Dwrite_ff sample_env_pos sample_st 2 5 6 6 0 [1, 2, 3] 0 0).errs = [] ∧
    (H5Dwrite_ff sample_env_pos sample_st 2 5 6 6 0 [1, 2, 3] 0 0).calls.map (fun ev => ev.ret) =
      [H5VL_ret.status 5] ∧
    (H5Dread_ff sample_env_pos sample_st 2 5 6 6 0 [0, 0, 0] 0 0).ret_value = 7 ∧
    (H5Dread_ff sample_env_pos sample_st 2 5 6 6 0 [0, 0, 0] 0 0).errs = [] ∧
    SUCCEED = 0 := by
  decide

/-! ## C14: the type tag of the identifier returned -/

theorem H5Fcreate_ff_type_tag {σ : Type} (env : H5_env σ) (st : H5_state σ)
    (filename : Option String) (flags : Nat) (fcpl_id fapl_id eq_id : hid_t)
    (h : 0 ≤ (H5Fcreate_ff env st filename flags fcpl_id fapl_id eq_id).ret_value) :
    H5I_get_type (H5Fcreate_ff env st filename flags fcpl_id fapl_id eq_id).st.ids
      (H5Fcreate_ff env st filename flags fcpl_id fapl_id eq_id).ret_value = H5I_type_t.H5I_FILE := by
  have hF : ¬ (0 : Int) ≤ FAIL := by decide
  rcases H5Fcreate_ff_outcome env st filename flags fcpl_id fapl_id eq_id with
    ⟨_, hr, _⟩ | ⟨ev, _, _, hr, _⟩ | ⟨ev, g, vp, _, _, _, hr, _⟩ |
      ⟨ev, g, vp, _, _, hreg, hr, hids, _⟩
  · rw [hr] at h; exact absurd h hF
  · rw [hr] at h; exact absurd h hF
  · rw [hr] at h; exact absurd h hF
  · rw [hr, hids]
    simp only [H5I_get_type, (H5I_register2_ok hreg).1]

theorem H5Fopen_ff_type_tag {σ : Type} (env : H5_env σ) (st : H5_state σ)
    (filename : Option String) (flags : Nat) (fapl_id eq_id : hid_t)
    (h : 0 ≤ (H5Fopen_ff env st filename flags fapl_id eq_id).ret_value) :
    H5I_get_type (H5Fopen_ff env st filename flags fapl_id eq_id).st.ids
      (H5Fopen_ff env st filename flags fapl_id eq_id).ret_value = H5I_type_t.H5I_FILE := by
  have hF : ¬ (0 : Int) ≤ FAIL := by decide
  rcases H5Fopen_ff_outcome env st filename flags fapl_id eq_id with
    ⟨_, hr, _⟩ | ⟨ev, _, _, hr, _⟩ | ⟨ev, g, vp, _, _, _, hr, _⟩ |
      ⟨ev, g, vp, _, _, hreg, hr, hids, _⟩
  · rw [hr] at h; exact absurd h hF
  · rw [hr] at h; exact absurd h hF
  · rw [hr] at h; exact absurd h hF
  · rw [hr, hids]
    simp only [H5I_get_type, (H5I_register2_ok hreg).1]

theorem H5Gcreate_ff_type_tag {σ : Type} (env : H5_env σ) (st : H5_state σ)
    (loc_id : hid_t) (name : Option String) (lcpl_id gcpl_id gapl_id : hid_t)
    (trans : Nat) (eq_id : hid_t)
    (h : 0 ≤ (H5Gcreate_ff env st loc_id name lcpl_id gcpl_id gapl_id trans eq_id).ret_value) :
    H5I_get_type (H5Gcreate_ff env st loc_id name lcpl_id gcpl_id gapl_id trans eq_id).st.ids
      (H5Gcreate_ff env st loc_id name lcpl_id gcpl_id gapl_id trans eq_id).ret_value = H5I_type_t.H5I_GROUP := by
  have hF : ¬ (0 : Int) ≤ FAIL := by decide
  rcases H5Gcreate_ff_outcome env st loc_id name lcpl_id gcpl_id gapl_id trans eq_id with
    ⟨_, hr, _⟩ | ⟨ev, _, _, hr, _⟩ | ⟨ev, g, vp, _, _, _, _, hr, _⟩ |
      ⟨ev, g, vp, _, _, _, hreg, hr, hids, _⟩
  · rw [hr] at h; exact absurd h hF
  · rw [hr] at h; exact absurd h hF
  · rw [hr] at h; exact absurd h hF
  · rw [hr, hids]
    simp only [H5I_get_type, (H5I_register2_ok hreg).1]

theorem H5Gopen_ff_type_tag {σ : Type} (env : H5_env σ) (st : H5_state σ)
    (loc_id : hid_t) (name : Option String) (gapl_id : hid_t) (trans : Nat)
    (eq_id : hid_t)
    (h : 0 ≤ (H5Gopen_ff env st loc_id name gapl_id trans eq_id).ret_value) :
    H5I_get_type (H5Gopen_ff env st loc_id name gapl_id trans eq_id).st.ids
      (H5Gopen_ff env st loc_id name gapl_id trans eq_id).ret_value = H5I_type_t.H5I_GROUP := by
  have hF : ¬ (0 : Int) ≤ FAIL := by decide
  rcases H5Gopen_ff_outcome env st loc_id name gapl_id trans eq_id with
    ⟨_, hr, _⟩ | ⟨ev, _, _, hr, _⟩ | ⟨ev, g, vp, _, _, _, _, hr, _⟩ |
      ⟨ev, g, vp, _, _, _, hreg, hr, hids, _⟩
  · rw [hr] at h; exact absurd h hF
  · rw [hr] at h; exact absurd h hF
  · rw [hr] at h; exact absurd h hF
  · rw [hr, hids]
    simp only [H5I_get_type, (H5I_register2_ok hreg).1]

theorem H5Dcreate_ff_type_tag {σ : Type} (env : H5_env σ) (st : H5_state σ)
    (loc_id : hid_t) (name : Option String)
    (type_id space_id lcpl_id dcpl_id dapl_id : hid_t) (trans : Nat) (eq_id : hid_t)
    (h : 0 ≤ (H5Dcreate_ff env st loc_id name type_id space_id lcpl_id dcpl_id dapl_id trans eq_id).ret_value) :
    H5I_get_type (H5Dcreate_ff env st loc_id name type_id space_id lcpl_id dcpl_id dapl_id trans eq_id).st.ids
      (H5Dcreate_ff env st loc_id name type_id space_id lcpl_id dcpl_id dapl_id trans eq_id).ret_value = H5I_type_t.H5I_DATASET := by
  have hF : ¬ (0 : Int) ≤ FAIL := by decide
  rcases H5Dcreate_ff_outcome env st loc_id name type_id space_id lcpl_id dcpl_id dapl_id trans eq_id with
    ⟨_, hr, _⟩ | ⟨ev, _, _, hr, _⟩ | ⟨ev, g, vp, _, _, _, _, hr, _⟩ |
      ⟨ev, g, vp, _, _, _, hreg, hr, hids, _⟩
  · rw [hr] at h; exact absurd h hF
  · rw [hr] at h; exact absurd h hF
  · rw [hr] at h; exact absurd h hF
  · rw [hr, hids]
    simp only [H5I_get_type, (H5I_register2_ok hreg).1]

theorem H5Dopen_ff_type_tag {σ : Type} (env : H5_env σ) (st : H5_state σ)
    (loc_id : hid_t) (name : Option String) (dapl_id : hid_t) (trans : Nat)
    (eq_id : hid_t)
    (h : 0 ≤ (H5Dopen_ff env st loc_id name dapl_id trans eq_id).ret_value) :
    H5I_get_type (H5Dopen_ff env st loc_id name dapl_id trans eq_id).st.ids
      (H5Dopen_ff env st loc_id name dapl_id trans eq_id).ret_value = H5I_type_t.H5I_DATASET := by
  have hF : ¬ (0 : Int) ≤ FAIL := by decide
  rcases H5Dopen_ff_outcome env st loc_id name dapl_id trans eq_id with
    ⟨_, hr, _⟩ | ⟨ev, _, _, hr, _⟩ | ⟨ev, g, vp, _, _, _, _, hr, _⟩ |
      ⟨ev, g, vp, _, _, _, hreg, hr, hids, _⟩
  · rw [hr] at h; exact absurd h hF
  · rw [hr] at h; exact absurd h hF
  · rw [hr] at h; exact absurd h hF
  · rw [hr, hids]
    simp only [H5I_get_type, (H5I_register2_ok hreg).1]

/-- C14: the identifier returned by a successful `H5Fcreate_ff` or `H5Fopen_ff`
has type tag `H5I_FILE`, by `H5Gcreate_ff` or `H5Gopen_ff` type tag `H5I_GROUP`,
by `H5Dcreate_ff` or `H5Dopen_ff` type tag `H5I_DATASET`, in the registry the
call leaves; this holds for every event-queue argument `eq_id` and for every
location identifier, whatever its own type tag. -/
theorem C14_returned_identifier_type_tag {σ : Type} (env : H5_env σ) (st : H5_state σ) :
    (∀ (filename : Option String) (flags : Nat) (fcpl_id fapl_id eq_id : hid_t),
      0 ≤ (H5Fcreate_ff env st filename flags fcpl_id fapl_id eq_id).ret_value →
      H5I_get_type (H5Fcreate_ff env st filename flags fcpl_id fapl_id eq_id).st.ids
        (H5Fcreate_ff env st filename flags fcpl_id fapl_id eq_id).ret_value = H5I_type_t.H5I_FILE) ∧
    (∀ (filename : Option String) (flags : Nat) (fapl_id eq_id : hid_t),
      0 ≤ (H5Fopen_ff env st filename flags fapl_id eq_id).ret_value →
      H5I_get_type (H5Fopen_ff env st filename flags fapl_id eq_id).st.ids
        (H5Fopen_ff env st filename flags fapl_id eq_id).ret_value = H5I_type_t.H5I_FILE) ∧
    (∀ (loc_id : hid_t) (name : Option String) (lcpl_id gcpl_id gapl_id : hid_t)
        (trans : Nat) (eq_id : hid_t),
      0 ≤ (H5Gcreate_ff env st loc_id name lcpl_id gcpl_id gapl_id trans eq_id).ret_value →
      H5I_get_type (H5Gcreate_ff env st loc_id name lcpl_id gcpl_id gapl_id trans eq_id).st.ids
        (H5Gcreate_ff env st loc_id name lcpl_id gcpl_id gapl_id trans eq_id).ret_value = H5I_type_t.H5I_GROUP) ∧
    (∀ (loc_id : hid_t) (name : Option String) (gapl_id : hid_t) (trans : Nat)
        (eq_id : hid_t),
      0 ≤ (H5Gopen_ff env st loc_id name gapl_id trans eq_id).ret_value →
      H5I_get_type (H5Gopen_ff env st loc_id name gapl_id trans eq_id).st.ids
        (H5Gopen_ff env st loc_id name gapl_id trans eq_id).ret_value = H5I_type_t.H5I_GROUP) ∧
    (∀ (loc_id : hid_t) (name : Option String)
        (type_id space_id lcpl_id dcpl_id dapl_id : hid_t) (trans : Nat) (eq_id : hid_t),
      0 ≤ (H5Dcreate_ff env st loc_id name type_id space_id lcpl_id dcpl_id dapl_id trans eq_id).ret_value →
      H5I_get_type (H5Dcreate_ff env st loc_id name type_id space_id lcpl_id dcpl_id dapl_id trans eq_id).st.ids
        (H5Dcreate_ff env st loc_id name type_id space_id lcpl_id dcpl_id dapl_id trans eq_id).ret_value = H5I_type_t.H5I_DATASET) ∧
    (∀ (loc_id : hid_t) (name : Option String) (dapl_id : hid_t) (trans : Nat)
        (eq_id : hid_t),
      0 ≤ (H5Dopen_ff env st loc_id name dapl_id trans eq_id).ret_value →
      H5I_get_type (H5Dopen_ff env st loc_id name dapl_id trans eq_id).st.ids
        (H5Dopen_ff env st loc_id name dapl_id trans eq_id).ret_value = H5I_type_t.H5I_DATASET) :=
  ⟨H5Fcreate_ff_type_tag env st,
   H5Fopen_ff_type_tag env st,
   H5Gcreate_ff_type_tag env st,
   H5Gopen_ff_type_tag env st,
   H5Dcreate_ff_type_tag env st,
   H5Dopen_ff_type_tag env st⟩

/-- Witness for C14: a dataset created under the dataset identifier 2 of
`sample_st`, with the event queue 9, is registered with type tag `H5I_DATASET`,
and a group created under that same identifier with type tag `H5I_GROUP`. -/
theorem C14_returned_identifier_type_tag_witness :
    H5I_get_type sample_st.ids 2 = H5I_type_t.H5I_DATASET ∧
    H5I_get_type (H5Gcreate_ff sample_env sample_st 2 (some "g") 0 0 0 0 9).st.ids
      (H5Gcreate_ff sample_env sample_st 2 (some "g") 0 0 0 0 9).ret_value =
      H5I_type_t.H5I_GROUP :=
  ⟨by decide,
   (C14_returned_identifier_type_tag sample_env sample_st).2.2.1 2 (some "g") 0 0 0 0 9
     (by decide)⟩

/-! ## C15: what the wrappers change in the property lists -/

theorem H5P_props_set_lookup_ne (key : H5P_key) (value : hid_t)
    (props : List (H5P_key × hid_t)) (k : H5P_key) (h : k ≠ key) :
    (H5P_props_set key value props).lookup k = props.lookup k := by
  induction props with
  | nil => rfl
  | cons a rest ih =>
    obtain ⟨k1, v1⟩ := a
    by_cases hk : k1 = key
    · subst hk
      have hk2 : (k == k1) = false := by
        simp only [beq_eq_false_iff_ne, ne_eq]
        exact h
      simp [H5P_props_set, List.lookup, hk2]
    · simp only [H5P_props_set, if_neg hk, List.lookup]
      cases hb : (k == k1) with
      | true => rfl
      | false => exact ih

theorem H5P_set_get_frame (ids : H5I_registry) (plist_id : hid_t) (key : H5P_key)
    (value : hid_t) (pid : hid_t) (k : H5P_key) (h : pid ≠ plist_id ∨ k ≠ key) :
    H5P_get (H5P_set ids plist_id key value).2 pid k = H5P_get ids pid k := by
  unfold H5P_set
  cases ho : H5I_object ids plist_id with
  | none => rfl
  | some o =>
    cases o with
    | token t => rfl
    | plist p =>
      by_cases hk : (p.props.lookup key).isSome
      · simp only [hk, if_true]
        by_cases hp : pid = plist_id
        · subst hp
          have hkk : k ≠ key := h.elim (fun h1 => absurd rfl h1) id
          simp only [H5I_object, H5I_find_id] at ho
          cases hf : ids.entries.find? (fun e => decide (e.id = pid)) with
          | none => rw [hf] at ho; cases ho
          | some e =>
            rw [hf] at ho
            simp only [Option.map_some', Option.some.injEq] at ho
            simp only [H5P_get, H5I_object, H5I_find_id, H5I_subst_find, hf, Option.map_some',
              if_true, ho]
            exact H5P_props_set_lookup_ne key value p.props k hkk
        · simp only [H5P_get, H5I_object, H5I_find_id, H5I_subst_find, if_neg hp]
          cases ids.entries.find? (fun e => decide (e.id = pid)) <;> rfl
      · simp only [hk]
        rfl

theorem H5I_register2_get (ids : H5I_registry) (type : H5I_type_t) (g : Nat)
    (aux : Option H5VL_t) (app : Bool) (pid : hid_t) (k : H5P_key) :
    H5P_get (H5I_register2 ids type (H5_object.token g) aux app).2 pid k =
      H5P_get ids pid k := by
  unfold H5I_register2
  split
  · rfl
  · split
    · rfl
    · simp only [H5P_get, H5I_object, H5I_find_id, List.find?_append]
      cases hf : ids.entries.find? (fun e => decide (e.id = pid)) with
      | some e => simp
      | none =>
        simp only [Option.none_or, Option.map_none']
        by_cases hn : H5I_max_id ids.entries + 1 = pid
        · simp [List.find?_cons, hn]
        · simp [List.find?_cons, hn]

theorem H5Gcreate_ff_vol_plist_frame {σ : Type} (env : H5_env σ) (st : H5_state σ) (loc_id : hid_t)
    (name : String) (gcpl_id gapl_id eq_id : hid_t) (pid : hid_t) (k : H5P_key) :
    H5P_get (H5Gcreate_ff_vol env st loc_id name gcpl_id gapl_id eq_id).st.ids pid k =
      H5P_get st.ids pid k := by
  rcases H5Gcreate_ff_vol_cases env st loc_id name gcpl_id gapl_id eq_id with
    ⟨_, msg, hv⟩ | ⟨obj, vp, b, ev, _, _, _, _, ⟨_, hv⟩ | ⟨g, _, _, hv⟩ | ⟨g, _, _, hv⟩⟩
  · rw [hv]; rfl
  · rw [hv]; rfl
  · rw [hv, H5Gcreate_ff_done_ids]; rfl
  · rw [hv]; exact H5I_register2_get _ _ _ _ _ _ _

theorem H5Dcreate_ff_vol_plist_frame {σ : Type} (env : H5_env σ) (st : H5_state σ) (loc_id : hid_t)
    (name : String) (dcpl_id dapl_id eq_id : hid_t) (pid : hid_t) (k : H5P_key) :
    H5P_get (H5Dcreate_ff_vol env st loc_id name dcpl_id dapl_id eq_id).st.ids pid k =
      H5P_get st.ids pid k := by
  rcases H5Dcreate_ff_vol_cases env st loc_id name dcpl_id dapl_id eq_id with
    ⟨_, msg, hv⟩ | ⟨obj, vp, b, ev, _, _, _, _, ⟨_, hv⟩ | ⟨g, _, _, hv⟩ | ⟨g, _, _, hv⟩⟩
  · rw [hv]; rfl
  · rw [hv]; rfl
  · rw [hv, H5Dcreate_ff_done_ids]; rfl
  · rw [hv]; exact H5I_register2_get _ _ _ _ _ _ _

theorem H5Fcreate_ff_plist_frame {σ : Type} (env : H5_env σ) (st : H5_state σ)
    (filename : Option String) (flags : Nat) (fcpl_id fapl_id eq_id : hid_t)
    (pid : hid_t) (k : H5P_key) :
    H5P_get (H5Fcreate_ff env st filename flags fcpl_id fapl_id eq_id).st.ids pid k =
      H5P_get st.ids pid k := by
  unfold H5Fcreate_ff
  dsimp only
  by_cases h0 : filename = none ∨ filename = some ""
  · rw [if_pos h0]; rfl
  rw [if_neg h0]
  by_cases h1 : flags &&& H5_bitnot32 (env.H5F_ACC_EXCL ||| env.H5F_ACC_TRUNC ||| env.H5F_ACC_DEBUG) ≠ 0
  · rw [if_pos h1]; rfl
  rw [if_neg h1]
  by_cases h2 : flags &&& env.H5F_ACC_EXCL ≠ 0 ∧ flags &&& env.H5F_ACC_TRUNC ≠ 0
  · rw [if_pos h2]; rfl
  rw [if_neg h2]
  by_cases h3 : H5P_DEFAULT ≠ fcpl_id ∧ TRUE ≠ H5P_isa_class st.ids fcpl_id H5P_class_t.H5P_FILE_CREATE
  · rw [if_pos h3]; rfl
  rw [if_neg h3]
  by_cases h4 : H5P_DEFAULT ≠ fapl_id ∧ TRUE ≠ H5P_isa_class st.ids fapl_id H5P_class_t.H5P_FILE_ACCESS
  · rw [if_pos h4]; rfl
  rw [if_neg h4]
  generalize (if H5P_DEFAULT = fcpl_id then env.H5P_FILE_CREATE_DEFAULT else fcpl_id) = fcpl
  generalize (if H5P_DEFAULT = fapl_id then env.H5P_FILE_ACCESS_DEFAULT else fapl_id) = fapl
  split
  · rfl
  · split
    · exact H5I_register2_get _ _ _ _ _ _ _
    · exact H5I_register2_get _ _ _ _ _ _ _

theorem H5Fopen_ff_plist_frame {σ : Type} (env : H5_env σ) (st : H5_state σ)
    (filename : Option String) (flags : Nat) (fapl_id eq_id : hid_t)
    (pid : hid_t) (k : H5P_key) :
    H5P_get (H5Fopen_ff env st filename flags fapl_id eq_id).st.ids pid k =
      H5P_get st.ids pid k := by
  unfold H5Fopen_ff
  dsimp only
  by_cases h0 : filename = none ∨ filename = some ""
  · rw [if_pos h0]; rfl
  rw [if_neg h0]
  by_cases h1 : flags &&& H5_bitnot32 env.H5F_ACC_PUBLIC_FLAGS ≠ 0 ∨
      flags &&& env.H5F_ACC_TRUNC ≠ 0 ∨ flags &&& env.H5F_ACC_EXCL ≠ 0
  · rw [if_pos h1]; rfl
  rw [if_neg h1]
  by_cases h2 : H5P_DEFAULT ≠ fapl_id ∧ TRUE ≠ H5P_isa_class st.ids fapl_id H5P_class_t.H5P_FILE_ACCESS
  · rw [if_pos h2]; rfl
  rw [if_neg h2]
  generalize (if H5P_DEFAULT = fapl_id then env.H5P_FILE_ACCESS_DEFAULT else fapl_id) = fapl
  split
  · rfl
  · split
    · exact H5I_register2_get _ _ _ _ _ _ _
    · exact H5I_register2_get _ _ _ _ _ _ _

theorem H5Gcreate_ff_plist_frame {σ : Type} (env : H5_env σ) (st : H5_state σ)
    (loc_id : hid_t) (name : Option String) (lcpl_id gcpl_id gapl_id : hid_t)
    (trans : Nat) (eq_id : hid_t)
    (pid : hid_t) (k : H5P_key)
    (h : pid ≠ (if H5P_DEFAULT = gcpl_id then env.H5P_GROUP_CREATE_DEFAULT else gcpl_id) ∨
      k ≠ H5P_key.H5VL_GRP_LCPL_ID) :
    H5P_get (H5Gcreate_ff env st loc_id name lcpl_id gcpl_id gapl_id trans eq_id).st.ids pid k =
      H5P_get st.ids pid k := by
  revert h
  unfold H5Gcreate_ff
  dsimp only
  simp only [H5Gcreate_ff_done_none]
  by_cases h0 : name = none ∨ name = some ""
  · rw [if_pos h0]; exact fun _ => rfl
  rw [if_neg h0]
  by_cases h1 : H5P_DEFAULT ≠ lcpl_id ∧ TRUE ≠ H5P_isa_class st.ids lcpl_id H5P_class_t.H5P_LINK_CREATE
  · rw [if_pos h1]; exact fun _ => rfl
  rw [if_neg h1]
  by_cases h2 : H5P_DEFAULT ≠ gcpl_id ∧ TRUE ≠ H5P_isa_class st.ids gcpl_id H5P_class_t.H5P_GROUP_CREATE
  · rw [if_pos h2]; exact fun _ => rfl
  rw [if_neg h2]
  by_cases h3 : H5P_DEFAULT ≠ gapl_id ∧ TRUE ≠ H5P_isa_class st.ids gapl_id H5P_class_t.H5P_GROUP_ACCESS
  · rw [if_pos h3]; exact fun _ => rfl
  rw [if_neg h3]
  generalize (if H5P_DEFAULT = lcpl_id then env.H5P_LINK_CREATE_DEFAULT else lcpl_id) = lcpl
  generalize (if H5P_DEFAULT = gcpl_id then env.H5P_GROUP_CREATE_DEFAULT else gcpl_id) = gcpl
  generalize (if H5P_DEFAULT = gapl_id then env.H5P_GROUP_ACCESS_DEFAULT else gapl_id) = gapl
  intro h
  have f1 := H5P_set_get_frame st.ids gcpl H5P_key.H5VL_GRP_LCPL_ID lcpl pid k h
  split
  · rfl
  split
  · exact f1
  · rw [H5Gcreate_ff_vol_plist_frame]
    exact f1

theorem H5Gopen_ff_plist_frame {σ : Type} (env : H5_env σ) (st : H5_state σ)
    (loc_id : hid_t) (name : Option String) (gapl_id : hid_t) (trans : Nat)
    (eq_id : hid_t)
    (pid : hid_t) (k : H5P_key) :
    H5P_get (H5Gopen_ff env st loc_id name gapl_id trans eq_id).st.ids pid k =
      H5P_get st.ids pid k := by
  unfold H5Gopen_ff
  dsimp only
  by_cases h0 : name = none ∨ name = some ""
  · rw [if_pos h0]; rfl
  rw [if_neg h0]
  by_cases h1 : H5P_DEFAULT ≠ gapl_id ∧ TRUE ≠ H5P_isa_class st.ids gapl_id H5P_class_t.H5P_GROUP_ACCESS
  · rw [if_pos h1]; rfl
  rw [if_neg h1]
  generalize (if H5P_DEFAULT = gapl_id then env.H5P_GROUP_ACCESS_DEFAULT else gapl_id) = gapl
  split
  · rfl
  split
  · rfl
  split
  · rfl
  · split
    · exact H5I_register2_get _ _ _ _ _ _ _
    · exact H5I_register2_get _ _ _ _ _ _ _

theorem H5Dcreate_ff_plist_frame {σ : Type} (env : H5_env σ) (st : H5_state σ)
    (loc_id : hid_t) (name : Option String)
    (type_id space_id lcpl_id dcpl_id dapl_id : hid_t) (trans : Nat) (eq_id : hid_t)
    (pid : hid_t) (k : H5P_key)
    (h : pid ≠ (if H5P_DEFAULT = dcpl_id then env.H5P_DATASET_CREATE_DEFAULT else dcpl_id) ∨
      (k ≠ H5P_key.H5VL_DSET_TYPE_ID ∧ k ≠ H5P_key.H5VL_DSET_SPACE_ID ∧
        k ≠ H5P_key.H5VL_DSET_LCPL_ID)) :
    H5P_get (H5Dcreate_ff env st loc_id name type_id space_id lcpl_id dcpl_id dapl_id trans eq_id).st.ids pid k =
      H5P_get st.ids pid k := by
  revert h
  unfold H5Dcreate_ff
  dsimp only
  simp only [H5Dcreate_ff_done_none]
  by_cases h0 : name = none ∨ name = some ""
  · rw [if_pos h0]; exact fun _ => rfl
  rw [if_neg h0]
  by_cases h1 : H5P_DEFAULT ≠ lcpl_id ∧ TRUE ≠ H5P_isa_class st.ids lcpl_id H5P_class_t.H5P_LINK_CREATE
  · rw [if_pos h1]; exact fun _ => rfl
  rw [if_neg h1]
  by_cases h2 : H5P_DEFAULT ≠ dcpl_id ∧ TRUE ≠ H5P_isa_class st.ids dcpl_id H5P_class_t.H5P_DATASET_CREATE
  · rw [if_pos h2]; exact fun _ => rfl
  rw [if_neg h2]
  by_cases h3 : H5P_DEFAULT ≠ dapl_id ∧ TRUE ≠ H5P_isa_class st.ids dapl_id H5P_class_t.H5P_DATASET_ACCESS
  · rw [if_pos h3]; exact fun _ => rfl
  rw [if_neg h3]
  generalize (if H5P_DEFAULT = lcpl_id then env.H5P_LINK_CREATE_DEFAULT else lcpl_id) = lcpl
  generalize (if H5P_DEFAULT = dcpl_id then env.H5P_DATASET_CREATE_DEFAULT else dcpl_id) = dcpl
  generalize (if H5P_DEFAULT = dapl_id then env.H5P_DATASET_ACCESS_DEFAULT else dapl_id) = dapl
  intro h
  have f1 := H5P_set_get_frame st.ids dcpl H5P_key.H5VL_DSET_TYPE_ID type_id pid k
    (h.elim Or.inl (fun h => Or.inr h.1))
  have f2 := H5P_set_get_frame (H5P_set st.ids dcpl H5P_key.H5VL_DSET_TYPE_ID type_id).2 dcpl
    H5P_key.H5VL_DSET_SPACE_ID space_id pid k (h.elim Or.inl (fun h => Or.inr h.2.1))
  have f3 := H5P_set_get_frame
    (H5P_set (H5P_set st.ids dcpl H5P_key.H5VL_DSET_TYPE_ID type_id).2 dcpl
      H5P_key.H5VL_DSET_SPACE_ID space_id).2 dcpl
    H5P_key.H5VL_DSET_LCPL_ID lcpl pid k (h.elim Or.inl (fun h => Or.inr h.2.2))
  split
  · rfl
  split
  · exact f1
  split
  · exact f2.trans f1
  split
  · exact f3.trans (f2.trans f1)
  · rw [H5Dcreate_ff_vol_plist_frame]
    exact f3.trans (f2.trans f1)

theorem H5Dopen_ff_plist_frame {σ : Type} (env : H5_env σ) (st : H5_state σ)
    (loc_id : hid_t) (name : Option String) (dapl_id : hid_t) (trans : Nat)
    (eq_id : hid_t)
    (pid : hid_t) (k : H5P_key) :
    H5P_get (H5Dopen_ff env st loc_id name dapl_id trans eq_id).st.ids pid k =
      H5P_get st.ids pid k := by
  unfold H5Dopen_ff
  dsimp only
  simp only [H5Dcreate_ff_done_none]
  by_cases h0 : name = none ∨ name = some ""
  · rw [if_pos h0]; rfl
  rw [if_neg h0]
  by_cases h1 : H5P_DEFAULT ≠ dapl_id ∧ TRUE ≠ H5P_isa_class st.ids dapl_id H5P_class_t.H5P_DATASET_ACCESS
  · rw [if_pos h1]; rfl
  rw [if_neg h1]
  generalize (if H5P_DEFAULT = dapl_id then env.H5P_DATASET_ACCESS_DEFAULT else dapl_id) = dapl
  split
  · rfl
  split
  · rfl
  split
  · rfl
  · split
    · rw [H5Dcreate_ff_done_ids]; exact H5I_register2_get _ _ _ _ _ _ _
    · rw [H5Dcreate_ff_done_ids]; exact H5I_register2_get _ _ _ _ _ _ _

theorem H5Dwrite_ff_plist_frame {σ : Type} (env : H5_env σ) (st : H5_state σ)
    (dset_id mem_type_id mem_space_id file_space_id dxpl_id : hid_t)
    (buf : List Nat) (trans : Nat) (eq_id : hid_t)
    (pid : hid_t) (k : H5P_key) :
    H5P_get (H5Dwrite_ff env st dset_id mem_type_id mem_space_id file_space_id dxpl_id buf trans eq_id).st.ids pid k =
      H5P_get st.ids pid k := by
  unfold H5Dwrite_ff
  dsimp only
  by_cases h0 : dset_id = 0
  · rw [if_pos h0]; rfl
  rw [if_neg h0]
  by_cases h1 : H5P_DEFAULT ≠ dxpl_id ∧ TRUE ≠ H5P_isa_class st.ids dxpl_id H5P_class_t.H5P_DATASET_XFER
  · rw [if_pos h1]; rfl
  rw [if_neg h1]
  generalize (if H5P_DEFAULT = dxpl_id then env.H5P_DATASET_XFER_DEFAULT else dxpl_id) = dxpl
  split
  · rfl
  split
  · rfl
  split
  · rfl
  · rfl

theorem H5Dread_ff_plist_frame {σ : Type} (env : H5_env σ) (st : H5_state σ)
    (dset_id mem_type_id mem_space_id file_space_id dxpl_id : hid_t)
    (buf : List Nat) (trans : Nat) (eq_id : hid_t)
    (pid : hid_t) (k : H5P_key) :
    H5P_get (H5Dread_ff env st dset_id mem_type_id mem_space_id file_space_id dxpl_id buf trans eq_id).st.ids pid k =
      H5P_get st.ids pid k := by
  unfold H5Dread_ff
  dsimp only
  by_cases h0 : mem_space_id < 0 ∨ file_space_id < 0
  · rw [if_pos h0]; rfl
  rw [if_neg h0]
  by_cases h1 : H5P_DEFAULT ≠ dxpl_id ∧ TRUE ≠ H5P_isa_class st.ids dxpl_id H5P_class_t.H5P_DATASET_XFER
  · rw [if_pos h1]; rfl
  rw [if_neg h1]
  generalize (if H5P_DEFAULT = dxpl_id then env.H5P_DATASET_XFER_DEFAULT else dxpl_id) = dxpl
  split
  · rfl
  split
  · rfl
  split
  · rfl
  · rfl

/-- C15, counterexample: `H5Gcreate_ff` called with `H5P_DEFAULT` for all three
lists changes the default group creation list (identifier 104 of
`sample_st`): the value stored under `H5VL_GRP_LCPL_ID` is 0 before the call
and 103, the default link creation list, after it. -/
theorem C15_creation_list_is_written :
    H5P_get sample_st.ids 104 H5P_key.H5VL_GRP_LCPL_ID = some 0 ∧
    H5P_get (H5Gcreate_ff sample_env sample_st 1 (some "/g") 0 0 0 0 0).st.ids 104
      H5P_key.H5VL_GRP_LCPL_ID = some 103 ∧
    0 ≤ (H5Gcreate_ff sample_env sample_st 1 (some "/g") 0 0 0 0 0).ret_value := by
  decide

/-- C15, amended: `H5Gcreate_ff` changes no stored property other than the one
under `H5VL_GRP_LCPL_ID` of its group creation list (caller-supplied or
default), `H5Dcreate_ff` none other than those under `H5VL_DSET_TYPE_ID`,
`H5VL_DSET_SPACE_ID`, `H5VL_DSET_LCPL_ID` of its dataset creation list; every
other property of every list reads the same after the call as before.  The
other six wrappers change no stored property at all. -/
theorem C15_property_list_frame {σ : Type} (env : H5_env σ) (st : H5_state σ) :
    (∀ (filename : Option String) (flags : Nat) (fcpl_id fapl_id eq_id : hid_t)
        (pid : hid_t) (k : H5P_key),
      H5P_get (H5Fcreate_ff env st filename flags fcpl_id fapl_id eq_id).st.ids pid k =
        H5P_get st.ids pid k) ∧
    (∀ (filename : Option String) (flags : Nat) (fapl_id eq_id : hid_t)
        (pid : hid_t) (k : H5P_key),
      H5P_get (H5Fopen_ff env st filename flags fapl_id eq_id).st.ids pid k =
        H5P_get st.ids pid k) ∧
    (∀ (loc_id : hid_t) (name : Option String) (lcpl_id gcpl_id gapl_id : hid_t)
        (trans : Nat) (eq_id : hid_t)
        (pid : hid_t) (k : H5P_key),
      (pid ≠ (if H5P_DEFAULT = gcpl_id then env.H5P_GROUP_CREATE_DEFAULT else gcpl_id) ∨
        k ≠ H5P_key.H5VL_GRP_LCPL_ID) →
      H5P_get (H5Gcreate_ff env st loc_id name lcpl_id gcpl_id gapl_id trans eq_id).st.ids pid k =
        H5P_get st.ids pid k) ∧
    (∀ (loc_id : hid_t) (name : Option String) (gapl_id : hid_t) (trans : Nat)
        (eq_id : hid_t)
        (pid : hid_t) (k : H5P_key),
      H5P_get (H5Gopen_ff env st loc_id name gapl_id trans eq_id).st.ids pid k =
        H5P_get st.ids pid k) ∧
    (∀ (loc_id : hid_t) (name : Option String)
        (type_id space_id lcpl_id dcpl_id dapl_id : hid_t) (trans : Nat) (eq_id : hid_t)
        (pid : hid_t) (k : H5P_key),
      (pid ≠ (if H5P_DEFAULT = dcpl_id then env.H5P_DATASET_CREATE_DEFAULT else dcpl_id) ∨
        (k ≠ H5P_key.H5VL_DSET_TYPE_ID ∧ k ≠ H5P_key.H5VL_DSET_SPACE_ID ∧
          k ≠ H5P_key.H5VL_DSET_LCPL_ID)) →
      H5P_get (H5Dcreate_ff env st loc_id name type_id space_id lcpl_id dcpl_id dapl_id trans eq_id).st.ids pid k =
        H5P_get st.ids pid k) ∧
    (∀ (loc_id : hid_t) (name : Option String) (dapl_id : hid_t) (trans : Nat)
        (eq_id : hid_t)
        (pid : hid_t) (k : H5P_key),
      H5P_get (H5Dopen_ff env st loc_id name dapl_id trans eq_id).st.ids pid k =
        H5P_get st.ids pid k) ∧
    (∀ (dset_id mem_type_id mem_space_id file_space_id dxpl_id : hid_t)
        (buf : List Nat) (trans : Nat) (eq_id : hid_t)
        (pid : hid_t) (k : H5P_key),
      H5P_get (H5Dwrite_ff env st dset_id mem_type_id mem_space_id file_space_id dxpl_id buf trans eq_id).st.ids pid k =
        H5P_get st.ids pid k) ∧
    (∀ (dset_id mem_type_id mem_space_id file_space_id dxpl_id : hid_t)
        (buf : List Nat) (trans : Nat) (eq_id : hid_t)
        (pid : hid_t) (k : H5P_key),
      H5P_get (H5Dread_ff env st dset_id mem_type_id mem_space_id file_space_id dxpl_id buf trans eq_id).st.ids pid k =
        H5P_get st.ids pid k) :=
  ⟨H5Fcreate_ff_plist_frame env st,
   H5Fopen_ff_plist_frame env st,
   H5Gcreate_ff_plist_frame env st,
   H5Gopen_ff_plist_frame env st,
   H5Dcreate_ff_plist_frame env st,
   H5Dopen_ff_plist_frame env st,
   H5Dwrite_ff_plist_frame env st,
   H5Dread_ff_plist_frame env st⟩

/-- Witness for C15: after `H5Dcreate_ff` with default lists, the link creation
property of the default group creation list 104 still reads 0. -/
theorem C15_property_list_frame_witness :
    H5P_get (H5Dcreate_ff sample_env sample_st 1 (some "d") 5 6 0 0 0 0 0).st.ids 104
      H5P_key.H5VL_GRP_LCPL_ID = H5P_get sample_st.ids 104 H5P_key.H5VL_GRP_LCPL_ID :=
  (C15_property_list_frame sample_env sample_st).2.2.2.2.1 1 (some "d") 5 6 0 0 0 0 0 104
    H5P_key.H5VL_GRP_LCPL_ID (Or.inl (by decide))

/-! ## C16: failed argument validation leaves the state as it was -/

theorem H5Fcreate_ff_invalid_args {σ : Type} (env : H5_env σ) (st : H5_state σ)
    (filename : Option String) (flags : Nat) (fcpl_id fapl_id eq_id : hid_t)
    (h : (filename = none ∨ filename = some "") ∨
      (flags &&& H5_bitnot32 (env.H5F_ACC_EXCL ||| env.H5F_ACC_TRUNC ||| env.H5F_ACC_DEBUG) ≠ 0) ∨
      (flags &&& env.H5F_ACC_EXCL ≠ 0 ∧ flags &&& env.H5F_ACC_TRUNC ≠ 0) ∨
      (H5P_DEFAULT ≠ fcpl_id ∧ TRUE ≠ H5P_isa_class st.ids fcpl_id H5P_class_t.H5P_FILE_CREATE) ∨
      (H5P_DEFAULT ≠ fapl_id ∧ TRUE ≠ H5P_isa_class st.ids fapl_id H5P_class_t.H5P_FILE_ACCESS)) :
    (H5Fcreate_ff env st filename flags fcpl_id fapl_id eq_id).st = st ∧
        (H5Fcreate_ff env st filename flags fcpl_id fapl_id eq_id).calls = [] ∧
        (H5Fcreate_ff env st filename flags fcpl_id fapl_id eq_id).ret_value = FAIL := by
  unfold H5Fcreate_ff
  dsimp only
  by_cases h0 : filename = none ∨ filename = some ""
  · rw [if_pos h0]
    exact ⟨rfl, rfl, rfl⟩
  rw [if_neg h0]
  by_cases h1 : flags &&& H5_bitnot32 (env.H5F_ACC_EXCL ||| env.H5F_ACC_TRUNC ||| env.H5F_ACC_DEBUG) ≠ 0
  · rw [if_pos h1]
    exact ⟨rfl, rfl, rfl⟩
  rw [if_neg h1]
  by_cases h2 : flags &&& env.H5F_ACC_EXCL ≠ 0 ∧ flags &&& env.H5F_ACC_TRUNC ≠ 0
  · rw [if_pos h2]
    exact ⟨rfl, rfl, rfl⟩
  rw [if_neg h2]
  by_cases h3 : H5P_DEFAULT ≠ fcpl_id ∧ TRUE ≠ H5P_isa_class st.ids fcpl_id H5P_class_t.H5P_FILE_CREATE
  · rw [if_pos h3]
    exact ⟨rfl, rfl, rfl⟩
  rw [if_neg h3]
  by_cases h4 : H5P_DEFAULT ≠ fapl_id ∧ TRUE ≠ H5P_isa_class st.ids fapl_id H5P_class_t.H5P_FILE_ACCESS
  · rw [if_pos h4]
    exact ⟨rfl, rfl, rfl⟩
  rw [if_neg h4]
  exfalso
  rcases h with h | h | h | h | h
  · exact h0 h
  · exact h1 h
  · exact h2 h
  · exact h3 h
  · exact h4 h

theorem H5Fopen_ff_invalid_args {σ : Type} (env : H5_env σ) (st : H5_state σ)
    (filename : Option String) (flags : Nat) (fapl_id eq_id : hid_t)
    (h : (filename = none ∨ filename = some "") ∨
      (flags &&& H5_bitnot32 env.H5F_ACC_PUBLIC_FLAGS ≠ 0 ∨
      flags &&& env.H5F_ACC_TRUNC ≠ 0 ∨ flags &&& env.H5F_ACC_EXCL ≠ 0) ∨
      (H5P_DEFAULT ≠ fapl_id ∧ TRUE ≠ H5P_isa_class st.ids fapl_id H5P_class_t.H5P_FILE_ACCESS)) :
    (H5Fopen_ff env st filename flags fapl_id eq_id).st = st ∧
        (H5Fopen_ff env st filename flags fapl_id eq_id).calls = [] ∧
        (H5Fopen_ff env st filename flags fapl_id eq_id).ret_value = FAIL := by
  unfold H5Fopen_ff
  dsimp only
  by_cases h0 : filename = none ∨ filename = some ""
  · rw [if_pos h0]
    exact ⟨rfl, rfl, rfl⟩
  rw [if_neg h0]
  by_cases h1 : flags &&& H5_bitnot32 env.H5F_ACC_PUBLIC_FLAGS ≠ 0 ∨
      flags &&& env.H5F_ACC_TRUNC ≠ 0 ∨ flags &&& env.H5F_ACC_EXCL ≠ 0
  · rw [if_pos h1]
    exact ⟨rfl, rfl, rfl⟩
  rw [if_neg h1]
  by_cases h2 : H5P_DEFAULT ≠ fapl_id ∧ TRUE ≠ H5P_isa_class st.ids fapl_id H5P_class_t.H5P_FILE_ACCESS
  · rw [if_pos h2]
    exact ⟨rfl, rfl, rfl⟩
  rw [if_neg h2]
  exfalso
  rcases h with h | h | h
  · exact h0 h
  · exact h1 h
  · exact h2 h

theorem H5Gcreate_ff_invalid_args {σ : Type} (env : H5_env σ) (st : H5_state σ)
    (loc_id : hid_t) (name : Option String) (lcpl_id gcpl_id gapl_id : hid_t)
    (trans : Nat) (eq_id : hid_t)
    (h : (name = none ∨ name = some "") ∨
      (H5P_DEFAULT ≠ lcpl_id ∧ TRUE ≠ H5P_isa_class st.ids lcpl_id H5P_class_t.H5P_LINK_CREATE) ∨
      (H5P_DEFAULT ≠ gcpl_id ∧ TRUE ≠ H5P_isa_class st.ids gcpl_id H5P_class_t.H5P_GROUP_CREATE) ∨
      (H5P_DEFAULT ≠ gapl_id ∧ TRUE ≠ H5P_isa_class st.ids gapl_id H5P_class_t.H5P_GROUP_ACCESS)) :
    (H5Gcreate_ff env st loc_id name lcpl_id gcpl_id gapl_id trans eq_id).st = st ∧
        (H5Gcreate_ff env st loc_id name lcpl_id gcpl_id gapl_id trans eq_id).calls = [] ∧
        (H5Gcreate_ff env st loc_id name lcpl_id gcpl_id gapl_id trans eq_id).ret_value = FAIL := by
  unfold H5Gcreate_ff
  dsimp only
  simp only [H5Gcreate_ff_done_none]
  by_cases h0 : name = none ∨ name = some ""
  · rw [if_pos h0]
    exact ⟨rfl, rfl, rfl⟩
  rw [if_neg h0]
  by_cases h1 : H5P_DEFAULT ≠ lcpl_id ∧ TRUE ≠ H5P_isa_class st.ids lcpl_id H5P_class_t.H5P_LINK_CREATE
  · rw [if_pos h1]
    exact ⟨rfl, rfl, rfl⟩
  rw [if_neg h1]
  by_cases h2 : H5P_DEFAULT ≠ gcpl_id ∧ TRUE ≠ H5P_isa_class st.ids gcpl_id H5P_class_t.H5P_GROUP_CREATE
  · rw [if_pos h2]
    exact ⟨rfl, rfl, rfl⟩
  rw [if_neg h2]
  by_cases h3 : H5P_DEFAULT ≠ gapl_id ∧ TRUE ≠ H5P_isa_class st.ids gapl_id H5P_class_t.H5P_GROUP_ACCESS
  · rw [if_pos h3]
    exact ⟨rfl, rfl, rfl⟩
  rw [if_neg h3]
  exfalso
  rcases h with h | h | h | h
  · exact h0 h
  · exact h1 h
  · exact h2 h
  · exact h3 h

theorem H5Gopen_ff_invalid_args {σ : Type} (env : H5_env σ) (st : H5_state σ)
    (loc_id : hid_t) (name : Option String) (gapl_id : hid_t) (trans : Nat)
    (eq_id : hid_t)
    (h : (name = none ∨ name = some "") ∨
      (H5P_DEFAULT ≠ gapl_id ∧ TRUE ≠ H5P_isa_class st.ids gapl_id H5P_class_t.H5P_GROUP_ACCESS)) :
    (H5Gopen_ff env st loc_id name gapl_id trans eq_id).st = st ∧
        (H5Gopen_ff env st loc_id name gapl_id trans eq_id).calls = [] ∧
        (H5Gopen_ff env st loc_id name gapl_id trans eq_id).ret_value = FAIL := by
  unfold H5Gopen_ff
  dsimp only
  by_cases h0 : name = none ∨ name = some ""
  · rw [if_pos h0]
    exact ⟨rfl, rfl, rfl⟩
  rw [if_neg h0]
  by_cases h1 : H5P_DEFAULT ≠ gapl_id ∧ TRUE ≠ H5P_isa_class st.ids gapl_id H5P_class_t.H5P_GROUP_ACCESS
  · rw [if_pos h1]
    exact ⟨rfl, rfl, rfl⟩
  rw [if_neg h1]
  exfalso
  rcases h with h | h
  · exact h0 h
  · exact h1 h

theorem H5Dcreate_ff_invalid_args {σ : Type} (env : H5_env σ) (st : H5_state σ)
    (loc_id : hid_t) (name : Option String)
    (type_id space_id lcpl_id dcpl_id dapl_id : hid_t) (trans : Nat) (eq_id : hid_t)
    (h : (name = none ∨ name = some "") ∨
      (H5P_DEFAULT ≠ lcpl_id ∧ TRUE ≠ H5P_isa_class st.ids lcpl_id H5P_class_t.H5P_LINK_CREATE) ∨
      (H5P_DEFAULT ≠ dcpl_id ∧ TRUE ≠ H5P_isa_class st.ids dcpl_id H5P_class_t.H5P_DATASET_CREATE) ∨
      (H5P_DEFAULT ≠ dapl_id ∧ TRUE ≠ H5P_isa_class st.ids dapl_id H5P_class_t.H5P_DATASET_ACCESS)) :
    (H5Dcreate_ff env st loc_id name type_id space_id lcpl_id dcpl_id dapl_id trans eq_id).st = st ∧
        (H5Dcreate_ff env st loc_id name type_id space_id lcpl_id dcpl_id dapl_id trans eq_id).calls = [] ∧
        (H5Dcreate_ff env st loc_id name type_id space_id lcpl_id dcpl_id dapl_id trans eq_id).ret_value = FAIL := by
  unfold H5Dcreate_ff
  dsimp only
  simp only [H5Dcreate_ff_done_none]
  by_cases h0 : name = none ∨ name = some ""
  · rw [if_pos h0]
    exact ⟨rfl, rfl, rfl⟩
  rw [if_neg h0]
  by_cases h1 : H5P_DEFAULT ≠ lcpl_id ∧ TRUE ≠ H5P_isa_class st.ids lcpl_id H5P_class_t.H5P_LINK_CREATE
  · rw [if_pos h1]
    exact ⟨rfl, rfl, rfl⟩
  rw [if_neg h1]
  by_cases h2 : H5P_DEFAULT ≠ dcpl_id ∧ TRUE ≠ H5P_isa_class st.ids dcpl_id H5P_class_t.H5P_DATASET_CREATE
  · rw [if_pos h2]
    exact ⟨rfl, rfl, rfl⟩
  rw [if_neg h2]
  by_cases h3 : H5P_DEFAULT ≠ dapl_id ∧ TRUE ≠ H5P_isa_class st.ids dapl_id H5P_class_t.H5P_DATASET_ACCESS
  · rw [if_pos h3]
    exact ⟨rfl, rfl, rfl⟩
  rw [if_neg h3]
  exfalso
  rcases h with h | h | h | h
  · exact h0 h
  · exact h1 h
  · exact h2 h
  · exact h3 h

theorem H5Dopen_ff_invalid_args {σ : Type} (env : H5_env σ) (st : H5_state σ)
    (loc_id : hid_t) (name : Option String) (dapl_id : hid_t) (trans : Nat)
    (eq_id : hid_t)
    (h : (name = none ∨ name = some "") ∨
      (H5P_DEFAULT ≠ dapl_id ∧ TRUE ≠ H5P_isa_class st.ids dapl_id H5P_class_t.H5P_DATASET_ACCESS)) :
    (H5Dopen_ff env st loc_id name dapl_id trans eq_id).st = st ∧
        (H5Dopen_ff env st loc_id name dapl_id trans eq_id).calls = [] ∧
        (H5Dopen_ff env st loc_id name dapl_id trans eq_id).ret_value = FAIL := by
  unfold H5Dopen_ff
  dsimp only
  simp only [H5Dcreate_ff_done_none]
  by_cases h0 : name = none ∨ name = some ""
  · rw [if_pos h0]
    exact ⟨rfl, rfl, rfl⟩
  rw [if_neg h0]
  by_cases h1 : H5P_DEFAULT ≠ dapl_id ∧ TRUE ≠ H5P_isa_class st.ids dapl_id H5P_class_t.H5P_DATASET_ACCESS
  · rw [if_pos h1]
    exact ⟨rfl, rfl, rfl⟩
  rw [if_neg h1]
  exfalso
  rcases h with h | h
  · exact h0 h
  · exact h1 h

theorem H5Dwrite_ff_invalid_args {σ : Type} (env : H5_env σ) (st : H5_state σ)
    (dset_id mem_type_id mem_space_id file_space_id dxpl_id : hid_t)
    (buf : List Nat) (trans : Nat) (eq_id : hid_t)
    (h : (H5P_DEFAULT ≠ dxpl_id ∧ TRUE ≠ H5P_isa_class st.ids dxpl_id H5P_class_t.H5P_DATASET_XFER)) :
    (H5Dwrite_ff env st dset_id mem_type_id mem_space_id file_space_id dxpl_id buf trans eq_id).st = st ∧
        (H5Dwrite_ff env st dset_id mem_type_id mem_space_id file_space_id dxpl_id buf trans eq_id).calls = [] ∧
        (H5Dwrite_ff env st dset_id mem_type_id mem_space_id file_space_id dxpl_id buf trans eq_id).ret_value = FAIL := by
  unfold H5Dwrite_ff
  dsimp only
  by_cases h0 : dset_id = 0
  · rw [if_pos h0]
    exact ⟨rfl, rfl, rfl⟩
  rw [if_neg h0]
  by_cases h1 : H5P_DEFAULT ≠ dxpl_id ∧ TRUE ≠ H5P_isa_class st.ids dxpl_id H5P_class_t.H5P_DATASET_XFER
  · rw [if_pos h1]
    exact ⟨rfl, rfl, rfl⟩
  rw [if_neg h1]
  exfalso
  rcases h with h
  · exact h1 h

theorem H5Dread_ff_invalid_args {σ : Type} (env : H5_env σ) (st : H5_state σ)
    (dset_id mem_type_id mem_space_id file_space_id dxpl_id : hid_t)
    (buf : List Nat) (trans : Nat) (eq_id : hid_t)
    (h : (mem_space_id < 0 ∨ file_space_id < 0) ∨
      (H5P_DEFAULT ≠ dxpl_id ∧ TRUE ≠ H5P_isa_class st.ids dxpl_id H5P_class_t.H5P_DATASET_XFER)) :
    (H5Dread_ff env st dset_id mem_type_id mem_space_id file_space_id dxpl_id buf trans eq_id).st = st ∧
        (H5Dread_ff env st dset_id mem_type_id mem_space_id file_space_id dxpl_id buf trans eq_id).calls = [] ∧
        (H5Dread_ff env st dset_id mem_type_id mem_space_id file_space_id dxpl_id buf trans eq_id).ret_value = FAIL := by
  unfold H5Dread_ff
  dsimp only
  by_cases h0 : mem_space_id < 0 ∨ file_space_id < 0
  · rw [if_pos h0]
    exact ⟨rfl, rfl, rfl⟩
  rw [if_neg h0]
  by_cases h1 : H5P_DEFAULT ≠ dxpl_id ∧ TRUE ≠ H5P_isa_class st.ids dxpl_id H5P_class_t.H5P_DATASET_XFER
  · rw [if_pos h1]
    exact ⟨rfl, rfl, rfl⟩
  rw [if_neg h1]
  exfalso
  rcases h with h | h
  · exact h0 h
  · exact h1 h

/-- C16: when one of the eight wrappers of H5FF.c rejects its arguments (a null
or empty name, bad flags, a negative dataspace identifier on read, a property
list that is not of the required class), the state it leaves, registry and
backend state together, equals the state it was called in, no backend routine
has been called, and the value returned is `FAIL`. -/
theorem C16_validation_failure_frame {σ : Type} (env : H5_env σ) (st : H5_state σ) :
    (∀ (filename : Option String) (flags : Nat) (fcpl_id fapl_id eq_id : hid_t),
      (filename = none ∨ filename = some "") ∨
      (flags &&& H5_bitnot32 (env.H5F_ACC_EXCL ||| env.H5F_ACC_TRUNC ||| env.H5F_ACC_DEBUG) ≠ 0) ∨
      (flags &&& env.H5F_ACC_EXCL ≠ 0 ∧ flags &&& env.H5F_ACC_TRUNC ≠ 0) ∨
      (H5P_DEFAULT ≠ fcpl_id ∧ TRUE ≠ H5P_isa_class st.ids fcpl_id H5P_class_t.H5P_FILE_CREATE) ∨
      (H5P_DEFAULT ≠ fapl_id ∧ TRUE ≠ H5P_isa_class st.ids fapl_id H5P_class_t.H5P_FILE_ACCESS) →
      (H5Fcreate_ff env st filename flags fcpl_id fapl_id eq_id).st = st ∧
        (H5Fcreate_ff env st filename flags fcpl_id fapl_id eq_id).calls = [] ∧
        (H5Fcreate_ff env st filename flags fcpl_id fapl_id eq_id).ret_value = FAIL) ∧
    (∀ (filename : Option String) (flags : Nat) (fapl_id eq_id : hid_t),
      (filename = none ∨ filename = some "") ∨
      (flags &&& H5_bitnot32 env.H5F_ACC_PUBLIC_FLAGS ≠ 0 ∨
      flags &&& env.H5F_ACC_TRUNC ≠ 0 ∨ flags &&& env.H5F_ACC_EXCL ≠ 0) ∨
      (H5P_DEFAULT ≠ fapl_id ∧ TRUE ≠ H5P_isa_class st.ids fapl_id H5P_class_t.H5P_FILE_ACCESS) →
      (H5Fopen_ff env st filename flags fapl_id eq_id).st = st ∧
        (H5Fopen_ff env st filename flags fapl_id eq_id).calls = [] ∧
        (H5Fopen_ff env st filename flags fapl_id eq_id).ret_value = FAIL) ∧
    (∀ (loc_id : hid_t) (name : Option String) (lcpl_id gcpl_id gapl_id : hid_t)
        (trans : Nat) (eq_id : hid_t),
      (name = none ∨ name = some "") ∨
      (H5P_DEFAULT ≠ lcpl_id ∧ TRUE ≠ H5P_isa_class st.ids lcpl_id H5P_class_t.H5P_LINK_CREATE) ∨
      (H5P_DEFAULT ≠ gcpl_id ∧ TRUE ≠ H5P_isa_class st.ids gcpl_id H5P_class_t.H5P_GROUP_CREATE) ∨
      (H5P_DEFAULT ≠ gapl_id ∧ TRUE ≠ H5P_isa_class st.ids gapl_id H5P_class_t.H5P_GROUP_ACCESS) →
      (H5Gcreate_ff env st loc_id name lcpl_id gcpl_id gapl_id trans eq_id).st = st ∧
        (H5Gcreate_ff env st loc_id name lcpl_id gcpl_id gapl_id trans eq_id).calls = [] ∧
        (H5Gcreate_ff env st loc_id name lcpl_id gcpl_id gapl_id trans eq_id).ret_value = FAIL) ∧
    (∀ (loc_id : hid_t) (name : Option String) (gapl_id : hid_t) (trans : Nat)
        (eq_id : hid_t),
      (name = none ∨ name = some "") ∨
      (H5P_DEFAULT ≠ gapl_id ∧ TRUE ≠ H5P_isa_class st.ids gapl_id H5P_class_t.H5P_GROUP_ACCESS) →
      (H5Gopen_ff env st loc_id name gapl_id trans eq_id).st = st ∧
        (H5Gopen_ff env st loc_id name gapl_id trans eq_id).calls = [] ∧
        (H5Gopen_ff env st loc_id name gapl_id trans eq_id).ret_value = FAIL) ∧
    (∀ (loc_id : hid_t) (name : Option String)
        (type_id space_id lcpl_id dcpl_id dapl_id : hid_t) (trans : Nat) (eq_id : hid_t),
      (name = none ∨ name = some "") ∨
      (H5P_DEFAULT ≠ lcpl_id ∧ TRUE ≠ H5P_isa_class st.ids lcpl_id H5P_class_t.H5P_LINK_CREATE) ∨
      (H5P_DEFAULT ≠ dcpl_id ∧ TRUE ≠ H5P_isa_class st.ids dcpl_id H5P_class_t.H5P_DATASET_CREATE) ∨
      (H5P_DEFAULT ≠ dapl_id ∧ TRUE ≠ H5P_isa_class st.ids dapl_id H5P_class_t.H5P_DATASET_ACCESS) →
      (H5Dcreate_ff env st loc_id name type_id space_id lcpl_id dcpl_id dapl_id trans eq_id).st = st ∧
        (H5Dcreate_ff env st loc_id name type_id space_id lcpl_id dcpl_id dapl_id trans eq_id).calls = [] ∧
        (H5Dcreate_ff env st loc_id name type_id space_id lcpl_id dcpl_id dapl_id trans eq_id).ret_value = FAIL) ∧
    (∀ (loc_id : hid_t) (name : Option String) (dapl_id : hid_t) (trans : Nat)
        (eq_id : hid_t),
      (name = none ∨ name = some "") ∨
      (H5P_DEFAULT ≠ dapl_id ∧ TRUE ≠ H5P_isa_class st.ids dapl_id H5P_class_t.H5P_DATASET_ACCESS) →
      (H5Dopen_ff env st loc_id name dapl_id trans eq_id).st = st ∧
        (H5Dopen_ff env st loc_id name dapl_id trans eq_id).calls = [] ∧
        (H5Dopen_ff env st loc_id name dapl_id trans eq_id).ret_value = FAIL) ∧
    (∀ (dset_id mem_type_id mem_space_id file_space_id dxpl_id : hid_t)
        (buf : List Nat) (trans : Nat) (eq_id : hid_t),
      (H5P_DEFAULT ≠ dxpl_id ∧ TRUE ≠ H5P_isa_class st.ids dxpl_id H5P_class_t.H5P_DATASET_XFER) →
      (H5Dwrite_ff env st dset_id mem_type_id mem_space_id file_space_id dxpl_id buf trans eq_id).st = st ∧
        (H5Dwrite_ff env st dset_id mem_type_id mem_space_id file_space_id dxpl_id buf trans eq_id).calls = [] ∧
        (H5Dwrite_ff env st dset_id mem_type_id mem_space_id file_space_id dxpl_id buf trans eq_id).ret_value = FAIL) ∧
    (∀ (dset_id mem_type_id mem_space_id file_space_id dxpl_id : hid_t)
        (buf : List Nat) (trans : Nat) (eq_id : hid_t),
      (mem_space_id < 0 ∨ file_space_id < 0) ∨
      (H5P_DEFAULT ≠ dxpl_id ∧ TRUE ≠ H5P_isa_class st.ids dxpl_id H5P_class_t.H5P_DATASET_XFER) →
      (H5Dread_ff env st dset_id mem_type_id mem_space_id file_space_id dxpl_id buf trans eq_id).st = st ∧
        (H5Dread_ff env st dset_id mem_type_id mem_space_id file_space_id dxpl_id buf trans eq_id).calls = [] ∧
        (H5Dread_ff env st dset_id mem_type_id mem_space_id file_space_id dxpl_id buf trans eq_id).ret_value = FAIL) :=
  ⟨H5Fcreate_ff_invalid_args env st,
   H5Fopen_ff_invalid_args env st,
   H5Gcreate_ff_invalid_args env st,
   H5Gopen_ff_invalid_args env st,
   H5Dcreate_ff_invalid_args env st,
   H5Dopen_ff_invalid_args env st,
   H5Dwrite_ff_invalid_args env st,
   H5Dread_ff_invalid_args env st⟩

/-- Witness for C16: `H5Dread_ff` with the negative dataspace identifier -3
leaves `sample_st` as it was and calls no backend routine. -/
theorem C16_validation_failure_frame_witness :
    (H5Dread_ff sample_env sample_st 2 5 (-3) 6 0 [1, 2] 0 0).st = sample_st ∧
    (H5Dread_ff sample_env sample_st 2 5 (-3) 6 0 [1, 2] 0 0).calls = [] ∧
    (H5Dread_ff sample_env sample_st 2 5 (-3) 6 0 [1, 2] 0 0).ret_value = FAIL :=
  (C16_validation_failure_frame sample_env sample_st).2.2.2.2.2.2.2 2 5 (-3) 6 0 [1, 2] 0 0
    (Or.inl (Or.inl (by decide)))

/-! ## An identifier that does not resolve, or has no backend attached -/

theorem H5Gcreate_ff_vol_bad_loc_kind {σ : Type} (env : H5_env σ) (st : H5_state σ) (loc_id : hid_t)
    (name : String) (gcpl_id gapl_id eq_id : hid_t)
    (hloc : H5I_object st.ids loc_id = none ∨ H5I_get_aux st.ids loc_id = none) :
    (H5Gcreate_ff_vol env st loc_id name gcpl_id gapl_id eq_id).err_kind =
      some (H5E_major.H5E_ARGS, H5E_minor.H5E_BADTYPE) := by
  rcases H5Gcreate_ff_vol_cases env st loc_id name gcpl_id gapl_id eq_id with
    ⟨_, msg, hv⟩ | ⟨obj, vp, b, ev, hobj, haux, _⟩
  · rw [hv]; rfl
  · exfalso
    rcases hloc with h | h
    · rw [h] at hobj; cases hobj
    · rw [h] at haux; cases haux

theorem H5Dcreate_ff_vol_bad_loc_kind {σ : Type} (env : H5_env σ) (st : H5_state σ) (loc_id : hid_t)
    (name : String) (dcpl_id dapl_id eq_id : hid_t)
    (hloc : H5VL_get_object st.ids loc_id = none ∨ H5I_get_aux st.ids loc_id = none) :
    (H5Dcreate_ff_vol env st loc_id name dcpl_id dapl_id eq_id).err_kind =
      some (H5E_major.H5E_ARGS, H5E_minor.H5E_BADTYPE) := by
  rcases H5Dcreate_ff_vol_cases env st loc_id name dcpl_id dapl_id eq_id with
    ⟨_, msg, hv⟩ | ⟨obj, vp, b, ev, hobj, haux, _⟩
  · rw [hv]; rfl
  · exfalso
    rcases hloc with h | h
    · rw [h] at hobj; cases hobj
    · rw [h] at haux; cases haux

theorem H5Gcreate_ff_bad_loc_frame {σ : Type} (env : H5_env σ) (st : H5_state σ)
    (loc_id : hid_t) (name : Option String) (lcpl_id gcpl_id gapl_id : hid_t)
    (trans : Nat) (eq_id : hid_t)
    (hloc : H5I_object st.ids loc_id = none ∨ H5I_get_aux st.ids loc_id = none) :
    (H5Gcreate_ff env st loc_id name lcpl_id gcpl_id gapl_id trans eq_id).ret_value = FAIL ∧
    (H5Gcreate_ff env st loc_id name lcpl_id gcpl_id gapl_id trans eq_id).calls = [] ∧
    H5I_ids (H5Gcreate_ff env st loc_id name lcpl_id gcpl_id gapl_id trans eq_id).st.ids = H5I_ids st.ids ∧
    (H5Gcreate_ff env st loc_id name lcpl_id gcpl_id gapl_id trans eq_id).st.vol = st.vol := by
  have hreach := (H5Gcreate_ff_reach env st loc_id name lcpl_id gcpl_id gapl_id trans eq_id).1
  have hnil : (H5Gcreate_ff env st loc_id name lcpl_id gcpl_id gapl_id trans eq_id).calls = [] := by
    by_contra hne
    have h := hreach.mp hne
    rcases hloc with h1 | h1
    · exact h.2.2.2.2.2.1 h1
    · exact h.2.2.2.2.2.2 h1
  rcases H5Gcreate_ff_outcome env st loc_id name lcpl_id gcpl_id gapl_id trans eq_id with
    ⟨hc, hr, hids, hvol, _⟩ | ⟨ev, hc, _⟩ | ⟨ev, g, vp, hc, _⟩ | ⟨ev, g, vp, hc, _⟩
  · exact ⟨hr, hc, hids, hvol⟩
  · rw [hnil] at hc; cases hc
  · rw [hnil] at hc; cases hc
  · rw [hnil] at hc; cases hc

theorem H5Gcreate_ff_bad_loc_kind {σ : Type} (env : H5_env σ) (st : H5_state σ)
    (loc_id : hid_t) (name : Option String) (lcpl_id gcpl_id gapl_id : hid_t)
    (trans : Nat) (eq_id : hid_t)
    (hloc : H5I_object st.ids loc_id = none ∨ H5I_get_aux st.ids loc_id = none)
    (hn1 : name ≠ none) (hn2 : name ≠ some "")
    (hsets : ∃ ids1, H5P_set st.ids
              (if H5P_DEFAULT = gcpl_id then env.H5P_GROUP_CREATE_DEFAULT else gcpl_id)
              H5P_key.H5VL_GRP_LCPL_ID
              (if H5P_DEFAULT = lcpl_id then env.H5P_LINK_CREATE_DEFAULT else lcpl_id) =
            (SUCCEED, ids1)) :
    (H5Gcreate_ff env st loc_id name lcpl_id gcpl_id gapl_id trans eq_id).err_kind =
      some (H5E_major.H5E_ARGS, H5E_minor.H5E_BADTYPE) := by
  have h0 : ¬ (name = none ∨ name = some "") := fun h => h.elim hn1 hn2
  unfold H5Gcreate_ff
  dsimp only
  simp only [H5Gcreate_ff_done_none]
  rw [if_neg h0]
  by_cases h1 : H5P_DEFAULT ≠ lcpl_id ∧ TRUE ≠ H5P_isa_class st.ids lcpl_id H5P_class_t.H5P_LINK_CREATE
  · rw [if_pos h1]; rfl
  rw [if_neg h1]
  by_cases h2 : H5P_DEFAULT ≠ gcpl_id ∧ TRUE ≠ H5P_isa_class st.ids gcpl_id H5P_class_t.H5P_GROUP_CREATE
  · rw [if_pos h2]; rfl
  rw [if_neg h2]
  by_cases h3 : H5P_DEFAULT ≠ gapl_id ∧ TRUE ≠ H5P_isa_class st.ids gapl_id H5P_class_t.H5P_GROUP_ACCESS
  · rw [if_pos h3]; rfl
  rw [if_neg h3]
  obtain ⟨ids1, hs1⟩ := hsets
  have hobj : H5I_object st.ids (if H5P_DEFAULT = gcpl_id then env.H5P_GROUP_CREATE_DEFAULT else gcpl_id) ≠ none := by
    intro hnone
    rw [H5P_set_none _ _ hnone] at hs1
    have h1 : FAIL = SUCCEED := congrArg Prod.fst hs1
    exact absurd h1 (by decide)
  cases hco : H5I_object st.ids (if H5P_DEFAULT = gcpl_id then env.H5P_GROUP_CREATE_DEFAULT else gcpl_id) with
  | none => exact absurd hco hobj
  | some o =>
    dsimp only
    rw [hs1]
    dsimp only
    rw [if_neg (by decide : ¬ SUCCEED < 0)]
    apply H5Gcreate_ff_vol_bad_loc_kind
    dsimp only
    rcases hloc with h | h
    · left
      exact (H5P_set_object_none hs1 loc_id).1.mpr h
    · right
      rw [(H5P_set_eq_ids hs1).2]
      exact h

theorem H5Gcreate_ff_bad_loc {σ : Type} (env : H5_env σ) (st : H5_state σ)
    (loc_id : hid_t) (name : Option String) (lcpl_id gcpl_id gapl_id : hid_t)
    (trans : Nat) (eq_id : hid_t)
    (hloc : H5I_object st.ids loc_id = none ∨ H5I_get_aux st.ids loc_id = none) :
    (H5Gcreate_ff env st loc_id name lcpl_id gcpl_id gapl_id trans eq_id).ret_value = FAIL ∧
    (H5Gcreate_ff env st loc_id name lcpl_id gcpl_id gapl_id trans eq_id).calls = [] ∧
    H5I_ids (H5Gcreate_ff env st loc_id name lcpl_id gcpl_id gapl_id trans eq_id).st.ids = H5I_ids st.ids ∧
    (H5Gcreate_ff env st loc_id name lcpl_id gcpl_id gapl_id trans eq_id).st.vol = st.vol ∧
    (name ≠ none →
      name ≠ some "" →
      (∃ ids1, H5P_set st.ids
              (if H5P_DEFAULT = gcpl_id then env.H5P_GROUP_CREATE_DEFAULT else gcpl_id)
              H5P_key.H5VL_GRP_LCPL_ID
              (if H5P_DEFAULT = lcpl_id then env.H5P_LINK_CREATE_DEFAULT else lcpl_id) =
            (SUCCEED, ids1)) →
      (H5Gcreate_ff env st loc_id name lcpl_id gcpl_id gapl_id trans eq_id).err_kind =
        some (H5E_major.H5E_ARGS, H5E_minor.H5E_BADTYPE)) := by
  obtain ⟨h1, h2, h3, h4⟩ := H5Gcreate_ff_bad_loc_frame env st loc_id name lcpl_id gcpl_id gapl_id trans eq_id hloc
  exact ⟨h1, h2, h3, h4, fun p0 p1 p2 => H5Gcreate_ff_bad_loc_kind env st loc_id name lcpl_id gcpl_id gapl_id trans eq_id hloc p0 p1 p2⟩

theorem H5Gopen_ff_bad_loc_frame {σ : Type} (env : H5_env σ) (st : H5_state σ)
    (loc_id : hid_t) (name : Option String) (gapl_id : hid_t) (trans : Nat)
    (eq_id : hid_t)
    (hloc : H5I_object st.ids loc_id = none ∨ H5I_get_aux st.ids loc_id = none) :
    (H5Gopen_ff env st loc_id name gapl_id trans eq_id).ret_value = FAIL ∧
    (H5Gopen_ff env st loc_id name gapl_id trans eq_id).calls = [] ∧
    H5I_ids (H5Gopen_ff env st loc_id name gapl_id trans eq_id).st.ids = H5I_ids st.ids ∧
    (H5Gopen_ff env st loc_id name gapl_id trans eq_id).st.vol = st.vol := by
  have hreach := (H5Gopen_ff_reach env st loc_id name gapl_id trans eq_id).1
  have hnil : (H5Gopen_ff env st loc_id name gapl_id trans eq_id).calls = [] := by
    by_contra hne
    have h := hreach.mp hne
    rcases hloc with h1 | h1
    · exact h.2.2.1 h1
    · exact h.2.2.2 h1
  rcases H5Gopen_ff_outcome env st loc_id name gapl_id trans eq_id with
    ⟨hc, hr, hids, hvol, _⟩ | ⟨ev, hc, _⟩ | ⟨ev, g, vp, hc, _⟩ | ⟨ev, g, vp, hc, _⟩
  · exact ⟨hr, hc, hids, hvol⟩
  · rw [hnil] at hc; cases hc
  · rw [hnil] at hc; cases hc
  · rw [hnil] at hc; cases hc

theorem H5Gopen_ff_bad_loc_kind {σ : Type} (env : H5_env σ) (st : H5_state σ)
    (loc_id : hid_t) (name : Option String) (gapl_id : hid_t) (trans : Nat)
    (eq_id : hid_t)
    (hloc : H5I_object st.ids loc_id = none ∨ H5I_get_aux st.ids loc_id = none)
    (hn1 : name ≠ none) (hn2 : name ≠ some "") :
    (H5Gopen_ff env st loc_id name gapl_id trans eq_id).err_kind =
      some (H5E_major.H5E_ARGS, H5E_minor.H5E_BADTYPE) := by
  have h0 : ¬ (name = none ∨ name = some "") := fun h => h.elim hn1 hn2
  unfold H5Gopen_ff
  dsimp only
  rw [if_neg h0]
  by_cases h1 : H5P_DEFAULT ≠ gapl_id ∧ TRUE ≠ H5P_isa_class st.ids gapl_id H5P_class_t.H5P_GROUP_ACCESS
  · rw [if_pos h1]; rfl
  rw [if_neg h1]
  split
  · rfl
  rename_i obj hobj
  split
  · rfl
  rename_i vp haux
  exfalso
  rcases hloc with h | h
  · rw [h] at hobj; cases hobj
  · rw [h] at haux; cases haux

theorem H5Gopen_ff_bad_loc {σ : Type} (env : H5_env σ) (st : H5_state σ)
    (loc_id : hid_t) (name : Option String) (gapl_id : hid_t) (trans : Nat)
    (eq_id : hid_t)
    (hloc : H5I_object st.ids loc_id = none ∨ H5I_get_aux st.ids loc_id = none) :
    (H5Gopen_ff env st loc_id name gapl_id trans eq_id).ret_value = FAIL ∧
    (H5Gopen_ff env st loc_id name gapl_id trans eq_id).calls = [] ∧
    H5I_ids (H5Gopen_ff env st loc_id name gapl_id trans eq_id).st.ids = H5I_ids st.ids ∧
    (H5Gopen_ff env st loc_id name gapl_id trans eq_id).st.vol = st.vol ∧
    (name ≠ none →
      name ≠ some "" →
      (H5Gopen_ff env st loc_id name gapl_id trans eq_id).err_kind =
        some (H5E_major.H5E_ARGS, H5E_minor.H5E_BADTYPE)) := by
  obtain ⟨h1, h2, h3, h4⟩ := H5Gopen_ff_bad_loc_frame env st loc_id name gapl_id trans eq_id hloc
  exact ⟨h1, h2, h3, h4, fun p0 p1 => H5Gopen_ff_bad_loc_kind env st loc_id name gapl_id trans eq_id hloc p0 p1⟩

theorem H5Dcreate_ff_bad_loc_frame {σ : Type} (env : H5_env σ) (st : H5_state σ)
    (loc_id : hid_t) (name : Option String)
    (type_id space_id lcpl_id dcpl_id dapl_id : hid_t) (trans : Nat) (eq_id : hid_t)
    (hloc : H5VL_get_object st.ids loc_id = none ∨ H5I_get_aux st.ids loc_id = none) :
    (H5Dcreate_ff env st loc_id name type_id space_id lcpl_id dcpl_id dapl_id trans eq_id).ret_value = FAIL ∧
    (H5Dcreate_ff env st loc_id name type_id space_id lcpl_id dcpl_id dapl_id trans eq_id).calls = [] ∧
    H5I_ids (H5Dcreate_ff env st loc_id name type_id space_id lcpl_id dcpl_id dapl_id trans eq_id).st.ids = H5I_ids st.ids ∧
    (H5Dcreate_ff env st loc_id name type_id space_id lcpl_id dcpl_id dapl_id trans eq_id).st.vol = st.vol := by
  have hreach := (H5Dcreate_ff_reach env st loc_id name type_id space_id lcpl_id dcpl_id dapl_id trans eq_id).1
  have hnil : (H5Dcreate_ff env st loc_id name type_id space_id lcpl_id dcpl_id dapl_id trans eq_id).calls = [] := by
    by_contra hne
    have h := hreach.mp hne
    rcases hloc with h1 | h1
    · exact h.2.2.2.2.2.1 h1
    · exact h.2.2.2.2.2.2 h1
  rcases H5Dcreate_ff_outcome env st loc_id name type_id space_id lcpl_id dcpl_id dapl_id trans eq_id with
    ⟨hc, hr, hids, hvol, _⟩ | ⟨ev, hc, _⟩ | ⟨ev, g, vp, hc, _⟩ | ⟨ev, g, vp, hc, _⟩
  · exact ⟨hr, hc, hids, hvol⟩
  · rw [hnil] at hc; cases hc
  · rw [hnil] at hc; cases hc
  · rw [hnil] at hc; cases hc

theorem H5Dcreate_ff_bad_loc_kind {σ : Type} (env : H5_env σ) (st : H5_state σ)
    (loc_id : hid_t) (name : Option String)
    (type_id space_id lcpl_id dcpl_id dapl_id : hid_t) (trans : Nat) (eq_id : hid_t)
    (hloc : H5VL_get_object st.ids loc_id = none ∨ H5I_get_aux st.ids loc_id = none)
    (hn1 : name ≠ none) (hn2 : name ≠ some "")
    (hsets : ∃ ids1 ids2 ids3,
            H5P_set st.ids
              (if H5P_DEFAULT = dcpl_id then env.H5P_DATASET_CREATE_DEFAULT else dcpl_id)
              H5P_key.H5VL_DSET_TYPE_ID type_id = (SUCCEED, ids1) ∧
            H5P_set ids1
              (if H5P_DEFAULT = dcpl_id then env.H5P_DATASET_CREATE_DEFAULT else dcpl_id)
              H5P_key.H5VL_DSET_SPACE_ID space_id = (SUCCEED, ids2) ∧
            H5P_set ids2
              (if H5P_DEFAULT = dcpl_id then env.H5P_DATASET_CREATE_DEFAULT else dcpl_id)
              H5P_key.H5VL_DSET_LCPL_ID
              (if H5P_DEFAULT = lcpl_id then env.H5P_LINK_CREATE_DEFAULT else lcpl_id) =
              (SUCCEED, ids3)) :
    (H5Dcreate_ff env st loc_id name type_id space_id lcpl_id dcpl_id dapl_id trans eq_id).err_kind =
      some (H5E_major.H5E_ARGS, H5E_minor.H5E_BADTYPE) := by
  have h0 : ¬ (name = none ∨ name = some "") := fun h => h.elim hn1 hn2
  unfold H5Dcreate_ff
  dsimp only
  simp only [H5Dcreate_ff_done_none]
  rw [if_neg h0]
  by_cases h1 : H5P_DEFAULT ≠ lcpl_id ∧ TRUE ≠ H5P_isa_class st.ids lcpl_id H5P_class_t.H5P_LINK_CREATE
  · rw [if_pos h1]; rfl
  rw [if_neg h1]
  by_cases h2 : H5P_DEFAULT ≠ dcpl_id ∧ TRUE ≠ H5P_isa_class st.ids dcpl_id H5P_class_t.H5P_DATASET_CREATE
  · rw [if_pos h2]; rfl
  rw [if_neg h2]
  by_cases h3 : H5P_DEFAULT ≠ dapl_id ∧ TRUE ≠ H5P_isa_class st.ids dapl_id H5P_class_t.H5P_DATASET_ACCESS
  · rw [if_pos h3]; rfl
  rw [if_neg h3]
  obtain ⟨ids1, ids2, ids3, hs1, hs2, hs3⟩ := hsets
  have hobj : H5I_object st.ids (if H5P_DEFAULT = dcpl_id then env.H5P_DATASET_CREATE_DEFAULT else dcpl_id) ≠ none := by
    intro hnone
    rw [H5P_set_none _ _ hnone] at hs1
    have h1 : FAIL = SUCCEED := congrArg Prod.fst hs1
    exact absurd h1 (by decide)
  cases hco : H5I_object st.ids (if H5P_DEFAULT = dcpl_id then env.H5P_DATASET_CREATE_DEFAULT else dcpl_id) with
  | none => exact absurd hco hobj
  | some o =>
    dsimp only
    rw [hs1]
    dsimp only
    rw [if_neg (by decide : ¬ SUCCEED < 0), hs2]
    dsimp only
    rw [if_neg (by decide : ¬ SUCCEED < 0), hs3]
    dsimp only
    rw [if_neg (by decide : ¬ SUCCEED < 0)]
    apply H5Dcreate_ff_vol_bad_loc_kind
    dsimp only
    rcases hloc with h | h
    · left
      rw [(H5P_set_object_none hs3 loc_id).2, (H5P_set_object_none hs2 loc_id).2]
      exact (H5P_set_object_none hs1 loc_id).2.mpr h
    · right
      rw [(H5P_set_eq_ids hs3).2, (H5P_set_eq_ids hs2).2, (H5P_set_eq_ids hs1).2]
      exact h

theorem H5Dcreate_ff_bad_loc {σ : Type} (env : H5_env σ) (st : H5_state σ)
    (loc_id : hid_t) (name : Option String)
    (type_id space_id lcpl_id dcpl_id dapl_id : hid_t) (trans : Nat) (eq_id : hid_t)
    (hloc : H5VL_get_object st.ids loc_id = none ∨ H5I_get_aux st.ids loc_id = none) :
    (H5Dcreate_ff env st loc_id name type_id space_id lcpl_id dcpl_id dapl_id trans eq_id).ret_value = FAIL ∧
    (H5Dcreate_ff env st loc_id name type_id space_id lcpl_id dcpl_id dapl_id trans eq_id).calls = [] ∧
    H5I_ids (H5Dcreate_ff env st loc_id name type_id space_id lcpl_id dcpl_id dapl_id trans eq_id).st.ids = H5I_ids st.ids ∧
    (H5Dcreate_ff env st loc_id name type_id space_id lcpl_id dcpl_id dapl_id trans eq_id).st.vol = st.vol ∧
    (name ≠ none →
      name ≠ some "" →
      (∃ ids1 ids2 ids3,
            H5P_set st.ids
              (if H5P_DEFAULT = dcpl_id then env.H5P_DATASET_CREATE_DEFAULT else dcpl_id)
              H5P_key.H5VL_DSET_TYPE_ID type_id = (SUCCEED, ids1) ∧
            H5P_set ids1
              (if H5P_DEFAULT = dcpl_id then env.H5P_DATASET_CREATE_DEFAULT else dcpl_id)
              H5P_key.H5VL_DSET_SPACE_ID space_id = (SUCCEED, ids2) ∧
            H5P_set ids2
              (if H5P_DEFAULT = dcpl_id then env.H5P_DATASET_CREATE_DEFAULT else dcpl_id)
              H5P_key.H5VL_DSET_LCPL_ID
              (if H5P_DEFAULT = lcpl_id then env.H5P_LINK_CREATE_DEFAULT else lcpl_id) =
              (SUCCEED, ids3)) →
      (H5Dcreate_ff env st loc_id name type_id space_id lcpl_id dcpl_id dapl_id trans eq_id).err_kind =
        some (H5E_major.H5E_ARGS, H5E_minor.H5E_BADTYPE)) := by
  obtain ⟨h1, h2, h3, h4⟩ := H5Dcreate_ff_bad_loc_frame env st loc_id name type_id space_id lcpl_id dcpl_id dapl_id trans eq_id hloc
  exact ⟨h1, h2, h3, h4, fun p0 p1 p2 => H5Dcreate_ff_bad_loc_kind env st loc_id name type_id space_id lcpl_id dcpl_id dapl_id trans eq_id hloc p0 p1 p2⟩

theorem H5Dopen_ff_bad_loc_frame {σ : Type} (env : H5_env σ) (st : H5_state σ)
    (loc_id : hid_t) (name : Option String) (dapl_id : hid_t) (trans : Nat)
    (eq_id : hid_t)
    (hloc : H5VL_get_object st.ids loc_id = none ∨ H5I_get_aux st.ids loc_id = none) :
    (H5Dopen_ff env st loc_id name dapl_id trans eq_id).ret_value = FAIL ∧
    (H5Dopen_ff env st loc_id name dapl_id trans eq_id).calls = [] ∧
    H5I_ids (H5Dopen_ff env st loc_id name dapl_id trans eq_id).st.ids = H5I_ids st.ids ∧
    (H5Dopen_ff env st loc_id name dapl_id trans eq_id).st.vol = st.vol := by
  have hreach := (H5Dopen_ff_reach env st loc_id name dapl_id trans eq_id).1
  have hnil : (H5Dopen_ff env st loc_id name dapl_id trans eq_id).calls = [] := by
    by_contra hne
    have h := hreach.mp hne
    rcases hloc with h1 | h1
    · exact h.2.2.1 h1
    · exact h.2.2.2 h1
  rcases H5Dopen_ff_outcome env st loc_id name dapl_id trans eq_id with
    ⟨hc, hr, hids, hvol, _⟩ | ⟨ev, hc, _⟩ | ⟨ev, g, vp, hc, _⟩ | ⟨ev, g, vp, hc, _⟩
  · exact ⟨hr, hc, hids, hvol⟩
  · rw [hnil] at hc; cases hc
  · rw [hnil] at hc; cases hc
  · rw [hnil] at hc; cases hc

theorem H5Dopen_ff_bad_loc_kind {σ : Type} (env : H5_env σ) (st : H5_state σ)
    (loc_id : hid_t) (name : Option String) (dapl_id : hid_t) (trans : Nat)
    (eq_id : hid_t)
    (hloc : H5VL_get_object st.ids loc_id = none ∨ H5I_get_aux st.ids loc_id = none)
    (hn1 : name ≠ none) (hn2 : name ≠ some "") :
    (H5Dopen_ff env st loc_id name dapl_id trans eq_id).err_kind =
      some (H5E_major.H5E_ARGS, H5E_minor.H5E_BADTYPE) := by
  have h0 : ¬ (name = none ∨ name = some "") := fun h => h.elim hn1 hn2
  unfold H5Dopen_ff
  dsimp only
  simp only [H5Dcreate_ff_done_none]
  rw [if_neg h0]
  by_cases h1 : H5P_DEFAULT ≠ dapl_id ∧ TRUE ≠ H5P_isa_class st.ids dapl_id H5P_class_t.H5P_DATASET_ACCESS
  · rw [if_pos h1]; rfl
  rw [if_neg h1]
  split
  · rfl
  rename_i obj hobj
  split
  · rfl
  rename_i vp haux
  exfalso
  rcases hloc with h | h
  · rw [h] at hobj; cases hobj
  · rw [h] at haux; cases haux

theorem H5Dopen_ff_bad_loc {σ : Type} (env : H5_env σ) (st : H5_state σ)
    (loc_id : hid_t) (name : Option String) (dapl_id : hid_t) (trans : Nat)
    (eq_id : hid_t)
    (hloc : H5VL_get_object st.ids loc_id = none ∨ H5I_get_aux st.ids loc_id = none) :
    (H5Dopen_ff env st loc_id name dapl_id trans eq_id).ret_value = FAIL ∧
    (H5Dopen_ff env st loc_id name dapl_id trans eq_id).calls = [] ∧
    H5I_ids (H5Dopen_ff env st loc_id name dapl_id trans eq_id).st.ids = H5I_ids st.ids ∧
    (H5Dopen_ff env st loc_id name dapl_id trans eq_id).st.vol = st.vol ∧
    (name ≠ none →
      name ≠ some "" →
      (H5Dopen_ff env st loc_id name dapl_id trans eq_id).err_kind =
        some (H5E_major.H5E_ARGS, H5E_minor.H5E_BADTYPE)) := by
  obtain ⟨h1, h2, h3, h4⟩ := H5Dopen_ff_bad_loc_frame env st loc_id name dapl_id trans eq_id hloc
  exact ⟨h1, h2, h3, h4, fun p0 p1 => H5Dopen_ff_bad_loc_kind env st loc_id name dapl_id trans eq_id hloc p0 p1⟩

theorem H5Dwrite_ff_bad_loc {σ : Type} (env : H5_env σ) (st : H5_state σ)
    (dset_id mem_type_id mem_space_id file_space_id dxpl_id : hid_t)
    (buf : List Nat) (trans : Nat) (eq_id : hid_t)
    (hloc : H5I_object st.ids dset_id = none ∨ H5I_get_aux st.ids dset_id = none) :
    (H5Dwrite_ff env st dset_id mem_type_id mem_space_id file_space_id dxpl_id buf trans eq_id).ret_value = FAIL ∧
    (H5Dwrite_ff env st dset_id mem_type_id mem_space_id file_space_id dxpl_id buf trans eq_id).calls = [] ∧
    H5I_ids (H5Dwrite_ff env st dset_id mem_type_id mem_space_id file_space_id dxpl_id buf trans eq_id).st.ids = H5I_ids st.ids ∧
    (H5Dwrite_ff env st dset_id mem_type_id mem_space_id file_space_id dxpl_id buf trans eq_id).st.vol = st.vol ∧
    ((H5Dwrite_ff env st dset_id mem_type_id mem_space_id file_space_id dxpl_id buf trans eq_id).err_kind =
        some (H5E_major.H5E_ARGS, H5E_minor.H5E_BADTYPE)) := by
  unfold H5Dwrite_ff
  dsimp only
  by_cases h0 : dset_id = 0
  · rw [if_pos h0]; exact ⟨rfl, rfl, rfl, rfl, rfl⟩
  rw [if_neg h0]
  by_cases h1 : H5P_DEFAULT ≠ dxpl_id ∧ TRUE ≠ H5P_isa_class st.ids dxpl_id H5P_class_t.H5P_DATASET_XFER
  · rw [if_pos h1]; exact ⟨rfl, rfl, rfl, rfl, rfl⟩
  rw [if_neg h1]
  split
  · exact ⟨rfl, rfl, rfl, rfl, rfl⟩
  rename_i vp haux
  split
  · exact ⟨rfl, rfl, rfl, rfl, rfl⟩
  rename_i obj hobj
  exfalso
  rcases hloc with h | h
  · rw [h] at hobj; cases hobj
  · rw [h] at haux; cases haux

theorem H5Dread_ff_bad_loc {σ : Type} (env : H5_env σ) (st : H5_state σ)
    (dset_id mem_type_id mem_space_id file_space_id dxpl_id : hid_t)
    (buf : List Nat) (trans : Nat) (eq_id : hid_t)
    (hloc : H5I_object st.ids dset_id = none ∨ H5I_get_aux st.ids dset_id = none) :
    (H5Dread_ff env st dset_id mem_type_id mem_space_id file_space_id dxpl_id buf trans eq_id).ret_value = FAIL ∧
    (H5Dread_ff env st dset_id mem_type_id mem_space_id file_space_id dxpl_id buf trans eq_id).calls = [] ∧
    H5I_ids (H5Dread_ff env st dset_id mem_type_id mem_space_id file_space_id dxpl_id buf trans eq_id).st.ids = H5I_ids st.ids ∧
    (H5Dread_ff env st dset_id mem_type_id mem_space_id file_space_id dxpl_id buf trans eq_id).st.vol = st.vol ∧
    ((H5Dread_ff env st dset_id mem_type_id mem_space_id file_space_id dxpl_id buf trans eq_id).err_kind =
        some (H5E_major.H5E_ARGS, H5E_minor.H5E_BADTYPE)) := by
  unfold H5Dread_ff
  dsimp only
  by_cases h0 : mem_space_id < 0 ∨ file_space_id < 0
  · rw [if_pos h0]; exact ⟨rfl, rfl, rfl, rfl, rfl⟩
  rw [if_neg h0]
  by_cases h1 : H5P_DEFAULT ≠ dxpl_id ∧ TRUE ≠ H5P_isa_class st.ids dxpl_id H5P_class_t.H5P_DATASET_XFER
  · rw [if_pos h1]; exact ⟨rfl, rfl, rfl, rfl, rfl⟩
  rw [if_neg h1]
  split
  · exact ⟨rfl, rfl, rfl, rfl, rfl⟩
  rename_i vp haux
  split
  · exact ⟨rfl, rfl, rfl, rfl, rfl⟩
  rename_i obj hobj
  exfalso
  rcases hloc with h | h
  · rw [h] at hobj; cases hobj
  · rw [h] at haux; cases haux

/-! ## C17: the error kind of each cause of failure -/

theorem H5Fcreate_ff_error_kinds {σ : Type} (env : H5_env σ) (st : H5_state σ)
    (filename : Option String) (flags : Nat) (fcpl_id fapl_id eq_id : hid_t) :
    (((filename = none ∨ filename = some "") ∨
        (flags &&& H5_bitnot32 (env.H5F_ACC_EXCL ||| env.H5F_ACC_TRUNC ||| env.H5F_ACC_DEBUG) ≠ 0) ∨
        (flags &&& env.H5F_ACC_EXCL ≠ 0 ∧ flags &&& env.H5F_ACC_TRUNC ≠ 0)) →
        (H5Fcreate_ff env st filename flags fcpl_id fapl_id eq_id).err_kind =
          some (H5E_major.H5E_ARGS, H5E_minor.H5E_BADVALUE)) ∧
      (((H5P_DEFAULT ≠ fcpl_id ∧ TRUE ≠ H5P_isa_class st.ids fcpl_id H5P_class_t.H5P_FILE_CREATE) ∨
        (H5P_DEFAULT ≠ fapl_id ∧ TRUE ≠ H5P_isa_class st.ids fapl_id H5P_class_t.H5P_FILE_ACCESS)) →
        filename ≠ none →
        filename ≠ some "" →
        flags &&& H5_bitnot32 (env.H5F_ACC_EXCL ||| env.H5F_ACC_TRUNC ||| env.H5F_ACC_DEBUG) = 0 →
        (flags &&& env.H5F_ACC_EXCL = 0 ∨ flags &&& env.H5F_ACC_TRUNC = 0) →
        (H5Fcreate_ff env st filename flags fcpl_id fapl_id eq_id).err_kind =
          some (H5E_major.H5E_ARGS, H5E_minor.H5E_BADTYPE)) ∧
      (∀ ev, (H5Fcreate_ff env st filename flags fcpl_id fapl_id eq_id).calls = [ev] →
        ev.ret = H5VL_ret.file none →
        (H5Fcreate_ff env st filename flags fcpl_id fapl_id eq_id).err_kind =
          some (H5E_major.H5E_FILE, H5E_minor.H5E_CANTOPENFILE)) ∧
      (∀ ev g vp, (H5Fcreate_ff env st filename flags fcpl_id fapl_id eq_id).calls.head? = some ev →
        ev.ret = H5VL_ret.file (some (g, vp)) →
        (H5I_register2 ev.ids H5I_type_t.H5I_FILE (H5_object.token g) (some vp) true).1 < 0 →
        (H5Fcreate_ff env st filename flags fcpl_id fapl_id eq_id).err_kind =
          some (H5E_major.H5E_ATOM, H5E_minor.H5E_CANTREGISTER)) ∧
      [(H5E_major.H5E_ARGS, H5E_minor.H5E_BADVALUE),
        (H5E_major.H5E_ARGS, H5E_minor.H5E_BADTYPE),
        (H5E_major.H5E_FILE, H5E_minor.H5E_CANTOPENFILE),
        (H5E_major.H5E_ATOM, H5E_minor.H5E_CANTREGISTER)].Nodup := by
  refine ⟨?_, ?_, ?_, ?_, by decide⟩
  · intro h
    unfold H5Fcreate_ff
    dsimp only
    by_cases h0 : filename = none ∨ filename = some ""
    · rw [if_pos h0]; rfl
    rw [if_neg h0]
    by_cases h1 : flags &&& H5_bitnot32 (env.H5F_ACC_EXCL ||| env.H5F_ACC_TRUNC ||| env.H5F_ACC_DEBUG) ≠ 0
    · rw [if_pos h1]; rfl
    rw [if_neg h1]
    by_cases h2 : flags &&& env.H5F_ACC_EXCL ≠ 0 ∧ flags &&& env.H5F_ACC_TRUNC ≠ 0
    · rw [if_pos h2]; rfl
    exfalso
    rcases h with h | h | h
    · exact h0 h
    · exact h1 h
    · exact h2 h
  · intro h
    exact (H5Fcreate_ff_bad_plist env st filename flags fcpl_id fapl_id eq_id h).2.2.2
  · intro ev hc he
    rcases H5Fcreate_ff_outcome env st filename flags fcpl_id fapl_id eq_id with
      ⟨hc2, _⟩ | ⟨ev2, _, _, _, hk, _⟩ | ⟨ev2, g, vp, hc2, he2, _⟩ | ⟨ev2, g, vp, hc2, he2, _⟩
    · rw [hc2] at hc; cases hc
    · exact hk
    · rw [hc] at hc2
      cases hc2
      rw [he] at he2
      cases he2
    · rw [hc2] at hc
      cases hc
      rw [he] at he2
      cases he2
  · intro ev g vp hc he hreg
    rcases H5Fcreate_ff_outcome env st filename flags fcpl_id fapl_id eq_id with
      ⟨hc2, _⟩ | ⟨ev2, hc2, he2, _⟩ | ⟨ev2, g2, vp2, _, _, _, _, hk, _⟩ |
        ⟨ev2, g2, vp2, hc2, he2, hreg2, _⟩
    · rw [hc2] at hc; cases hc
    · rw [hc2] at hc
      cases hc
      rw [he] at he2
      cases he2
    · exact hk
    · rw [hc2] at hc
      cases hc
      rw [he] at he2
      cases he2
      exact absurd hreg hreg2

theorem H5Fopen_ff_error_kinds {σ : Type} (env : H5_env σ) (st : H5_state σ)
    (filename : Option String) (flags : Nat) (fapl_id eq_id : hid_t) :
    (((filename = none ∨ filename = some "") ∨
        (flags &&& H5_bitnot32 env.H5F_ACC_PUBLIC_FLAGS ≠ 0 ∨
      flags &&& env.H5F_ACC_TRUNC ≠ 0 ∨ flags &&& env.H5F_ACC_EXCL ≠ 0)) →
        (H5Fopen_ff env st filename flags fapl_id eq_id).err_kind =
          some (H5E_major.H5E_ARGS, H5E_minor.H5E_BADVALUE)) ∧
      ((H5P_DEFAULT ≠ fapl_id ∧ TRUE ≠ H5P_isa_class st.ids fapl_id H5P_class_t.H5P_FILE_ACCESS) →
        filename ≠ none →
        filename ≠ some "" →
        flags &&& H5_bitnot32 env.H5F_ACC_PUBLIC_FLAGS = 0 →
        flags &&& env.H5F_ACC_TRUNC = 0 →
        flags &&& env.H5F_ACC_EXCL = 0 →
        (H5Fopen_ff env st filename flags fapl_id eq_id).err_kind =
          some (H5E_major.H5E_ARGS, H5E_minor.H5E_BADTYPE)) ∧
      (∀ ev, (H5Fopen_ff env st filename flags fapl_id eq_id).calls = [ev] →
        ev.ret = H5VL_ret.file none →
        (H5Fopen_ff env st filename flags fapl_id eq_id).err_kind =
          some (H5E_major.H5E_FILE, H5E_minor.H5E_CANTOPENFILE)) ∧
      (∀ ev g vp, (H5Fopen_ff env st filename flags fapl_id eq_id).calls.head? = some ev →
        ev.ret = H5VL_ret.file (some (g, vp)) →
        (H5I_register2 ev.ids H5I_type_t.H5I_FILE (H5_object.token g) (some vp) true).1 < 0 →
        (H5Fopen_ff env st filename flags fapl_id eq_id).err_kind =
          some (H5E_major.H5E_ATOM, H5E_minor.H5E_CANTREGISTER)) ∧
      [(H5E_major.H5E_ARGS, H5E_minor.H5E_BADVALUE),
        (H5E_major.H5E_ARGS, H5E_minor.H5E_BADTYPE),
        (H5E_major.H5E_FILE, H5E_minor.H5E_CANTOPENFILE),
        (H5E_major.H5E_ATOM, H5E_minor.H5E_CANTREGISTER)].Nodup := by
  refine ⟨?_, ?_, ?_, ?_, by decide⟩
  · intro h
    unfold H5Fopen_ff
    dsimp only
    by_cases h0 : filename = none ∨ filename = some ""
    · rw [if_pos h0]; rfl
    rw [if_neg h0]
    by_cases h1 : flags &&& H5_bitnot32 env.H5F_ACC_PUBLIC_FLAGS ≠ 0 ∨
      flags &&& env.H5F_ACC_TRUNC ≠ 0 ∨ flags &&& env.H5F_ACC_EXCL ≠ 0
    · rw [if_pos h1]; rfl
    exfalso
    rcases h with h | h
    · exact h0 h
    · exact h1 h
  · intro h
    exact (H5Fopen_ff_bad_plist env st filename flags fapl_id eq_id h).2.2.2
  · intro ev hc he
    rcases H5Fopen_ff_outcome env st filename flags fapl_id eq_id with
      ⟨hc2, _⟩ | ⟨ev2, _, _, _, hk, _⟩ | ⟨ev2, g, vp, hc2, he2, _⟩ | ⟨ev2, g, vp, hc2, he2, _⟩
    · rw [hc2] at hc; cases hc
    · exact hk
    · rw [hc] at hc2
      cases hc2
      rw [he] at he2
      cases he2
    · rw [hc2] at hc
      cases hc
      rw [he] at he2
      cases he2
  · intro ev g vp hc he hreg
    rcases H5Fopen_ff_outcome env st filename flags fapl_id eq_id with
      ⟨hc2, _⟩ | ⟨ev2, hc2, he2, _⟩ | ⟨ev2, g2, vp2, _, _, _, _, hk, _⟩ |
        ⟨ev2, g2, vp2, hc2, he2, hreg2, _⟩
    · rw [hc2] at hc; cases hc
    · rw [hc2] at hc
      cases hc
      rw [he] at he2
      cases he2
    · exact hk
    · rw [hc2] at hc
      cases hc
      rw [he] at he2
      cases he2
      exact absurd hreg hreg2

theorem H5Gcreate_ff_error_kinds {σ : Type} (env : H5_env σ) (st : H5_state σ)
    (loc_id : hid_t) (name : Option String) (lcpl_id gcpl_id gapl_id : hid_t)
    (trans : Nat) (eq_id : hid_t) :
    (((name = none ∨ name = some "")) →
        (H5Gcreate_ff env st loc_id name lcpl_id gcpl_id gapl_id trans eq_id).err_kind =
          some (H5E_major.H5E_ARGS, H5E_minor.H5E_BADVALUE)) ∧
      (((H5P_DEFAULT ≠ lcpl_id ∧ TRUE ≠ H5P_isa_class st.ids lcpl_id H5P_class_t.H5P_LINK_CREATE) ∨
        (H5P_DEFAULT ≠ gcpl_id ∧ TRUE ≠ H5P_isa_class st.ids gcpl_id H5P_class_t.H5P_GROUP_CREATE) ∨
        (H5P_DEFAULT ≠ gapl_id ∧ TRUE ≠ H5P_isa_class st.ids gapl_id H5P_class_t.H5P_GROUP_ACCESS)) →
        name ≠ none →
        name ≠ some "" →
        (H5Gcreate_ff env st loc_id name lcpl_id gcpl_id gapl_id trans eq_id).err_kind =
          some (H5E_major.H5E_ARGS, H5E_minor.H5E_BADTYPE)) ∧
      ((H5I_object st.ids loc_id = none ∨ H5I_get_aux st.ids loc_id = none) →
        name ≠ none →
        name ≠ some "" →
        (∃ ids1, H5P_set st.ids
              (if H5P_DEFAULT = gcpl_id then env.H5P_GROUP_CREATE_DEFAULT else gcpl_id)
              H5P_key.H5VL_GRP_LCPL_ID
              (if H5P_DEFAULT = lcpl_id then env.H5P_LINK_CREATE_DEFAULT else lcpl_id) =
            (SUCCEED, ids1)) →
        (H5Gcreate_ff env st loc_id name lcpl_id gcpl_id gapl_id trans eq_id).err_kind =
          some (H5E_major.H5E_ARGS, H5E_minor.H5E_BADTYPE)) ∧
      (∀ ev, (H5Gcreate_ff env st loc_id name lcpl_id gcpl_id gapl_id trans eq_id).calls = [ev] →
        ev.ret = H5VL_ret.ptr none →
        (H5Gcreate_ff env st loc_id name lcpl_id gcpl_id gapl_id trans eq_id).err_kind =
          some (H5E_major.H5E_SYM, H5E_minor.H5E_CANTINIT)) ∧
      (∀ ev g vp, (H5Gcreate_ff env st loc_id name lcpl_id gcpl_id gapl_id trans eq_id).calls.head? = some ev →
        ev.ret = H5VL_ret.ptr (some g) →
        H5I_get_aux st.ids loc_id = some vp →
        (H5I_register2 ev.ids H5I_type_t.H5I_GROUP (H5_object.token g) (some vp) true).1 < 0 →
        (H5Gcreate_ff env st loc_id name lcpl_id gcpl_id gapl_id trans eq_id).err_kind =
          some (H5E_major.H5E_ATOM, H5E_minor.H5E_CANTREGISTER)) ∧
      [(H5E_major.H5E_ARGS, H5E_minor.H5E_BADVALUE),
        (H5E_major.H5E_ARGS, H5E_minor.H5E_BADTYPE),
        (H5E_major.H5E_SYM, H5E_minor.H5E_CANTINIT),
        (H5E_major.H5E_ATOM, H5E_minor.H5E_CANTREGISTER)].Nodup := by
  refine ⟨?_, ?_, ?_, ?_, ?_, by decide⟩
  · intro h
    unfold H5Gcreate_ff
    dsimp only
    simp only [H5Gcreate_ff_done_none]
    by_cases h0 : name = none ∨ name = some ""
    · rw [if_pos h0]; rfl
    exact absurd h h0
  · intro h
    exact (H5Gcreate_ff_bad_plist env st loc_id name lcpl_id gcpl_id gapl_id trans eq_id h).2.2.2
  · intro h
    exact (H5Gcreate_ff_bad_loc env st loc_id name lcpl_id gcpl_id gapl_id trans eq_id h).2.2.2.2
  · intro ev hc he
    rcases H5Gcreate_ff_outcome env st loc_id name lcpl_id gcpl_id gapl_id trans eq_id with
      ⟨hc2, _⟩ | ⟨ev2, _, _, _, hk, _⟩ | ⟨ev2, g, vp, hc2, he2, _⟩ | ⟨ev2, g, vp, hc2, he2, _⟩
    · rw [hc2] at hc; cases hc
    · exact hk
    · rw [hc] at hc2
      cases hc2
      rw [he] at he2
      cases he2
    · rw [hc2] at hc
      cases hc
      rw [he] at he2
      cases he2
  · intro ev g vp hc he haux hreg
    rcases H5Gcreate_ff_outcome env st loc_id name lcpl_id gcpl_id gapl_id trans eq_id with
      ⟨hc2, _⟩ | ⟨ev2, hc2, he2, _⟩ | ⟨ev2, g2, vp2, _, _, _, _, _, hk, _⟩ |
        ⟨ev2, g2, vp2, hc2, he2, haux2, hreg2, _⟩
    · rw [hc2] at hc; cases hc
    · rw [hc2] at hc
      cases hc
      rw [he] at he2
      cases he2
    · exact hk
    · rw [hc2] at hc
      cases hc
      rw [he] at he2
      cases he2
      rw [haux] at haux2
      cases haux2
      exact absurd hreg hreg2

theorem H5Gopen_ff_error_kinds {σ : Type} (env : H5_env σ) (st : H5_state σ)
    (loc_id : hid_t) (name : Option String) (gapl_id : hid_t) (trans : Nat)
    (eq_id : hid_t) :
    (((name = none ∨ name = some "")) →
        (H5Gopen_ff env st loc_id name gapl_id trans eq_id).err_kind =
          some (H5E_major.H5E_ARGS, H5E_minor.H5E_BADVALUE)) ∧
      ((H5P_DEFAULT ≠ gapl_id ∧ TRUE ≠ H5P_isa_class st.ids gapl_id H5P_class_t.H5P_GROUP_ACCESS) →
        name ≠ none →
        name ≠ some "" →
        (H5Gopen_ff env st loc_id name gapl_id trans eq_id).err_kind =
          some (H5E_major.H5E_ARGS, H5E_minor.H5E_BADTYPE)) ∧
      ((H5I_object st.ids loc_id = none ∨ H5I_get_aux st.ids loc_id = none) →
        name ≠ none →
        name ≠ some "" →
        (H5Gopen_ff env st loc_id name gapl_id trans eq_id).err_kind =
          some (H5E_major.H5E_ARGS, H5E_minor.H5E_BADTYPE)) ∧
      (∀ ev, (H5Gopen_ff env st loc_id name gapl_id trans eq_id).calls = [ev] →
        ev.ret = H5VL_ret.ptr none →
        (H5Gopen_ff env st loc_id name gapl_id trans eq_id).err_kind =
          some (H5E_major.H5E_SYM, H5E_minor.H5E_CANTINIT)) ∧
      (∀ ev g vp, (H5Gopen_ff env st loc_id name gapl_id trans eq_id).calls.head? = some ev →
        ev.ret = H5VL_ret.ptr (some g) →
        H5I_get_aux st.ids loc_id = some vp →
        (H5I_register2 ev.ids H5I_type_t.H5I_GROUP (H5_object.token g) (some vp) true).1 < 0 →
        (H5Gopen_ff env st loc_id name gapl_id trans eq_id).err_kind =
          some (H5E_major.H5E_ATOM, H5E_minor.H5E_CANTREGISTER)) ∧
      [(H5E_major.H5E_ARGS, H5E_minor.H5E_BADVALUE),
        (H5E_major.H5E_ARGS, H5E_minor.H5E_BADTYPE),
        (H5E_major.H5E_SYM, H5E_minor.H5E_CANTINIT),
        (H5E_major.H5E_ATOM, H5E_minor.H5E_CANTREGISTER)].Nodup := by
  refine ⟨?_, ?_, ?_, ?_, ?_, by decide⟩
  · intro h
    unfold H5Gopen_ff
    dsimp only
    by_cases h0 : name = none ∨ name = some ""
    · rw [if_pos h0]; rfl
    exact absurd h h0
  · intro h
    exact (H5Gopen_ff_bad_plist env st loc_id name gapl_id trans eq_id h).2.2.2
  · intro h
    exact (H5Gopen_ff_bad_loc env st loc_id name gapl_id trans eq_id h).2.2.2.2
  · intro ev hc he
    rcases H5Gopen_ff_outcome env st loc_id name gapl_id trans eq_id with
      ⟨hc2, _⟩ | ⟨ev2, _, _, _, hk, _⟩ | ⟨ev2, g, vp, hc2, he2, _⟩ | ⟨ev2, g, vp, hc2, he2, _⟩
    · rw [hc2] at hc; cases hc
    · exact hk
    · rw [hc] at hc2
      cases hc2
      rw [he] at he2
      cases he2
    · rw [hc2] at hc
      cases hc
      rw [he] at he2
      cases he2
  · intro ev g vp hc he haux hreg
    rcases H5Gopen_ff_outcome env st loc_id name gapl_id trans eq_id with
      ⟨hc2, _⟩ | ⟨ev2, hc2, he2, _⟩ | ⟨ev2, g2, vp2, _, _, _, _, _, hk, _⟩ |
        ⟨ev2, g2, vp2, hc2, he2, haux2, hreg2, _⟩
    · rw [hc2] at hc; cases hc
    · rw [hc2] at hc
      cases hc
      rw [he] at he2
      cases he2
    · exact hk
    · rw [hc2] at hc
      cases hc
      rw [he] at he2
      cases he2
      rw [haux] at haux2
      cases haux2
      exact absurd hreg hreg2

theorem H5Dcreate_ff_error_kinds {σ : Type} (env : H5_env σ) (st : H5_state σ)
    (loc_id : hid_t) (name : Option String)
    (type_id space_id lcpl_id dcpl_id dapl_id : hid_t) (trans : Nat) (eq_id : hid_t) :
    (((name = none ∨ name = some "")) →
        (H5Dcreate_ff env st loc_id name type_id space_id lcpl_id dcpl_id dapl_id trans eq_id).err_kind =
          some (H5E_major.H5E_ARGS, H5E_minor.H5E_BADVALUE)) ∧
      (((H5P_DEFAULT ≠ lcpl_id ∧ TRUE ≠ H5P_isa_class st.ids lcpl_id H5P_class_t.H5P_LINK_CREATE) ∨
        (H5P_DEFAULT ≠ dcpl_id ∧ TRUE ≠ H5P_isa_class st.ids dcpl_id H5P_class_t.H5P_DATASET_CREATE) ∨
        (H5P_DEFAULT ≠ dapl_id ∧ TRUE ≠ H5P_isa_class st.ids dapl_id H5P_class_t.H5P_DATASET_ACCESS)) →
        name ≠ none →
        name ≠ some "" →
        (H5Dcreate_ff env st loc_id name type_id space_id lcpl_id dcpl_id dapl_id trans eq_id).err_kind =
          some (H5E_major.H5E_ARGS, H5E_minor.H5E_BADTYPE)) ∧
      ((H5VL_get_object st.ids loc_id = none ∨ H5I_get_aux st.ids loc_id = none) →
        name ≠ none →
        name ≠ some "" →
        (∃ ids1 ids2 ids3,
            H5P_set st.ids
              (if H5P_DEFAULT = dcpl_id then env.H5P_DATASET_CREATE_DEFAULT else dcpl_id)
              H5P_key.H5VL_DSET_TYPE_ID type_id = (SUCCEED, ids1) ∧
            H5P_set ids1
              (if H5P_DEFAULT = dcpl_id then env.H5P_DATASET_CREATE_DEFAULT else dcpl_id)
              H5P_key.H5VL_DSET_SPACE_ID space_id = (SUCCEED, ids2) ∧
            H5P_set ids2
              (if H5P_DEFAULT = dcpl_id then env.H5P_DATASET_CREATE_DEFAULT else dcpl_id)
              H5P_key.H5VL_DSET_LCPL_ID
              (if H5P_DEFAULT = lcpl_id then env.H5P_LINK_CREATE_DEFAULT else lcpl_id) =
              (SUCCEED, ids3)) →
        (H5Dcreate_ff env st loc_id name type_id space_id lcpl_id dcpl_id dapl_id trans eq_id).err_kind =
          some (H5E_major.H5E_ARGS, H5E_minor.H5E_BADTYPE)) ∧
      (∀ ev, (H5Dcreate_ff env st loc_id name type_id space_id lcpl_id dcpl_id dapl_id trans eq_id).calls = [ev] →
        ev.ret = H5VL_ret.ptr none →
        (H5Dcreate_ff env st loc_id name type_id space_id lcpl_id dcpl_id dapl_id trans eq_id).err_kind =
          some (H5E_major.H5E_DATASET, H5E_minor.H5E_CANTINIT)) ∧
      (∀ ev g vp, (H5Dcreate_ff env st loc_id name type_id space_id lcpl_id dcpl_id dapl_id trans eq_id).calls.head? = some ev →
        ev.ret = H5VL_ret.ptr (some g) →
        H5I_get_aux st.ids loc_id = some vp →
        (H5I_register2 ev.ids H5I_type_t.H5I_DATASET (H5_object.token g) (some vp) true).1 < 0 →
        (H5Dcreate_ff env st loc_id name type_id space_id lcpl_id dcpl_id dapl_id trans eq_id).err_kind =
          some (H5E_major.H5E_ATOM, H5E_minor.H5E_CANTREGISTER)) ∧
      [(H5E_major.H5E_ARGS, H5E_minor.H5E_BADVALUE),
        (H5E_major.H5E_ARGS, H5E_minor.H5E_BADTYPE),
        (H5E_major.H5E_DATASET, H5E_minor.H5E_CANTINIT),
        (H5E_major.H5E_ATOM, H5E_minor.H5E_CANTREGISTER)].Nodup := by
  refine ⟨?_, ?_, ?_, ?_, ?_, by decide⟩
  · intro h
    unfold H5Dcreate_ff
    dsimp only
    simp only [H5Dcreate_ff_done_none]
    by_cases h0 : name = none ∨ name = some ""
    · rw [if_pos h0]; rfl
    exact absurd h h0
  · intro h
    exact (H5Dcreate_ff_bad_plist env st loc_id name type_id space_id lcpl_id dcpl_id dapl_id trans eq_id h).2.2.2
  · intro h
    exact (H5Dcreate_ff_bad_loc env st loc_id name type_id space_id lcpl_id dcpl_id dapl_id trans eq_id h).2.2.2.2
  · intro ev hc he
    rcases H5Dcreate_ff_outcome env st loc_id name type_id space_id lcpl_id dcpl_id dapl_id trans eq_id with
      ⟨hc2, _⟩ | ⟨ev2, _, _, _, hk, _⟩ | ⟨ev2, g, vp, hc2, he2, _⟩ | ⟨ev2, g, vp, hc2, he2, _⟩
    · rw [hc2] at hc; cases hc
    · exact hk
    · rw [hc] at hc2
      cases hc2
      rw [he] at he2
      cases he2
    · rw [hc2] at hc
      cases hc
      rw [he] at he2
      cases he2
  · intro ev g vp hc he haux hreg
    rcases H5Dcreate_ff_outcome env st loc_id name type_id space_id lcpl_id dcpl_id dapl_id trans eq_id with
      ⟨hc2, _⟩ | ⟨ev2, hc2, he2, _⟩ | ⟨ev2, g2, vp2, _, _, _, _, _, hk, _⟩ |
        ⟨ev2, g2, vp2, hc2, he2, haux2, hreg2, _⟩
    · rw [hc2] at hc; cases hc
    · rw [hc2] at hc
      cases hc
      rw [he] at he2
      cases he2
    · exact hk
    · rw [hc2] at hc
      cases hc
      rw [he] at he2
      cases he2
      rw [haux] at haux2
      cases haux2
      exact absurd hreg hreg2

theorem H5Dopen_ff_error_kinds {σ : Type} (env : H5_env σ) (st : H5_state σ)
    (loc_id : hid_t) (name : Option String) (dapl_id : hid_t) (trans : Nat)
    (eq_id : hid_t) :
    (((name = none ∨ name = some "")) →
        (H5Dopen_ff env st loc_id name dapl_id trans eq_id).err_kind =
          some (H5E_major.H5E_ARGS, H5E_minor.H5E_BADVALUE)) ∧
      ((H5P_DEFAULT ≠ dapl_id ∧ TRUE ≠ H5P_isa_class st.ids dapl_id H5P_class_t.H5P_DATASET_ACCESS) →
        name ≠ none →
        name ≠ some "" →
        (H5Dopen_ff env st loc_id name dapl_id trans eq_id).err_kind =
          some (H5E_major.H5E_ARGS, H5E_minor.H5E_BADTYPE)) ∧
      ((H5VL_get_object st.ids loc_id = none ∨ H5I_get_aux st.ids loc_id = none) →
        name ≠ none →
        name ≠ some "" →
        (H5Dopen_ff env st loc_id name dapl_id trans eq_id).err_kind =
          some (H5E_major.H5E_ARGS, H5E_minor.H5E_BADTYPE)) ∧
      (∀ ev, (H5Dopen_ff env st loc_id name dapl_id trans eq_id).calls = [ev] →
        ev.ret = H5VL_ret.ptr none →
        (H5Dopen_ff env st loc_id name dapl_id trans eq_id).err_kind =
          some (H5E_major.H5E_DATASET, H5E_minor.H5E_CANTINIT)) ∧
      (∀ ev g vp, (H5Dopen_ff env st loc_id name dapl_id trans eq_id).calls.head? = some ev →
        ev.ret = H5VL_ret.ptr (some g) →
        H5I_get_aux st.ids loc_id = some vp →
        (H5I_register2 ev.ids H5I_type_t.H5I_DATASET (H5_object.token g) (some vp) true).1 < 0 →
        (H5Dopen_ff env st loc_id name dapl_id trans eq_id).err_kind =
          some (H5E_major.H5E_ATOM, H5E_minor.H5E_CANTREGISTER)) ∧
      [(H5E_major.H5E_ARGS, H5E_minor.H5E_BADVALUE),
        (H5E_major.H5E_ARGS, H5E_minor.H5E_BADTYPE),
        (H5E_major.H5E_DATASET, H5E_minor.H5E_CANTINIT),
        (H5E_major.H5E_ATOM, H5E_minor.H5E_CANTREGISTER)].Nodup := by
  refine ⟨?_, ?_, ?_, ?_, ?_, by decide⟩
  · intro h
    unfold H5Dopen_ff
    dsimp only
    simp only [H5Dcreate_ff_done_none]
    by_cases h0 : name = none ∨ name = some ""
    · rw [if_pos h0]; rfl
    exact absurd h h0
  · intro h
    exact (H5Dopen_ff_bad_plist env st loc_id name dapl_id trans eq_id h).2.2.2
  · intro h
    exact (H5Dopen_ff_bad_loc env st loc_id name dapl_id trans eq_id h).2.2.2.2
  · intro ev hc he
    rcases H5Dopen_ff_outcome env st loc_id name dapl_id trans eq_id with
      ⟨hc2, _⟩ | ⟨ev2, _, _, _, hk, _⟩ | ⟨ev2, g, vp, hc2, he2, _⟩ | ⟨ev2, g, vp, hc2, he2, _⟩
    · rw [hc2] at hc; cases hc
    · exact hk
    · rw [hc] at hc2
      cases hc2
      rw [he] at he2
      cases he2
    · rw [hc2] at hc
      cases hc
      rw [he] at he2
      cases he2
  · intro ev g vp hc he haux hreg
    rcases H5Dopen_ff_outcome env st loc_id name dapl_id trans eq_id with
      ⟨hc2, _⟩ | ⟨ev2, hc2, he2, _⟩ | ⟨ev2, g2, vp2, _, _, _, _, _, hk, _⟩ |
        ⟨ev2, g2, vp2, hc2, he2, haux2, hreg2, _⟩
    · rw [hc2] at hc; cases hc
    · rw [hc2] at hc
      cases hc
      rw [he] at he2
      cases he2
    · exact hk
    · rw [hc2] at hc
      cases hc
      rw [he] at he2
      cases he2
      rw [haux] at haux2
      cases haux2
      exact absurd hreg hreg2

theorem H5Dwrite_ff_error_kinds {σ : Type} (env : H5_env σ) (st : H5_state σ)
    (dset_id mem_type_id mem_space_id file_space_id dxpl_id : hid_t)
    (buf : List Nat) (trans : Nat) (eq_id : hid_t) :
    (((dset_id = 0)) →
        (H5Dwrite_ff env st dset_id mem_type_id mem_space_id file_space_id dxpl_id buf trans eq_id).err_kind =
          some (H5E_major.H5E_ARGS, H5E_minor.H5E_BADTYPE)) ∧
      ((H5P_DEFAULT ≠ dxpl_id ∧ TRUE ≠ H5P_isa_class st.ids dxpl_id H5P_class_t.H5P_DATASET_XFER) →
        (H5Dwrite_ff env st dset_id mem_type_id mem_space_id file_space_id dxpl_id buf trans eq_id).err_kind =
          some (H5E_major.H5E_ARGS, H5E_minor.H5E_BADTYPE)) ∧
      ((H5I_object st.ids dset_id = none ∨ H5I_get_aux st.ids dset_id = none) →
        (H5Dwrite_ff env st dset_id mem_type_id mem_space_id file_space_id dxpl_id buf trans eq_id).err_kind =
          some (H5E_major.H5E_ARGS, H5E_minor.H5E_BADTYPE)) ∧
      (∀ ev rc, (H5Dwrite_ff env st dset_id mem_type_id mem_space_id file_space_id dxpl_id buf trans eq_id).calls = [ev] →
        ev.ret = H5VL_ret.status rc → rc < 0 →
        (H5Dwrite_ff env st dset_id mem_type_id mem_space_id file_space_id dxpl_id buf trans eq_id).err_kind =
          some (H5E_major.H5E_DATASET, H5E_minor.H5E_WRITEERROR)) ∧
      [(H5E_major.H5E_ARGS, H5E_minor.H5E_BADTYPE),
        (H5E_major.H5E_DATASET, H5E_minor.H5E_WRITEERROR)].Nodup := by
  refine ⟨?_, ?_, ?_, ?_, by decide⟩
  · intro h
    unfold H5Dwrite_ff
    dsimp only
    by_cases h0 : dset_id = 0
    · rw [if_pos h0]; rfl
    exact absurd h h0
  · intro h
    exact (H5Dwrite_ff_bad_plist env st dset_id mem_type_id mem_space_id file_space_id dxpl_id buf trans eq_id h).2.2.2
  · intro h
    exact (H5Dwrite_ff_bad_loc env st dset_id mem_type_id mem_space_id file_space_id dxpl_id buf trans eq_id h).2.2.2.2
  · intro ev rc hc he hrc
    rcases H5Dwrite_ff_outcome env st dset_id mem_type_id mem_space_id file_space_id dxpl_id buf trans eq_id with
      ⟨hc2, _⟩ | ⟨ev2, rc2, hc2, he2, hrc2, _, hk, _⟩ | ⟨ev2, rc2, hc2, he2, hrc2, _⟩
    · rw [hc2] at hc; cases hc
    · exact hk
    · rw [hc2] at hc
      cases hc
      rw [he] at he2
      cases he2
      exact absurd hrc (not_lt.mpr hrc2)

theorem H5Dread_ff_error_kinds {σ : Type} (env : H5_env σ) (st : H5_state σ)
    (dset_id mem_type_id mem_space_id file_space_id dxpl_id : hid_t)
    (buf : List Nat) (trans : Nat) (eq_id : hid_t) :
    (((mem_space_id < 0 ∨ file_space_id < 0)) →
        (H5Dread_ff env st dset_id mem_type_id mem_space_id file_space_id dxpl_id buf trans eq_id).err_kind =
          some (H5E_major.H5E_ARGS, H5E_minor.H5E_BADTYPE)) ∧
      ((H5P_DEFAULT ≠ dxpl_id ∧ TRUE ≠ H5P_isa_class st.ids dxpl_id H5P_class_t.H5P_DATASET_XFER) →
        (H5Dread_ff env st dset_id mem_type_id mem_space_id file_space_id dxpl_id buf trans eq_id).err_kind =
          some (H5E_major.H5E_ARGS, H5E_minor.H5E_BADTYPE)) ∧
      ((H5I_object st.ids dset_id = none ∨ H5I_get_aux st.ids dset_id = none) →
        (H5Dread_ff env st dset_id mem_type_id mem_space_id file_space_id dxpl_id buf trans eq_id).err_kind =
          some (H5E_major.H5E_ARGS, H5E_minor.H5E_BADTYPE)) ∧
      (∀ ev rc out, (H5Dread_ff env st dset_id mem_type_id mem_space_id file_space_id dxpl_id buf trans eq_id).calls = [ev] →
        ev.ret = H5VL_ret.data rc out → rc < 0 →
        (H5Dread_ff env st dset_id mem_type_id mem_space_id file_space_id dxpl_id buf trans eq_id).err_kind =
          some (H5E_major.H5E_DATASET, H5E_minor.H5E_READERROR)) ∧
      [(H5E_major.H5E_ARGS, H5E_minor.H5E_BADTYPE),
        (H5E_major.H5E_DATASET, H5E_minor.H5E_READERROR)].Nodup := by
  refine ⟨?_, ?_, ?_, ?_, by decide⟩
  · intro h
    unfold H5Dread_ff
    dsimp only
    by_cases h0 : mem_space_id < 0 ∨ file_space_id < 0
    · rw [if_pos h0]; rfl
    exact absurd h h0
  · intro h
    exact (H5Dread_ff_bad_plist env st dset_id mem_type_id mem_space_id file_space_id dxpl_id buf trans eq_id h).2.2.2
  · intro h
    exact (H5Dread_ff_bad_loc env st dset_id mem_type_id mem_space_id file_space_id dxpl_id buf trans eq_id h).2.2.2.2
  · intro ev rc out hc he hrc
    rcases H5Dread_ff_outcome env st dset_id mem_type_id mem_space_id file_space_id dxpl_id buf trans eq_id with
      ⟨hc2, _⟩ | ⟨ev2, rc2, out2, hc2, he2, hrc2, _, hk, _⟩ | ⟨ev2, rc2, out2, hc2, he2, hrc2, _⟩
    · rw [hc2] at hc; cases hc
    · exact hk
    · rw [hc2] at hc
      cases hc
      rw [he] at he2
      cases he2
      exact absurd hrc (not_lt.mpr hrc2)

/-- C17, counterexample: in `H5Gcreate_ff` over `sample_st`, a group access list
of the wrong class (107 is a dataset access list) and an unknown location
(999) are reported with the same error kind (H5E_ARGS, H5E_BADTYPE). -/
theorem C17_wrong_class_and_bad_handle_same_kind :
    H5P_isa_class sample_st.ids 107 H5P_class_t.H5P_GROUP_ACCESS ≠ TRUE ∧
    (H5Gcreate_ff sample_env sample_st 1 (some "/g") 0 0 107 0 0).err_kind =
      some (H5E_major.H5E_ARGS, H5E_minor.H5E_BADTYPE) ∧
    H5I_object sample_st.ids 999 = none ∧
    (H5Gcreate_ff sample_env sample_st 999 (some "/g") 0 0 0 0 0).err_kind =
      some (H5E_major.H5E_ARGS, H5E_minor.H5E_BADTYPE) := by
  decide

/-- C17, amended: in each wrapper of H5FF.c the causes of failure are reported
as follows.  A null or empty name and bad flags give (H5E_ARGS, H5E_BADVALUE); a
property list of the wrong class, met after those checks, and an identifier
that does not resolve or has no backend attached both give
(H5E_ARGS, H5E_BADTYPE), as do the zero dataset identifier of `H5Dwrite_ff` and
the negative dataspace of `H5Dread_ff`; a backend routine that fails gives the
kind of the operation; a failed registration gives
(H5E_ATOM, H5E_CANTREGISTER).  The kinds listed for one operation are pairwise
distinct. -/
theorem C17_error_kind_by_cause {σ : Type} (env : H5_env σ) (st : H5_state σ) :
    (∀ (filename : Option String) (flags : Nat) (fcpl_id fapl_id eq_id : hid_t),
      (((filename = none ∨ filename = some "") ∨
        (flags &&& H5_bitnot32 (env.H5F_ACC_EXCL ||| env.H5F_ACC_TRUNC ||| env.H5F_ACC_DEBUG) ≠ 0) ∨
        (flags &&& env.H5F_ACC_EXCL ≠ 0 ∧ flags &&& env.H5F_ACC_TRUNC ≠ 0)) →
        (H5Fcreate_ff env st filename flags fcpl_id fapl_id eq_id).err_kind =
          some (H5E_major.H5E_ARGS, H5E_minor.H5E_BADVALUE)) ∧
      (((H5P_DEFAULT ≠ fcpl_id ∧ TRUE ≠ H5P_isa_class st.ids fcpl_id H5P_class_t.H5P_FILE_CREATE) ∨
        (H5P_DEFAULT ≠ fapl_id ∧ TRUE ≠ H5P_isa_class st.ids fapl_id H5P_class_t.H5P_FILE_ACCESS)) →
        filename ≠ none →
        filename ≠ some "" →
        flags &&& H5_bitnot32 (env.H5F_ACC_EXCL ||| env.H5F_ACC_TRUNC ||| env.H5F_ACC_DEBUG) = 0 →
        (flags &&& env.H5F_ACC_EXCL = 0 ∨ flags &&& env.H5F_ACC_TRUNC = 0) →
        (H5Fcreate_ff env st filename flags fcpl_id fapl_id eq_id).err_kind =
          some (H5E_major.H5E_ARGS, H5E_minor.H5E_BADTYPE)) ∧
      (∀ ev, (H5Fcreate_ff env st filename flags fcpl_id fapl_id eq_id).calls = [ev] →
        ev.ret = H5VL_ret.file none →
        (H5Fcreate_ff env st filename flags fcpl_id fapl_id eq_id).err_kind =
          some (H5E_major.H5E_FILE, H5E_minor.H5E_CANTOPENFILE)) ∧
      (∀ ev g vp, (H5Fcreate_ff env st filename flags fcpl_id fapl_id eq_id).calls.head? = some ev →
        ev.ret = H5VL_ret.file (some (g, vp)) →
        (H5I_register2 ev.ids H5I_type_t.H5I_FILE (H5_object.token g) (some vp) true).1 < 0 →
        (H5Fcreate_ff env st filename flags fcpl_id fapl_id eq_id).err_kind =
          some (H5E_major.H5E_ATOM, H5E_minor.H5E_CANTREGISTER)) ∧
      [(H5E_major.H5E_ARGS, H5E_minor.H5E_BADVALUE),
        (H5E_major.H5E_ARGS, H5E_minor.H5E_BADTYPE),
        (H5E_major.H5E_FILE, H5E_minor.H5E_CANTOPENFILE),
        (H5E_major.H5E_ATOM, H5E_minor.H5E_CANTREGISTER)].Nodup) ∧
    (∀ (filename : Option String) (flags : Nat) (fapl_id eq_id : hid_t),
      (((filename = none ∨ filename = some "") ∨
        (flags &&& H5_bitnot32 env.H5F_ACC_PUBLIC_FLAGS ≠ 0 ∨
      flags &&& env.H5F_ACC_TRUNC ≠ 0 ∨ flags &&& env.H5F_ACC_EXCL ≠ 0)) →
        (H5Fopen_ff env st filename flags fapl_id eq_id).err_kind =
          some (H5E_major.H5E_ARGS, H5E_minor.H5E_BADVALUE)) ∧
      ((H5P_DEFAULT ≠ fapl_id ∧ TRUE ≠ H5P_isa_class st.ids fapl_id H5P_class_t.H5P_FILE_ACCESS) →
        filename ≠ none →
        filename ≠ some "" →
        flags &&& H5_bitnot32 env.H5F_ACC_PUBLIC_FLAGS = 0 →
        flags &&& env.H5F_ACC_TRUNC = 0 →
        flags &&& env.H5F_ACC_EXCL = 0 →
        (H5Fopen_ff env st filename flags fapl_id eq_id).err_kind =
          some (H5E_major.H5E_ARGS, H5E_minor.H5E_BADTYPE)) ∧
      (∀ ev, (H5Fopen_ff env st filename flags fapl_id eq_id).calls = [ev] →
        ev.ret = H5VL_ret.file none →
        (H5Fopen_ff env st filename flags fapl_id eq_id).err_kind =
          some (H5E_major.H5E_FILE, H5E_minor.H5E_CANTOPENFILE)) ∧
      (∀ ev g vp, (H5Fopen_ff env st filename flags fapl_id eq_id).calls.head? = some ev →
        ev.ret = H5VL_ret.file (some (g, vp)) →
        (H5I_register2 ev.ids H5I_type_t.H5I_FILE (H5_object.token g) (some vp) true).1 < 0 →
        (H5Fopen_ff env st filename flags fapl_id eq_id).err_kind =
          some (H5E_major.H5E_ATOM, H5E_minor.H5E_CANTREGISTER)) ∧
      [(H5E_major.H5E_ARGS, H5E_minor.H5E_BADVALUE),
        (H5E_major.H5E_ARGS, H5E_minor.H5E_BADTYPE),
        (H5E_major.H5E_FILE, H5E_minor.H5E_CANTOPENFILE),
        (H5E_major.H5E_ATOM, H5E_minor.H5E_CANTREGISTER)].Nodup) ∧
    (∀ (loc_id : hid_t) (name : Option String) (lcpl_id gcpl_id gapl_id : hid_t)
        (trans : Nat) (eq_id : hid_t),
      (((name = none ∨ name = some "")) →
        (H5Gcreate_ff env st loc_id name lcpl_id gcpl_id gapl_id trans eq_id).err_kind =
          some (H5E_major.H5E_ARGS, H5E_minor.H5E_BADVALUE)) ∧
      (((H5P_DEFAULT ≠ lcpl_id ∧ TRUE ≠ H5P_isa_class st.ids lcpl_id H5P_class_t.H5P_LINK_CREATE) ∨
        (H5P_DEFAULT ≠ gcpl_id ∧ TRUE ≠ H5P_isa_class st.ids gcpl_id H5P_class_t.H5P_GROUP_CREATE) ∨
        (H5P_DEFAULT ≠ gapl_id ∧ TRUE ≠ H5P_isa_class st.ids gapl_id H5P_class_t.H5P_GROUP_ACCESS)) →
        name ≠ none →
        name ≠ some "" →
        (H5Gcreate_ff env st loc_id name lcpl_id gcpl_id gapl_id trans eq_id).err_kind =
          some (H5E_major.H5E_ARGS, H5E_minor.H5E_BADTYPE)) ∧
      ((H5I_object st.ids loc_id = none ∨ H5I_get_aux st.ids loc_id = none) →
        name ≠ none →
        name ≠ some "" →
        (∃ ids1, H5P_set st.ids
              (if H5P_DEFAULT = gcpl_id then env.H5P_GROUP_CREATE_DEFAULT else gcpl_id)
              H5P_key.H5VL_GRP_LCPL_ID
              (if H5P_DEFAULT = lcpl_id then env.H5P_LINK_CREATE_DEFAULT else lcpl_id) =
            (SUCCEED, ids1)) →
        (H5Gcreate_ff env st loc_id name lcpl_id gcpl_id gapl_id trans eq_id).err_kind =
          some (H5E_major.H5E_ARGS, H5E_minor.H5E_BADTYPE)) ∧
      (∀ ev, (H5Gcreate_ff env st loc_id name lcpl_id gcpl_id gapl_id trans eq_id).calls = [ev] →
        ev.ret = H5VL_ret.ptr none →
        (H5Gcreate_ff env st loc_id name lcpl_id gcpl_id gapl_id trans eq_id).err_kind =
          some (H5E_major.H5E_SYM, H5E_minor.H5E_CANTINIT)) ∧
      (∀ ev g vp, (H5Gcreate_ff env st loc_id name lcpl_id gcpl_id gapl_id trans eq_id).calls.head? = some ev →
        ev.ret = H5VL_ret.ptr (some g) →
        H5I_get_aux st.ids loc_id = some vp →
        (H5I_register2 ev.ids H5I_type_t.H5I_GROUP (H5_object.token g) (some vp) true).1 < 0 →
        (H5Gcreate_ff env st loc_id name lcpl_id gcpl_id gapl_id trans eq_id).err_kind =
          some (H5E_major.H5E_ATOM, H5E_minor.H5E_CANTREGISTER)) ∧
      [(H5E_major.H5E_ARGS, H5E_minor.H5E_BADVALUE),
        (H5E_major.H5E_ARGS, H5E_minor.H5E_BADTYPE),
        (H5E_major.H5E_SYM, H5E_minor.H5E_CANTINIT),
        (H5E_major.H5E_ATOM, H5E_minor.H5E_CANTREGISTER)].Nodup) ∧
    (∀ (loc_id : hid_t) (name : Option String) (gapl_id : hid_t) (trans : Nat)
        (eq_id : hid_t),
      (((name = none ∨ name = some "")) →
        (H5Gopen_ff env st loc_id name gapl_id trans eq_id).err_kind =
          some (H5E_major.H5E_ARGS, H5E_minor.H5E_BADVALUE)) ∧
      ((H5P_DEFAULT ≠ gapl_id ∧ TRUE ≠ H5P_isa_class st.ids gapl_id H5P_class_t.H5P_GROUP_ACCESS) →
        name ≠ none →
        name ≠ some "" →
        (H5Gopen_ff env st loc_id name gapl_id trans eq_id).err_kind =
          some (H5E_major.H5E_ARGS, H5E_minor.H5E_BADTYPE)) ∧
      ((H5I_object st.ids loc_id = none ∨ H5I_get_aux st.ids loc_id = none) →
        name ≠ none →
        name ≠ some "" →
        (H5Gopen_ff env st loc_id name gapl_id trans eq_id).err_kind =
          some (H5E_major.H5E_ARGS, H5E_minor.H5E_BADTYPE)) ∧
      (∀ ev, (H5Gopen_ff env st loc_id name gapl_id trans eq_id).calls = [ev] →
        ev.ret = H5VL_ret.ptr none →
        (H5Gopen_ff env st loc_id name gapl_id trans eq_id).err_kind =
          some (H5E_major.H5E_SYM, H5E_minor.H5E_CANTINIT)) ∧
      (∀ ev g vp, (H5Gopen_ff env st loc_id name gapl_id trans eq_id).calls.head? = some ev →
        ev.ret = H5VL_ret.ptr (some g) →
        H5I_get_aux st.ids loc_id = some vp →
        (H5I_register2 ev.ids H5I_type_t.H5I_GROUP (H5_object.token g) (some vp) true).1 < 0 →
        (H5Gopen_ff env st loc_id name gapl_id trans eq_id).err_kind =
          some (H5E_major.H5E_ATOM, H5E_minor.H5E_CANTREGISTER)) ∧
      [(H5E_major.H5E_ARGS, H5E_minor.H5E_BADVALUE),
        (H5E_major.H5E_ARGS, H5E_minor.H5E_BADTYPE),
        (H5E_major.H5E_SYM, H5E_minor.H5E_CANTINIT),
        (H5E_major.H5E_ATOM, H5E_minor.H5E_CANTREGISTER)].Nodup) ∧
    (∀ (loc_id : hid_t) (name : Option String)
        (type_id space_id lcpl_id dcpl_id dapl_id : hid_t) (trans : Nat) (eq_id : hid_t),
      (((name = none ∨ name = some "")) →
        (H5Dcreate_ff env st loc_id name type_id space_id lcpl_id dcpl_id dapl_id trans eq_id).err_kind =
          some (H5E_major.H5E_ARGS, H5E_minor.H5E_BADVALUE)) ∧
      (((H5P_DEFAULT ≠ lcpl_id ∧ TRUE ≠ H5P_isa_class st.ids lcpl_id H5P_class_t.H5P_LINK_CREATE) ∨
        (H5P_DEFAULT ≠ dcpl_id ∧ TRUE ≠ H5P_isa_class st.ids dcpl_id H5P_class_t.H5P_DATASET_CREATE) ∨
        (H5P_DEFAULT ≠ dapl_id ∧ TRUE ≠ H5P_isa_class st.ids dapl_id H5P_class_t.H5P_DATASET_ACCESS)) →
        name ≠ none →
        name ≠ some "" →
        (H5Dcreate_ff env st loc_id name type_id space_id lcpl_id dcpl_id dapl_id trans eq_id).err_kind =
          some (H5E_major.H5E_ARGS, H5E_minor.H5E_BADTYPE)) ∧
      ((H5VL_get_object st.ids loc_id = none ∨ H5I_get_aux st.ids loc_id = none) →
        name ≠ none →
        name ≠ some "" →
        (∃ ids1 ids2 ids3,
            H5P_set st.ids
              (if H5P_DEFAULT = dcpl_id then env.H5P_DATASET_CREATE_DEFAULT else dcpl_id)
              H5P_key.H5VL_DSET_TYPE_ID type_id = (SUCCEED, ids1) ∧
            H5P_set ids1
              (if H5P_DEFAULT = dcpl_id then env.H5P_DATASET_CREATE_DEFAULT else dcpl_id)
              H5P_key.H5VL_DSET_SPACE_ID space_id = (SUCCEED, ids2) ∧
            H5P_set ids2
              (if H5P_DEFAULT = dcpl_id then env.H5P_DATASET_CREATE_DEFAULT else dcpl_id)
              H5P_key.H5VL_DSET_LCPL_ID
              (if H5P_DEFAULT = lcpl_id then env.H5P_LINK_CREATE_DEFAULT else lcpl_id) =
              (SUCCEED, ids3)) →
        (H5Dcreate_ff env st loc_id name type_id space_id lcpl_id dcpl_id dapl_id trans eq_id).err_kind =
          some (H5E_major.H5E_ARGS, H5E_minor.H5E_BADTYPE)) ∧
      (∀ ev, (H5Dcreate_ff env st loc_id name type_id space_id lcpl_id dcpl_id dapl_id trans eq_id).calls = [ev] →
        ev.ret = H5VL_ret.ptr none →
        (H5Dcreate_ff env st loc_id name type_id space_id lcpl_id dcpl_id dapl_id trans eq_id).err_kind =
          some (H5E_major.H5E_DATASET, H5E_minor.H5E_CANTINIT)) ∧
      (∀ ev g vp, (H5Dcreate_ff env st loc_id name type_id space_id lcpl_id dcpl_id dapl_id trans eq_id).calls.head? = some ev →
        ev.ret = H5VL_ret.ptr (some g) →
        H5I_get_aux st.ids loc_id = some vp →
        (H5I_register2 ev.ids H5I_type_t.H5I_DATASET (H5_object.token g) (some vp) true).1 < 0 →
        (H5Dcreate_ff env st loc_id name type_id space_id lcpl_id dcpl_id dapl_id trans eq_id).err_kind =
          some (H5E_major.H5E_ATOM, H5E_minor.H5E_CANTREGISTER)) ∧
      [(H5E_major.H5E_ARGS, H5E_minor.H5E_BADVALUE),
        (H5E_major.H5E_ARGS, H5E_minor.H5E_BADTYPE),
        (H5E_major.H5E_DATASET, H5E_minor.H5E_CANTINIT),
        (H5E_major.H5E_ATOM, H5E_minor.H5E_CANTREGISTER)].Nodup) ∧
    (∀ (loc_id : hid_t) (name : Option String) (dapl_id : hid_t) (trans : Nat)
        (eq_id : hid_t),
      (((name = none ∨ name = some "")) →
        (H5Dopen_ff env st loc_id name dapl_id trans eq_id).err_kind =
          some (H5E_major.H5E_ARGS, H5E_minor.H5E_BADVALUE)) ∧
      ((H5P_DEFAULT ≠ dapl_id ∧ TRUE ≠ H5P_isa_class st.ids dapl_id H5P_class_t.H5P_DATASET_ACCESS) →
        name ≠ none →
        name ≠ some "" →
        (H5Dopen_ff env st loc_id name dapl_id trans eq_id).err_kind =
          some (H5E_major.H5E_ARGS, H5E_minor.H5E_BADTYPE)) ∧
      ((H5VL_get_object st.ids loc_id = none ∨ H5I_get_aux st.ids loc_id = none) →
        name ≠ none →
        name ≠ some "" →
        (H5Dopen_ff env st loc_id name dapl_id trans eq_id).err_kind =
          some (H5E_major.H5E_ARGS, H5E_minor.H5E_BADTYPE)) ∧
      (∀ ev, (H5Dopen_ff env st loc_id name dapl_id trans eq_id).calls = [ev] →
        ev.ret = H5VL_ret.ptr none →
        (H5Dopen_ff env st loc_id name dapl_id trans eq_id).err_kind =
          some (H5E_major.H5E_DATASET, H5E_minor.H5E_CANTINIT)) ∧
      (∀ ev g vp, (H5Dopen_ff env st loc_id name dapl_id trans eq_id).calls.head? = some ev →
        ev.ret = H5VL_ret.ptr (some g) →
        H5I_get_aux st.ids loc_id = some vp →
        (H5I_register2 ev.ids H5I_type_t.H5I_DATASET (H5_object.token g) (some vp) true).1 < 0 →
        (H5Dopen_ff env st loc_id name dapl_id trans eq_id).err_kind =
          some (H5E_major.H5E_ATOM, H5E_minor.H5E_CANTREGISTER)) ∧
      [(H5E_major.H5E_ARGS, H5E_minor.H5E_BADVALUE),
        (H5E_major.H5E_ARGS, H5E_minor.H5E_BADTYPE),
        (H5E_major.H5E_DATASET, H5E_minor.H5E_CANTINIT),
        (H5E_major.H5E_ATOM, H5E_minor.H5E_CANTREGISTER)].Nodup) ∧
    (∀ (dset_id mem_type_id mem_space_id file_space_id dxpl_id : hid_t)
        (buf : List Nat) (trans : Nat) (eq_id : hid_t),
      (((dset_id = 0)) →
        (H5Dwrite_ff env st dset_id mem_type_id mem_space_id file_space_id dxpl_id buf trans eq_id).err_kind =
          some (H5E_major.H5E_ARGS, H5E_minor.H5E_BADTYPE)) ∧
      ((H5P_DEFAULT ≠ dxpl_id ∧ TRUE ≠ H5P_isa_class st.ids dxpl_id H5P_class_t.H5P_DATASET_XFER) →
        (H5Dwrite_ff env st dset_id mem_type_id mem_space_id file_space_id dxpl_id buf trans eq_id).err_kind =
          some (H5E_major.H5E_ARGS, H5E_minor.H5E_BADTYPE)) ∧
      ((H5I_object st.ids dset_id = none ∨ H5I_get_aux st.ids dset_id = none) →
        (H5Dwrite_ff env st dset_id mem_type_id mem_space_id file_space_id dxpl_id buf trans eq_id).err_kind =
          some (H5E_major.H5E_ARGS, H5E_minor.H5E_BADTYPE)) ∧
      (∀ ev rc, (H5Dwrite_ff env st dset_id mem_type_id mem_space_id file_space_id dxpl_id buf trans eq_id).calls = [ev] →
        ev.ret = H5VL_ret.status rc → rc < 0 →
        (H5Dwrite_ff env st dset_id mem_type_id mem_space_id file_space_id dxpl_id buf trans eq_id).err_kind =
          some (H5E_major.H5E_DATASET, H5E_minor.H5E_WRITEERROR)) ∧
      [(H5E_major.H5E_ARGS, H5E_minor.H5E_BADTYPE),
        (H5E_major.H5E_DATASET, H5E_minor.H5E_WRITEERROR)].Nodup) ∧
    (∀ (dset_id mem_type_id mem_space_id file_space_id dxpl_id : hid_t)
        (buf : List Nat) (trans : Nat) (eq_id : hid_t),
      (((mem_space_id < 0 ∨ file_space_id < 0)) →
        (H5Dread_ff env st dset_id mem_type_id mem_space_id file_space_id dxpl_id buf trans eq_id).err_kind =
          some (H5E_major.H5E_ARGS, H5E_minor.H5E_BADTYPE)) ∧
      ((H5P_DEFAULT ≠ dxpl_id ∧ TRUE ≠ H5P_isa_class st.ids dxpl_id H5P_class_t.H5P_DATASET_XFER) →
        (H5Dread_ff env st dset_id mem_type_id mem_space_id file_space_id dxpl_id buf trans eq_id).err_kind =
          some (H5E_major.H5E_ARGS, H5E_minor.H5E_BADTYPE)) ∧
      ((H5I_object st.ids dset_id = none ∨ H5I_get_aux st.ids dset_id = none) →
        (H5Dread_ff env st dset_id mem_type_id mem_space_id file_space_id dxpl_id buf trans eq_id).err_kind =
          some (H5E_major.H5E_ARGS, H5E_minor.H5E_BADTYPE)) ∧
      (∀ ev rc out, (H5Dread_ff env st dset_id mem_type_id mem_space_id file_space_id dxpl_id buf trans eq_id).calls = [ev] →
        ev.ret = H5VL_ret.data rc out → rc < 0 →
        (H5Dread_ff env st dset_id mem_type_id mem_space_id file_space_id dxpl_id buf trans eq_id).err_kind =
          some (H5E_major.H5E_DATASET, H5E_minor.H5E_READERROR)) ∧
      [(H5E_major.H5E_ARGS, H5E_minor.H5E_BADTYPE),
        (H5E_major.H5E_DATASET, H5E_minor.H5E_READERROR)].Nodup) :=
  ⟨H5Fcreate_ff_error_kinds env st,
   H5Fopen_ff_error_kinds env st,
   H5Gcreate_ff_error_kinds env st,
   H5Gopen_ff_error_kinds env st,
   H5Dcreate_ff_error_kinds env st,
   H5Dopen_ff_error_kinds env st,
   H5Dwrite_ff_error_kinds env st,
   H5Dread_ff_error_kinds env st⟩

/-- Witness for C17: `H5Gopen_ff` on the unknown identifier 999 reports
(H5E_ARGS, H5E_BADTYPE). -/
theorem C17_error_kind_by_cause_witness :
    (H5Gopen_ff sample_env sample_st 999 (some "g") 0 0 0).err_kind =
      some (H5E_major.H5E_ARGS, H5E_minor.H5E_BADTYPE) :=
  ((C17_error_kind_by_cause sample_env sample_st).2.2.2.1 999 (some "g") 0 0 0).2.2.1
    (Or.inl (by decide)) (by decide) (by decide)

/-! ## C18: an identifier that is unknown or has no backend attached -/

/-- C18, counterexample: `H5Gopen_ff` on the unknown identifier 999 with an
empty name fails with (H5E_ARGS, H5E_BADVALUE), the kind of a bad argument, not
with (H5E_ARGS, H5E_BADTYPE). -/
theorem C18_bad_name_reported_first :
    H5I_object sample_st.ids 999 = none ∧
    (H5Gopen_ff sample_env sample_st 999 (some "") 0 0 0).err_kind =
      some (H5E_major.H5E_ARGS, H5E_minor.H5E_BADVALUE) := by
  decide

/-- C18, amended: when the location or dataset identifier does not resolve or
has no backend attached, each of `H5Gcreate_ff`, `H5Gopen_ff`, `H5Dcreate_ff`,
`H5Dopen_ff`, `H5Dwrite_ff`, `H5Dread_ff` returns `FAIL`, calls no backend
routine, and leaves the list of live identifiers and the backend state as they
were.  The error kind is (H5E_ARGS, H5E_BADTYPE) for `H5Dwrite_ff` and
`H5Dread_ff` always, and for the other four when the name is neither null nor
empty and, for the two creates, the creation properties can be stored. -/
theorem C18_unresolved_identifier_fails {σ : Type} (env : H5_env σ) (st : H5_state σ) :
    (∀ (loc_id : hid_t) (name : Option String) (lcpl_id gcpl_id gapl_id : hid_t)
        (trans : Nat) (eq_id : hid_t),
      (H5I_object st.ids loc_id = none ∨ H5I_get_aux st.ids loc_id = none) →
      (H5Gcreate_ff env st loc_id name lcpl_id gcpl_id gapl_id trans eq_id).ret_value = FAIL ∧
      (H5Gcreate_ff env st loc_id name lcpl_id gcpl_id gapl_id trans eq_id).calls = [] ∧
      H5I_ids (H5Gcreate_ff env st loc_id name lcpl_id gcpl_id gapl_id trans eq_id).st.ids = H5I_ids st.ids ∧
      (H5Gcreate_ff env st loc_id name lcpl_id gcpl_id gapl_id trans eq_id).st.vol = st.vol ∧
      (name ≠ none →
        name ≠ some "" →
        (∃ ids1, H5P_set st.ids
              (if H5P_DEFAULT = gcpl_id then env.H5P_GROUP_CREATE_DEFAULT else gcpl_id)
              H5P_key.H5VL_GRP_LCPL_ID
              (if H5P_DEFAULT = lcpl_id then env.H5P_LINK_CREATE_DEFAULT else lcpl_id) =
            (SUCCEED, ids1)) →
        (H5Gcreate_ff env st loc_id name lcpl_id gcpl_id gapl_id trans eq_id).err_kind =
          some (H5E_major.H5E_ARGS, H5E_minor.H5E_BADTYPE))) ∧
    (∀ (loc_id : hid_t) (name : Option String) (gapl_id : hid_t) (trans : Nat)
        (eq_id : hid_t),
      (H5I_object st.ids loc_id = none ∨ H5I_get_aux st.ids loc_id = none) →
      (H5Gopen_ff env st loc_id name gapl_id trans eq_id).ret_value = FAIL ∧
      (H5Gopen_ff env st loc_id name gapl_id trans eq_id).calls = [] ∧
      H5I_ids (H5Gopen_ff env st loc_id name gapl_id trans eq_id).st.ids = H5I_ids st.ids ∧
      (H5Gopen_ff env st loc_id name gapl_id trans eq_id).st.vol = st.vol ∧
      (name ≠ none →
        name ≠ some "" →
        (H5Gopen_ff env st loc_id name gapl_id trans eq_id).err_kind =
          some (H5E_major.H5E_ARGS, H5E_minor.H5E_BADTYPE))) ∧
    (∀ (loc_id : hid_t) (name : Option String)
        (type_id space_id lcpl_id dcpl_id dapl_id : hid_t) (trans : Nat) (eq_id : hid_t),
      (H5VL_get_object st.ids loc_id = none ∨ H5I_get_aux st.ids loc_id = none) →
      (H5Dcreate_ff env st loc_id name type_id space_id lcpl_id dcpl_id dapl_id trans eq_id).ret_value = FAIL ∧
      (H5Dcreate_ff env st loc_id name type_id space_id lcpl_id dcpl_id dapl_id trans eq_id).calls = [] ∧
      H5I_ids (H5Dcreate_ff env st loc_id name type_id space_id lcpl_id dcpl_id dapl_id trans eq_id).st.ids = H5I_ids st.ids ∧
      (H5Dcreate_ff env st loc_id name type_id space_id lcpl_id dcpl_id dapl_id trans eq_id).st.vol = st.vol ∧
      (name ≠ none →
        name ≠ some "" →
        (∃ ids1 ids2 ids3,
            H5P_set st.ids
              (if H5P_DEFAULT = dcpl_id then env.H5P_DATASET_CREATE_DEFAULT else dcpl_id)
              H5P_key.H5VL_DSET_TYPE_ID type_id = (SUCCEED, ids1) ∧
            H5P_set ids1
              (if H5P_DEFAULT = dcpl_id then env.H5P_DATASET_CREATE_DEFAULT else dcpl_id)
              H5P_key.H5VL_DSET_SPACE_ID space_id = (SUCCEED, ids2) ∧
            H5P_set ids2
              (if H5P_DEFAULT = dcpl_id then env.H5P_DATASET_CREATE_DEFAULT else dcpl_id)
              H5P_key.H5VL_DSET_LCPL_ID
              (if H5P_DEFAULT = lcpl_id then env.H5P_LINK_CREATE_DEFAULT else lcpl_id) =
              (SUCCEED, ids3)) →
        (H5Dcreate_ff env st loc_id name type_id space_id lcpl_id dcpl_id dapl_id trans eq_id).err_kind =
          some (H5E_major.H5E_ARGS, H5E_minor.H5E_BADTYPE))) ∧
    (∀ (loc_id : hid_t) (name : Option String) (dapl_id : hid_t) (trans : Nat)
        (eq_id : hid_t),
      (H5VL_get_object st.ids loc_id = none ∨ H5I_get_aux st.ids loc_id = none) →
      (H5Dopen_ff env st loc_id name dapl_id trans eq_id).ret_value = FAIL ∧
      (H5Dopen_ff env st loc_id name dapl_id trans eq_id).calls = [] ∧
      H5I_ids (H5Dopen_ff env st loc_id name dapl_id trans eq_id).st.ids = H5I_ids st.ids ∧
      (H5Dopen_ff env st loc_id name dapl_id trans eq_id).st.vol = st.vol ∧
      (name ≠ none →
        name ≠ some "" →
        (H5Dopen_ff env st loc_id name dapl_id trans eq_id).err_kind =
          some (H5E_major.H5E_ARGS, H5E_minor.H5E_BADTYPE))) ∧
    (∀ (dset_id mem_type_id mem_space_id file_space_id dxpl_id : hid_t)
        (buf : List Nat) (trans : Nat) (eq_id : hid_t),
      (H5I_object st.ids dset_id = none ∨ H5I_get_aux st.ids dset_id = none) →
      (H5Dwrite_ff env st dset_id mem_type_id mem_space_id file_space_id dxpl_id buf trans eq_id).ret_value = FAIL ∧
      (H5Dwrite_ff env st dset_id mem_type_id mem_space_id file_space_id dxpl_id buf trans eq_id).calls = [] ∧
      H5I_ids (H5Dwrite_ff env st dset_id mem_type_id mem_space_id file_space_id dxpl_id buf trans eq_id).st.ids = H5I_ids st.ids ∧
      (H5Dwrite_ff env st dset_id mem_type_id mem_space_id file_space_id dxpl_id buf trans eq_id).st.vol = st.vol ∧
      ((H5Dwrite_ff env st dset_id mem_type_id mem_space_id file_space_id dxpl_id buf trans eq_id).err_kind =
          some (H5E_major.H5E_ARGS, H5E_minor.H5E_BADTYPE))) ∧
    (∀ (dset_id mem_type_id mem_space_id file_space_id dxpl_id : hid_t)
        (buf : List Nat) (trans : Nat) (eq_id : hid_t),
      (H5I_object st.ids dset_id = none ∨ H5I_get_aux st.ids dset_id = none) →
      (H5Dread_ff env st dset_id mem_type_id mem_space_id file_space_id dxpl_id buf trans eq_id).ret_value = FAIL ∧
      (H5Dread_ff env st dset_id mem_type_id mem_space_id file_space_id dxpl_id buf trans eq_id).calls = [] ∧
      H5I_ids (H5Dread_ff env st dset_id mem_type_id mem_space_id file_space_id dxpl_id buf trans eq_id).st.ids = H5I_ids st.ids ∧
      (H5Dread_ff env st dset_id mem_type_id mem_space_id file_space_id dxpl_id buf trans eq_id).st.vol = st.vol ∧
      ((H5Dread_ff env st dset_id mem_type_id mem_space_id file_space_id dxpl_id buf trans eq_id).err_kind =
          some (H5E_major.H5E_ARGS, H5E_minor.H5E_BADTYPE))) :=
  ⟨H5Gcreate_ff_bad_loc env st,
   H5Gopen_ff_bad_loc env st,
   H5Dcreate_ff_bad_loc env st,
   H5Dopen_ff_bad_loc env st,
   H5Dwrite_ff_bad_loc env st,
   H5Dread_ff_bad_loc env st⟩

/-- Witness for C18: `H5Dopen_ff` on the unknown identifier 999. -/
theorem C18_unresolved_identifier_fails_witness :
    (H5Dopen_ff sample_env sample_st 999 (some "d") 0 0 0).ret_value = FAIL ∧
    (H5Dopen_ff sample_env sample_st 999 (some "d") 0 0 0).calls = [] ∧
    H5I_ids (H5Dopen_ff sample_env sample_st 999 (some "d") 0 0 0).st.ids =
      H5I_ids sample_st.ids ∧
    (H5Dopen_ff sample_env sample_st 999 (some "d") 0 0 0).err_kind =
      some (H5E_major.H5E_ARGS, H5E_minor.H5E_BADTYPE) :=
  have h := (C18_unresolved_identifier_fails sample_env sample_st).2.2.2.1 999 (some "d") 0 0 0
    (Or.inl (by decide))
  ⟨h.1, h.2.1, h.2.2.1, h.2.2.2.2 (by decide) (by decide)⟩

/-! ## C19: create, write and read back -/

theorem H5I_max_id_nonneg (l : List H5I_id_info_t) : (0 : Int) ≤ H5I_max_id l := by
  induction l with
  | nil => simp [H5I_max_id]
  | cons e es ih => simp only [H5I_max_id]; exact le_max_of_le_right ih

theorem H5I_register2_room (ids : H5I_registry) (type : H5I_type_t) (object : H5_object)
    (aux : Option H5VL_t) (app : Bool)
    (ht : ¬ (type = H5I_type_t.H5I_UNINIT ∨ type = H5I_type_t.H5I_BADID))
    (hroom : ids.entries.length < ids.capacity) :
    (0 : Int) < (H5I_register2 ids type object aux app).1 ∧
    (H5I_register2 ids type object aux app).2.capacity = ids.capacity ∧
    (H5I_register2 ids type object aux app).2.entries.length = ids.entries.length + 1 := by
  unfold H5I_register2
  rw [if_neg ht, if_neg (not_le.mpr hroom)]
  refine ⟨?_, rfl, ?_⟩
  · have h := H5I_max_id_nonneg ids.entries
    show (0 : Int) < H5I_max_id ids.entries + 1
    linarith
  · simp

theorem H5I_subst_length (id : hid_t) (object : H5_object) (l : List H5I_id_info_t) :
    (H5I_subst id object l).length = l.length := by
  have h := congrArg List.length (H5I_subst_ids id object l)
  simpa using h

theorem H5P_set_room (ids : H5I_registry) (plist_id : hid_t) (key : H5P_key) (value : hid_t) :
    (H5P_set ids plist_id key value).2.capacity = ids.capacity ∧
    (H5P_set ids plist_id key value).2.entries.length = ids.entries.length := by
  unfold H5P_set
  split
  · split
    · exact ⟨rfl, H5I_subst_length _ _ _⟩
    · exact ⟨rfl, rfl⟩
  · exact ⟨rfl, rfl⟩

theorem H5P_set_succeeds (ids : H5I_registry) (plist_id : hid_t) (key : H5P_key)
    (value : hid_t) (h : H5P_get ids plist_id key ≠ none) :
    H5P_set ids plist_id key value = (SUCCEED, (H5P_set ids plist_id key value).2) := by
  unfold H5P_get at h
  unfold H5P_set
  cases ho : H5I_object ids plist_id with
  | none => rw [ho] at h; exact absurd rfl h
  | some o =>
    cases o with
    | token t => rw [ho] at h; exact absurd rfl h
    | plist p =>
      rw [ho] at h
      have h2 : p.props.lookup key ≠ none := h
      have hk : (p.props.lookup key).isSome = true := by
        cases hl : p.props.lookup key with
        | none => exact absurd hl h2
        | some v => rfl
      simp only [hk, if_true]

theorem H5Fcreate_ff_succeeds {σ : Type} (env : H5_env σ) (st : H5_state σ) (nm : String)
    (flags : Nat) (eq_id : hid_t) (hne : nm ≠ "")
    (hf1 : flags &&& H5_bitnot32 (env.H5F_ACC_EXCL ||| env.H5F_ACC_TRUNC ||| env.H5F_ACC_DEBUG)
      = 0)
    (hf2 : flags &&& env.H5F_ACC_EXCL = 0 ∨ flags &&& env.H5F_ACC_TRUNC = 0)
    (hb : ∀ s ids fcpl fapl dx,
      (env.vol.H5VL_file_create s ids nm flags fcpl fapl dx eq_id).1 ≠ none)
    (hroom : st.ids.entries.length < st.ids.capacity) :
    ∃ f vp,
      0 < (H5Fcreate_ff env st (some nm) flags H5P_DEFAULT H5P_DEFAULT eq_id).ret_value ∧
      H5I_object (H5Fcreate_ff env st (some nm) flags H5P_DEFAULT H5P_DEFAULT eq_id).st.ids
        (H5Fcreate_ff env st (some nm) flags H5P_DEFAULT H5P_DEFAULT eq_id).ret_value =
        some (H5_object.token f) ∧
      H5I_get_aux (H5Fcreate_ff env st (some nm) flags H5P_DEFAULT H5P_DEFAULT eq_id).st.ids
        (H5Fcreate_ff env st (some nm) flags H5P_DEFAULT H5P_DEFAULT eq_id).ret_value =
        some vp ∧
      (H5Fcreate_ff env st (some nm) flags H5P_DEFAULT H5P_DEFAULT eq_id).st.ids.capacity =
        st.ids.capacity ∧
      (H5Fcreate_ff env st (some nm) flags H5P_DEFAULT H5P_DEFAULT eq_id).st.ids.entries.length =
        st.ids.entries.length + 1 := by
  have hn : ¬ (some nm = none ∨ some nm = some "") := by
    intro h
    rcases h with h | h
    · cases h
    · exact hne (Option.some.inj h)
  have ht : ¬ (H5I_type_t.H5I_FILE = H5I_type_t.H5I_UNINIT ∨
      H5I_type_t.H5I_FILE = H5I_type_t.H5I_BADID) := by decide
  unfold H5Fcreate_ff
  dsimp only
  rw [if_neg hn, if_neg (not_not.mpr hf1),
    if_neg (fun h => hf2.elim (fun h2 => h.1 h2) (fun h2 => h.2 h2)),
    if_neg (fun h => h.1 rfl), if_neg (fun h => h.1 rfl)]
  simp only [if_pos rfl, Option.getD_some]
  split
  · rename_i hnone
    exact absurd hnone (hb _ _ _ _ _)
  · rename_i f vp hsome
    obtain ⟨hpos, hcap, hlen⟩ := H5I_register2_room st.ids H5I_type_t.H5I_FILE
      (H5_object.token f) (some vp) true ht hroom
    have hreg : ¬ (H5I_register2 st.ids H5I_type_t.H5I_FILE (H5_object.token f) (some vp)
        true).1 < 0 := not_lt.mpr (le_of_lt hpos)
    rw [if_neg hreg]
    refine ⟨f, vp, hpos, ?_, ?_, hcap, hlen⟩
    · simp only [H5I_object, (H5I_register2_ok hreg).1]; rfl
    · simp only [H5I_get_aux, (H5I_register2_ok hreg).1]; rfl

theorem H5Gcreate_ff_succeeds {σ : Type} (env : H5_env σ) (st : H5_state σ) (loc_id : hid_t)
    (nm : String)  (eq_id : hid_t) (obj : H5_object) (vp : H5VL_t)
    (hne : nm ≠ "")
    (hobj : H5I_object st.ids loc_id = some obj) (haux : H5I_get_aux st.ids loc_id = some vp)
    (hk1 : H5P_get st.ids env.H5P_GROUP_CREATE_DEFAULT H5P_key.H5VL_GRP_LCPL_ID ≠ none)
    (hb : ∀ s ids obj lp vp gcpl gapl dx,
      (env.vol.H5VL_group_create s ids obj lp vp nm gcpl gapl dx eq_id).1 ≠ none)
    (hroom : st.ids.entries.length < st.ids.capacity) :
    ∃ g,
      0 < (H5Gcreate_ff env st loc_id (some nm) H5P_DEFAULT H5P_DEFAULT H5P_DEFAULT 0 eq_id).ret_value ∧
      H5I_object (H5Gcreate_ff env st loc_id (some nm) H5P_DEFAULT H5P_DEFAULT H5P_DEFAULT 0 eq_id).st.ids
        (H5Gcreate_ff env st loc_id (some nm) H5P_DEFAULT H5P_DEFAULT H5P_DEFAULT 0 eq_id).ret_value =
        some (H5_object.token g) ∧
      H5I_get_aux (H5Gcreate_ff env st loc_id (some nm) H5P_DEFAULT H5P_DEFAULT H5P_DEFAULT 0 eq_id).st.ids
        (H5Gcreate_ff env st loc_id (some nm) H5P_DEFAULT H5P_DEFAULT H5P_DEFAULT 0 eq_id).ret_value = some vp ∧
      (H5Gcreate_ff env st loc_id (some nm) H5P_DEFAULT H5P_DEFAULT H5P_DEFAULT 0 eq_id).st.ids.capacity =
        st.ids.capacity ∧
      (H5Gcreate_ff env st loc_id (some nm) H5P_DEFAULT H5P_DEFAULT H5P_DEFAULT 0 eq_id).st.ids.entries.length =
        st.ids.entries.length + 1 := by
  have ht : ¬ (H5I_type_t.H5I_GROUP = H5I_type_t.H5I_UNINIT ∨
      H5I_type_t.H5I_GROUP = H5I_type_t.H5I_BADID) := by decide
  have hs1 := H5P_set_succeeds st.ids env.H5P_GROUP_CREATE_DEFAULT H5P_key.H5VL_GRP_LCPL_ID
    env.H5P_LINK_CREATE_DEFAULT hk1
  have hreach : (H5Gcreate_ff env st loc_id (some nm) H5P_DEFAULT H5P_DEFAULT H5P_DEFAULT 0 eq_id).calls ≠ [] := by
    apply ((H5Gcreate_ff_reach env st loc_id (some nm) H5P_DEFAULT H5P_DEFAULT H5P_DEFAULT 0 eq_id).1).mpr
    refine ⟨⟨?_, ?_⟩, Or.inl rfl, Or.inl rfl, Or.inl rfl,
      ⟨(H5P_set st.ids env.H5P_GROUP_CREATE_DEFAULT H5P_key.H5VL_GRP_LCPL_ID env.H5P_LINK_CREATE_DEFAULT).2, ?_⟩,
      ?_, ?_⟩
    · intro h; cases h
    · intro h; exact hne (Option.some.inj h)
    · rw [if_pos rfl, if_pos rfl]; exact hs1
    · rw [hobj]; exact Option.some_ne_none _
    · rw [haux]; exact Option.some_ne_none _
  rcases H5Gcreate_ff_cases env st loc_id (some nm) H5P_DEFAULT H5P_DEFAULT H5P_DEFAULT 0 eq_id with
    ⟨maj, min, msg, hr⟩ | ⟨nm2, ids3, hnm, _, hs3c, hr⟩
  · rw [hr] at hreach; exact absurd rfl hreach
  have hnm2 : nm = nm2 := Option.some.inj hnm
  subst hnm2
  rw [if_pos rfl, if_pos rfl] at hs3c
  rw [if_pos rfl, if_pos rfl] at hr
  have e3 : ids3 = (H5P_set st.ids env.H5P_GROUP_CREATE_DEFAULT H5P_key.H5VL_GRP_LCPL_ID
      env.H5P_LINK_CREATE_DEFAULT).2 := by rw [hs3c]
  have hcap3 : ids3.capacity = st.ids.capacity := by
    rw [e3, (H5P_set_room _ _ _ _).1]
  have hlen3 : ids3.entries.length = st.ids.entries.length := by
    rw [e3, (H5P_set_room _ _ _ _).2]
  have haux3 : H5I_get_aux ids3 loc_id = some vp := by
    rw [(H5P_set_eq_ids hs3c).2]; exact haux
  have hobj3 : H5I_object ids3 loc_id ≠ none := by
    intro h
    have h2 := (H5P_set_object_none hs3c loc_id).1.mp h
    rw [hobj] at h2
    cases h2
  rw [hr]
  rcases H5Gcreate_ff_vol_cases env { ids := ids3, vol := st.vol } loc_id nm _ _ eq_id with
    ⟨hnone, _⟩ | ⟨obj3, vp3, b, ev, _, haux3b, hbdef, _, ⟨hbn, _⟩ | ⟨g, _, hreg, _⟩ |
      ⟨g, _, hreg, hv⟩⟩
  · exfalso
    rcases hnone with h | h
    · exact hobj3 h
    · rw [haux3] at h; cases h
  · exfalso
    rw [hbdef] at hbn
    exact hb _ _ _ _ _ _ _ _ hbn
  · exfalso
    have hroom3 : ids3.entries.length < ids3.capacity := by rw [hlen3, hcap3]; exact hroom
    obtain ⟨hpos, _⟩ := H5I_register2_room ids3 H5I_type_t.H5I_GROUP (H5_object.token g)
      (some vp3) true ht hroom3
    have hreg2 : (H5I_register2 ids3 H5I_type_t.H5I_GROUP (H5_object.token g) (some vp3) true).1
        < 0 := hreg
    linarith
  · have hvp : vp3 = vp := by
      have h2 : H5I_get_aux ids3 loc_id = some vp3 := haux3b
      rw [haux3] at h2
      exact (Option.some.inj h2).symm
    subst hvp
    have hroom3 : ids3.entries.length < ids3.capacity := by rw [hlen3, hcap3]; exact hroom
    obtain ⟨hpos, hcap, hlen⟩ := H5I_register2_room ids3 H5I_type_t.H5I_GROUP (H5_object.token g)
      (some vp3) true ht hroom3
    have hreg2 : ¬ (H5I_register2 ids3 H5I_type_t.H5I_GROUP (H5_object.token g) (some vp3)
        true).1 < 0 := hreg
    rw [hv]
    refine ⟨g, hpos, ?_, ?_, hcap.trans hcap3, by rw [← hlen3]; exact hlen⟩
    · simp only [H5I_object, (H5I_register2_ok hreg2).1]; rfl
    · simp only [H5I_get_aux, (H5I_register2_ok hreg2).1]; rfl

theorem H5Dcreate_ff_succeeds {σ : Type} (env : H5_env σ) (st : H5_state σ) (loc_id : hid_t)
    (nm : String) (type_id space_id : hid_t) (eq_id : hid_t) (obj : H5_object) (vp : H5VL_t)
    (hne : nm ≠ "")
    (hobj : H5I_object st.ids loc_id = some obj) (haux : H5I_get_aux st.ids loc_id = some vp)
    (hk1 : H5P_get st.ids env.H5P_DATASET_CREATE_DEFAULT H5P_key.H5VL_DSET_TYPE_ID ≠ none)
    (hk2 : H5P_get st.ids env.H5P_DATASET_CREATE_DEFAULT H5P_key.H5VL_DSET_SPACE_ID ≠ none)
    (hk3 : H5P_get st.ids env.H5P_DATASET_CREATE_DEFAULT H5P_key.H5VL_DSET_LCPL_ID ≠ none)
    (hb : ∀ s ids obj lp vp dcpl dapl dx,
      (env.vol.H5VL_dataset_create s ids obj lp vp nm dcpl dapl dx eq_id).1 ≠ none)
    (hroom : st.ids.entries.length < st.ids.capacity) :
    ∃ g,
      0 < (H5Dcreate_ff env st loc_id (some nm) type_id space_id H5P_DEFAULT H5P_DEFAULT H5P_DEFAULT 0 eq_id).ret_value ∧
      H5I_object (H5Dcreate_ff env st loc_id (some nm) type_id space_id H5P_DEFAULT H5P_DEFAULT H5P_DEFAULT 0 eq_id).st.ids
        (H5Dcreate_ff env st loc_id (some nm) type_id space_id H5P_DEFAULT H5P_DEFAULT H5P_DEFAULT 0 eq_id).ret_value =
        some (H5_object.token g) ∧
      H5I_get_aux (H5Dcreate_ff env st loc_id (some nm) type_id space_id H5P_DEFAULT H5P_DEFAULT H5P_DEFAULT 0 eq_id).st.ids
        (H5Dcreate_ff env st loc_id (some nm) type_id space_id H5P_DEFAULT H5P_DEFAULT H5P_DEFAULT 0 eq_id).ret_value = some vp ∧
      (H5Dcreate_ff env st loc_id (some nm) type_id space_id H5P_DEFAULT H5P_DEFAULT H5P_DEFAULT 0 eq_id).st.ids.capacity =
        st.ids.capacity ∧
      (H5Dcreate_ff env st loc_id (some nm) type_id space_id H5P_DEFAULT H5P_DEFAULT H5P_DEFAULT 0 eq_id).st.ids.entries.length =
        st.ids.entries.length + 1 := by
  have ht : ¬ (H5I_type_t.H5I_DATASET = H5I_type_t.H5I_UNINIT ∨
      H5I_type_t.H5I_DATASET = H5I_type_t.H5I_BADID) := by decide
  have hs1 := H5P_set_succeeds st.ids env.H5P_DATASET_CREATE_DEFAULT H5P_key.H5VL_DSET_TYPE_ID type_id hk1
  have hk2b : H5P_get (H5P_set st.ids env.H5P_DATASET_CREATE_DEFAULT H5P_key.H5VL_DSET_TYPE_ID type_id).2
      env.H5P_DATASET_CREATE_DEFAULT H5P_key.H5VL_DSET_SPACE_ID ≠ none := by
    rw [H5P_set_get_frame _ _ _ _ _ _ (Or.inr (by decide))]; exact hk2
  have hs2 := H5P_set_succeeds _ env.H5P_DATASET_CREATE_DEFAULT H5P_key.H5VL_DSET_SPACE_ID space_id hk2b
  have hk3b : H5P_get (H5P_set (H5P_set st.ids env.H5P_DATASET_CREATE_DEFAULT H5P_key.H5VL_DSET_TYPE_ID type_id).2
      env.H5P_DATASET_CREATE_DEFAULT H5P_key.H5VL_DSET_SPACE_ID space_id).2
      env.H5P_DATASET_CREATE_DEFAULT H5P_key.H5VL_DSET_LCPL_ID ≠ none := by
    rw [H5P_set_get_frame _ _ _ _ _ _ (Or.inr (by decide)),
      H5P_set_get_frame _ _ _ _ _ _ (Or.inr (by decide))]
    exact hk3
  have hs3 := H5P_set_succeeds _ env.H5P_DATASET_CREATE_DEFAULT H5P_key.H5VL_DSET_LCPL_ID
    env.H5P_LINK_CREATE_DEFAULT hk3b
  have hreach : (H5Dcreate_ff env st loc_id (some nm) type_id space_id H5P_DEFAULT H5P_DEFAULT H5P_DEFAULT 0 eq_id).calls ≠ [] := by
    apply ((H5Dcreate_ff_reach env st loc_id (some nm) type_id space_id H5P_DEFAULT H5P_DEFAULT H5P_DEFAULT 0 eq_id).1).mpr
    refine ⟨⟨?_, ?_⟩, Or.inl rfl, Or.inl rfl, Or.inl rfl,
      ⟨(H5P_set st.ids env.H5P_DATASET_CREATE_DEFAULT H5P_key.H5VL_DSET_TYPE_ID type_id).2,
       (H5P_set (H5P_set st.ids env.H5P_DATASET_CREATE_DEFAULT H5P_key.H5VL_DSET_TYPE_ID type_id).2 env.H5P_DATASET_CREATE_DEFAULT
          H5P_key.H5VL_DSET_SPACE_ID space_id).2,
       (H5P_set (H5P_set (H5P_set st.ids env.H5P_DATASET_CREATE_DEFAULT H5P_key.H5VL_DSET_TYPE_ID type_id).2 env.H5P_DATASET_CREATE_DEFAULT
          H5P_key.H5VL_DSET_SPACE_ID space_id).2 env.H5P_DATASET_CREATE_DEFAULT H5P_key.H5VL_DSET_LCPL_ID
          env.H5P_LINK_CREATE_DEFAULT).2, ?_, ?_, ?_⟩, ?_, ?_⟩
    · intro h; cases h
    · intro h; exact hne (Option.some.inj h)
    · rw [if_pos rfl]; exact hs1
    · rw [if_pos rfl]; exact hs2
    · rw [if_pos rfl, if_pos rfl]; exact hs3
    · rw [show H5VL_get_object st.ids loc_id = some obj from hobj]
      exact Option.some_ne_none _
    · rw [haux]; exact Option.some_ne_none _
  rcases H5Dcreate_ff_cases env st loc_id (some nm) type_id space_id H5P_DEFAULT H5P_DEFAULT H5P_DEFAULT 0 eq_id with
    ⟨st1, maj, min, msg, hr, _⟩ | ⟨nm2, ids1, ids2, ids3, hnm, _, hs1c, hs2c, hs3c, hr⟩
  · rw [hr] at hreach; exact absurd rfl hreach
  have hnm2 : nm = nm2 := Option.some.inj hnm
  subst hnm2
  rw [if_pos rfl] at hs1c hs2c hs3c hr
  rw [if_pos rfl] at hs3c hr
  have e1 : ids1 = (H5P_set st.ids env.H5P_DATASET_CREATE_DEFAULT H5P_key.H5VL_DSET_TYPE_ID type_id).2 := by rw [hs1c]
  subst e1
  have e2 : ids2 = (H5P_set (H5P_set st.ids env.H5P_DATASET_CREATE_DEFAULT H5P_key.H5VL_DSET_TYPE_ID type_id).2 env.H5P_DATASET_CREATE_DEFAULT
      H5P_key.H5VL_DSET_SPACE_ID space_id).2 := by rw [hs2c]
  subst e2
  have e3 : ids3 = (H5P_set (H5P_set (H5P_set st.ids env.H5P_DATASET_CREATE_DEFAULT H5P_key.H5VL_DSET_TYPE_ID
      type_id).2 env.H5P_DATASET_CREATE_DEFAULT H5P_key.H5VL_DSET_SPACE_ID space_id).2 env.H5P_DATASET_CREATE_DEFAULT
      H5P_key.H5VL_DSET_LCPL_ID env.H5P_LINK_CREATE_DEFAULT).2 := by rw [hs3c]
  have hcap3 : ids3.capacity = st.ids.capacity := by
    rw [e3, (H5P_set_room _ _ _ _).1, (H5P_set_room _ _ _ _).1, (H5P_set_room _ _ _ _).1]
  have hlen3 : ids3.entries.length = st.ids.entries.length := by
    rw [e3, (H5P_set_room _ _ _ _).2, (H5P_set_room _ _ _ _).2, (H5P_set_room _ _ _ _).2]
  have haux3 : H5I_get_aux ids3 loc_id = some vp := by
    rw [(H5P_set_eq_ids hs3c).2, (H5P_set_eq_ids hs2c).2, (H5P_set_eq_ids hs1c).2]; exact haux
  have hobj3 : H5VL_get_object ids3 loc_id ≠ none := by
    intro h
    have h2 := (H5P_set_object_none hs1c loc_id).2.mp
      ((H5P_set_object_none hs2c loc_id).2.mp ((H5P_set_object_none hs3c loc_id).2.mp h))
    rw [show H5VL_get_object st.ids loc_id = some obj from hobj] at h2
    cases h2
  rw [hr]
  rcases H5Dcreate_ff_vol_cases env { ids := ids3, vol := st.vol } loc_id nm _ _ eq_id with
    ⟨hnone, _⟩ | ⟨obj3, vp3, b, ev, _, haux3b, hbdef, _, ⟨hbn, _⟩ | ⟨g, _, hreg, _⟩ |
      ⟨g, _, hreg, hv⟩⟩
  · exfalso
    rcases hnone with h | h
    · exact hobj3 h
    · rw [haux3] at h; cases h
  · exfalso
    rw [hbdef] at hbn
    exact hb _ _ _ _ _ _ _ _ hbn
  · exfalso
    have hroom3 : ids3.entries.length < ids3.capacity := by rw [hlen3, hcap3]; exact hroom
    obtain ⟨hpos, _⟩ := H5I_register2_room ids3 H5I_type_t.H5I_DATASET (H5_object.token g)
      (some vp3) true ht hroom3
    have hreg2 : (H5I_register2 ids3 H5I_type_t.H5I_DATASET (H5_object.token g) (some vp3) true).1
        < 0 := hreg
    linarith
  · have hvp : vp3 = vp := by
      have h2 : H5I_get_aux ids3 loc_id = some vp3 := haux3b
      rw [haux3] at h2
      exact (Option.some.inj h2).symm
    subst hvp
    have hroom3 : ids3.entries.length < ids3.capacity := by rw [hlen3, hcap3]; exact hroom
    obtain ⟨hpos, hcap, hlen⟩ := H5I_register2_room ids3 H5I_type_t.H5I_DATASET (H5_object.token g)
      (some vp3) true ht hroom3
    have hreg2 : ¬ (H5I_register2 ids3 H5I_type_t.H5I_DATASET (H5_object.token g) (some vp3)
        true).1 < 0 := hreg
    rw [hv]
    refine ⟨g, hpos, ?_, ?_, hcap.trans hcap3, by rw [← hlen3]; exact hlen⟩
    · simp only [H5I_object, (H5I_register2_ok hreg2).1]; rfl
    · simp only [H5I_get_aux, (H5I_register2_ok hreg2).1]; rfl

theorem H5Dwrite_ff_ok {σ : Type} (env : H5_env σ) (st : H5_state σ)
    (dset_id mem_type_id mem_space_id file_space_id : hid_t) (buf : List Nat) (trans : Nat)
    (eq_id : hid_t) (dset : H5_object) (vp : H5VL_t)
    (h0 : dset_id ≠ 0) (haux : H5I_get_aux st.ids dset_id = some vp)
    (hobj : H5I_object st.ids dset_id = some dset)
    (hw : 0 ≤ (env.vol.H5VL_dataset_write st.vol st.ids dset vp mem_type_id mem_space_id
      file_space_id env.H5P_DATASET_XFER_DEFAULT buf eq_id).1) :
    H5Dwrite_ff env st dset_id mem_type_id mem_space_id file_space_id H5P_DEFAULT buf trans
        eq_id =
      { ret_value := (env.vol.H5VL_dataset_write st.vol st.ids dset vp mem_type_id mem_space_id
          file_space_id env.H5P_DATASET_XFER_DEFAULT buf eq_id).1,
        errs := [],
        calls := [{ call := H5VL_call.dataset_write dset vp mem_type_id mem_space_id
                      file_space_id env.H5P_DATASET_XFER_DEFAULT buf eq_id,
                    ids := st.ids,
                    ret := H5VL_ret.status (env.vol.H5VL_dataset_write st.vol st.ids dset vp
                      mem_type_id mem_space_id file_space_id env.H5P_DATASET_XFER_DEFAULT buf
                      eq_id).1 }],
        st := { ids := st.ids,
                vol := (env.vol.H5VL_dataset_write st.vol st.ids dset vp mem_type_id
                  mem_space_id file_space_id env.H5P_DATASET_XFER_DEFAULT buf eq_id).2 },
        buf := buf } := by
  unfold H5Dwrite_ff
  dsimp only
  rw [if_neg h0, if_neg (fun h => h.1 rfl)]
  simp only [if_true, haux, hobj]
  rw [if_neg (not_lt.mpr hw)]

theorem H5Dread_ff_ok {σ : Type} (env : H5_env σ) (st : H5_state σ)
    (dset_id mem_type_id mem_space_id file_space_id : hid_t) (buf : List Nat) (trans : Nat)
    (eq_id : hid_t) (dset : H5_object) (vp : H5VL_t)
    (hm : 0 ≤ mem_space_id) (hf : 0 ≤ file_space_id)
    (haux : H5I_get_aux st.ids dset_id = some vp)
    (hobj : H5I_object st.ids dset_id = some dset)
    (hr : 0 ≤ (env.vol.H5VL_dataset_read st.vol st.ids dset vp mem_type_id mem_space_id
      file_space_id env.H5P_DATASET_XFER_DEFAULT buf eq_id).1.1) :
    H5Dread_ff env st dset_id mem_type_id mem_space_id file_space_id H5P_DEFAULT buf trans
        eq_id =
      { ret_value := (env.vol.H5VL_dataset_read st.vol st.ids dset vp mem_type_id mem_space_id
          file_space_id env.H5P_DATASET_XFER_DEFAULT buf eq_id).1.1,
        errs := [],
        calls := [{ call := H5VL_call.dataset_read dset vp mem_type_id mem_space_id
                      file_space_id env.H5P_DATASET_XFER_DEFAULT buf eq_id,
                    ids := st.ids,
                    ret := H5VL_ret.data
                      (env.vol.H5VL_dataset_read st.vol st.ids dset vp mem_type_id mem_space_id
                        file_space_id env.H5P_DATASET_XFER_DEFAULT buf eq_id).1.1
                      (env.vol.H5VL_dataset_read st.vol st.ids dset vp mem_type_id mem_space_id
                        file_space_id env.H5P_DATASET_XFER_DEFAULT buf eq_id).1.2 }],
        st := { ids := st.ids,
                vol := (env.vol.H5VL_dataset_read st.vol st.ids dset vp mem_type_id
                  mem_space_id file_space_id env.H5P_DATASET_XFER_DEFAULT buf eq_id).2 },
        buf := (env.vol.H5VL_dataset_read st.vol st.ids dset vp mem_type_id mem_space_id
          file_space_id env.H5P_DATASET_XFER_DEFAULT buf eq_id).1.2 } := by
  unfold H5Dread_ff
  dsimp only
  rw [if_neg (fun h => h.elim (fun h1 => absurd hm (not_le.mpr h1))
    (fun h1 => absurd hf (not_le.mpr h1))), if_neg (fun h => h.1 rfl)]
  simp only [if_true, haux, hobj]
  rw [if_neg (not_lt.mpr hr)]

theorem H5P_set_token (ids : H5I_registry) (plist_id : hid_t) (key : H5P_key) (value : hid_t)
    (id : hid_t) (t : Nat) (h : H5I_object ids id = some (H5_object.token t)) :
    H5I_object (H5P_set ids plist_id key value).2 id = some (H5_object.token t) := by
  by_cases hid : id = plist_id
  · subst hid
    have e : H5P_set ids id key value = (FAIL, ids) := by
      unfold H5P_set
      rw [h]
    rw [e]
    exact h
  · simp only [H5I_object] at h ⊢
    rw [H5P_set_find_ne _ _ _ _ _ hid]
    exact h

theorem H5P_set_aux (ids : H5I_registry) (plist_id : hid_t) (key : H5P_key) (value : hid_t)
    (id : hid_t) :
    H5I_get_aux (H5P_set ids plist_id key value).2 id = H5I_get_aux ids id :=
  (H5P_set_eq_ids (rfl : H5P_set ids plist_id key value =
    ((H5P_set ids plist_id key value).1, (H5P_set ids plist_id key value).2))).2 id

theorem H5P_set_status (ids : H5I_registry) (plist_id : hid_t) (key : H5P_key)
    (value : hid_t) (h : H5P_get ids plist_id key ≠ none) :
    ¬ (H5P_set ids plist_id key value).1 < 0 := by
  rw [H5P_set_succeeds ids plist_id key value h]
  show ¬ SUCCEED < 0
  decide

theorem H5P_get_object (ids : H5I_registry) (plist_id : hid_t) (key : H5P_key)
    (h : H5P_get ids plist_id key ≠ none) :
    ∃ p, H5I_object ids plist_id = some (H5_object.plist p) := by
  unfold H5P_get at h
  cases ho : H5I_object ids plist_id with
  | none => rw [ho] at h; exact absurd rfl h
  | some o =>
    cases o with
    | token t => rw [ho] at h; exact absurd rfl h
    | plist p => exact ⟨p, rfl⟩

theorem H5I_register2_fresh (ids : H5I_registry) (type : H5I_type_t) (object : H5_object)
    (vp : H5VL_t)
    (ht : ¬ (type = H5I_type_t.H5I_UNINIT ∨ type = H5I_type_t.H5I_BADID))
    (hroom : ids.entries.length < ids.capacity) :
    (0 : Int) < (H5I_register2 ids type object (some vp) true).1 ∧
    H5I_object (H5I_register2 ids type object (some vp) true).2
      (H5I_register2 ids type object (some vp) true).1 = some object ∧
    H5I_get_aux (H5I_register2 ids type object (some vp) true).2
      (H5I_register2 ids type object (some vp) true).1 = some vp ∧
    H5I_get_type (H5I_register2 ids type object (some vp) true).2
      (H5I_register2 ids type object (some vp) true).1 = type ∧
    (H5I_register2 ids type object (some vp) true).2.capacity = ids.capacity ∧
    (H5I_register2 ids type object (some vp) true).2.entries.length =
      ids.entries.length + 1 := by
  obtain ⟨hpos, hcap, hlen⟩ := H5I_register2_room ids type object (some vp) true ht hroom
  have hreg : ¬ (H5I_register2 ids type object (some vp) true).1 < 0 :=
    not_lt.mpr (le_of_lt hpos)
  refine ⟨hpos, ?_, ?_, ?_, hcap, hlen⟩
  · simp only [H5I_object, (H5I_register2_ok hreg).1]; rfl
  · simp only [H5I_get_aux, (H5I_register2_ok hreg).1]; rfl
  · simp only [H5I_get_type, (H5I_register2_ok hreg).1]

theorem H5Fcreate_ff_run {σ : Type} (env : H5_env σ) (st : H5_state σ) (nm : String)
    (flags : Nat) (eq_id : hid_t) (f : Nat) (vp : H5VL_t) (hne : nm ≠ "")
    (hf1 : flags &&& H5_bitnot32 (env.H5F_ACC_EXCL ||| env.H5F_ACC_TRUNC ||| env.H5F_ACC_DEBUG)
      = 0)
    (hf2 : flags &&& env.H5F_ACC_EXCL = 0 ∨ flags &&& env.H5F_ACC_TRUNC = 0)
    (hb : (env.vol.H5VL_file_create st.vol st.ids nm flags env.H5P_FILE_CREATE_DEFAULT
      env.H5P_FILE_ACCESS_DEFAULT env.H5AC_dxpl_id eq_id).1 = some (f, vp))
    (hroom : st.ids.entries.length < st.ids.capacity) :
    H5Fcreate_ff env st (some nm) flags H5P_DEFAULT H5P_DEFAULT eq_id =
      { ret_value := (H5I_register2 st.ids H5I_type_t.H5I_FILE (H5_object.token f) (some vp)
          true).1,
        errs := [],
        calls := [{ call := H5VL_call.file_create nm flags env.H5P_FILE_CREATE_DEFAULT
                      env.H5P_FILE_ACCESS_DEFAULT env.H5AC_dxpl_id eq_id,
                    ids := st.ids, ret := H5VL_ret.file (some (f, vp)) }],
        st := { ids := (H5I_register2 st.ids H5I_type_t.H5I_FILE (H5_object.token f) (some vp)
                  true).2,
                vol := (env.vol.H5VL_file_create st.vol st.ids nm flags
                  env.H5P_FILE_CREATE_DEFAULT env.H5P_FILE_ACCESS_DEFAULT env.H5AC_dxpl_id
                  eq_id).2 },
        buf := [] } := by
  have hn : ¬ (some nm = none ∨ some nm = some "") := by
    intro h
    rcases h with h | h
    · cases h
    · exact hne (Option.some.inj h)
  have hreg : ¬ (H5I_register2 st.ids H5I_type_t.H5I_FILE (H5_object.token f) (some vp)
      true).1 < 0 :=
    not_lt.mpr (le_of_lt (H5I_register2_fresh st.ids H5I_type_t.H5I_FILE (H5_object.token f)
      vp (by decide) hroom).1)
  unfold H5Fcreate_ff
  dsimp only
  rw [if_neg hn, if_neg (not_not.mpr hf1),
    if_neg (fun h => hf2.elim (fun h2 => h.1 h2) (fun h2 => h.2 h2)),
    if_neg (fun h => h.1 rfl), if_neg (fun h => h.1 rfl)]
  simp only [if_true, Option.getD_some, hb]
  rw [if_neg hreg]

theorem H5Gcreate_ff_vol_run {σ : Type} (env : H5_env σ) (st : H5_state σ) (loc_id : hid_t)
    (name : String) (gcpl_id gapl_id eq_id : hid_t) (obj : H5_object) (vp : H5VL_t) (g : Nat)
    (hobj : H5I_object st.ids loc_id = some obj) (haux : H5I_get_aux st.ids loc_id = some vp)
    (hb : (env.vol.H5VL_group_create st.vol st.ids obj
      { type := H5VL_loc_type_t.H5VL_OBJECT_BY_SELF, obj_type := H5I_get_type st.ids loc_id }
      vp name gcpl_id gapl_id env.H5AC_dxpl_id eq_id).1 = some g)
    (hreg : ¬ (H5I_register2 st.ids H5I_type_t.H5I_GROUP (H5_object.token g) (some vp)
      true).1 < 0) :
    H5Gcreate_ff_vol env st loc_id name gcpl_id gapl_id eq_id =
      { ret_value := (H5I_register2 st.ids H5I_type_t.H5I_GROUP (H5_object.token g) (some vp)
          true).1,
        errs := [],
        calls := [{ call := H5VL_call.group_create obj
                      { type := H5VL_loc_type_t.H5VL_OBJECT_BY_SELF,
                        obj_type := H5I_get_type st.ids loc_id }
                      vp name gcpl_id gapl_id env.H5AC_dxpl_id eq_id,
                    ids := st.ids, ret := H5VL_ret.ptr (some g) }],
        st := { ids := (H5I_register2 st.ids H5I_type_t.H5I_GROUP (H5_object.token g)
                  (some vp) true).2,
                vol := (env.vol.H5VL_group_create st.vol st.ids obj
                  { type := H5VL_loc_type_t.H5VL_OBJECT_BY_SELF,
                    obj_type := H5I_get_type st.ids loc_id }
                  vp name gcpl_id gapl_id env.H5AC_dxpl_id eq_id).2 },
        buf := [] } := by
  unfold H5Gcreate_ff_vol
  simp only [hobj, haux, hb]
  rw [if_neg hreg, H5Gcreate_ff_done_ok _ _ _ _ _ hreg]

theorem H5Dcreate_ff_vol_run {σ : Type} (env : H5_env σ) (st : H5_state σ) (loc_id : hid_t)
    (name : String) (dcpl_id dapl_id eq_id : hid_t) (obj : H5_object) (vp : H5VL_t) (d : Nat)
    (hobj : H5VL_get_object st.ids loc_id = some obj)
    (haux : H5I_get_aux st.ids loc_id = some vp)
    (hb : (env.vol.H5VL_dataset_create st.vol st.ids obj
      { type := H5VL_loc_type_t.H5VL_OBJECT_BY_SELF, obj_type := H5I_get_type st.ids loc_id }
      vp name dcpl_id dapl_id env.H5AC_dxpl_id eq_id).1 = some d)
    (hreg : ¬ (H5I_register2 st.ids H5I_type_t.H5I_DATASET (H5_object.token d) (some vp)
      true).1 < 0) :
    H5Dcreate_ff_vol env st loc_id name dcpl_id dapl_id eq_id =
      { ret_value := (H5I_register2 st.ids H5I_type_t.H5I_DATASET (H5_object.token d)
          (some vp) true).1,
        errs := [],
        calls := [{ call := H5VL_call.dataset_create obj
                      { type := H5VL_loc_type_t.H5VL_OBJECT_BY_SELF,
                        obj_type := H5I_get_type st.ids loc_id }
                      vp name dcpl_id dapl_id env.H5AC_dxpl_id eq_id,
                    ids := st.ids, ret := H5VL_ret.ptr (some d) }],
        st := { ids := (H5I_register2 st.ids H5I_type_t.H5I_DATASET (H5_object.token d)
                  (some vp) true).2,
                vol := (env.vol.H5VL_dataset_create st.vol st.ids obj
                  { type := H5VL_loc_type_t.H5VL_OBJECT_BY_SELF,
                    obj_type := H5I_get_type st.ids loc_id }
                  vp name dcpl_id dapl_id env.H5AC_dxpl_id eq_id).2 },
        buf := [] } := by
  unfold H5Dcreate_ff_vol
  simp only [hobj, haux, hb]
  rw [if_neg hreg, H5Dcreate_ff_done_ok _ _ _ _ _ hreg]

theorem H5Gcreate_ff_run {σ : Type} (env : H5_env σ) (st : H5_state σ) (loc_id : hid_t)
    (nm : String) (eq_id : hid_t) (t : Nat) (vp : H5VL_t) (g : Nat) (hne : nm ≠ "")
    (hobj : H5I_object st.ids loc_id = some (H5_object.token t))
    (haux : H5I_get_aux st.ids loc_id = some vp)
    (hk1 : H5P_get st.ids env.H5P_GROUP_CREATE_DEFAULT H5P_key.H5VL_GRP_LCPL_ID ≠ none)
    (hb : (env.vol.H5VL_group_create st.vol
      (H5P_set st.ids env.H5P_GROUP_CREATE_DEFAULT H5P_key.H5VL_GRP_LCPL_ID
        env.H5P_LINK_CREATE_DEFAULT).2
      (H5_object.token t)
      { type := H5VL_loc_type_t.H5VL_OBJECT_BY_SELF, obj_type := H5I_get_type st.ids loc_id }
      vp nm env.H5P_GROUP_CREATE_DEFAULT env.H5P_GROUP_ACCESS_DEFAULT env.H5AC_dxpl_id
      eq_id).1 = some g)
    (hroom : st.ids.entries.length < st.ids.capacity) :
    H5Gcreate_ff env st loc_id (some nm) H5P_DEFAULT H5P_DEFAULT H5P_DEFAULT 0 eq_id =
      { ret_value := (H5I_register2
          (H5P_set st.ids env.H5P_GROUP_CREATE_DEFAULT H5P_key.H5VL_GRP_LCPL_ID
            env.H5P_LINK_CREATE_DEFAULT).2
          H5I_type_t.H5I_GROUP (H5_object.token g) (some vp) true).1,
        errs := [],
        calls := [{ call := H5VL_call.group_create (H5_object.token t)
                      { type := H5VL_loc_type_t.H5VL_OBJECT_BY_SELF,
                        obj_type := H5I_get_type st.ids loc_id }
                      vp nm env.H5P_GROUP_CREATE_DEFAULT env.H5P_GROUP_ACCESS_DEFAULT
                      env.H5AC_dxpl_id eq_id,
                    ids := (H5P_set st.ids env.H5P_GROUP_CREATE_DEFAULT
                      H5P_key.H5VL_GRP_LCPL_ID env.H5P_LINK_CREATE_DEFAULT).2,
                    ret := H5VL_ret.ptr (some g) }],
        st := { ids := (H5I_register2
                  (H5P_set st.ids env.H5P_GROUP_CREATE_DEFAULT H5P_key.H5VL_GRP_LCPL_ID
                    env.H5P_LINK_CREATE_DEFAULT).2
                  H5I_type_t.H5I_GROUP (H5_object.token g) (some vp) true).2,
                vol := (env.vol.H5VL_group_create st.vol
                  (H5P_set st.ids env.H5P_GROUP_CREATE_DEFAULT H5P_key.H5VL_GRP_LCPL_ID
                    env.H5P_LINK_CREATE_DEFAULT).2
                  (H5_object.token t)
                  { type := H5VL_loc_type_t.H5VL_OBJECT_BY_SELF,
                    obj_type := H5I_get_type st.ids loc_id }
                  vp nm env.H5P_GROUP_CREATE_DEFAULT env.H5P_GROUP_ACCESS_DEFAULT
                  env.H5AC_dxpl_id eq_id).2 },
        buf := [] } := by
  have hn : ¬ (some nm = none ∨ some nm = some "") := by
    intro h
    rcases h with h | h
    · cases h
    · exact hne (Option.some.inj h)
  obtain ⟨p, hp⟩ := H5P_get_object _ _ _ hk1
  have hset := H5P_set_status st.ids env.H5P_GROUP_CREATE_DEFAULT H5P_key.H5VL_GRP_LCPL_ID
    env.H5P_LINK_CREATE_DEFAULT hk1
  have hroom1 : (H5P_set st.ids env.H5P_GROUP_CREATE_DEFAULT H5P_key.H5VL_GRP_LCPL_ID
      env.H5P_LINK_CREATE_DEFAULT).2.entries.length <
      (H5P_set st.ids env.H5P_GROUP_CREATE_DEFAULT H5P_key.H5VL_GRP_LCPL_ID
        env.H5P_LINK_CREATE_DEFAULT).2.capacity := by
    rw [(H5P_set_room _ _ _ _).1, (H5P_set_room _ _ _ _).2]
    exact hroom
  have hreg := not_lt.mpr (le_of_lt (H5I_register2_fresh _ H5I_type_t.H5I_GROUP
    (H5_object.token g) vp (by decide) hroom1).1)
  have hrun := H5Gcreate_ff_vol_run env
    { ids := (H5P_set st.ids env.H5P_GROUP_CREATE_DEFAULT H5P_key.H5VL_GRP_LCPL_ID
        env.H5P_LINK_CREATE_DEFAULT).2, vol := st.vol }
    loc_id nm env.H5P_GROUP_CREATE_DEFAULT env.H5P_GROUP_ACCESS_DEFAULT eq_id
    (H5_object.token t) vp g (H5P_set_token _ _ _ _ _ _ hobj)
    ((H5P_set_aux _ _ _ _ _).trans haux)
    (by rw [H5P_set_get_type]; exact hb) hreg
  rw [H5P_set_get_type] at hrun
  unfold H5Gcreate_ff
  dsimp only
  rw [if_neg hn, if_neg (fun h => h.1 rfl), if_neg (fun h => h.1 rfl),
    if_neg (fun h => h.1 rfl)]
  simp only [if_true, Option.getD_some, hp]
  rw [if_neg hset]
  exact hrun

theorem H5Dcreate_ff_run {σ : Type} (env : H5_env σ) (st : H5_state σ) (loc_id : hid_t)
    (nm : String) (type_id space_id eq_id : hid_t) (t : Nat) (vp : H5VL_t) (d : Nat)
    (hne : nm ≠ "")
    (hobj : H5I_object st.ids loc_id = some (H5_object.token t))
    (haux : H5I_get_aux st.ids loc_id = some vp)
    (hk1 : H5P_get st.ids env.H5P_DATASET_CREATE_DEFAULT H5P_key.H5VL_DSET_TYPE_ID ≠ none)
    (hk2 : H5P_get st.ids env.H5P_DATASET_CREATE_DEFAULT H5P_key.H5VL_DSET_SPACE_ID ≠ none)
    (hk3 : H5P_get st.ids env.H5P_DATASET_CREATE_DEFAULT H5P_key.H5VL_DSET_LCPL_ID ≠ none)
    (hb : (env.vol.H5VL_dataset_create st.vol
      (H5P_set (H5P_set (H5P_set st.ids env.H5P_DATASET_CREATE_DEFAULT
        H5P_key.H5VL_DSET_TYPE_ID type_id).2 env.H5P_DATASET_CREATE_DEFAULT
        H5P_key.H5VL_DSET_SPACE_ID space_id).2 env.H5P_DATASET_CREATE_DEFAULT
        H5P_key.H5VL_DSET_LCPL_ID env.H5P_LINK_CREATE_DEFAULT).2
      (H5_object.token t)
      { type := H5VL_loc_type_t.H5VL_OBJECT_BY_SELF, obj_type := H5I_get_type st.ids loc_id }
      vp nm env.H5P_DATASET_CREATE_DEFAULT env.H5P_DATASET_ACCESS_DEFAULT env.H5AC_dxpl_id
      eq_id).1 = some d)
    (hroom : st.ids.entries.length < st.ids.capacity) :
    H5Dcreate_ff env st loc_id (some nm) type_id space_id H5P_DEFAULT H5P_DEFAULT H5P_DEFAULT 0
        eq_id =
      { ret_value := (H5I_register2
          (H5P_set (H5P_set (H5P_set st.ids env.H5P_DATASET_CREATE_DEFAULT
            H5P_key.H5VL_DSET_TYPE_ID type_id).2 env.H5P_DATASET_CREATE_DEFAULT
            H5P_key.H5VL_DSET_SPACE_ID space_id).2 env.H5P_DATASET_CREATE_DEFAULT
            H5P_key.H5VL_DSET_LCPL_ID env.H5P_LINK_CREATE_DEFAULT).2
          H5I_type_t.H5I_DATASET (H5_object.token d) (some vp) true).1,
        errs := [],
        calls := [{ call := H5VL_call.dataset_create (H5_object.token t)
                      { type := H5VL_loc_type_t.H5VL_OBJECT_BY_SELF,
                        obj_type := H5I_get_type st.ids loc_id }
                      vp nm env.H5P_DATASET_CREATE_DEFAULT env.H5P_DATASET_ACCESS_DEFAULT
                      env.H5AC_dxpl_id eq_id,
                    ids := (H5P_set (H5P_set (H5P_set st.ids env.H5P_DATASET_CREATE_DEFAULT
                      H5P_key.H5VL_DSET_TYPE_ID type_id).2 env.H5P_DATASET_CREATE_DEFAULT
                      H5P_key.H5VL_DSET_SPACE_ID space_id).2 env.H5P_DATASET_CREATE_DEFAULT
                      H5P_key.H5VL_DSET_LCPL_ID env.H5P_LINK_CREATE_DEFAULT).2,
                    ret := H5VL_ret.ptr (some d) }],
        st := { ids := (H5I_register2
                  (H5P_set (H5P_set (H5P_set st.ids env.H5P_DATASET_CREATE_DEFAULT
                    H5P_key.H5VL_DSET_TYPE_ID type_id).2 env.H5P_DATASET_CREATE_DEFAULT
                    H5P_key.H5VL_DSET_SPACE_ID space_id).2 env.H5P_DATASET_CREATE_DEFAULT
                    H5P_key.H5VL_DSET_LCPL_ID env.H5P_LINK_CREATE_DEFAULT).2
                  H5I_type_t.H5I_DATASET (H5_object.token d) (some vp) true).2,
                vol := (env.vol.H5VL_dataset_create st.vol
                  (H5P_set (H5P_set (H5P_set st.ids env.H5P_DATASET_CREATE_DEFAULT
                    H5P_key.H5VL_DSET_TYPE_ID type_id).2 env.H5P_DATASET_CREATE_DEFAULT
                    H5P_key.H5VL_DSET_SPACE_ID space_id).2 env.H5P_DATASET_CREATE_DEFAULT
                    H5P_key.H5VL_DSET_LCPL_ID env.H5P_LINK_CREATE_DEFAULT).2
                  (H5_object.token t)
                  { type := H5VL_loc_type_t.H5VL_OBJECT_BY_SELF,
                    obj_type := H5I_get_type st.ids loc_id }
                  vp nm env.H5P_DATASET_CREATE_DEFAULT env.H5P_DATASET_ACCESS_DEFAULT
                  env.H5AC_dxpl_id eq_id).2 },
        buf := [] } := by
  have hn : ¬ (some nm = none ∨ some nm = some "") := by
    intro h
    rcases h with h | h
    · cases h
    · exact hne (Option.some.inj h)
  obtain ⟨p, hp⟩ := H5P_get_object _ _ _ hk1
  have hset1 := H5P_set_status st.ids env.H5P_DATASET_CREATE_DEFAULT
    H5P_key.H5VL_DSET_TYPE_ID type_id hk1
  have hk2b : H5P_get (H5P_set st.ids env.H5P_DATASET_CREATE_DEFAULT
      H5P_key.H5VL_DSET_TYPE_ID type_id).2
      env.H5P_DATASET_CREATE_DEFAULT H5P_key.H5VL_DSET_SPACE_ID ≠ none := by
    rw [H5P_set_get_frame _ _ _ _ _ _ (Or.inr (by decide))]; exact hk2
  have hset2 := H5P_set_status _ env.H5P_DATASET_CREATE_DEFAULT
    H5P_key.H5VL_DSET_SPACE_ID space_id hk2b
  have hk3b : H5P_get (H5P_set (H5P_set st.ids env.H5P_DATASET_CREATE_DEFAULT
      H5P_key.H5VL_DSET_TYPE_ID type_id).2
      env.H5P_DATASET_CREATE_DEFAULT H5P_key.H5VL_DSET_SPACE_ID space_id).2
      env.H5P_DATASET_CREATE_DEFAULT H5P_key.H5VL_DSET_LCPL_ID ≠ none := by
    rw [H5P_set_get_frame _ _ _ _ _ _ (Or.inr (by decide)),
      H5P_set_get_frame _ _ _ _ _ _ (Or.inr (by decide))]
    exact hk3
  have hset3 := H5P_set_status _ env.H5P_DATASET_CREATE_DEFAULT
    H5P_key.H5VL_DSET_LCPL_ID env.H5P_LINK_CREATE_DEFAULT hk3b
  have hroom3 : (H5P_set (H5P_set (H5P_set st.ids env.H5P_DATASET_CREATE_DEFAULT
      H5P_key.H5VL_DSET_TYPE_ID type_id).2 env.H5P_DATASET_CREATE_DEFAULT
      H5P_key.H5VL_DSET_SPACE_ID space_id).2 env.H5P_DATASET_CREATE_DEFAULT
      H5P_key.H5VL_DSET_LCPL_ID env.H5P_LINK_CREATE_DEFAULT).2.entries.length <
      (H5P_set (H5P_set (H5P_set st.ids env.H5P_DATASET_CREATE_DEFAULT
      H5P_key.H5VL_DSET_TYPE_ID type_id).2 env.H5P_DATASET_CREATE_DEFAULT
      H5P_key.H5VL_DSET_SPACE_ID space_id).2 env.H5P_DATASET_CREATE_DEFAULT
      H5P_key.H5VL_DSET_LCPL_ID env.H5P_LINK_CREATE_DEFAULT).2.capacity := by
    rw [(H5P_set_room _ _ _ _).1, (H5P_set_room _ _ _ _).2, (H5P_set_room _ _ _ _).1,
      (H5P_set_room _ _ _ _).2, (H5P_set_room _ _ _ _).1, (H5P_set_room _ _ _ _).2]
    exact hroom
  have hreg := not_lt.mpr (le_of_lt (H5I_register2_fresh _ H5I_type_t.H5I_DATASET
    (H5_object.token d) vp (by decide) hroom3).1)
  have hrun := H5Dcreate_ff_vol_run env
    { ids := (H5P_set (H5P_set (H5P_set st.ids env.H5P_DATASET_CREATE_DEFAULT
        H5P_key.H5VL_DSET_TYPE_ID type_id).2 env.H5P_DATASET_CREATE_DEFAULT
        H5P_key.H5VL_DSET_SPACE_ID space_id).2 env.H5P_DATASET_CREATE_DEFAULT
        H5P_key.H5VL_DSET_LCPL_ID env.H5P_LINK_CREATE_DEFAULT).2, vol := st.vol }
    loc_id nm env.H5P_DATASET_CREATE_DEFAULT env.H5P_DATASET_ACCESS_DEFAULT eq_id
    (H5_object.token t) vp d
    (H5P_set_token _ _ _ _ _ _ (H5P_set_token _ _ _ _ _ _ (H5P_set_token _ _ _ _ _ _ hobj)))
    ((H5P_set_aux _ _ _ _ _).trans ((H5P_set_aux _ _ _ _ _).trans
      ((H5P_set_aux _ _ _ _ _).trans haux)))
    (by rw [H5P_set_get_type, H5P_set_get_type, H5P_set_get_type]; exact hb) hreg
  rw [H5P_set_get_type, H5P_set_get_type, H5P_set_get_type] at hrun
  unfold H5Dcreate_ff
  dsimp only
  rw [if_neg hn, if_neg (fun h => h.1 rfl), if_neg (fun h => h.1 rfl),
    if_neg (fun h => h.1 rfl)]
  simp only [if_true, Option.getD_some, hp]
  rw [if_neg hset1, if_neg hset2, if_neg hset3]
  exact hrun

/-- C19: the scenario `H5Fcreate_ff("x.dat", H5F_ACC_TRUNC)`, `H5Gcreate_ff(file,
"/g")`, `H5Dcreate_ff(g, "d", type, space)`, `H5Dwrite_ff(d, type, space, space,
buf)`, `H5Dread_ff(d, type, space, space, out)`, all with `H5P_DEFAULT` lists
and transaction 0, each call made in the state the previous one left.  The
backend is any backend whose read, issued right after a successful write to
the same dataset object, succeeds with the bytes written; of the rest of the
backend only the four calls the scenario makes are constrained: its file
create, called on the initial state, returns the file `f` under the plugin
`vp`, its group create, called where the first wrapper left it, returns `g`,
its dataset create returns `d`, and its write of `buf` to `d` returns a
non-negative status.  The registry holds the default creation lists with their
properties and has room for three identifiers.  Then every call returns a
non-negative value, the buffer read equals the buffer written, each wrapper
makes exactly one backend call, on the object the previous create returned
(`f`, then `g`, then `d`) and under the plugin of the file, the identifier of
the dataset resolves to `d`, and write and read carry the type, dataspaces,
default transfer list and buffer the caller passed. -/
theorem C19_round_trip {σ : Type} (env : H5_env σ) (st : H5_state σ)
    (type_id space_id eq_id : hid_t) (buf out : List Nat) (r1 r2 r3 r4 r5 : H5_result σ)
    (f g d : Nat) (vp : H5VL_t)
    (h1 : r1 = H5Fcreate_ff env st (some "x.dat") env.H5F_ACC_TRUNC H5P_DEFAULT H5P_DEFAULT
      eq_id)
    (h2 : r2 = H5Gcreate_ff env r1.st r1.ret_value (some "/g") H5P_DEFAULT H5P_DEFAULT
      H5P_DEFAULT 0 eq_id)
    (h3 : r3 = H5Dcreate_ff env r2.st r2.ret_value (some "d") type_id space_id H5P_DEFAULT
      H5P_DEFAULT H5P_DEFAULT 0 eq_id)
    (h4 : r4 = H5Dwrite_ff env r3.st r3.ret_value type_id space_id space_id H5P_DEFAULT buf 0
      eq_id)
    (h5 : r5 = H5Dread_ff env r4.st r3.ret_value type_id space_id space_id H5P_DEFAULT out 0
      eq_id)
    (hflag1 : env.H5F_ACC_TRUNC &&&
      H5_bitnot32 (env.H5F_ACC_EXCL ||| env.H5F_ACC_TRUNC ||| env.H5F_ACC_DEBUG) = 0)
    (hflag2 : env.H5F_ACC_TRUNC &&& env.H5F_ACC_EXCL = 0)
    (hspace : 0 ≤ space_id)
    (hroom : st.ids.entries.length + 3 ≤ st.ids.capacity)
    (hg : H5P_get st.ids env.H5P_GROUP_CREATE_DEFAULT H5P_key.H5VL_GRP_LCPL_ID ≠ none)
    (hd1 : H5P_get st.ids env.H5P_DATASET_CREATE_DEFAULT H5P_key.H5VL_DSET_TYPE_ID ≠ none)
    (hd2 : H5P_get st.ids env.H5P_DATASET_CREATE_DEFAULT H5P_key.H5VL_DSET_SPACE_ID ≠ none)
    (hd3 : H5P_get st.ids env.H5P_DATASET_CREATE_DEFAULT H5P_key.H5VL_DSET_LCPL_ID ≠ none)
    (hfc : (env.vol.H5VL_file_create st.vol st.ids "x.dat" env.H5F_ACC_TRUNC
      env.H5P_FILE_CREATE_DEFAULT env.H5P_FILE_ACCESS_DEFAULT env.H5AC_dxpl_id eq_id).1 =
      some (f, vp))
    (hgc : (env.vol.H5VL_group_create r1.st.vol
      (H5P_set r1.st.ids env.H5P_GROUP_CREATE_DEFAULT H5P_key.H5VL_GRP_LCPL_ID
        env.H5P_LINK_CREATE_DEFAULT).2
      (H5_object.token f)
      { type := H5VL_loc_type_t.H5VL_OBJECT_BY_SELF, obj_type := H5I_type_t.H5I_FILE }
      vp "/g" env.H5P_GROUP_CREATE_DEFAULT env.H5P_GROUP_ACCESS_DEFAULT env.H5AC_dxpl_id
      eq_id).1 = some g)
    (hdc : (env.vol.H5VL_dataset_create r2.st.vol
      (H5P_set (H5P_set (H5P_set r2.st.ids env.H5P_DATASET_CREATE_DEFAULT
        H5P_key.H5VL_DSET_TYPE_ID type_id).2 env.H5P_DATASET_CREATE_DEFAULT
        H5P_key.H5VL_DSET_SPACE_ID space_id).2 env.H5P_DATASET_CREATE_DEFAULT
        H5P_key.H5VL_DSET_LCPL_ID env.H5P_LINK_CREATE_DEFAULT).2
      (H5_object.token g)
      { type := H5VL_loc_type_t.H5VL_OBJECT_BY_SELF, obj_type := H5I_type_t.H5I_GROUP }
      vp "d" env.H5P_DATASET_CREATE_DEFAULT env.H5P_DATASET_ACCESS_DEFAULT env.H5AC_dxpl_id
      eq_id).1 = some d)
    (hw : 0 ≤ (env.vol.H5VL_dataset_write r3.st.vol r3.st.ids (H5_object.token d) vp type_id
      space_id space_id env.H5P_DATASET_XFER_DEFAULT buf eq_id).1)
    (hrd : ∀ s ids t p mt ms fs dx b o,
      0 ≤ (env.vol.H5VL_dataset_write s ids (H5_object.token t) p mt ms fs dx b eq_id).1 →
      0 ≤ (env.vol.H5VL_dataset_read
        (env.vol.H5VL_dataset_write s ids (H5_object.token t) p mt ms fs dx b eq_id).2
        ids (H5_object.token t) p mt ms fs dx o eq_id).1.1 ∧
      (env.vol.H5VL_dataset_read
        (env.vol.H5VL_dataset_write s ids (H5_object.token t) p mt ms fs dx b eq_id).2
        ids (H5_object.token t) p mt ms fs dx o eq_id).1.2 = b) :
    0 ≤ r1.ret_value ∧ 0 ≤ r2.ret_value ∧ 0 ≤ r3.ret_value ∧ 0 ≤ r4.ret_value ∧
    0 ≤ r5.ret_value ∧ r5.buf = buf ∧
    r1.calls =
      [{ call := H5VL_call.file_create "x.dat" env.H5F_ACC_TRUNC env.H5P_FILE_CREATE_DEFAULT
           env.H5P_FILE_ACCESS_DEFAULT env.H5AC_dxpl_id eq_id,
         ids := st.ids, ret := H5VL_ret.file (some (f, vp)) }] ∧
    H5I_object r1.st.ids r1.ret_value = some (H5_object.token f) ∧
    r2.calls =
      [{ call := H5VL_call.group_create (H5_object.token f)
           { type := H5VL_loc_type_t.H5VL_OBJECT_BY_SELF, obj_type := H5I_type_t.H5I_FILE }
           vp "/g" env.H5P_GROUP_CREATE_DEFAULT env.H5P_GROUP_ACCESS_DEFAULT env.H5AC_dxpl_id
           eq_id,
         ids := (H5P_set r1.st.ids env.H5P_GROUP_CREATE_DEFAULT H5P_key.H5VL_GRP_LCPL_ID
           env.H5P_LINK_CREATE_DEFAULT).2,
         ret := H5VL_ret.ptr (some g) }] ∧
    H5I_object r2.st.ids r2.ret_value = some (H5_object.token g) ∧
    r3.calls =
      [{ call := H5VL_call.dataset_create (H5_object.token g)
           { type := H5VL_loc_type_t.H5VL_OBJECT_BY_SELF, obj_type := H5I_type_t.H5I_GROUP }
           vp "d" env.H5P_DATASET_CREATE_DEFAULT env.H5P_DATASET_ACCESS_DEFAULT
           env.H5AC_dxpl_id eq_id,
         ids := (H5P_set (H5P_set (H5P_set r2.st.ids env.H5P_DATASET_CREATE_DEFAULT
           H5P_key.H5VL_DSET_TYPE_ID type_id).2 env.H5P_DATASET_CREATE_DEFAULT
           H5P_key.H5VL_DSET_SPACE_ID space_id).2 env.H5P_DATASET_CREATE_DEFAULT
           H5P_key.H5VL_DSET_LCPL_ID env.H5P_LINK_CREATE_DEFAULT).2,
         ret := H5VL_ret.ptr (some d) }] ∧
    H5I_object r3.st.ids r3.ret_value = some (H5_object.token d) ∧
    H5I_get_aux r3.st.ids r3.ret_value = some vp ∧
    H5I_get_type r3.st.ids r3.ret_value = H5I_type_t.H5I_DATASET ∧
    r4.calls =
      [{ call := H5VL_call.dataset_write (H5_object.token d) vp type_id space_id space_id
           env.H5P_DATASET_XFER_DEFAULT buf eq_id,
         ids := r3.st.ids, ret := H5VL_ret.status r4.ret_value }] ∧
    r4.st.ids = r3.st.ids ∧
    r5.calls =
      [{ call := H5VL_call.dataset_read (H5_object.token d) vp type_id space_id space_id
           env.H5P_DATASET_XFER_DEFAULT out eq_id,
         ids := r3.st.ids, ret := H5VL_ret.data r5.ret_value buf }] := by
  -- the file
  have e1 := H5Fcreate_ff_run env st "x.dat" env.H5F_ACC_TRUNC eq_id f vp (by decide) hflag1
    (Or.inl hflag2) hfc (by omega)
  rw [← h1] at e1
  obtain ⟨hp1, ho1, ha1, ht1, hc1, hl1⟩ := H5I_register2_fresh st.ids H5I_type_t.H5I_FILE
    (H5_object.token f) vp (by decide) (by omega)
  have hs1 : r1.st.ids =
      (H5I_register2 st.ids H5I_type_t.H5I_FILE (H5_object.token f) (some vp) true).2 := by
    rw [e1]
  have hv1 : r1.ret_value =
      (H5I_register2 st.ids H5I_type_t.H5I_FILE (H5_object.token f) (some vp) true).1 := by
    rw [e1]
  rw [← hs1, ← hv1] at ho1 ha1 ht1
  rw [← hs1] at hc1 hl1
  rw [← hv1] at hp1
  have hget1 : ∀ pid k, H5P_get r1.st.ids pid k = H5P_get st.ids pid k := by
    intro pid k
    rw [hs1]
    exact H5I_register2_get _ _ _ _ _ pid k
  -- the group
  have e2 := H5Gcreate_ff_run env r1.st r1.ret_value "/g" eq_id f vp g (by decide) ho1 ha1
    (by rw [hget1]; exact hg) (by rw [ht1]; exact hgc) (by omega)
  rw [← h2, ht1] at e2
  obtain ⟨hp2, ho2, ha2, ht2, hc2, hl2⟩ := H5I_register2_fresh
    (H5P_set r1.st.ids env.H5P_GROUP_CREATE_DEFAULT H5P_key.H5VL_GRP_LCPL_ID
      env.H5P_LINK_CREATE_DEFAULT).2 H5I_type_t.H5I_GROUP
    (H5_object.token g) vp (by decide)
    (by rw [(H5P_set_room _ _ _ _).1, (H5P_set_room _ _ _ _).2]; omega)
  have hs2 : r2.st.ids =
      (H5I_register2 (H5P_set r1.st.ids env.H5P_GROUP_CREATE_DEFAULT H5P_key.H5VL_GRP_LCPL_ID
        env.H5P_LINK_CREATE_DEFAULT).2 H5I_type_t.H5I_GROUP (H5_object.token g) (some vp)
        true).2 := by
    rw [e2]
  have hv2 : r2.ret_value =
      (H5I_register2 (H5P_set r1.st.ids env.H5P_GROUP_CREATE_DEFAULT H5P_key.H5VL_GRP_LCPL_ID
        env.H5P_LINK_CREATE_DEFAULT).2 H5I_type_t.H5I_GROUP (H5_object.token g) (some vp)
        true).1 := by
    rw [e2]
  rw [← hs2, ← hv2] at ho2 ha2 ht2
  rw [← hs2, (H5P_set_room _ _ _ _).1] at hc2
  rw [← hs2, (H5P_set_room _ _ _ _).2] at hl2
  rw [← hv2] at hp2
  have hget2 : ∀ k, k ≠ H5P_key.H5VL_GRP_LCPL_ID →
      H5P_get r2.st.ids env.H5P_DATASET_CREATE_DEFAULT k =
        H5P_get st.ids env.H5P_DATASET_CREATE_DEFAULT k := by
    intro k hk
    rw [hs2, H5I_register2_get, H5P_set_get_frame _ _ _ _ _ _ (Or.inr hk), hget1]
  -- the dataset
  have e3 := H5Dcreate_ff_run env r2.st r2.ret_value "d" type_id space_id eq_id g vp d
    (by decide) ho2 ha2
    (by rw [hget2 _ (by decide)]; exact hd1)
    (by rw [hget2 _ (by decide)]; exact hd2)
    (by rw [hget2 _ (by decide)]; exact hd3)
    (by rw [ht2]; exact hdc) (by omega)
  rw [← h3, ht2] at e3
  obtain ⟨hp3, ho3, ha3, ht3, _, _⟩ := H5I_register2_fresh
    (H5P_set (H5P_set (H5P_set r2.st.ids env.H5P_DATASET_CREATE_DEFAULT
      H5P_key.H5VL_DSET_TYPE_ID type_id).2 env.H5P_DATASET_CREATE_DEFAULT
      H5P_key.H5VL_DSET_SPACE_ID space_id).2 env.H5P_DATASET_CREATE_DEFAULT
      H5P_key.H5VL_DSET_LCPL_ID env.H5P_LINK_CREATE_DEFAULT).2 H5I_type_t.H5I_DATASET
    (H5_object.token d) vp (by decide)
    (by
      rw [(H5P_set_room _ _ _ _).1, (H5P_set_room _ _ _ _).2, (H5P_set_room _ _ _ _).1,
        (H5P_set_room _ _ _ _).2, (H5P_set_room _ _ _ _).1, (H5P_set_room _ _ _ _).2]
      omega)
  have hs3 : r3.st.ids =
      (H5I_register2 (H5P_set (H5P_set (H5P_set r2.st.ids env.H5P_DATASET_CREATE_DEFAULT
        H5P_key.H5VL_DSET_TYPE_ID type_id).2 env.H5P_DATASET_CREATE_DEFAULT
        H5P_key.H5VL_DSET_SPACE_ID space_id).2 env.H5P_DATASET_CREATE_DEFAULT
        H5P_key.H5VL_DSET_LCPL_ID env.H5P_LINK_CREATE_DEFAULT).2 H5I_type_t.H5I_DATASET
        (H5_object.token d) (some vp) true).2 := by
    rw [e3]
  have hv3 : r3.ret_value =
      (H5I_register2 (H5P_set (H5P_set (H5P_set r2.st.ids env.H5P_DATASET_CREATE_DEFAULT
        H5P_key.H5VL_DSET_TYPE_ID type_id).2 env.H5P_DATASET_CREATE_DEFAULT
        H5P_key.H5VL_DSET_SPACE_ID space_id).2 env.H5P_DATASET_CREATE_DEFAULT
        H5P_key.H5VL_DSET_LCPL_ID env.H5P_LINK_CREATE_DEFAULT).2 H5I_type_t.H5I_DATASET
        (H5_object.token d) (some vp) true).1 := by
    rw [e3]
  rw [← hs3, ← hv3] at ho3 ha3 ht3
  rw [← hv3] at hp3
  -- the write
  have e4 := H5Dwrite_ff_ok env r3.st r3.ret_value type_id space_id space_id buf 0 eq_id
    (H5_object.token d) vp (ne_of_gt hp3) ha3 ho3 hw
  rw [← h4] at e4
  have hs4 : r4.st =
      { ids := r3.st.ids,
        vol := (env.vol.H5VL_dataset_write r3.st.vol r3.st.ids (H5_object.token d) vp type_id
          space_id space_id env.H5P_DATASET_XFER_DEFAULT buf eq_id).2 } := by
    rw [e4]
  -- the read
  obtain ⟨hr1, hr2⟩ := hrd r3.st.vol r3.st.ids d vp type_id space_id space_id
    env.H5P_DATASET_XFER_DEFAULT buf out hw
  have e5 := H5Dread_ff_ok env r4.st r3.ret_value type_id space_id space_id out 0 eq_id
    (H5_object.token d) vp hspace hspace (by rw [hs4]; exact ha3) (by rw [hs4]; exact ho3)
    (by rw [hs4]; exact hr1)
  rw [← h5, hs4] at e5
  refine ⟨le_of_lt hp1, le_of_lt hp2, le_of_lt hp3, ?_, ?_, ?_, ?_, ho1, ?_, ho2, ?_, ho3, ha3,
    ht3, ?_, ?_, ?_⟩
  · rw [e4]; exact hw
  · rw [e5]; exact hr1
  · rw [e5]; exact hr2
  · rw [e1]
  · rw [e2]
  · rw [e3]
  · rw [e4]
  · rw [hs4]
  · rw [e5]
    show _ = [{ call := _, ids := _, ret := H5VL_ret.data _ buf }]
    rw [hr2]

/-- Witness for C19: over the storing backend `sample_store_vol`, starting from
`sample_store_st`, the backend hands out the file 60 under plugin 7, the group
61 and the dataset 62; the five calls succeed, the dataset create is made on
the group 61, write and read both reach the dataset 62, and the read returns
the bytes `[1, 2, 3]` that were written. -/
theorem C19_round_trip_witness :
    let r1 := H5Fcreate_ff sample_store_env sample_store_st (some "x.dat")
      sample_store_env.H5F_ACC_TRUNC H5P_DEFAULT H5P_DEFAULT 0
    let r2 := H5Gcreate_ff sample_store_env r1.st r1.ret_value (some "/g") H5P_DEFAULT
      H5P_DEFAULT H5P_DEFAULT 0 0
    let r3 := H5Dcreate_ff sample_store_env r2.st r2.ret_value (some "d") 5 6 H5P_DEFAULT
      H5P_DEFAULT H5P_DEFAULT 0 0
    let r4 := H5Dwrite_ff sample_store_env r3.st r3.ret_value 5 6 6 H5P_DEFAULT [1, 2, 3] 0 0
    let r5 := H5Dread_ff sample_store_env r4.st r3.ret_value 5 6 6 H5P_DEFAULT [0, 0, 0] 0 0
    0 ≤ r1.ret_value ∧ 0 ≤ r2.ret_value ∧ 0 ≤ r3.ret_value ∧ 0 ≤ r4.ret_value ∧
    0 ≤ r5.ret_value ∧ r5.buf = [1, 2, 3] ∧
    r3.calls.map (fun ev => ev.call) =
      [H5VL_call.dataset_create (H5_object.token 61)
        { type := H5VL_loc_type_t.H5VL_OBJECT_BY_SELF, obj_type := H5I_type_t.H5I_GROUP }
        7 "d" 106 107 109 0] ∧
    H5I_object r3.st.ids r3.ret_value = some (H5_object.token 62) ∧
    r4.calls.map (fun ev => ev.call) =
      [H5VL_call.dataset_write (H5_object.token 62) 7 5 6 6 108 [1, 2, 3] 0] ∧
    r5.calls.map (fun ev => ev.call) =
      [H5VL_call.dataset_read (H5_object.token 62) 7 5 6 6 108 [0, 0, 0] 0] := by
  intro r1 r2 r3 r4 r5
  have h := C19_round_trip sample_store_env sample_store_st 5 6 0 [1, 2, 3] [0, 0, 0]
    r1 r2 r3 r4 r5 60 61 62 7 rfl rfl rfl rfl rfl (by decide) (by decide) (by decide)
    (by decide) (by decide) (by decide) (by decide) (by decide)
    rfl rfl rfl (by simp [sample_store_env, sample_store_vol, SUCCEED])
    (fun _ _ _ _ _ _ _ _ _ _ _ => by
      simp [sample_store_env, sample_store_vol, SUCCEED, List.lookup])
  refine ⟨h.1, h.2.1, h.2.2.1, h.2.2.2.1, h.2.2.2.2.1, h.2.2.2.2.2.1, ?_,
    h.2.2.2.2.2.2.2.2.2.2.2.1, ?_, ?_⟩
  · rw [h.2.2.2.2.2.2.2.2.2.2.1]; rfl
  · rw [h.2.2.2.2.2.2.2.2.2.2.2.2.2.2.1]; rfl
  · rw [h.2.2.2.2.2.2.2.2.2.2.2.2.2.2.2.2]; rfl

/-! ## C20: the identifier of a placeholder when the operation completes -/

theorem H5I_promote_live (ids : H5I_registry) (id : hid_t) (e : H5I_id_info_t)
    (new_object : H5_object) (h : H5I_find_id ids id = some e) :
    H5I_ids (H5I_promote ids id new_object) = H5I_ids ids ∧
    H5I_find_id (H5I_promote ids id new_object) id = some { e with obj_ptr := new_object } ∧
    (∀ id2, id2 ≠ id →
      H5I_find_id (H5I_promote ids id new_object) id2 = H5I_find_id ids id2) := by
  refine ⟨?_, ?_, ?_⟩
  · simp only [H5I_promote, H5I_ids, H5I_subst_ids]
  · simp only [H5I_find_id] at h
    simp only [H5I_promote, H5I_find_id, H5I_subst_find, h, Option.map_some', if_true]
  · intro id2 hne
    simp only [H5I_promote, H5I_find_id, H5I_subst_find, if_neg hne]
    cases ids.entries.find? (fun e => decide (e.id = id2)) <;> rfl

theorem H5I_register2_keeps (ids : H5I_registry) (type : H5I_type_t) (object : H5_object)
    (aux : Option H5VL_t) (app : Bool) (id : hid_t) (e : H5I_id_info_t)
    (h : H5I_find_id ids id = some e) :
    H5I_find_id (H5I_register2 ids type object aux app).2 id = some e ∧
    (¬ (H5I_register2 ids type object aux app).1 < 0 →
      (H5I_register2 ids type object aux app).1 ≠ id) := by
  have hmem : e ∈ ids.entries := List.mem_of_find?_eq_some h
  have hid : e.id = id := by
    have h2 := List.find?_some h
    simpa using h2
  have hle : (id : Int) ≤ H5I_max_id ids.entries := by
    rw [← hid]; exact H5I_max_id_ge ids.entries e hmem
  unfold H5I_register2
  split
  · exact ⟨h, fun hn => absurd FAIL_neg hn⟩
  · split
    · exact ⟨h, fun hn => absurd FAIL_neg hn⟩
    · refine ⟨?_, fun _ heq => ?_⟩
      · simp only [H5I_find_id] at h ⊢
        simp [List.find?_append, h]
      · have h3 : (H5I_max_id ids.entries : Int) + 1 = id := heq
        linarith

theorem H5Fcreate_ff_promote {σ : Type} (env : H5_env σ) (st : H5_state σ)
    (filename : Option String) (flags : Nat) (fcpl_id fapl_id eq_id : hid_t) :
    0 ≤ (H5Fcreate_ff env st filename flags fcpl_id fapl_id eq_id).ret_value →
      ∀ new_object : H5_object,
        H5I_ids (H5I_promote (H5Fcreate_ff env st filename flags fcpl_id fapl_id eq_id).st.ids
          (H5Fcreate_ff env st filename flags fcpl_id fapl_id eq_id).ret_value new_object) =
          H5I_ids (H5Fcreate_ff env st filename flags fcpl_id fapl_id eq_id).st.ids ∧
        H5I_get_type (H5I_promote (H5Fcreate_ff env st filename flags fcpl_id fapl_id eq_id).st.ids
          (H5Fcreate_ff env st filename flags fcpl_id fapl_id eq_id).ret_value new_object)
          (H5Fcreate_ff env st filename flags fcpl_id fapl_id eq_id).ret_value = H5I_type_t.H5I_FILE ∧
        H5I_get_type (H5Fcreate_ff env st filename flags fcpl_id fapl_id eq_id).st.ids
          (H5Fcreate_ff env st filename flags fcpl_id fapl_id eq_id).ret_value = H5I_type_t.H5I_FILE ∧
        H5I_object (H5I_promote (H5Fcreate_ff env st filename flags fcpl_id fapl_id eq_id).st.ids
          (H5Fcreate_ff env st filename flags fcpl_id fapl_id eq_id).ret_value new_object)
          (H5Fcreate_ff env st filename flags fcpl_id fapl_id eq_id).ret_value = some new_object ∧
        (∀ id2, id2 ≠ (H5Fcreate_ff env st filename flags fcpl_id fapl_id eq_id).ret_value →
          H5I_find_id (H5I_promote (H5Fcreate_ff env st filename flags fcpl_id fapl_id eq_id).st.ids
          (H5Fcreate_ff env st filename flags fcpl_id fapl_id eq_id).ret_value new_object) id2 =
            H5I_find_id (H5Fcreate_ff env st filename flags fcpl_id fapl_id eq_id).st.ids id2) ∧
        (∀ type object aux app,
          H5I_object (H5I_register2 (H5I_promote (H5Fcreate_ff env st filename flags fcpl_id fapl_id eq_id).st.ids
          (H5Fcreate_ff env st filename flags fcpl_id fapl_id eq_id).ret_value new_object)
            type object aux app).2 (H5Fcreate_ff env st filename flags fcpl_id fapl_id eq_id).ret_value = some new_object ∧
          (¬ (H5I_register2 (H5I_promote (H5Fcreate_ff env st filename flags fcpl_id fapl_id eq_id).st.ids
          (H5Fcreate_ff env st filename flags fcpl_id fapl_id eq_id).ret_value new_object)
              type object aux app).1 < 0 →
            (H5I_register2 (H5I_promote (H5Fcreate_ff env st filename flags fcpl_id fapl_id eq_id).st.ids
          (H5Fcreate_ff env st filename flags fcpl_id fapl_id eq_id).ret_value new_object)
              type object aux app).1 ≠ (H5Fcreate_ff env st filename flags fcpl_id fapl_id eq_id).ret_value)) := by
  intro h new_object
  have hF : ¬ (0 : Int) ≤ FAIL := by decide
  rcases H5Fcreate_ff_outcome env st filename flags fcpl_id fapl_id eq_id with
    ⟨_, hr, _⟩ | ⟨ev, _, _, hr, _⟩ | ⟨ev, g, vp, _, _, _, hr, _⟩ |
      ⟨ev, g, vp, _, _, hreg, hr, hids, _⟩
  · rw [hr] at h; exact absurd h hF
  · rw [hr] at h; exact absurd h hF
  · rw [hr] at h; exact absurd h hF
  · rw [hr, hids]
    have hfind := (H5I_register2_ok hreg).1
    obtain ⟨p1, p2, p3⟩ := H5I_promote_live _ _ _ new_object hfind
    refine ⟨p1, ?_, ?_, ?_, p3, fun type object aux app => ?_⟩
    · simp only [H5I_get_type, p2]
    · simp only [H5I_get_type, hfind]
    · simp only [H5I_object, p2]; rfl
    · obtain ⟨q1, q2⟩ := H5I_register2_keeps _ type object aux app _ _ p2
      exact ⟨by simp only [H5I_object, q1]; rfl, q2⟩

theorem H5Fopen_ff_promote {σ : Type} (env : H5_env σ) (st : H5_state σ)
    (filename : Option String) (flags : Nat) (fapl_id eq_id : hid_t) :
    0 ≤ (H5Fopen_ff env st filename flags fapl_id eq_id).ret_value →
      ∀ new_object : H5_object,
        H5I_ids (H5I_promote (H5Fopen_ff env st filename flags fapl_id eq_id).st.ids
          (H5Fopen_ff env st filename flags fapl_id eq_id).ret_value new_object) =
          H5I_ids (H5Fopen_ff env st filename flags fapl_id eq_id).st.ids ∧
        H5I_get_type (H5I_promote (H5Fopen_ff env st filename flags fapl_id eq_id).st.ids
          (H5Fopen_ff env st filename flags fapl_id eq_id).ret_value new_object)
          (H5Fopen_ff env st filename flags fapl_id eq_id).ret_value = H5I_type_t.H5I_FILE ∧
        H5I_get_type (H5Fopen_ff env st filename flags fapl_id eq_id).st.ids
          (H5Fopen_ff env st filename flags fapl_id eq_id).ret_value = H5I_type_t.H5I_FILE ∧
        H5I_object (H5I_promote (H5Fopen_ff env st filename flags fapl_id eq_id).st.ids
          (H5Fopen_ff env st filename flags fapl_id eq_id).ret_value new_object)
          (H5Fopen_ff env st filename flags fapl_id eq_id).ret_value = some new_object ∧
        (∀ id2, id2 ≠ (H5Fopen_ff env st filename flags fapl_id eq_id).ret_value →
          H5I_find_id (H5I_promote (H5Fopen_ff env st filename flags fapl_id eq_id).st.ids
          (H5Fopen_ff env st filename flags fapl_id eq_id).ret_value new_object) id2 =
            H5I_find_id (H5Fopen_ff env st filename flags fapl_id eq_id).st.ids id2) ∧
        (∀ type object aux app,
          H5I_object (H5I_register2 (H5I_promote (H5Fopen_ff env st filename flags fapl_id eq_id).st.ids
          (H5Fopen_ff env st filename flags fapl_id eq_id).ret_value new_object)
            type object aux app).2 (H5Fopen_ff env st filename flags fapl_id eq_id).ret_value = some new_object ∧
          (¬ (H5I_register2 (H5I_promote (H5Fopen_ff env st filename flags fapl_id eq_id).st.ids
          (H5Fopen_ff env st filename flags fapl_id eq_id).ret_value new_object)
              type object aux app).1 < 0 →
            (H5I_register2 (H5I_promote (H5Fopen_ff env st filename flags fapl_id eq_id).st.ids
          (H5Fopen_ff env st filename flags fapl_id eq_id).ret_value new_object)
              type object aux app).1 ≠ (H5Fopen_ff env st filename flags fapl_id eq_id).ret_value)) := by
  intro h new_object
  have hF : ¬ (0 : Int) ≤ FAIL := by decide
  rcases H5Fopen_ff_outcome env st filename flags fapl_id eq_id with
    ⟨_, hr, _⟩ | ⟨ev, _, _, hr, _⟩ | ⟨ev, g, vp, _, _, _, hr, _⟩ |
      ⟨ev, g, vp, _, _, hreg, hr, hids, _⟩
  · rw [hr] at h; exact absurd h hF
  · rw [hr] at h; exact absurd h hF
  · rw [hr] at h; exact absurd h hF
  · rw [hr, hids]
    have hfind := (H5I_register2_ok hreg).1
    obtain ⟨p1, p2, p3⟩ := H5I_promote_live _ _ _ new_object hfind
    refine ⟨p1, ?_, ?_, ?_, p3, fun type object aux app => ?_⟩
    · simp only [H5I_get_type, p2]
    · simp only [H5I_get_type, hfind]
    · simp only [H5I_object, p2]; rfl
    · obtain ⟨q1, q2⟩ := H5I_register2_keeps _ type object aux app _ _ p2
      exact ⟨by simp only [H5I_object, q1]; rfl, q2⟩

theorem H5Gcreate_ff_promote {σ : Type} (env : H5_env σ) (st : H5_state σ)
    (loc_id : hid_t) (name : Option String) (lcpl_id gcpl_id gapl_id : hid_t)
    (trans : Nat) (eq_id : hid_t) :
    0 ≤ (H5Gcreate_ff env st loc_id name lcpl_id gcpl_id gapl_id trans eq_id).ret_value →
      ∀ new_object : H5_object,
        H5I_ids (H5I_promote (H5Gcreate_ff env st loc_id name lcpl_id gcpl_id gapl_id trans eq_id).st.ids
          (H5Gcreate_ff env st loc_id name lcpl_id gcpl_id gapl_id trans eq_id).ret_value new_object) =
          H5I_ids (H5Gcreate_ff env st loc_id name lcpl_id gcpl_id gapl_id trans eq_id).st.ids ∧
        H5I_get_type (H5I_promote (H5Gcreate_ff env st loc_id name lcpl_id gcpl_id gapl_id trans eq_id).st.ids
          (H5Gcreate_ff env st loc_id name lcpl_id gcpl_id gapl_id trans eq_id).ret_value new_object)
          (H5Gcreate_ff env st loc_id name lcpl_id gcpl_id gapl_id trans eq_id).ret_value = H5I_type_t.H5I_GROUP ∧
        H5I_get_type (H5Gcreate_ff env st loc_id name lcpl_id gcpl_id gapl_id trans eq_id).st.ids
          (H5Gcreate_ff env st loc_id name lcpl_id gcpl_id gapl_id trans eq_id).ret_value = H5I_type_t.H5I_GROUP ∧
        H5I_object (H5I_promote (H5Gcreate_ff env st loc_id name lcpl_id gcpl_id gapl_id trans eq_id).st.ids
          (H5Gcreate_ff env st loc_id name lcpl_id gcpl_id gapl_id trans eq_id).ret_value new_object)
          (H5Gcreate_ff env st loc_id name lcpl_id gcpl_id gapl_id trans eq_id).ret_value = some new_object ∧
        (∀ id2, id2 ≠ (H5Gcreate_ff env st loc_id name lcpl_id gcpl_id gapl_id trans eq_id).ret_value →
          H5I_find_id (H5I_promote (H5Gcreate_ff env st loc_id name lcpl_id gcpl_id gapl_id trans eq_id).st.ids
          (H5Gcreate_ff env st loc_id name lcpl_id gcpl_id gapl_id trans eq_id).ret_value new_object) id2 =
            H5I_find_id (H5Gcreate_ff env st loc_id name lcpl_id gcpl_id gapl_id trans eq_id).st.ids id2) ∧
        (∀ type object aux app,
          H5I_object (H5I_register2 (H5I_promote (H5Gcreate_ff env st loc_id name lcpl_id gcpl_id gapl_id trans eq_id).st.ids
          (H5Gcreate_ff env st loc_id name lcpl_id gcpl_id gapl_id trans eq_id).ret_value new_object)
            type object aux app).2 (H5Gcreate_ff env st loc_id name lcpl_id gcpl_id gapl_id trans eq_id).ret_value = some new_object ∧
          (¬ (H5I_register2 (H5I_promote (H5Gcreate_ff env st loc_id name lcpl_id gcpl_id gapl_id trans eq_id).st.ids
          (H5Gcreate_ff env st loc_id name lcpl_id gcpl_id gapl_id trans eq_id).ret_value new_object)
              type object aux app).1 < 0 →
            (H5I_register2 (H5I_promote (H5Gcreate_ff env st loc_id name lcpl_id gcpl_id gapl_id trans eq_id).st.ids
          (H5Gcreate_ff env st loc_id name lcpl_id gcpl_id gapl_id trans eq_id).ret_value new_object)
              type object aux app).1 ≠ (H5Gcreate_ff env st loc_id name lcpl_id gcpl_id gapl_id trans eq_id).ret_value)) := by
  intro h new_object
  have hF : ¬ (0 : Int) ≤ FAIL := by decide
  rcases H5Gcreate_ff_outcome env st loc_id name lcpl_id gcpl_id gapl_id trans eq_id with
    ⟨_, hr, _⟩ | ⟨ev, _, _, hr, _⟩ | ⟨ev, g, vp, _, _, _, _, hr, _⟩ |
      ⟨ev, g, vp, _, _, _, hreg, hr, hids, _⟩
  · rw [hr] at h; exact absurd h hF
  · rw [hr] at h; exact absurd h hF
  · rw [hr] at h; exact absurd h hF
  · rw [hr, hids]
    have hfind := (H5I_register2_ok hreg).1
    obtain ⟨p1, p2, p3⟩ := H5I_promote_live _ _ _ new_object hfind
    refine ⟨p1, ?_, ?_, ?_, p3, fun type object aux app => ?_⟩
    · simp only [H5I_get_type, p2]
    · simp only [H5I_get_type, hfind]
    · simp only [H5I_object, p2]; rfl
    · obtain ⟨q1, q2⟩ := H5I_register2_keeps _ type object aux app _ _ p2
      exact ⟨by simp only [H5I_object, q1]; rfl, q2⟩

theorem H5Gopen_ff_promote {σ : Type} (env : H5_env σ) (st : H5_state σ)
    (loc_id : hid_t) (name : Option String) (gapl_id : hid_t) (trans : Nat)
    (eq_id : hid_t) :
    0 ≤ (H5Gopen_ff env st loc_id name gapl_id trans eq_id).ret_value →
      ∀ new_object : H5_object,
        H5I_ids (H5I_promote (H5Gopen_ff env st loc_id name gapl_id trans eq_id).st.ids
          (H5Gopen_ff env st loc_id name gapl_id trans eq_id).ret_value new_object) =
          H5I_ids (H5Gopen_ff env st loc_id name gapl_id trans eq_id).st.ids ∧
        H5I_get_type (H5I_promote (H5Gopen_ff env st loc_id name gapl_id trans eq_id).st.ids
          (H5Gopen_ff env st loc_id name gapl_id trans eq_id).ret_value new_object)
          (H5Gopen_ff env st loc_id name gapl_id trans eq_id).ret_value = H5I_type_t.H5I_GROUP ∧
        H5I_get_type (H5Gopen_ff env st loc_id name gapl_id trans eq_id).st.ids
          (H5Gopen_ff env st loc_id name gapl_id trans eq_id).ret_value = H5I_type_t.H5I_GROUP ∧
        H5I_object (H5I_promote (H5Gopen_ff env st loc_id name gapl_id trans eq_id).st.ids
          (H5Gopen_ff env st loc_id name gapl_id trans eq_id).ret_value new_object)
          (H5Gopen_ff env st loc_id name gapl_id trans eq_id).ret_value = some new_object ∧
        (∀ id2, id2 ≠ (H5Gopen_ff env st loc_id name gapl_id trans eq_id).ret_value →
          H5I_find_id (H5I_promote (H5Gopen_ff env st loc_id name gapl_id trans eq_id).st.ids
          (H5Gopen_ff env st loc_id name gapl_id trans eq_id).ret_value new_object) id2 =
            H5I_find_id (H5Gopen_ff env st loc_id name gapl_id trans eq_id).st.ids id2) ∧
        (∀ type object aux app,
          H5I_object (H5I_register2 (H5I_promote (H5Gopen_ff env st loc_id name gapl_id trans eq_id).st.ids
          (H5Gopen_ff env st loc_id name gapl_id trans eq_id).ret_value new_object)
            type object aux app).2 (H5Gopen_ff env st loc_id name gapl_id trans eq_id).ret_value = some new_object ∧
          (¬ (H5I_register2 (H5I_promote (H5Gopen_ff env st loc_id name gapl_id trans eq_id).st.ids
          (H5Gopen_ff env st loc_id name gapl_id trans eq_id).ret_value new_object)
              type object aux app).1 < 0 →
            (H5I_register2 (H5I_promote (H5Gopen_ff env st loc_id name gapl_id trans eq_id).st.ids
          (H5Gopen_ff env st loc_id name gapl_id trans eq_id).ret_value new_object)
              type object aux app).1 ≠ (H5Gopen_ff env st loc_id name gapl_id trans eq_id).ret_value)) := by
  intro h new_object
  have hF : ¬ (0 : Int) ≤ FAIL := by decide
  rcases H5Gopen_ff_outcome env st loc_id name gapl_id trans eq_id with
    ⟨_, hr, _⟩ | ⟨ev, _, _, hr, _⟩ | ⟨ev, g, vp, _, _, _, _, hr, _⟩ |
      ⟨ev, g, vp, _, _, _, hreg, hr, hids, _⟩
  · rw [hr] at h; exact absurd h hF
  · rw [hr] at h; exact absurd h hF
  · rw [hr] at h; exact absurd h hF
  · rw [hr, hids]
    have hfind := (H5I_register2_ok hreg).1
    obtain ⟨p1, p2, p3⟩ := H5I_promote_live _ _ _ new_object hfind
    refine ⟨p1, ?_, ?_, ?_, p3, fun type object aux app => ?_⟩
    · simp only [H5I_get_type, p2]
    · simp only [H5I_get_type, hfind]
    · simp only [H5I_object, p2]; rfl
    · obtain ⟨q1, q2⟩ := H5I_register2_keeps _ type object aux app _ _ p2
      exact ⟨by simp only [H5I_object, q1]; rfl, q2⟩

theorem H5Dcreate_ff_promote {σ : Type} (env : H5_env σ) (st : H5_state σ)
    (loc_id : hid_t) (name : Option String)
    (type_id space_id lcpl_id dcpl_id dapl_id : hid_t) (trans : Nat) (eq_id : hid_t) :
    0 ≤ (H5Dcreate_ff env st loc_id name type_id space_id lcpl_id dcpl_id dapl_id trans eq_id).ret_value →
      ∀ new_object : H5_object,
        H5I_ids (H5I_promote (H5Dcreate_ff env st loc_id name type_id space_id lcpl_id dcpl_id dapl_id trans eq_id).st.ids
          (H5Dcreate_ff env st loc_id name type_id space_id lcpl_id dcpl_id dapl_id trans eq_id).ret_value new_object) =
          H5I_ids (H5Dcreate_ff env st loc_id name type_id space_id lcpl_id dcpl_id dapl_id trans eq_id).st.ids ∧
        H5I_get_type (H5I_promote (H5Dcreate_ff env st loc_id name type_id space_id lcpl_id dcpl_id dapl_id trans eq_id).st.ids
          (H5Dcreate_ff env st loc_id name type_id space_id lcpl_id dcpl_id dapl_id trans eq_id).ret_value new_object)
          (H5Dcreate_ff env st loc_id name type_id space_id lcpl_id dcpl_id dapl_id trans eq_id).ret_value = H5I_type_t.H5I_DATASET ∧
        H5I_get_type (H5Dcreate_ff env st loc_id name type_id space_id lcpl_id dcpl_id dapl_id trans eq_id).st.ids
          (H5Dcreate_ff env st loc_id name type_id space_id lcpl_id dcpl_id dapl_id trans eq_id).ret_value = H5I_type_t.H5I_DATASET ∧
        H5I_object (H5I_promote (H5Dcreate_ff env st loc_id name type_id space_id lcpl_id dcpl_id dapl_id trans eq_id).st.ids
          (H5Dcreate_ff env st loc_id name type_id space_id lcpl_id dcpl_id dapl_id trans eq_id).ret_value new_object)
          (H5Dcreate_ff env st loc_id name type_id space_id lcpl_id dcpl_id dapl_id trans eq_id).ret_value = some new_object ∧
        (∀ id2, id2 ≠ (H5Dcreate_ff env st loc_id name type_id space_id lcpl_id dcpl_id dapl_id trans eq_id).ret_value →
          H5I_find_id (H5I_promote (H5Dcreate_ff env st loc_id name type_id space_id lcpl_id dcpl_id dapl_id trans eq_id).st.ids
          (H5Dcreate_ff env st loc_id name type_id space_id lcpl_id dcpl_id dapl_id trans eq_id).ret_value new_object) id2 =
            H5I_find_id (H5Dcreate_ff env st loc_id name type_id space_id lcpl_id dcpl_id dapl_id trans eq_id).st.ids id2) ∧
        (∀ type object aux app,
          H5I_object (H5I_register2 (H5I_promote (H5Dcreate_ff env st loc_id name type_id space_id lcpl_id dcpl_id dapl_id trans eq_id).st.ids
          (H5Dcreate_ff env st loc_id name type_id space_id lcpl_id dcpl_id dapl_id trans eq_id).ret_value new_object)
            type object aux app).2 (H5Dcreate_ff env st loc_id name type_id space_id lcpl_id dcpl_id dapl_id trans eq_id).ret_value = some new_object ∧
          (¬ (H5I_register2 (H5I_promote (H5Dcreate_ff env st loc_id name type_id space_id lcpl_id dcpl_id dapl_id trans eq_id).st.ids
          (H5Dcreate_ff env st loc_id name type_id space_id lcpl_id dcpl_id dapl_id trans eq_id).ret_value new_object)
              type object aux app).1 < 0 →
            (H5I_register2 (H5I_promote (H5Dcreate_ff env st loc_id name type_id space_id lcpl_id dcpl_id dapl_id trans eq_id).st.ids
          (H5Dcreate_ff env st loc_id name type_id space_id lcpl_id dcpl_id dapl_id trans eq_id).ret_value new_object)
              type object aux app).1 ≠ (H5Dcreate_ff env st loc_id name type_id space_id lcpl_id dcpl_id dapl_id trans eq_id).ret_value)) := by
  intro h new_object
  have hF : ¬ (0 : Int) ≤ FAIL := by decide
  rcases H5Dcreate_ff_outcome env st loc_id name type_id space_id lcpl_id dcpl_id dapl_id trans eq_id with
    ⟨_, hr, _⟩ | ⟨ev, _, _, hr, _⟩ | ⟨ev, g, vp, _, _, _, _, hr, _⟩ |
      ⟨ev, g, vp, _, _, _, hreg, hr, hids, _⟩
  · rw [hr] at h; exact absurd h hF
  · rw [hr] at h; exact absurd h hF
  · rw [hr] at h; exact absurd h hF
  · rw [hr, hids]
    have hfind := (H5I_register2_ok hreg).1
    obtain ⟨p1, p2, p3⟩ := H5I_promote_live _ _ _ new_object hfind
    refine ⟨p1, ?_, ?_, ?_, p3, fun type object aux app => ?_⟩
    · simp only [H5I_get_type, p2]
    · simp only [H5I_get_type, hfind]
    · simp only [H5I_object, p2]; rfl
    · obtain ⟨q1, q2⟩ := H5I_register2_keeps _ type object aux app _ _ p2
      exact ⟨by simp only [H5I_object, q1]; rfl, q2⟩

theorem H5Dopen_ff_promote {σ : Type} (env : H5_env σ) (st : H5_state σ)
    (loc_id : hid_t) (name : Option String) (dapl_id : hid_t) (trans : Nat)
    (eq_id : hid_t) :
    0 ≤ (H5Dopen_ff env st loc_id name dapl_id trans eq_id).ret_value →
      ∀ new_object : H5_object,
        H5I_ids (H5I_promote (H5Dopen_ff env st loc_id name dapl_id trans eq_id).st.ids
          (H5Dopen_ff env st loc_id name dapl_id trans eq_id).ret_value new_object) =
          H5I_ids (H5Dopen_ff env st loc_id name dapl_id trans eq_id).st.ids ∧
        H5I_get_type (H5I_promote (H5Dopen_ff env st loc_id name dapl_id trans eq_id).st.ids
          (H5Dopen_ff env st loc_id name dapl_id trans eq_id).ret_value new_object)
          (H5Dopen_ff env st loc_id name dapl_id trans eq_id).ret_value = H5I_type_t.H5I_DATASET ∧
        H5I_get_type (H5Dopen_ff env st loc_id name dapl_id trans eq_id).st.ids
          (H5Dopen_ff env st loc_id name dapl_id trans eq_id).ret_value = H5I_type_t.H5I_DATASET ∧
        H5I_object (H5I_promote (H5Dopen_ff env st loc_id name dapl_id trans eq_id).st.ids
          (H5Dopen_ff env st loc_id name dapl_id trans eq_id).ret_value new_object)
          (H5Dopen_ff env st loc_id name dapl_id trans eq_id).ret_value = some new_object ∧
        (∀ id2, id2 ≠ (H5Dopen_ff env st loc_id name dapl_id trans eq_id).ret_value →
          H5I_find_id (H5I_promote (H5Dopen_ff env st loc_id name dapl_id trans eq_id).st.ids
          (H5Dopen_ff env st loc_id name dapl_id trans eq_id).ret_value new_object) id2 =
            H5I_find_id (H5Dopen_ff env st loc_id name dapl_id trans eq_id).st.ids id2) ∧
        (∀ type object aux app,
          H5I_object (H5I_register2 (H5I_promote (H5Dopen_ff env st loc_id name dapl_id trans eq_id).st.ids
          (H5Dopen_ff env st loc_id name dapl_id trans eq_id).ret_value new_object)
            type object aux app).2 (H5Dopen_ff env st loc_id name dapl_id trans eq_id).ret_value = some new_object ∧
          (¬ (H5I_register2 (H5I_promote (H5Dopen_ff env st loc_id name dapl_id trans eq_id).st.ids
          (H5Dopen_ff env st loc_id name dapl_id trans eq_id).ret_value new_object)
              type object aux app).1 < 0 →
            (H5I_register2 (H5I_promote (H5Dopen_ff env st loc_id name dapl_id trans eq_id).st.ids
          (H5Dopen_ff env st loc_id name dapl_id trans eq_id).ret_value new_object)
              type object aux app).1 ≠ (H5Dopen_ff env st loc_id name dapl_id trans eq_id).ret_value)) := by
  intro h new_object
  have hF : ¬ (0 : Int) ≤ FAIL := by decide
  rcases H5Dopen_ff_outcome env st loc_id name dapl_id trans eq_id with
    ⟨_, hr, _⟩ | ⟨ev, _, _, hr, _⟩ | ⟨ev, g, vp, _, _, _, _, hr, _⟩ |
      ⟨ev, g, vp, _, _, _, hreg, hr, hids, _⟩
  · rw [hr] at h; exact absurd h hF
  · rw [hr] at h; exact absurd h hF
  · rw [hr] at h; exact absurd h hF
  · rw [hr, hids]
    have hfind := (H5I_register2_ok hreg).1
    obtain ⟨p1, p2, p3⟩ := H5I_promote_live _ _ _ new_object hfind
    refine ⟨p1, ?_, ?_, ?_, p3, fun type object aux app => ?_⟩
    · simp only [H5I_get_type, p2]
    · simp only [H5I_get_type, hfind]
    · simp only [H5I_object, p2]; rfl
    · obtain ⟨q1, q2⟩ := H5I_register2_keeps _ type object aux app _ _ p2
      exact ⟨by simp only [H5I_object, q1]; rfl, q2⟩

/-- C20: let one of `H5Fcreate_ff`, `H5Fopen_ff`, `H5Gcreate_ff`, `H5Gopen_ff`,
`H5Dcreate_ff`, `H5Dopen_ff` return an identifier (with any event queue), and
let the operation complete by `H5I_promote` of that identifier to the finished
object.  The list of live identifier values is the same after the promotion,
the identifier has the type tag of the operation before and after, it resolves
to the finished object, every other identifier is bound as before, and a
registration made afterwards leaves the identifier bound to the finished
object and, when it succeeds, returns a different value. -/
theorem C20_identifier_stable_on_completion {σ : Type} (env : H5_env σ) (st : H5_state σ) :
    (∀ (filename : Option String) (flags : Nat) (fcpl_id fapl_id eq_id : hid_t),
      0 ≤ (H5Fcreate_ff env st filename flags fcpl_id fapl_id eq_id).ret_value →
      ∀ new_object : H5_object,
        H5I_ids (H5I_promote (H5Fcreate_ff env st filename flags fcpl_id fapl_id eq_id).st.ids
          (H5Fcreate_ff env st filename flags fcpl_id fapl_id eq_id).ret_value new_object) =
          H5I_ids (H5Fcreate_ff env st filename flags fcpl_id fapl_id eq_id).st.ids ∧
        H5I_get_type (H5I_promote (H5Fcreate_ff env st filename flags fcpl_id fapl_id eq_id).st.ids
          (H5Fcreate_ff env st filename flags fcpl_id fapl_id eq_id).ret_value new_object)
          (H5Fcreate_ff env st filename flags fcpl_id fapl_id eq_id).ret_value = H5I_type_t.H5I_FILE ∧
        H5I_get_type (H5Fcreate_ff env st filename flags fcpl_id fapl_id eq_id).st.ids
          (H5Fcreate_ff env st filename flags fcpl_id fapl_id eq_id).ret_value = H5I_type_t.H5I_FILE ∧
        H5I_object (H5I_promote (H5Fcreate_ff env st filename flags fcpl_id fapl_id eq_id).st.ids
          (H5Fcreate_ff env st filename flags fcpl_id fapl_id eq_id).ret_value new_object)
          (H5Fcreate_ff env st filename flags fcpl_id fapl_id eq_id).ret_value = some new_object ∧
        (∀ id2, id2 ≠ (H5Fcreate_ff env st filename flags fcpl_id fapl_id eq_id).ret_value →
          H5I_find_id (H5I_promote (H5Fcreate_ff env st filename flags fcpl_id fapl_id eq_id).st.ids
          (H5Fcreate_ff env st filename flags fcpl_id fapl_id eq_id).ret_value new_object) id2 =
            H5I_find_id (H5Fcreate_ff env st filename flags fcpl_id fapl_id eq_id).st.ids id2) ∧
        (∀ type object aux app,
          H5I_object (H5I_register2 (H5I_promote (H5Fcreate_ff env st filename flags fcpl_id fapl_id eq_id).st.ids
          (H5Fcreate_ff env st filename flags fcpl_id fapl_id eq_id).ret_value new_object)
            type object aux app).2 (H5Fcreate_ff env st filename flags fcpl_id fapl_id eq_id).ret_value = some new_object ∧
          (¬ (H5I_register2 (H5I_promote (H5Fcreate_ff env st filename flags fcpl_id fapl_id eq_id).st.ids
          (H5Fcreate_ff env st filename flags fcpl_id fapl_id eq_id).ret_value new_object)
              type object aux app).1 < 0 →
            (H5I_register2 (H5I_promote (H5Fcreate_ff env st filename flags fcpl_id fapl_id eq_id).st.ids
          (H5Fcreate_ff env st filename flags fcpl_id fapl_id eq_id).ret_value new_object)
              type object aux app).1 ≠ (H5Fcreate_ff env st filename flags fcpl_id fapl_id eq_id).ret_value))) ∧
    (∀ (filename : Option String) (flags : Nat) (fapl_id eq_id : hid_t),
      0 ≤ (H5Fopen_ff env st filename flags fapl_id eq_id).ret_value →
      ∀ new_object : H5_object,
        H5I_ids (H5I_promote (H5Fopen_ff env st filename flags fapl_id eq_id).st.ids
          (H5Fopen_ff env st filename flags fapl_id eq_id).ret_value new_object) =
          H5I_ids (H5Fopen_ff env st filename flags fapl_id eq_id).st.ids ∧
        H5I_get_type (H5I_promote (H5Fopen_ff env st filename flags fapl_id eq_id).st.ids
          (H5Fopen_ff env st filename flags fapl_id eq_id).ret_value new_object)
          (H5Fopen_ff env st filename flags fapl_id eq_id).ret_value = H5I_type_t.H5I_FILE ∧
        H5I_get_type (H5Fopen_ff env st filename flags fapl_id eq_id).st.ids
          (H5Fopen_ff env st filename flags fapl_id eq_id).ret_value = H5I_type_t.H5I_FILE ∧
        H5I_object (H5I_promote (H5Fopen_ff env st filename flags fapl_id eq_id).st.ids
          (H5Fopen_ff env st filename flags fapl_id eq_id).ret_value new_object)
          (H5Fopen_ff env st filename flags fapl_id eq_id).ret_value = some new_object ∧
        (∀ id2, id2 ≠ (H5Fopen_ff env st filename flags fapl_id eq_id).ret_value →
          H5I_find_id (H5I_promote (H5Fopen_ff env st filename flags fapl_id eq_id).st.ids
          (H5Fopen_ff env st filename flags fapl_id eq_id).ret_value new_object) id2 =
            H5I_find_id (H5Fopen_ff env st filename flags fapl_id eq_id).st.ids id2) ∧
        (∀ type object aux app,
          H5I_object (H5I_register2 (H5I_promote (H5Fopen_ff env st filename flags fapl_id eq_id).st.ids
          (H5Fopen_ff env st filename flags fapl_id eq_id).ret_value new_object)
            type object aux app).2 (H5Fopen_ff env st filename flags fapl_id eq_id).ret_value = some new_object ∧
          (¬ (H5I_register2 (H5I_promote (H5Fopen_ff env st filename flags fapl_id eq_id).st.ids
          (H5Fopen_ff env st filename flags fapl_id eq_id).ret_value new_object)
              type object aux app).1 < 0 →
            (H5I_register2 (H5I_promote (H5Fopen_ff env st filename flags fapl_id eq_id).st.ids
          (H5Fopen_ff env st filename flags fapl_id eq_id).ret_value new_object)
              type object aux app).1 ≠ (H5Fopen_ff env st filename flags fapl_id eq_id).ret_value))) ∧
    (∀ (loc_id : hid_t) (name : Option String) (lcpl_id gcpl_id gapl_id : hid_t)
        (trans : Nat) (eq_id : hid_t),
      0 ≤ (H5Gcreate_ff env st loc_id name lcpl_id gcpl_id gapl_id trans eq_id).ret_value →
      ∀ new_object : H5_object,
        H5I_ids (H5I_promote (H5Gcreate_ff env st loc_id name lcpl_id gcpl_id gapl_id trans eq_id).st.ids
          (H5Gcreate_ff env st loc_id name lcpl_id gcpl_id gapl_id trans eq_id).ret_value new_object) =
          H5I_ids (H5Gcreate_ff env st loc_id name lcpl_id gcpl_id gapl_id trans eq_id).st.ids ∧
        H5I_get_type (H5I_promote (H5Gcreate_ff env st loc_id name lcpl_id gcpl_id gapl_id trans eq_id).st.ids
          (H5Gcreate_ff env st loc_id name lcpl_id gcpl_id gapl_id trans eq_id).ret_value new_object)
          (H5Gcreate_ff env st loc_id name lcpl_id gcpl_id gapl_id trans eq_id).ret_value = H5I_type_t.H5I_GROUP ∧
        H5I_get_type (H5Gcreate_ff env st loc_id name lcpl_id gcpl_id gapl_id trans eq_id).st.ids
          (H5Gcreate_ff env st loc_id name lcpl_id gcpl_id gapl_id trans eq_id).ret_value = H5I_type_t.H5I_GROUP ∧
        H5I_object (H5I_promote (H5Gcreate_ff env st loc_id name lcpl_id gcpl_id gapl_id trans eq_id).st.ids
          (H5Gcreate_ff env st loc_id name lcpl_id gcpl_id gapl_id trans eq_id).ret_value new_object)
          (H5Gcreate_ff env st loc_id name lcpl_id gcpl_id gapl_id trans eq_id).ret_value = some new_object ∧
        (∀ id2, id2 ≠ (H5Gcreate_ff env st loc_id name lcpl_id gcpl_id gapl_id trans eq_id).ret_value →
          H5I_find_id (H5I_promote (H5Gcreate_ff env st loc_id name lcpl_id gcpl_id gapl_id trans eq_id).st.ids
          (H5Gcreate_ff env st loc_id name lcpl_id gcpl_id gapl_id trans eq_id).ret_value new_object) id2 =
            H5I_find_id (H5Gcreate_ff env st loc_id name lcpl_id gcpl_id gapl_id trans eq_id).st.ids id2) ∧
        (∀ type object aux app,
          H5I_object (H5I_register2 (H5I_promote (H5Gcreate_ff env st loc_id name lcpl_id gcpl_id gapl_id trans eq_id).st.ids
          (H5Gcreate_ff env st loc_id name lcpl_id gcpl_id gapl_id trans eq_id).ret_value new_object)
            type object aux app).2 (H5Gcreate_ff env st loc_id name lcpl_id gcpl_id gapl_id trans eq_id).ret_value = some new_object ∧
          (¬ (H5I_register2 (H5I_promote (H5Gcreate_ff env st loc_id name lcpl_id gcpl_id gapl_id trans eq_id).st.ids
          (H5Gcreate_ff env st loc_id name lcpl_id gcpl_id gapl_id trans eq_id).ret_value new_object)
              type object aux app).1 < 0 →
            (H5I_register2 (H5I_promote (H5Gcreate_ff env st loc_id name lcpl_id gcpl_id gapl_id trans eq_id).st.ids
          (H5Gcreate_ff env st loc_id name lcpl_id gcpl_id gapl_id trans eq_id).ret_value new_object)
              type object aux app).1 ≠ (H5Gcreate_ff env st loc_id name lcpl_id gcpl_id gapl_id trans eq_id).ret_value))) ∧
    (∀ (loc_id : hid_t) (name : Option String) (gapl_id : hid_t) (trans : Nat)
        (eq_id : hid_t),
      0 ≤ (H5Gopen_ff env st loc_id name gapl_id trans eq_id).ret_value →
      ∀ new_object : H5_object,
        H5I_ids (H5I_promote (H5Gopen_ff env st loc_id name gapl_id trans eq_id).st.ids
          (H5Gopen_ff env st loc_id name gapl_id trans eq_id).ret_value new_object) =
          H5I_ids (H5Gopen_ff env st loc_id name gapl_id trans eq_id).st.ids ∧
        H5I_get_type (H5I_promote (H5Gopen_ff env st loc_id name gapl_id trans eq_id).st.ids
          (H5Gopen_ff env st loc_id name gapl_id trans eq_id).ret_value new_object)
          (H5Gopen_ff env st loc_id name gapl_id trans eq_id).ret_value = H5I_type_t.H5I_GROUP ∧
        H5I_get_type (H5Gopen_ff env st loc_id name gapl_id trans eq_id).st.ids
          (H5Gopen_ff env st loc_id name gapl_id trans eq_id).ret_value = H5I_type_t.H5I_GROUP ∧
        H5I_object (H5I_promote (H5Gopen_ff env st loc_id name gapl_id trans eq_id).st.ids
          (H5Gopen_ff env st loc_id name gapl_id trans eq_id).ret_value new_object)
          (H5Gopen_ff env st loc_id name gapl_id trans eq_id).ret_value = some new_object ∧
        (∀ id2, id2 ≠ (H5Gopen_ff env st loc_id name gapl_id trans eq_id).ret_value →
          H5I_find_id (H5I_promote (H5Gopen_ff env st loc_id name gapl_id trans eq_id).st.ids
          (H5Gopen_ff env st loc_id name gapl_id trans eq_id).ret_value new_object) id2 =
            H5I_find_id (H5Gopen_ff env st loc_id name gapl_id trans eq_id).st.ids id2) ∧
        (∀ type object aux app,
          H5I_object (H5I_register2 (H5I_promote (H5Gopen_ff env st loc_id name gapl_id trans eq_id).st.ids
          (H5Gopen_ff env st loc_id name gapl_id trans eq_id).ret_value new_object)
            type object aux app).2 (H5Gopen_ff env st loc_id name gapl_id trans eq_id).ret_value = some new_object ∧
          (¬ (H5I_register2 (H5I_promote (H5Gopen_ff env st loc_id name gapl_id trans eq_id).st.ids
          (H5Gopen_ff env st loc_id name gapl_id trans eq_id).ret_value new_object)
              type object aux app).1 < 0 →
            (H5I_register2 (H5I_promote (H5Gopen_ff env st loc_id name gapl_id trans eq_id).st.ids
          (H5Gopen_ff env st loc_id name gapl_id trans eq_id).ret_value new_object)
              type object aux app).1 ≠ (H5Gopen_ff env st loc_id name gapl_id trans eq_id).ret_value))) ∧
    (∀ (loc_id : hid_t) (name : Option String)
        (type_id space_id lcpl_id dcpl_id dapl_id : hid_t) (trans : Nat) (eq_id : hid_t),
      0 ≤ (H5Dcreate_ff env st loc_id name type_id space_id lcpl_id dcpl_id dapl_id trans eq_id).ret_value →
      ∀ new_object : H5_object,
        H5I_ids (H5I_promote (H5Dcreate_ff env st loc_id name type_id space_id lcpl_id dcpl_id dapl_id trans eq_id).st.ids
          (H5Dcreate_ff env st loc_id name type_id space_id lcpl_id dcpl_id dapl_id trans eq_id).ret_value new_object) =
          H5I_ids (H5Dcreate_ff env st loc_id name type_id space_id lcpl_id dcpl_id dapl_id trans eq_id).st.ids ∧
        H5I_get_type (H5I_promote (H5Dcreate_ff env st loc_id name type_id space_id lcpl_id dcpl_id dapl_id trans eq_id).st.ids
          (H5Dcreate_ff env st loc_id name type_id space_id lcpl_id dcpl_id dapl_id trans eq_id).ret_value new_object)
          (H5Dcreate_ff env st loc_id name type_id space_id lcpl_id dcpl_id dapl_id trans eq_id).ret_value = H5I_type_t.H5I_DATASET ∧
        H5I_get_type (H5Dcreate_ff env st loc_id name type_id space_id lcpl_id dcpl_id dapl_id trans eq_id).st.ids
          (H5Dcreate_ff env st loc_id name type_id space_id lcpl_id dcpl_id dapl_id trans eq_id).ret_value = H5I_type_t.H5I_DATASET ∧
        H5I_object (H5I_promote (H5Dcreate_ff env st loc_id name type_id space_id lcpl_id dcpl_id dapl_id trans eq_id).st.ids
          (H5Dcreate_ff env st loc_id name type_id space_id lcpl_id dcpl_id dapl_id trans eq_id).ret_value new_object)
          (H5Dcreate_ff env st loc_id name type_id space_id lcpl_id dcpl_id dapl_id trans eq_id).ret_value = some new_object ∧
        (∀ id2, id2 ≠ (H5Dcreate_ff env st loc_id name type_id space_id lcpl_id dcpl_id dapl_id trans eq_id).ret_value →
          H5I_find_id (H5I_promote (H5Dcreate_ff env st loc_id name type_id space_id lcpl_id dcpl_id dapl_id trans eq_id).st.ids
          (H5Dcreate_ff env st loc_id name type_id space_id lcpl_id dcpl_id dapl_id trans eq_id).ret_value new_object) id2 =
            H5I_find_id (H5Dcreate_ff env st loc_id name type_id space_id lcpl_id dcpl_id dapl_id trans eq_id).st.ids id2) ∧
        (∀ type object aux app,
          H5I_object (H5I_register2 (H5I_promote (H5Dcreate_ff env st loc_id name type_id space_id lcpl_id dcpl_id dapl_id trans eq_id).st.ids
          (H5Dcreate_ff env st loc_id name type_id space_id lcpl_id dcpl_id dapl_id trans eq_id).ret_value new_object)
            type object aux app).2 (H5Dcreate_ff env st loc_id name type_id space_id lcpl_id dcpl_id dapl_id trans eq_id).ret_value = some new_object ∧
          (¬ (H5I_register2 (H5I_promote (H5Dcreate_ff env st loc_id name type_id space_id lcpl_id dcpl_id dapl_id trans eq_id).st.ids
          (H5Dcreate_ff env st loc_id name type_id space_id lcpl_id dcpl_id dapl_id trans eq_id).ret_value new_object)
              type object aux app).1 < 0 →
            (H5I_register2 (H5I_promote (H5Dcreate_ff env st loc_id name type_id space_id lcpl_id dcpl_id dapl_id trans eq_id).st.ids
          (H5Dcreate_ff env st loc_id name type_id space_id lcpl_id dcpl_id dapl_id trans eq_id).ret_value new_object)
              type object aux app).1 ≠ (H5Dcreate_ff env st loc_id name type_id space_id lcpl_id dcpl_id dapl_id trans eq_id).ret_value))) ∧
    (∀ (loc_id : hid_t) (name : Option String) (dapl_id : hid_t) (trans : Nat)
        (eq_id : hid_t),
      0 ≤ (H5Dopen_ff env st loc_id name dapl_id trans eq_id).ret_value →
      ∀ new_object : H5_object,
        H5I_ids (H5I_promote (H5Dopen_ff env st loc_id name dapl_id trans eq_id).st.ids
          (H5Dopen_ff env st loc_id name dapl_id trans eq_id).ret_value new_object) =
          H5I_ids (H5Dopen_ff env st loc_id name dapl_id trans eq_id).st.ids ∧
        H5I_get_type (H5I_promote (H5Dopen_ff env st loc_id name dapl_id trans eq_id).st.ids
          (H5Dopen_ff env st loc_id name dapl_id trans eq_id).ret_value new_object)
          (H5Dopen_ff env st loc_id name dapl_id trans eq_id).ret_value = H5I_type_t.H5I_DATASET ∧
        H5I_get_type (H5Dopen_ff env st loc_id name dapl_id trans eq_id).st.ids
          (H5Dopen_ff env st loc_id name dapl_id trans eq_id).ret_value = H5I_type_t.H5I_DATASET ∧
        H5I_object (H5I_promote (H5Dopen_ff env st loc_id name dapl_id trans eq_id).st.ids
          (H5Dopen_ff env st loc_id name dapl_id trans eq_id).ret_value new_object)
          (H5Dopen_ff env st loc_id name dapl_id trans eq_id).ret_value = some new_object ∧
        (∀ id2, id2 ≠ (H5Dopen_ff env st loc_id name dapl_id trans eq_id).ret_value →
          H5I_find_id (H5I_promote (H5Dopen_ff env st loc_id name dapl_id trans eq_id).st.ids
          (H5Dopen_ff env st loc_id name dapl_id trans eq_id).ret_value new_object) id2 =
            H5I_find_id (H5Dopen_ff env st loc_id name dapl_id trans eq_id).st.ids id2) ∧
        (∀ type object aux app,
          H5I_object (H5I_register2 (H5I_promote (H5Dopen_ff env st loc_id name dapl_id trans eq_id).st.ids
          (H5Dopen_ff env st loc_id name dapl_id trans eq_id).ret_value new_object)
            type object aux app).2 (H5Dopen_ff env st loc_id name dapl_id trans eq_id).ret_value = some new_object ∧
          (¬ (H5I_register2 (H5I_promote (H5Dopen_ff env st loc_id name dapl_id trans eq_id).st.ids
          (H5Dopen_ff env st loc_id name dapl_id trans eq_id).ret_value new_object)
              type object aux app).1 < 0 →
            (H5I_register2 (H5I_promote (H5Dopen_ff env st loc_id name dapl_id trans eq_id).st.ids
          (H5Dopen_ff env st loc_id name dapl_id trans eq_id).ret_value new_object)
              type object aux app).1 ≠ (H5Dopen_ff env st loc_id name dapl_id trans eq_id).ret_value))) :=
  ⟨H5Fcreate_ff_promote env st,
   H5Fopen_ff_promote env st,
   H5Gcreate_ff_promote env st,
   H5Gopen_ff_promote env st,
   H5Dcreate_ff_promote env st,
   H5Dopen_ff_promote env st⟩

/-- Witness for C20: the dataset identifier returned by `H5Dcreate_ff` under
file 1 of `sample_st` with event queue 9, promoted to the object 77. -/
theorem C20_identifier_stable_on_completion_witness :
    H5I_get_type (H5I_promote (H5Dcreate_ff sample_env sample_st 1 (some "d") 5 6 0 0 0 0 9).st.ids
      (H5Dcreate_ff sample_env sample_st 1 (some "d") 5 6 0 0 0 0 9).ret_value
      (H5_object.token 77))
      (H5Dcreate_ff sample_env sample_st 1 (some "d") 5 6 0 0 0 0 9).ret_value =
      H5I_type_t.H5I_DATASET ∧
    H5I_object (H5I_promote (H5Dcreate_ff sample_env sample_st 1 (some "d") 5 6 0 0 0 0 9).st.ids
      (H5Dcreate_ff sample_env sample_st 1 (some "d") 5 6 0 0 0 0 9).ret_value
      (H5_object.token 77))
      (H5Dcreate_ff sample_env sample_st 1 (some "d") 5 6 0 0 0 0 9).ret_value =
      some (H5_object.token 77) :=
  have h := (C20_identifier_stable_on_completion sample_env sample_st).2.2.2.2.1 1 (some "d")
    5 6 0 0 0 0 9 (by decide) (H5_object.token 77)
  ⟨h.2.1, h.2.2.2.1⟩


/-! ## C21: `getComment` with a caller buffer -/

theorem H5_cstring_append_zero (a rest : List Nat) (h : ∀ x ∈ a, x ≠ 0) :
    H5_cstring (a ++ 0 :: rest) = some a := by
  induction a with
  | nil => simp [H5_cstring]
  | cons x xs ih =>
    have hx : x ≠ 0 := h x (List.mem_cons_self x xs)
    have hxs : ∀ y ∈ xs, y ≠ 0 := fun y hy => h y (List.mem_cons_of_mem x hy)
    simp [H5_cstring, hx, ih hxs]

theorem H5_set_append_length (a : List Nat) (x v : Nat) (rest : List Nat) :
    (a ++ x :: rest).set a.length v = a ++ v :: rest := by
  induction a with
  | nil => rfl
  | cons y ys ih => simp [List.set, ih]

theorem H5_take_succ_of_lt (c : List Nat) (k : Nat) (h : k < c.length) :
    ∃ x, c.take (k + 1) = c.take k ++ [x] := by
  induction c generalizing k with
  | nil => simp at h
  | cons y ys ih =>
    cases k with
    | zero => exact ⟨y, by simp⟩
    | succ j =>
      have hj : j < ys.length := by simpa using h
      obtain ⟨x, hx⟩ := ih j hj
      exact ⟨x, by simp [List.take, hx]⟩

theorem H5_size_pred (buf_size : Nat) (h1 : 1 ≤ buf_size) (h2 : buf_size < 2 ^ 64) :
    (buf_size + 2 ^ H5_SIZE_BITS - 1) % 2 ^ H5_SIZE_BITS = buf_size - 1 := by
  unfold H5_SIZE_BITS
  omega

theorem H5Location_getComment_throws (env : H5Location_env) (id : hid_t) (name : String)
    (buf_size : Nat) (comment : List Nat) :
    ((∃ e, (H5Location.getComment env id name buf_size comment).ret = H5_cxx.throws e) ↔
      (env.H5Oget_comment_by_name id name (some comment) buf_size H5P_DEFAULT).1 < 0) ∧
    (∀ e, (H5Location.getComment env id name buf_size comment).ret = H5_cxx.throws e →
      e = H5_Exception.LocationException "H5Location::getComment"
        "H5Oget_comment_by_name failed") ∧
    ((H5Location.getComment env id name buf_size comment).ret = H5_cxx.throws
        (H5_Exception.LocationException "H5Location::getComment"
          "H5Oget_comment_by_name failed") ∨
      (H5Location.getComment env id name buf_size comment).ret = H5_cxx.value
        (env.H5Oget_comment_by_name id name (some comment) buf_size H5P_DEFAULT).1) := by
  unfold H5Location.getComment
  dsimp only
  by_cases h : (env.H5Oget_comment_by_name id name (some comment) buf_size H5P_DEFAULT).1 < 0
  · rw [if_pos h]
    refine ⟨⟨fun _ => h, fun _ => ⟨_, rfl⟩⟩, ?_, Or.inl rfl⟩
    intro e he
    cases he
    rfl
  · rw [if_neg h]
    by_cases h2 : buf_size ≤
        (env.H5Oget_comment_by_name id name (some comment) buf_size H5P_DEFAULT).1.toNat %
          2 ^ H5_SIZE_BITS
    · rw [if_pos h2]
      refine ⟨⟨fun h3 => ?_, fun h3 => absurd h3 h⟩, ?_, Or.inr rfl⟩
      · obtain ⟨e, he⟩ := h3
        cases he
      · intro e he; cases he
    · rw [if_neg h2]
      refine ⟨⟨fun h3 => ?_, fun h3 => absurd h3 h⟩, ?_, Or.inr rfl⟩
      · obtain ⟨e, he⟩ := h3
        cases he
      · intro e he; cases he

theorem H5Location_getComment_contract (env : H5Location_env) (id : hid_t) (name : String)
    (buf_size : Nat) (comment c : List Nat)
    (h1 : 1 ≤ buf_size) (h2 : buf_size < 2 ^ 64) (hlen : buf_size ≤ comment.length)
    (hc : c.length < 2 ^ 63) (hz : ∀ x ∈ c, x ≠ 0)
    (hC : env.H5Oget_comment_by_name id name (some comment) buf_size H5P_DEFAULT =
      ((c.length : Int),
       some (c.take buf_size ++ List.replicate (buf_size - c.length) 0 ++
         comment.drop buf_size))) :
    (H5Location.getComment env id name buf_size comment).ret = H5_cxx.value (c.length : Int) ∧
    H5_cstring (H5Location.getComment env id name buf_size comment).comment =
      some (c.take (min c.length (buf_size - 1))) ∧
    (H5Location.getComment env id name buf_size comment).comment.length = comment.length ∧
    (∀ i, (H5Location.getComment env id name buf_size comment).store = some i →
      i = buf_size - 1) := by
  have hnn : ¬ ((c.length : Int) < 0) := by
    have : (0 : Int) ≤ (c.length : Int) := Int.natCast_nonneg _
    exact not_lt.mpr this
  have hto : ((c.length : Int)).toNat % 2 ^ H5_SIZE_BITS = c.length := by
    unfold H5_SIZE_BITS
    rw [Int.toNat_natCast]
    exact Nat.mod_eq_of_lt (by omega)
  unfold H5Location.getComment
  rw [hC]
  dsimp only
  rw [if_neg hnn, hto, H5_size_pred buf_size h1 h2]
  simp only [Option.getD_some]
  by_cases hb : buf_size ≤ c.length
  · rw [if_pos hb]
    dsimp only
    obtain ⟨k, rfl⟩ : ∃ k, buf_size = k + 1 := ⟨buf_size - 1, by omega⟩
    obtain ⟨x, hx⟩ := H5_take_succ_of_lt c k (by omega)
    have hk : (c.take k).length = k := by
      rw [List.length_take]; omega
    have hrep : List.replicate (k + 1 - c.length) (0 : Nat) = [] := by
      have : k + 1 - c.length = 0 := by omega
      rw [this]; rfl
    have hset : (c.take (k + 1) ++ List.replicate (k + 1 - c.length) 0 ++
        comment.drop (k + 1)).set (k + 1 - 1) 0 =
        c.take k ++ 0 :: comment.drop (k + 1) := by
      rw [hrep, hx, List.append_nil, List.append_assoc, List.singleton_append]
      have h3 : k + 1 - 1 = (c.take k).length := by rw [hk]; omega
      rw [h3]
      exact H5_set_append_length _ _ _ _
    rw [hset]
    refine ⟨rfl, ?_, ?_, ?_⟩
    · rw [H5_cstring_append_zero _ _ (fun y hy => hz y (List.mem_of_mem_take hy))]
      have : min c.length (k + 1 - 1) = k := by omega
      rw [this]
    · simp only [List.length_append, List.length_cons, List.length_drop, hk]
      omega
    · intro i hi
      cases hi
      rfl
  · rw [if_neg hb]
    dsimp only
    have hlt : c.length < buf_size := not_le.mp hb
    have htake : c.take buf_size = c := List.take_of_length_le (le_of_lt hlt)
    obtain ⟨m, hm⟩ : ∃ m, buf_size - c.length = m + 1 := ⟨buf_size - c.length - 1, by omega⟩
    have hrep : List.replicate (buf_size - c.length) (0 : Nat) = 0 :: List.replicate m 0 := by
      rw [hm]; rfl
    refine ⟨rfl, ?_, ?_, ?_⟩
    · rw [htake, hrep, List.append_assoc, List.cons_append, H5_cstring_append_zero _ _ hz]
      have : min c.length (buf_size - 1) = c.length := by omega
      rw [this, List.take_length]
    · simp only [List.length_append, List.length_replicate, List.length_drop, htake]
      omega
    · intro i hi
      cases hi

/-- C21: `getComment(name, buf_size, comment)` throws, and then a
`LocationException`, exactly when `H5Oget_comment_by_name` returns a negative
length.  Let `buf_size` be at least 1, the caller's buffer hold at least
`buf_size` bytes, and the C routine return the length `L` of the stored comment
`c` after copying the first `min(L, buf_size)` characters into the buffer and
filling the rest of the `buf_size` bytes with NUL (the behaviour of `strncpy`).
Then the function returns `L`, the buffer holds the NUL-terminated string made
of the first `min(L, buf_size-1)` characters of `c`, and the only element the
function itself assigns is the one at index `buf_size-1`. -/
theorem C21_getComment_truncates (env : H5Location_env) (id : hid_t) (name : String)
    (buf_size : Nat) (comment : List Nat) :
    ((∃ e, (H5Location.getComment env id name buf_size comment).ret = H5_cxx.throws e) ↔
      (env.H5Oget_comment_by_name id name (some comment) buf_size H5P_DEFAULT).1 < 0) ∧
    (∀ e, (H5Location.getComment env id name buf_size comment).ret = H5_cxx.throws e →
      e = H5_Exception.LocationException "H5Location::getComment"
        "H5Oget_comment_by_name failed") ∧
    (∀ c : List Nat, 1 ≤ buf_size → buf_size < 2 ^ 64 → buf_size ≤ comment.length →
      c.length < 2 ^ 63 → (∀ x ∈ c, x ≠ 0) →
      env.H5Oget_comment_by_name id name (some comment) buf_size H5P_DEFAULT =
        ((c.length : Int),
         some (c.take buf_size ++ List.replicate (buf_size - c.length) 0 ++
           comment.drop buf_size)) →
      (H5Location.getComment env id name buf_size comment).ret =
        H5_cxx.value (c.length : Int) ∧
      H5_cstring (H5Location.getComment env id name buf_size comment).comment =
        some (c.take (min c.length (buf_size - 1))) ∧
      (H5Location.getComment env id name buf_size comment).comment.length = comment.length ∧
      (∀ i, (H5Location.getComment env id name buf_size comment).store = some i →
        i = buf_size - 1)) :=
  ⟨(H5Location_getComment_throws env id name buf_size comment).1,
   (H5Location_getComment_throws env id name buf_size comment).2.1,
   fun c h1 h2 hlen hc hz hC =>
     H5Location_getComment_contract env id name buf_size comment c h1 h2 hlen hc hz hC⟩

/-- Witness for C21: the comment `hi!` read into a buffer of 4 bytes with
`buf_size` 3: the value returned is 3, the buffer holds `hi`. -/
theorem C21_getComment_truncates_witness :
    (H5Location.getComment (sample_location_env (some [104, 105, 33])) 1 "obj" 3
      [7, 7, 7, 7]).ret = H5_cxx.value 3 ∧
    H5_cstring (H5Location.getComment (sample_location_env (some [104, 105, 33])) 1 "obj" 3
      [7, 7, 7, 7]).comment = some [104, 105] :=
  have h := (C21_getComment_truncates (sample_location_env (some [104, 105, 33])) 1 "obj" 3
    [7, 7, 7, 7]).2.2 [104, 105, 33] (by decide) (by decide) (by decide) (by decide)
    (by decide) rfl
  ⟨h.1, h.2.1⟩

/-! ## C22: `getComment` returning a string -/

theorem H5Location_getComment_string_contract (env : H5Location_env) (id : hid_t)
    (name : String) (buf_size : Nat) (c : List Nat)
    (hb : buf_size + 1 < 2 ^ 64) (hc : c.length < 2 ^ 63) (hz : ∀ x ∈ c, x ≠ 0)
    (hC0 : (env.H5Oget_comment_by_name id name none 0 H5P_DEFAULT).1 = (c.length : Int))
    (hC : ∀ n, env.H5Oget_comment_by_name id name (some (List.replicate n 0)) n H5P_DEFAULT =
      ((c.length : Int),
       some (c.take n ++ List.replicate (n - c.length) 0 ++ (List.replicate n 0).drop n))) :
    H5Location.getComment_string env id name buf_size =
      H5_cxx.value (if buf_size = 0 then c else c.take (min c.length buf_size)) := by
  unfold H5Location.getComment_string
  rw [hC0]
  dsimp only
  have hnn : ¬ ((c.length : Int) < 0) := not_lt.mpr (Int.natCast_nonneg _)
  rw [if_neg hnn]
  by_cases hpos : (0 : Int) < (c.length : Int)
  · rw [if_pos hpos]
    have hto : ((c.length : Int)).toNat % 2 ^ H5_SIZE_BITS = c.length := by
      unfold H5_SIZE_BITS
      rw [Int.toNat_natCast]
      exact Nat.mod_eq_of_lt (by omega)
    rw [hto]
    generalize htl : (if buf_size = 0 then c.length else buf_size) = tmp_len
    have htl2 : tmp_len + 1 < 2 ^ 64 := by
      rw [← htl]
      split <;> omega
    have hn : (tmp_len + 1) % 2 ^ H5_SIZE_BITS = tmp_len + 1 := by
      unfold H5_SIZE_BITS
      exact Nat.mod_eq_of_lt htl2
    rw [hn]
    obtain ⟨g1, g2, g3, g4⟩ := H5Location_getComment_contract env id name (tmp_len + 1)
      (List.replicate (tmp_len + 1) 0) c (by omega) htl2 (by simp) hc hz (hC (tmp_len + 1))
    rw [g1]
    dsimp only
    rw [if_neg hnn, g2]
    have hres : c.take (min c.length (tmp_len + 1 - 1)) =
        (if buf_size = 0 then c else c.take (min c.length buf_size)) := by
      rw [← htl]
      by_cases h0 : buf_size = 0
      · simp [h0]
      · simp [h0]
    rw [hres]
    cases hs : (H5Location.getComment env id name (tmp_len + 1)
        (List.replicate (tmp_len + 1) 0)).store with
    | none => rfl
    | some i =>
      have hi := g4 i hs
      have hlt : i < (List.replicate (tmp_len + 1) (0 : Nat)).length := by
        rw [List.length_replicate, hi]; omega
      simp only [if_pos hlt]
  · rw [if_neg hpos]
    have hlen : c.length = 0 := by
      have : ¬ (0 < c.length) := fun h => hpos (by exact_mod_cast h)
      omega
    have hnil : c = [] := List.length_eq_zero.mp hlen
    subst hnil
    by_cases h0 : buf_size = 0
    · simp [h0]
    · simp [h0]

/-- C22, failing input: `getComment(name, buf_size)` with `buf_size` equal to
`SIZE_MAX` on an object whose comment is `hi`.  `tmp_len+1` wraps to 0, the
buffer `comment_C` has no element, the overloaded function is called with
`buf_size` 0 and assigns `comment_C[SIZE_MAX]`, and the string is then read
from the empty buffer: the call does not return the first
`min(2, buf_size)` characters `hi`.  With `buf_size` 1 and 0 it returns `h` and
`hi`. -/
theorem C22_buffer_size_wraps :
    H5Location.getComment_string (sample_location_env (some [104, 105])) 1 "obj"
      18446744073709551615 = H5_cxx.undefined ∧
    (18446744073709551615 + 1) % 2 ^ H5_SIZE_BITS = 0 ∧
    H5Location.getComment_string (sample_location_env (some [104, 105])) 1 "obj" 1 =
      H5_cxx.value [104] ∧
    H5Location.getComment_string (sample_location_env (some [104, 105])) 1 "obj" 0 =
      H5_cxx.value [104, 105] := by
  decide

/-! ## C23: `getObjType` and `H5G_UNKNOWN` -/

theorem H5Location_getObjType_cases (env : H5Location_env) (id : hid_t) (ref : Nat)
    (ref_type : Int) :
    (env.H5Rget_obj_type1 id ref_type ref = env.H5G_UNKNOWN ∧
      H5Location.getObjType env id ref ref_type =
        H5_cxx.throws (H5_Exception.ReferenceException "getObjType"
          "H5Rget_obj_type1 failed")) ∨
    (env.H5Rget_obj_type1 id ref_type ref ≠ env.H5G_UNKNOWN ∧
      H5Location.getObjType env id ref ref_type =
        H5_cxx.value (env.H5Rget_obj_type1 id ref_type ref)) := by
  unfold H5Location.getObjType H5Location.p_get_obj_type
  dsimp only
  by_cases h : env.H5Rget_obj_type1 id ref_type ref = env.H5G_UNKNOWN
  · rw [if_pos h]; exact Or.inl ⟨h, rfl⟩
  · rw [if_neg h]; exact Or.inr ⟨h, rfl⟩

/-- C23, counterexample: over a C library whose
`H5Rget_obj_type1` reports `H5G_UNKNOWN` (-1) for the reference 0, `getObjType`
does not return `H5G_UNKNOWN` to the caller; the guard
`if (obj_type == H5G_UNKNOWN)` of `p_get_obj_type` throws a
`ReferenceException`, the exception the comment above the function
declares. -/
theorem C23_getObjType_throws_on_unknown :
    (sample_location_env none).H5Rget_obj_type1 1 0 0 = (sample_location_env none).H5G_UNKNOWN ∧
    H5Location.getObjType (sample_location_env none) 1 0 0 =
      H5_cxx.throws (H5_Exception.ReferenceException "getObjType" "H5Rget_obj_type1 failed") ∧
    H5Location.getObjType (sample_location_env none) 1 0 0 ≠
      H5_cxx.value (sample_location_env none).H5G_UNKNOWN := by
  decide

/-- C23, amended: `getObjType` throws exactly when `H5Rget_obj_type1` reports
`H5G_UNKNOWN`, and what it throws then is the `ReferenceException` with the
detail message `H5Rget_obj_type1 failed`; on every other input it returns the
type `H5Rget_obj_type1` reports.  `H5G_UNKNOWN` is therefore never a value
returned to the caller, and the function has no other way to end. -/
theorem C23_getObjType_returns_or_throws (env : H5Location_env) (id : hid_t) (ref : Nat)
    (ref_type : Int) :
    ((∃ e, H5Location.getObjType env id ref ref_type = H5_cxx.throws e) ↔
      env.H5Rget_obj_type1 id ref_type ref = env.H5G_UNKNOWN) ∧
    (∀ e, H5Location.getObjType env id ref ref_type = H5_cxx.throws e →
      e = H5_Exception.ReferenceException "getObjType" "H5Rget_obj_type1 failed") ∧
    (env.H5Rget_obj_type1 id ref_type ref ≠ env.H5G_UNKNOWN →
      H5Location.getObjType env id ref ref_type =
        H5_cxx.value (env.H5Rget_obj_type1 id ref_type ref)) ∧
    (∀ v, H5Location.getObjType env id ref ref_type = H5_cxx.value v →
      v = env.H5Rget_obj_type1 id ref_type ref ∧ v ≠ env.H5G_UNKNOWN) ∧
    H5Location.getObjType env id ref ref_type ≠ H5_cxx.value env.H5G_UNKNOWN ∧
    H5Location.getObjType env id ref ref_type ≠ H5_cxx.undefined := by
  rcases H5Location_getObjType_cases env id ref ref_type with ⟨h1, hr⟩ | ⟨h1, hr⟩
  · rw [hr]
    refine ⟨⟨fun _ => h1, fun _ => ⟨_, rfl⟩⟩, ?_, fun h => absurd h1 h, ?_, ?_, ?_⟩
    · intro e he
      cases he
      rfl
    · intro v hv; cases hv
    · intro h; cases h
    · intro h; cases h
  · rw [hr]
    refine ⟨⟨fun h => ?_, fun h => absurd h h1⟩, ?_, fun _ => rfl, ?_, ?_, ?_⟩
    · obtain ⟨e, he⟩ := h
      cases he
    · intro e he; cases he
    · intro v hv
      cases hv
      exact ⟨rfl, h1⟩
    · intro h
      exact h1 (H5_cxx.value.inj h)
    · intro h; cases h

/-- Witness for C23, amended: the reference 2 of the sample C library is
reported as type 1, which is not `H5G_UNKNOWN`, and `getObjType` returns 1. -/
theorem C23_getObjType_returns_or_throws_witness :
    H5Location.getObjType (sample_location_env none) 1 2 0 = H5_cxx.value 1 :=
  (C23_getObjType_returns_or_throws (sample_location_env none) 1 2 0).2.2.1 (by decide)

/-! ## C24: the primary backend call of a create or open -/

theorem H5_filter_primary (ev : H5VL_event) (rest : List H5VL_event)
    (h0 : ev.call.is_close = false) (h : ∀ e ∈ rest, e.call.is_close = true) :
    ((ev :: rest).filter (fun e => !e.call.is_close)).length = 1 := by
  have hr : rest.filter (fun e => !e.call.is_close) = [] := by
    rw [List.filter_eq_nil_iff]
    intro e he
    simp [h e he]
  simp [List.filter_cons, h0, hr]

theorem H5Gcreate_ff_primary {σ : Type} (env : H5_env σ) (st : H5_state σ)
    (loc_id : hid_t) (name : Option String) (lcpl_id gcpl_id gapl_id : hid_t)
    (trans : Nat) (eq_id : hid_t)
    (h : (name ≠ none ∧ name ≠ some "") ∧
      (H5P_DEFAULT = lcpl_id ∨ TRUE = H5P_isa_class st.ids lcpl_id H5P_class_t.H5P_LINK_CREATE) ∧
      (H5P_DEFAULT = gcpl_id ∨ TRUE = H5P_isa_class st.ids gcpl_id H5P_class_t.H5P_GROUP_CREATE) ∧
      (H5P_DEFAULT = gapl_id ∨ TRUE = H5P_isa_class st.ids gapl_id H5P_class_t.H5P_GROUP_ACCESS) ∧
      (∃ ids1, H5P_set st.ids
              (if H5P_DEFAULT = gcpl_id then env.H5P_GROUP_CREATE_DEFAULT else gcpl_id)
              H5P_key.H5VL_GRP_LCPL_ID
              (if H5P_DEFAULT = lcpl_id then env.H5P_LINK_CREATE_DEFAULT else lcpl_id) =
            (SUCCEED, ids1)) ∧
      H5I_object st.ids loc_id ≠ none ∧
      H5I_get_aux st.ids loc_id ≠ none) :
    ∃ obj vp ret rest,
      H5I_object (H5P_set st.ids (if H5P_DEFAULT = gcpl_id then env.H5P_GROUP_CREATE_DEFAULT else gcpl_id)
            H5P_key.H5VL_GRP_LCPL_ID (if H5P_DEFAULT = lcpl_id then env.H5P_LINK_CREATE_DEFAULT else lcpl_id)).2 loc_id = some obj ∧
      H5I_get_aux st.ids loc_id = some vp ∧
      (H5Gcreate_ff env st loc_id name lcpl_id gcpl_id gapl_id trans eq_id).calls =
        { call := H5VL_call.group_create obj
            { type := H5VL_loc_type_t.H5VL_OBJECT_BY_SELF, obj_type := H5I_get_type st.ids loc_id }
            vp (name.getD "")
            (if H5P_DEFAULT = gcpl_id then env.H5P_GROUP_CREATE_DEFAULT else gcpl_id)
              (if H5P_DEFAULT = gapl_id then env.H5P_GROUP_ACCESS_DEFAULT else gapl_id)
            env.H5AC_dxpl_id eq_id,
          ids := (H5P_set st.ids (if H5P_DEFAULT = gcpl_id then env.H5P_GROUP_CREATE_DEFAULT else gcpl_id)
            H5P_key.H5VL_GRP_LCPL_ID (if H5P_DEFAULT = lcpl_id then env.H5P_LINK_CREATE_DEFAULT else lcpl_id)).2,
          ret := ret } :: rest ∧
      (∀ ev ∈ rest, ev.call.is_close = true) ∧
      ((H5Gcreate_ff env st loc_id name lcpl_id gcpl_id gapl_id trans eq_id).calls.filter
        (fun ev => !ev.call.is_close)).length = 1 ∧
      (loc_id ≠ (if H5P_DEFAULT = gcpl_id then env.H5P_GROUP_CREATE_DEFAULT else gcpl_id) →
        H5I_object st.ids loc_id = some obj) := by
  have hne : (H5Gcreate_ff env st loc_id name lcpl_id gcpl_id gapl_id trans eq_id).calls ≠ [] :=
    (H5Gcreate_ff_reach env st loc_id name lcpl_id gcpl_id gapl_id trans eq_id).1.mpr h
  rcases H5Gcreate_ff_cases env st loc_id name lcpl_id gcpl_id gapl_id trans eq_id with
    ⟨maj, min, msg, hr⟩ | ⟨nm, ids3, hnm, _, hs3, hr⟩
  · rw [hr] at hne; exact absurd rfl hne
  obtain ⟨nm0, hnm0, _, hget⟩ := H5_name_ok (fun hbad => hbad.elim h.1.1 h.1.2)
  have hnmeq : nm0 = nm := Option.some.inj (hnm0.symm.trans hnm)
  subst hnmeq
  have e3 : ids3 = (H5P_set st.ids (if H5P_DEFAULT = gcpl_id then env.H5P_GROUP_CREATE_DEFAULT else gcpl_id)
            H5P_key.H5VL_GRP_LCPL_ID (if H5P_DEFAULT = lcpl_id then env.H5P_LINK_CREATE_DEFAULT else lcpl_id)).2 := by
    rw [hs3]
  subst e3
  have htype : H5I_get_type (H5P_set st.ids (if H5P_DEFAULT = gcpl_id then env.H5P_GROUP_CREATE_DEFAULT else gcpl_id)
            H5P_key.H5VL_GRP_LCPL_ID (if H5P_DEFAULT = lcpl_id then env.H5P_LINK_CREATE_DEFAULT else lcpl_id)).2 loc_id = H5I_get_type st.ids loc_id := by
    rw [H5P_set_get_type]
  have hauxeq : H5I_get_aux (H5P_set st.ids (if H5P_DEFAULT = gcpl_id then env.H5P_GROUP_CREATE_DEFAULT else gcpl_id)
            H5P_key.H5VL_GRP_LCPL_ID (if H5P_DEFAULT = lcpl_id then env.H5P_LINK_CREATE_DEFAULT else lcpl_id)).2 loc_id = H5I_get_aux st.ids loc_id := by
    rw [H5P_set_get_aux]
  have hfind : loc_id ≠ (if H5P_DEFAULT = gcpl_id then env.H5P_GROUP_CREATE_DEFAULT else gcpl_id) →
      H5I_find_id (H5P_set st.ids (if H5P_DEFAULT = gcpl_id then env.H5P_GROUP_CREATE_DEFAULT else gcpl_id)
            H5P_key.H5VL_GRP_LCPL_ID (if H5P_DEFAULT = lcpl_id then env.H5P_LINK_CREATE_DEFAULT else lcpl_id)).2 loc_id = H5I_find_id st.ids loc_id := by
    intro hne
    rw [H5P_set_find_ne _ _ _ _ _ hne]
  rw [hr] at hne ⊢
  rcases H5Gcreate_ff_vol_calls env
      { ids := (H5P_set st.ids (if H5P_DEFAULT = gcpl_id then env.H5P_GROUP_CREATE_DEFAULT else gcpl_id)
            H5P_key.H5VL_GRP_LCPL_ID (if H5P_DEFAULT = lcpl_id then env.H5P_LINK_CREATE_DEFAULT else lcpl_id)).2,
        vol := st.vol } loc_id nm0 (if H5P_DEFAULT = gcpl_id then env.H5P_GROUP_CREATE_DEFAULT else gcpl_id)
      (if H5P_DEFAULT = gapl_id then env.H5P_GROUP_ACCESS_DEFAULT else gapl_id) eq_id with
    ⟨_, hnil⟩ | ⟨obj, vp, ret, rest, hobj, haux, hcalls, hrest⟩
  · exact absurd hnil hne
  · refine ⟨obj, vp, ret, rest, hobj, ?_, ?_, fun ev hev => (hrest ev hev).1, ?_, ?_⟩
    · rw [← hauxeq]; exact haux
    · rw [hcalls, hget]
      dsimp only
      rw [htype]
    · rw [hcalls]
      exact H5_filter_primary _ _ rfl (fun ev hev => (hrest ev hev).1)
    · intro hloc
      have h2 : H5I_object (H5P_set st.ids (if H5P_DEFAULT = gcpl_id then env.H5P_GROUP_CREATE_DEFAULT else gcpl_id)
            H5P_key.H5VL_GRP_LCPL_ID (if H5P_DEFAULT = lcpl_id then env.H5P_LINK_CREATE_DEFAULT else lcpl_id)).2 loc_id = some obj := hobj
      simp only [H5I_object, hfind hloc] at h2 ⊢
      exact h2

theorem H5Gopen_ff_primary_aux {σ : Type} (env : H5_env σ) (st : H5_state σ)
    (loc_id : hid_t) (name : Option String) (gapl_id : hid_t) (trans : Nat)
    (eq_id : hid_t) (obj : H5_object) (vp : H5VL_t)
    (h0 : ¬ (name = none ∨ name = some ""))
    (h1 : ¬ (H5P_DEFAULT ≠ gapl_id ∧ TRUE ≠ H5P_isa_class st.ids gapl_id H5P_class_t.H5P_GROUP_ACCESS))
    (hobj : H5I_object st.ids loc_id = some obj) (haux : H5I_get_aux st.ids loc_id = some vp) :
    ∃ ret rest,
      (H5Gopen_ff env st loc_id name gapl_id trans eq_id).calls =
        { call := H5VL_call.group_open obj
            { type := H5VL_loc_type_t.H5VL_OBJECT_BY_SELF, obj_type := H5I_get_type st.ids loc_id }
            vp (name.getD "")
            (if H5P_DEFAULT = gapl_id then env.H5P_GROUP_ACCESS_DEFAULT else gapl_id)
            env.H5AC_dxpl_id eq_id,
          ids := st.ids,
          ret := ret } :: rest ∧
      (∀ ev ∈ rest, ev.call.is_close = true) ∧
      ((H5Gopen_ff env st loc_id name gapl_id trans eq_id).calls.filter
        (fun ev => !ev.call.is_close)).length = 1 := by
  unfold H5Gopen_ff
  dsimp only
  rw [if_neg h0, if_neg h1]
  generalize (if H5P_DEFAULT = gapl_id then env.H5P_GROUP_ACCESS_DEFAULT else gapl_id) = ap
  simp only [hobj, haux]
  split
  · exact ⟨_, [], rfl, fun ev hev => absurd hev (List.not_mem_nil ev), rfl⟩
  · rename_i g hb
    split
    · rename_i hreg
      exact ⟨_, [], rfl, fun ev hev => absurd hev (List.not_mem_nil ev), rfl⟩
    · exact ⟨_, [], rfl, fun ev hev => absurd hev (List.not_mem_nil ev), rfl⟩

theorem H5Gopen_ff_primary {σ : Type} (env : H5_env σ) (st : H5_state σ)
    (loc_id : hid_t) (name : Option String) (gapl_id : hid_t) (trans : Nat)
    (eq_id : hid_t)
    (h : (name ≠ none ∧ name ≠ some "") ∧
      (H5P_DEFAULT = gapl_id ∨ TRUE = H5P_isa_class st.ids gapl_id H5P_class_t.H5P_GROUP_ACCESS) ∧
      H5I_object st.ids loc_id ≠ none ∧
      H5I_get_aux st.ids loc_id ≠ none) :
    ∃ obj vp ret rest,
      H5I_object st.ids loc_id = some obj ∧
      H5I_get_aux st.ids loc_id = some vp ∧
      (H5Gopen_ff env st loc_id name gapl_id trans eq_id).calls =
        { call := H5VL_call.group_open obj
            { type := H5VL_loc_type_t.H5VL_OBJECT_BY_SELF, obj_type := H5I_get_type st.ids loc_id }
            vp (name.getD "")
            (if H5P_DEFAULT = gapl_id then env.H5P_GROUP_ACCESS_DEFAULT else gapl_id)
            env.H5AC_dxpl_id eq_id,
          ids := st.ids,
          ret := ret } :: rest ∧
      (∀ ev ∈ rest, ev.call.is_close = true) ∧
      ((H5Gopen_ff env st loc_id name gapl_id trans eq_id).calls.filter
        (fun ev => !ev.call.is_close)).length = 1 := by
  obtain ⟨hname, hpl, hobj, haux⟩ := h
  obtain ⟨obj, hobj⟩ := Option.ne_none_iff_exists'.mp hobj
  obtain ⟨vp, haux⟩ := Option.ne_none_iff_exists'.mp haux
  have h0 : ¬ (name = none ∨ name = some "") := fun h => h.elim hname.1 hname.2
  have h1 : ¬ (H5P_DEFAULT ≠ gapl_id ∧ TRUE ≠ H5P_isa_class st.ids gapl_id H5P_class_t.H5P_GROUP_ACCESS) :=
    fun h => hpl.elim h.1 (fun h2 => h.2 h2)
  obtain ⟨ret, rest, hc, hrest, hlen⟩ :=
    H5Gopen_ff_primary_aux env st loc_id name gapl_id trans eq_id obj vp h0 h1 hobj haux
  exact ⟨obj, vp, ret, rest, hobj, haux, hc, hrest, hlen⟩

theorem H5Dcreate_ff_primary {σ : Type} (env : H5_env σ) (st : H5_state σ)
    (loc_id : hid_t) (name : Option String)
    (type_id space_id lcpl_id dcpl_id dapl_id : hid_t) (trans : Nat) (eq_id : hid_t)
    (h : (name ≠ none ∧ name ≠ some "") ∧
      (H5P_DEFAULT = lcpl_id ∨ TRUE = H5P_isa_class st.ids lcpl_id H5P_class_t.H5P_LINK_CREATE) ∧
      (H5P_DEFAULT = dcpl_id ∨ TRUE = H5P_isa_class st.ids dcpl_id H5P_class_t.H5P_DATASET_CREATE) ∧
      (H5P_DEFAULT = dapl_id ∨ TRUE = H5P_isa_class st.ids dapl_id H5P_class_t.H5P_DATASET_ACCESS) ∧
      (∃ ids1 ids2 ids3,
            H5P_set st.ids
              (if H5P_DEFAULT = dcpl_id then env.H5P_DATASET_CREATE_DEFAULT else dcpl_id)
              H5P_key.H5VL_DSET_TYPE_ID type_id = (SUCCEED, ids1) ∧
            H5P_set ids1
              (if H5P_DEFAULT = dcpl_id then env.H5P_DATASET_CREATE_DEFAULT else dcpl_id)
              H5P_key.H5VL_DSET_SPACE_ID space_id = (SUCCEED, ids2) ∧
            H5P_set ids2
              (if H5P_DEFAULT = dcpl_id then env.H5P_DATASET_CREATE_DEFAULT else dcpl_id)
              H5P_key.H5VL_DSET_LCPL_ID
              (if H5P_DEFAULT = lcpl_id then env.H5P_LINK_CREATE_DEFAULT else lcpl_id) =
              (SUCCEED, ids3)) ∧
      H5VL_get_object st.ids loc_id ≠ none ∧
      H5I_get_aux st.ids loc_id ≠ none) :
    ∃ obj vp ret rest,
      H5VL_get_object (H5P_set (H5P_set (H5P_set st.ids (if H5P_DEFAULT = dcpl_id then env.H5P_DATASET_CREATE_DEFAULT else dcpl_id)
            H5P_key.H5VL_DSET_TYPE_ID type_id).2 (if H5P_DEFAULT = dcpl_id then env.H5P_DATASET_CREATE_DEFAULT else dcpl_id)
            H5P_key.H5VL_DSET_SPACE_ID space_id).2 (if H5P_DEFAULT = dcpl_id then env.H5P_DATASET_CREATE_DEFAULT else dcpl_id)
            H5P_key.H5VL_DSET_LCPL_ID (if H5P_DEFAULT = lcpl_id then env.H5P_LINK_CREATE_DEFAULT else lcpl_id)).2 loc_id = some obj ∧
      H5I_get_aux st.ids loc_id = some vp ∧
      (H5Dcreate_ff env st loc_id name type_id space_id lcpl_id dcpl_id dapl_id trans eq_id).calls =
        { call := H5VL_call.dataset_create obj
            { type := H5VL_loc_type_t.H5VL_OBJECT_BY_SELF, obj_type := H5I_get_type st.ids loc_id }
            vp (name.getD "")
            (if H5P_DEFAULT = dcpl_id then env.H5P_DATASET_CREATE_DEFAULT else dcpl_id)
              (if H5P_DEFAULT = dapl_id then env.H5P_DATASET_ACCESS_DEFAULT else dapl_id)
            env.H5AC_dxpl_id eq_id,
          ids := (H5P_set (H5P_set (H5P_set st.ids (if H5P_DEFAULT = dcpl_id then env.H5P_DATASET_CREATE_DEFAULT else dcpl_id)
            H5P_key.H5VL_DSET_TYPE_ID type_id).2 (if H5P_DEFAULT = dcpl_id then env.H5P_DATASET_CREATE_DEFAULT else dcpl_id)
            H5P_key.H5VL_DSET_SPACE_ID space_id).2 (if H5P_DEFAULT = dcpl_id then env.H5P_DATASET_CREATE_DEFAULT else dcpl_id)
            H5P_key.H5VL_DSET_LCPL_ID (if H5P_DEFAULT = lcpl_id then env.H5P_LINK_CREATE_DEFAULT else lcpl_id)).2,
          ret := ret } :: rest ∧
      (∀ ev ∈ rest, ev.call.is_close = true) ∧
      ((H5Dcreate_ff env st loc_id name type_id space_id lcpl_id dcpl_id dapl_id trans eq_id).calls.filter
        (fun ev => !ev.call.is_close)).length = 1 ∧
      (loc_id ≠ (if H5P_DEFAULT = dcpl_id then env.H5P_DATASET_CREATE_DEFAULT else dcpl_id) →
        H5VL_get_object st.ids loc_id = some obj) := by
  have hne : (H5Dcreate_ff env st loc_id name type_id space_id lcpl_id dcpl_id dapl_id trans eq_id).calls ≠ [] :=
    (H5Dcreate_ff_reach env st loc_id name type_id space_id lcpl_id dcpl_id dapl_id trans eq_id).1.mpr h
  rcases H5Dcreate_ff_cases env st loc_id name type_id space_id lcpl_id dcpl_id dapl_id trans eq_id with
    ⟨st1, maj, min, msg, hr, _⟩ | ⟨nm, ids1, ids2, ids3, hnm, _, hs1, hs2, hs3, hr⟩
  · rw [hr] at hne; exact absurd rfl hne
  obtain ⟨nm0, hnm0, _, hget⟩ := H5_name_ok (fun hbad => hbad.elim h.1.1 h.1.2)
  have hnmeq : nm0 = nm := Option.some.inj (hnm0.symm.trans hnm)
  subst hnmeq
  have e1 : ids1 = (H5P_set st.ids (if H5P_DEFAULT = dcpl_id then env.H5P_DATASET_CREATE_DEFAULT else dcpl_id) H5P_key.H5VL_DSET_TYPE_ID type_id).2 := by
    rw [hs1]
  subst e1
  have e2 : ids2 = (H5P_set (H5P_set st.ids (if H5P_DEFAULT = dcpl_id then env.H5P_DATASET_CREATE_DEFAULT else dcpl_id) H5P_key.H5VL_DSET_TYPE_ID type_id).2
      (if H5P_DEFAULT = dcpl_id then env.H5P_DATASET_CREATE_DEFAULT else dcpl_id) H5P_key.H5VL_DSET_SPACE_ID space_id).2 := by
    rw [hs2]
  subst e2
  have e3 : ids3 = (H5P_set (H5P_set (H5P_set st.ids (if H5P_DEFAULT = dcpl_id then env.H5P_DATASET_CREATE_DEFAULT else dcpl_id)
            H5P_key.H5VL_DSET_TYPE_ID type_id).2 (if H5P_DEFAULT = dcpl_id then env.H5P_DATASET_CREATE_DEFAULT else dcpl_id)
            H5P_key.H5VL_DSET_SPACE_ID space_id).2 (if H5P_DEFAULT = dcpl_id then env.H5P_DATASET_CREATE_DEFAULT else dcpl_id)
            H5P_key.H5VL_DSET_LCPL_ID (if H5P_DEFAULT = lcpl_id then env.H5P_LINK_CREATE_DEFAULT else lcpl_id)).2 := by
    rw [hs3]
  subst e3
  have htype : H5I_get_type (H5P_set (H5P_set (H5P_set st.ids (if H5P_DEFAULT = dcpl_id then env.H5P_DATASET_CREATE_DEFAULT else dcpl_id)
            H5P_key.H5VL_DSET_TYPE_ID type_id).2 (if H5P_DEFAULT = dcpl_id then env.H5P_DATASET_CREATE_DEFAULT else dcpl_id)
            H5P_key.H5VL_DSET_SPACE_ID space_id).2 (if H5P_DEFAULT = dcpl_id then env.H5P_DATASET_CREATE_DEFAULT else dcpl_id)
            H5P_key.H5VL_DSET_LCPL_ID (if H5P_DEFAULT = lcpl_id then env.H5P_LINK_CREATE_DEFAULT else lcpl_id)).2 loc_id = H5I_get_type st.ids loc_id := by
    rw [H5P_set_get_type, H5P_set_get_type, H5P_set_get_type]
  have hauxeq : H5I_get_aux (H5P_set (H5P_set (H5P_set st.ids (if H5P_DEFAULT = dcpl_id then env.H5P_DATASET_CREATE_DEFAULT else dcpl_id)
            H5P_key.H5VL_DSET_TYPE_ID type_id).2 (if H5P_DEFAULT = dcpl_id then env.H5P_DATASET_CREATE_DEFAULT else dcpl_id)
            H5P_key.H5VL_DSET_SPACE_ID space_id).2 (if H5P_DEFAULT = dcpl_id then env.H5P_DATASET_CREATE_DEFAULT else dcpl_id)
            H5P_key.H5VL_DSET_LCPL_ID (if H5P_DEFAULT = lcpl_id then env.H5P_LINK_CREATE_DEFAULT else lcpl_id)).2 loc_id = H5I_get_aux st.ids loc_id := by
    rw [H5P_set_get_aux, H5P_set_get_aux, H5P_set_get_aux]
  have hfind : loc_id ≠ (if H5P_DEFAULT = dcpl_id then env.H5P_DATASET_CREATE_DEFAULT else dcpl_id) →
      H5I_find_id (H5P_set (H5P_set (H5P_set st.ids (if H5P_DEFAULT = dcpl_id then env.H5P_DATASET_CREATE_DEFAULT else dcpl_id)
            H5P_key.H5VL_DSET_TYPE_ID type_id).2 (if H5P_DEFAULT = dcpl_id then env.H5P_DATASET_CREATE_DEFAULT else dcpl_id)
            H5P_key.H5VL_DSET_SPACE_ID space_id).2 (if H5P_DEFAULT = dcpl_id then env.H5P_DATASET_CREATE_DEFAULT else dcpl_id)
            H5P_key.H5VL_DSET_LCPL_ID (if H5P_DEFAULT = lcpl_id then env.H5P_LINK_CREATE_DEFAULT else lcpl_id)).2 loc_id = H5I_find_id st.ids loc_id := by
    intro hne
    rw [H5P_set_find_ne _ _ _ _ _ hne, H5P_set_find_ne _ _ _ _ _ hne,
      H5P_set_find_ne _ _ _ _ _ hne]
  rw [hr] at hne ⊢
  rcases H5Dcreate_ff_vol_calls env
      { ids := (H5P_set (H5P_set (H5P_set st.ids (if H5P_DEFAULT = dcpl_id then env.H5P_DATASET_CREATE_DEFAULT else dcpl_id)
            H5P_key.H5VL_DSET_TYPE_ID type_id).2 (if H5P_DEFAULT = dcpl_id then env.H5P_DATASET_CREATE_DEFAULT else dcpl_id)
            H5P_key.H5VL_DSET_SPACE_ID space_id).2 (if H5P_DEFAULT = dcpl_id then env.H5P_DATASET_CREATE_DEFAULT else dcpl_id)
            H5P_key.H5VL_DSET_LCPL_ID (if H5P_DEFAULT = lcpl_id then env.H5P_LINK_CREATE_DEFAULT else lcpl_id)).2,
        vol := st.vol } loc_id nm0 (if H5P_DEFAULT = dcpl_id then env.H5P_DATASET_CREATE_DEFAULT else dcpl_id)
      (if H5P_DEFAULT = dapl_id then env.H5P_DATASET_ACCESS_DEFAULT else dapl_id) eq_id with
    ⟨_, hnil⟩ | ⟨obj, vp, ret, rest, hobj, haux, hcalls, hrest⟩
  · exact absurd hnil hne
  · refine ⟨obj, vp, ret, rest, hobj, ?_, ?_, fun ev hev => (hrest ev hev).1, ?_, ?_⟩
    · rw [← hauxeq]; exact haux
    · rw [hcalls, hget]
      dsimp only
      rw [htype]
    · rw [hcalls]
      exact H5_filter_primary _ _ rfl (fun ev hev => (hrest ev hev).1)
    · intro hloc
      have h2 : H5VL_get_object (H5P_set (H5P_set (H5P_set st.ids (if H5P_DEFAULT = dcpl_id then env.H5P_DATASET_CREATE_DEFAULT else dcpl_id)
            H5P_key.H5VL_DSET_TYPE_ID type_id).2 (if H5P_DEFAULT = dcpl_id then env.H5P_DATASET_CREATE_DEFAULT else dcpl_id)
            H5P_key.H5VL_DSET_SPACE_ID space_id).2 (if H5P_DEFAULT = dcpl_id then env.H5P_DATASET_CREATE_DEFAULT else dcpl_id)
            H5P_key.H5VL_DSET_LCPL_ID (if H5P_DEFAULT = lcpl_id then env.H5P_LINK_CREATE_DEFAULT else lcpl_id)).2 loc_id = some obj := hobj
      simp only [H5VL_get_object, hfind hloc] at h2 ⊢
      exact h2

theorem H5Dopen_ff_primary_aux {σ : Type} (env : H5_env σ) (st : H5_state σ)
    (loc_id : hid_t) (name : Option String) (dapl_id : hid_t) (trans : Nat)
    (eq_id : hid_t) (obj : H5_object) (vp : H5VL_t)
    (h0 : ¬ (name = none ∨ name = some ""))
    (h1 : ¬ (H5P_DEFAULT ≠ dapl_id ∧ TRUE ≠ H5P_isa_class st.ids dapl_id H5P_class_t.H5P_DATASET_ACCESS))
    (hobj : H5VL_get_object st.ids loc_id = some obj) (haux : H5I_get_aux st.ids loc_id = some vp) :
    ∃ ret rest,
      (H5Dopen_ff env st loc_id name dapl_id trans eq_id).calls =
        { call := H5VL_call.dataset_open obj
            { type := H5VL_loc_type_t.H5VL_OBJECT_BY_SELF, obj_type := H5I_get_type st.ids loc_id }
            vp (name.getD "")
            (if H5P_DEFAULT = dapl_id then env.H5P_DATASET_ACCESS_DEFAULT else dapl_id)
            env.H5AC_dxpl_id eq_id,
          ids := st.ids,
          ret := ret } :: rest ∧
      (∀ ev ∈ rest, ev.call.is_close = true) ∧
      ((H5Dopen_ff env st loc_id name dapl_id trans eq_id).calls.filter
        (fun ev => !ev.call.is_close)).length = 1 := by
  unfold H5Dopen_ff
  dsimp only
  simp only [H5Dcreate_ff_done_none]
  rw [if_neg h0, if_neg h1]
  generalize (if H5P_DEFAULT = dapl_id then env.H5P_DATASET_ACCESS_DEFAULT else dapl_id) = ap
  simp only [hobj, haux]
  split
  · exact ⟨_, [], rfl, fun ev hev => absurd hev (List.not_mem_nil ev), rfl⟩
  · rename_i g hb
    split
    · rename_i hreg
      obtain ⟨hc, _⟩ := H5Dcreate_ff_done_fail env
        (HGOTO_ERROR
          { ids := (H5I_register2 st.ids H5I_type_t.H5I_DATASET (H5_object.token g)
              (some vp) true).2,
            vol := (env.vol.H5VL_dataset_open st.vol st.ids obj
              { type := H5VL_loc_type_t.H5VL_OBJECT_BY_SELF, obj_type := H5I_get_type st.ids loc_id }
              vp (name.getD "") ap env.H5AC_dxpl_id eq_id).2 }
          [{ call := H5VL_call.dataset_open obj
                { type := H5VL_loc_type_t.H5VL_OBJECT_BY_SELF, obj_type := H5I_get_type st.ids loc_id }
                vp (name.getD "") ap env.H5AC_dxpl_id eq_id,
              ids := st.ids,
              ret := H5VL_ret.ptr (env.vol.H5VL_dataset_open st.vol st.ids obj
                { type := H5VL_loc_type_t.H5VL_OBJECT_BY_SELF, obj_type := H5I_get_type st.ids loc_id }
                vp (name.getD "") ap env.H5AC_dxpl_id eq_id).1 }]
          [] H5E_major.H5E_ATOM H5E_minor.H5E_CANTREGISTER "unable to atomize dataset handle")
        g vp eq_id rfl
      rw [hc]
      refine ⟨_, _, rfl, fun ev hev => ?_, rfl⟩
      rw [List.mem_singleton.mp hev]
      rfl
    · rename_i hreg
      rw [H5Dcreate_ff_done_ok _ _ _ _ _ hreg]
      exact ⟨_, [], rfl, fun ev hev => absurd hev (List.not_mem_nil ev), rfl⟩

theorem H5Dopen_ff_primary {σ : Type} (env : H5_env σ) (st : H5_state σ)
    (loc_id : hid_t) (name : Option String) (dapl_id : hid_t) (trans : Nat)
    (eq_id : hid_t)
    (h : (name ≠ none ∧ name ≠ some "") ∧
      (H5P_DEFAULT = dapl_id ∨ TRUE = H5P_isa_class st.ids dapl_id H5P_class_t.H5P_DATASET_ACCESS) ∧
      H5VL_get_object st.ids loc_id ≠ none ∧
      H5I_get_aux st.ids loc_id ≠ none) :
    ∃ obj vp ret rest,
      H5VL_get_object st.ids loc_id = some obj ∧
      H5I_get_aux st.ids loc_id = some vp ∧
      (H5Dopen_ff env st loc_id name dapl_id trans eq_id).calls =
        { call := H5VL_call.dataset_open obj
            { type := H5VL_loc_type_t.H5VL_OBJECT_BY_SELF, obj_type := H5I_get_type st.ids loc_id }
            vp (name.getD "")
            (if H5P_DEFAULT = dapl_id then env.H5P_DATASET_ACCESS_DEFAULT else dapl_id)
            env.H5AC_dxpl_id eq_id,
          ids := st.ids,
          ret := ret } :: rest ∧
      (∀ ev ∈ rest, ev.call.is_close = true) ∧
      ((H5Dopen_ff env st loc_id name dapl_id trans eq_id).calls.filter
        (fun ev => !ev.call.is_close)).length = 1 := by
  obtain ⟨hname, hpl, hobj, haux⟩ := h
  obtain ⟨obj, hobj⟩ := Option.ne_none_iff_exists'.mp hobj
  obtain ⟨vp, haux⟩ := Option.ne_none_iff_exists'.mp haux
  have h0 : ¬ (name = none ∨ name = some "") := fun h => h.elim hname.1 hname.2
  have h1 : ¬ (H5P_DEFAULT ≠ dapl_id ∧ TRUE ≠ H5P_isa_class st.ids dapl_id H5P_class_t.H5P_DATASET_ACCESS) :=
    fun h => hpl.elim h.1 (fun h2 => h.2 h2)
  obtain ⟨ret, rest, hc, hrest, hlen⟩ :=
    H5Dopen_ff_primary_aux env st loc_id name dapl_id trans eq_id obj vp h0 h1 hobj haux
  exact ⟨obj, vp, ret, rest, hobj, haux, hc, hrest, hlen⟩

/-- C24: when the name, the property lists and the location identifier pass
the checks (and, in the two creates, the creation properties are stored), each
of `H5Gcreate_ff`, `H5Gopen_ff`, `H5Dcreate_ff`, `H5Dopen_ff` calls its backend
routine first and once, any further call being a close.  The call carries the
object the location identifier resolves to at that moment, the backend
descriptor attached to it, the location parameters (`H5VL_OBJECT_BY_SELF`, type
tag of the location identifier), the caller's name, the property list
identifiers after default substitution, `H5AC_dxpl_id`, and the caller's
`eq_id`; `eq_id` occurs nowhere else in the call.  In the two creates the
object is the one resolved after the creation properties were stored, which is
the object of the location identifier before the call unless the location
identifier is the creation list itself. -/
theorem C24_primary_backend_call {σ : Type} (env : H5_env σ) (st : H5_state σ) :
    (∀ (loc_id : hid_t) (name : Option String) (lcpl_id gcpl_id gapl_id : hid_t)
        (trans : Nat) (eq_id : hid_t),
      ((name ≠ none ∧ name ≠ some "") ∧
       (H5P_DEFAULT = lcpl_id ∨ TRUE = H5P_isa_class st.ids lcpl_id H5P_class_t.H5P_LINK_CREATE) ∧
       (H5P_DEFAULT = gcpl_id ∨ TRUE = H5P_isa_class st.ids gcpl_id H5P_class_t.H5P_GROUP_CREATE) ∧
       (H5P_DEFAULT = gapl_id ∨ TRUE = H5P_isa_class st.ids gapl_id H5P_class_t.H5P_GROUP_ACCESS) ∧
       (∃ ids1, H5P_set st.ids
              (if H5P_DEFAULT = gcpl_id then env.H5P_GROUP_CREATE_DEFAULT else gcpl_id)
              H5P_key.H5VL_GRP_LCPL_ID
              (if H5P_DEFAULT = lcpl_id then env.H5P_LINK_CREATE_DEFAULT else lcpl_id) =
            (SUCCEED, ids1)) ∧
       H5I_object st.ids loc_id ≠ none ∧
       H5I_get_aux st.ids loc_id ≠ none) →
      ∃ obj vp ret rest,
        H5I_object (H5P_set st.ids (if H5P_DEFAULT = gcpl_id then env.H5P_GROUP_CREATE_DEFAULT else gcpl_id)
            H5P_key.H5VL_GRP_LCPL_ID (if H5P_DEFAULT = lcpl_id then env.H5P_LINK_CREATE_DEFAULT else lcpl_id)).2 loc_id = some obj ∧
        H5I_get_aux st.ids loc_id = some vp ∧
        (H5Gcreate_ff env st loc_id name lcpl_id gcpl_id gapl_id trans eq_id).calls =
          { call := H5VL_call.group_create obj
              { type := H5VL_loc_type_t.H5VL_OBJECT_BY_SELF, obj_type := H5I_get_type st.ids loc_id }
              vp (name.getD "")
              (if H5P_DEFAULT = gcpl_id then env.H5P_GROUP_CREATE_DEFAULT else gcpl_id)
              (if H5P_DEFAULT = gapl_id then env.H5P_GROUP_ACCESS_DEFAULT else gapl_id)
              env.H5AC_dxpl_id eq_id,
            ids := (H5P_set st.ids (if H5P_DEFAULT = gcpl_id then env.H5P_GROUP_CREATE_DEFAULT else gcpl_id)
            H5P_key.H5VL_GRP_LCPL_ID (if H5P_DEFAULT = lcpl_id then env.H5P_LINK_CREATE_DEFAULT else lcpl_id)).2,
            ret := ret } :: rest ∧
        (∀ ev ∈ rest, ev.call.is_close = true) ∧
        ((H5Gcreate_ff env st loc_id name lcpl_id gcpl_id gapl_id trans eq_id).calls.filter
          (fun ev => !ev.call.is_close)).length = 1 ∧
        (loc_id ≠ (if H5P_DEFAULT = gcpl_id then env.H5P_GROUP_CREATE_DEFAULT else gcpl_id) →
          H5I_object st.ids loc_id = some obj)) ∧
    (∀ (loc_id : hid_t) (name : Option String) (gapl_id : hid_t) (trans : Nat)
        (eq_id : hid_t),
      ((name ≠ none ∧ name ≠ some "") ∧
       (H5P_DEFAULT = gapl_id ∨ TRUE = H5P_isa_class st.ids gapl_id H5P_class_t.H5P_GROUP_ACCESS) ∧
       H5I_object st.ids loc_id ≠ none ∧
       H5I_get_aux st.ids loc_id ≠ none) →
      ∃ obj vp ret rest,
        H5I_object st.ids loc_id = some obj ∧
        H5I_get_aux st.ids loc_id = some vp ∧
        (H5Gopen_ff env st loc_id name gapl_id trans eq_id).calls =
          { call := H5VL_call.group_open obj
              { type := H5VL_loc_type_t.H5VL_OBJECT_BY_SELF, obj_type := H5I_get_type st.ids loc_id }
              vp (name.getD "")
              (if H5P_DEFAULT = gapl_id then env.H5P_GROUP_ACCESS_DEFAULT else gapl_id)
              env.H5AC_dxpl_id eq_id,
            ids := st.ids,
            ret := ret } :: rest ∧
        (∀ ev ∈ rest, ev.call.is_close = true) ∧
        ((H5Gopen_ff env st loc_id name gapl_id trans eq_id).calls.filter
          (fun ev => !ev.call.is_close)).length = 1) ∧
    (∀ (loc_id : hid_t) (name : Option String)
        (type_id space_id lcpl_id dcpl_id dapl_id : hid_t) (trans : Nat) (eq_id : hid_t),
      ((name ≠ none ∧ name ≠ some "") ∧
       (H5P_DEFAULT = lcpl_id ∨ TRUE = H5P_isa_class st.ids lcpl_id H5P_class_t.H5P_LINK_CREATE) ∧
       (H5P_DEFAULT = dcpl_id ∨ TRUE = H5P_isa_class st.ids dcpl_id H5P_class_t.H5P_DATASET_CREATE) ∧
       (H5P_DEFAULT = dapl_id ∨ TRUE = H5P_isa_class st.ids dapl_id H5P_class_t.H5P_DATASET_ACCESS) ∧
       (∃ ids1 ids2 ids3,
            H5P_set st.ids
              (if H5P_DEFAULT = dcpl_id then env.H5P_DATASET_CREATE_DEFAULT else dcpl_id)
              H5P_key.H5VL_DSET_TYPE_ID type_id = (SUCCEED, ids1) ∧
            H5P_set ids1
              (if H5P_DEFAULT = dcpl_id then env.H5P_DATASET_CREATE_DEFAULT else dcpl_id)
              H5P_key.H5VL_DSET_SPACE_ID space_id = (SUCCEED, ids2) ∧
            H5P_set ids2
              (if H5P_DEFAULT = dcpl_id then env.H5P_DATASET_CREATE_DEFAULT else dcpl_id)
              H5P_key.H5VL_DSET_LCPL_ID
              (if H5P_DEFAULT = lcpl_id then env.H5P_LINK_CREATE_DEFAULT else lcpl_id) =
              (SUCCEED, ids3)) ∧
       H5VL_get_object st.ids loc_id ≠ none ∧
       H5I_get_aux st.ids loc_id ≠ none) →
      ∃ obj vp ret rest,
        H5VL_get_object (H5P_set (H5P_set (H5P_set st.ids (if H5P_DEFAULT = dcpl_id then env.H5P_DATASET_CREATE_DEFAULT else dcpl_id)
            H5P_key.H5VL_DSET_TYPE_ID type_id).2 (if H5P_DEFAULT = dcpl_id then env.H5P_DATASET_CREATE_DEFAULT else dcpl_id)
            H5P_key.H5VL_DSET_SPACE_ID space_id).2 (if H5P_DEFAULT = dcpl_id then env.H5P_DATASET_CREATE_DEFAULT else dcpl_id)
            H5P_key.H5VL_DSET_LCPL_ID (if H5P_DEFAULT = lcpl_id then env.H5P_LINK_CREATE_DEFAULT else lcpl_id)).2 loc_id = some obj ∧
        H5I_get_aux st.ids loc_id = some vp ∧
        (H5Dcreate_ff env st loc_id name type_id space_id lcpl_id dcpl_id dapl_id trans eq_id).calls =
          { call := H5VL_call.dataset_create obj
              { type := H5VL_loc_type_t.H5VL_OBJECT_BY_SELF, obj_type := H5I_get_type st.ids loc_id }
              vp (name.getD "")
              (if H5P_DEFAULT = dcpl_id then env.H5P_DATASET_CREATE_DEFAULT else dcpl_id)
              (if H5P_DEFAULT = dapl_id then env.H5P_DATASET_ACCESS_DEFAULT else dapl_id)
              env.H5AC_dxpl_id eq_id,
            ids := (H5P_set (H5P_set (H5P_set st.ids (if H5P_DEFAULT = dcpl_id then env.H5P_DATASET_CREATE_DEFAULT else dcpl_id)
            H5P_key.H5VL_DSET_TYPE_ID type_id).2 (if H5P_DEFAULT = dcpl_id then env.H5P_DATASET_CREATE_DEFAULT else dcpl_id)
            H5P_key.H5VL_DSET_SPACE_ID space_id).2 (if H5P_DEFAULT = dcpl_id then env.H5P_DATASET_CREATE_DEFAULT else dcpl_id)
            H5P_key.H5VL_DSET_LCPL_ID (if H5P_DEFAULT = lcpl_id then env.H5P_LINK_CREATE_DEFAULT else lcpl_id)).2,
            ret := ret } :: rest ∧
        (∀ ev ∈ rest, ev.call.is_close = true) ∧
        ((H5Dcreate_ff env st loc_id name type_id space_id lcpl_id dcpl_id dapl_id trans eq_id).calls.filter
          (fun ev => !ev.call.is_close)).length = 1 ∧
        (loc_id ≠ (if H5P_DEFAULT = dcpl_id then env.H5P_DATASET_CREATE_DEFAULT else dcpl_id) →
          H5VL_get_object st.ids loc_id = some obj)) ∧
    (∀ (loc_id : hid_t) (name : Option String) (dapl_id : hid_t) (trans : Nat)
        (eq_id : hid_t),
      ((name ≠ none ∧ name ≠ some "") ∧
       (H5P_DEFAULT = dapl_id ∨ TRUE = H5P_isa_class st.ids dapl_id H5P_class_t.H5P_DATASET_ACCESS) ∧
       H5VL_get_object st.ids loc_id ≠ none ∧
       H5I_get_aux st.ids loc_id ≠ none) →
      ∃ obj vp ret rest,
        H5VL_get_object st.ids loc_id = some obj ∧
        H5I_get_aux st.ids loc_id = some vp ∧
        (H5Dopen_ff env st loc_id name dapl_id trans eq_id).calls =
          { call := H5VL_call.dataset_open obj
              { type := H5VL_loc_type_t.H5VL_OBJECT_BY_SELF, obj_type := H5I_get_type st.ids loc_id }
              vp (name.getD "")
              (if H5P_DEFAULT = dapl_id then env.H5P_DATASET_ACCESS_DEFAULT else dapl_id)
              env.H5AC_dxpl_id eq_id,
            ids := st.ids,
            ret := ret } :: rest ∧
        (∀ ev ∈ rest, ev.call.is_close = true) ∧
        ((H5Dopen_ff env st loc_id name dapl_id trans eq_id).calls.filter
          (fun ev => !ev.call.is_close)).length = 1) :=
  ⟨H5Gcreate_ff_primary env st,
   H5Gopen_ff_primary env st,
   H5Dcreate_ff_primary env st,
   H5Dopen_ff_primary env st⟩

/-- Witness for C24: `H5Gopen_ff` on the file identifier 1 of `sample_st`
issues one `group_open` call, for the object 50 under plugin 7. -/
theorem C24_primary_backend_call_witness :
    ∃ obj vp ret rest,
      H5I_object sample_st.ids 1 = some obj ∧
      H5I_get_aux sample_st.ids 1 = some vp ∧
      (H5Gopen_ff sample_env sample_st 1 (some "/g") 0 0 9).calls =
        { call := H5VL_call.group_open obj
            { type := H5VL_loc_type_t.H5VL_OBJECT_BY_SELF,
              obj_type := H5I_get_type sample_st.ids 1 }
            vp ((some "/g" : Option String).getD "")
            (if H5P_DEFAULT = (0 : hid_t) then sample_env.H5P_GROUP_ACCESS_DEFAULT else 0)
            sample_env.H5AC_dxpl_id 9,
          ids := sample_st.ids,
          ret := ret } :: rest ∧
      (∀ ev ∈ rest, ev.call.is_close = true) ∧
      ((H5Gopen_ff sample_env sample_st 1 (some "/g") 0 0 9).calls.filter
        (fun ev => !ev.call.is_close)).length = 1 :=
  (C24_primary_backend_call sample_env sample_st).2.1 1 (some "/g") 0 0 9
    ⟨⟨by decide, by decide⟩, Or.inl rfl, by decide, by decide⟩

/-! ## C25, C26: `H5AOtest` and `H5AOwait` -/

theorem H5AOwait_live
    (H5VL_iod_request_wait : Nat → H5VL_iod_request_t → herr_t × H5VL_iod_request_t)
    (heap : H5AO_heap) (request : H5VL_iod_request_t) (h : heap.request = some request) :
    ∃ r, H5AOwait H5VL_iod_request_wait heap = some r ∧
      (r.waited = true ↔ request.state = H5VL_iod_state_t.H5VL_IOD_PENDING) ∧
      r.status =
        (if H5VL_iod_state_t.H5VL_IOD_PENDING = request.state then
          (H5VL_iod_request_wait request.file request).2.status
        else request.status) ∧
      r.heap.request = none ∧
      r.heap.request_frees = heap.request_frees + 1 := by
  unfold H5AOwait
  rw [h]
  dsimp only
  refine ⟨_, rfl, ?_, ?_, rfl, rfl⟩
  · simp only [decide_eq_true_eq]
    exact ⟨fun h2 => h2.symm, fun h2 => h2.symm⟩
  · dsimp only
    split <;> rfl

/-- C25, failing input: two `H5AOwait` calls on one pending request.  The first
call waits, reports the status the wait left and releases the request; the
handle still points to the released block (`req = NULL` assigns the
parameter), so the second `H5AOwait`, and likewise an `H5AOtest`, starts by
reading the released block. -/
theorem C25_second_call_reads_released_request :
    (H5AOwait sample_request_wait sample_request_heap).map (fun r => r.waited) = some true ∧
    (H5AOwait sample_request_wait sample_request_heap).map (fun r => r.status) = some 1 ∧
    (H5AOwait sample_request_wait sample_request_heap).map (fun r => r.heap) =
      some { request := none, request_frees := 1, req_frees := 1 } ∧
    H5AOwait sample_request_wait { request := none, request_frees := 1, req_frees := 1 } = none ∧
    H5AOtest sample_request_wait { request := none, request_frees := 1, req_frees := 1 } =
      none := by
  decide

/-- C26: on a request whose state is PENDING, `H5AOtest` reports the status the
request holds, does not call `H5VL_iod_request_wait`, releases nothing, leaves
the memory as it was and returns `SUCCEED`; for a live request it calls
`H5VL_iod_request_wait` exactly when the state is COMPLETED, and it changes the
memory (releasing the request) exactly then. -/
theorem C26_test_does_not_block
    (H5VL_iod_request_wait : Nat → H5VL_iod_request_t → herr_t × H5VL_iod_request_t)
    (heap : H5AO_heap) (request : H5VL_iod_request_t) (h : heap.request = some request) :
    (request.state = H5VL_iod_state_t.H5VL_IOD_PENDING →
      H5AOtest H5VL_iod_request_wait heap =
        some { ret_value := SUCCEED, status := request.status, waited := false,
               heap := heap }) ∧
    (∃ r, H5AOtest H5VL_iod_request_wait heap = some r ∧ r.status = request.status ∧
      (r.waited = true ↔ request.state = H5VL_iod_state_t.H5VL_IOD_COMPLETED) ∧
      (r.heap.request = none ↔ request.state = H5VL_iod_state_t.H5VL_IOD_COMPLETED) ∧
      (request.state ≠ H5VL_iod_state_t.H5VL_IOD_COMPLETED →
        r.heap = heap ∧ r.ret_value = SUCCEED) ∧
      (request.state = H5VL_iod_state_t.H5VL_IOD_COMPLETED →
        r.heap.request_frees = heap.request_frees + 1)) := by
  unfold H5AOtest
  rw [h]
  dsimp only
  by_cases hc : H5VL_iod_state_t.H5VL_IOD_COMPLETED = request.state
  · rw [if_pos hc]
    refine ⟨fun hp => ?_, _, rfl, rfl, ⟨fun _ => hc.symm, fun _ => rfl⟩,
      ⟨fun _ => hc.symm, fun _ => rfl⟩,
      fun hn => absurd hc.symm hn, fun _ => rfl⟩
    rw [hp] at hc
    cases hc
  · rw [if_neg hc]
    refine ⟨fun _ => rfl, _, rfl, rfl, ⟨fun h2 => ?_, fun h2 => absurd h2.symm hc⟩,
      ⟨fun h2 => ?_, fun h2 => absurd h2.symm hc⟩, fun _ => ⟨rfl, rfl⟩,
      fun h2 => absurd h2.symm hc⟩
    · cases h2
    · rw [h] at h2; cases h2

/-- Witness for C26: `H5AOtest` on the pending sample request. -/
theorem C26_test_does_not_block_witness :
    H5AOtest sample_request_wait sample_request_heap =
      some { ret_value := SUCCEED, status := 0, waited := false, heap := sample_request_heap } :=
  (C26_test_does_not_block sample_request_wait sample_request_heap
    { state := H5VL_iod_state_t.H5VL_IOD_PENDING, status := 0, req := some 9, file := 3 }
    rfl).1 rfl

/-! ## C27: `getRefObjType` -/

theorem H5Location_p_get_ref_obj_type_cases (env : H5Location_env) (id : hid_t) (ref : Nat)
    (ref_type : Int) :
    ((env.H5Rget_obj_type2 id ref_type ref env.H5O_TYPE_UNKNOWN).1 < 0 ∧
      H5Location.p_get_ref_obj_type env id ref ref_type =
        H5_cxx.throws (H5_Exception.ReferenceException "getRefObjType"
          "H5Rget_obj_type2 failed")) ∨
    (¬ (env.H5Rget_obj_type2 id ref_type ref env.H5O_TYPE_UNKNOWN).1 < 0 ∧
      ((env.H5Rget_obj_type2 id ref_type ref env.H5O_TYPE_UNKNOWN).2 = env.H5O_TYPE_UNKNOWN ∨
        env.H5O_TYPE_NTYPES ≤ (env.H5Rget_obj_type2 id ref_type ref env.H5O_TYPE_UNKNOWN).2) ∧
      H5Location.p_get_ref_obj_type env id ref ref_type =
        H5_cxx.throws (H5_Exception.ReferenceException "getRefObjType"
          "H5Rget_obj_type2 returned invalid type")) ∨
    (¬ (env.H5Rget_obj_type2 id ref_type ref env.H5O_TYPE_UNKNOWN).1 < 0 ∧
      ¬ ((env.H5Rget_obj_type2 id ref_type ref env.H5O_TYPE_UNKNOWN).2 = env.H5O_TYPE_UNKNOWN ∨
        env.H5O_TYPE_NTYPES ≤ (env.H5Rget_obj_type2 id ref_type ref env.H5O_TYPE_UNKNOWN).2) ∧
      H5Location.p_get_ref_obj_type env id ref ref_type =
        H5_cxx.value (env.H5Rget_obj_type2 id ref_type ref env.H5O_TYPE_UNKNOWN).2) := by
  unfold H5Location.p_get_ref_obj_type
  dsimp only
  by_cases h1 : (env.H5Rget_obj_type2 id ref_type ref env.H5O_TYPE_UNKNOWN).1 < 0
  · rw [if_pos h1]; exact Or.inl ⟨h1, rfl⟩
  rw [if_neg h1]
  by_cases h2 : (env.H5Rget_obj_type2 id ref_type ref env.H5O_TYPE_UNKNOWN).2 =
      env.H5O_TYPE_UNKNOWN ∨
      env.H5O_TYPE_NTYPES ≤ (env.H5Rget_obj_type2 id ref_type ref env.H5O_TYPE_UNKNOWN).2
  · rw [if_pos h2]; exact Or.inr (Or.inl ⟨h1, h2, rfl⟩)
  · rw [if_neg h2]; exact Or.inr (Or.inr ⟨h1, h2, rfl⟩)

theorem H5Location_getRefObjType_cases (env : H5Location_env) (id : hid_t) (ref : Nat)
    (ref_type : Int) :
    ((env.H5Rget_obj_type2 id ref_type ref env.H5O_TYPE_UNKNOWN).1 < 0 ∧
      H5Location.getRefObjType env id ref ref_type =
        H5_cxx.throws (H5_Exception.ReferenceException "getRefObjType"
          "H5Rget_obj_type2 failed")) ∨
    (¬ (env.H5Rget_obj_type2 id ref_type ref env.H5O_TYPE_UNKNOWN).1 < 0 ∧
      ((env.H5Rget_obj_type2 id ref_type ref env.H5O_TYPE_UNKNOWN).2 = env.H5O_TYPE_UNKNOWN ∨
        env.H5O_TYPE_NTYPES ≤ (env.H5Rget_obj_type2 id ref_type ref env.H5O_TYPE_UNKNOWN).2) ∧
      H5Location.getRefObjType env id ref ref_type =
        H5_cxx.throws (H5_Exception.ReferenceException "getRefObjType"
          "H5Rget_obj_type2 returned invalid type")) ∨
    (¬ (env.H5Rget_obj_type2 id ref_type ref env.H5O_TYPE_UNKNOWN).1 < 0 ∧
      ¬ ((env.H5Rget_obj_type2 id ref_type ref env.H5O_TYPE_UNKNOWN).2 = env.H5O_TYPE_UNKNOWN ∨
        env.H5O_TYPE_NTYPES ≤ (env.H5Rget_obj_type2 id ref_type ref env.H5O_TYPE_UNKNOWN).2) ∧
      H5Location.getRefObjType env id ref ref_type =
        H5_cxx.value (env.H5Rget_obj_type2 id ref_type ref env.H5O_TYPE_UNKNOWN).2) := by
  unfold H5Location.getRefObjType
  rcases H5Location_p_get_ref_obj_type_cases env id ref ref_type with
    ⟨h1, hr⟩ | ⟨h1, h2, hr⟩ | ⟨h1, h2, hr⟩
  · rw [hr]; exact Or.inl ⟨h1, rfl⟩
  · rw [hr]; exact Or.inr (Or.inl ⟨h1, h2, rfl⟩)
  · rw [hr]; exact Or.inr (Or.inr ⟨h1, h2, rfl⟩)

/-- C27: `getRefObjType` (and `p_get_ref_obj_type`, which ends the same way)
throws exactly when `H5Rget_obj_type2` returns a negative status, or reports
`H5O_TYPE_UNKNOWN`, or reports a type that is at least `H5O_TYPE_NTYPES`; what
it throws is a `ReferenceException`; otherwise it returns the type reported.
A value returned is therefore below `H5O_TYPE_NTYPES` and not
`H5O_TYPE_UNKNOWN`, hence strictly between the two whenever the routine reports
an enumerator (`H5O_TYPE_UNKNOWN` being the least). -/
theorem C27_getRefObjType_valid_or_throws (env : H5Location_env) (id : hid_t) (ref : Nat)
    (ref_type : Int) :
    H5Location.getRefObjType env id ref ref_type =
      H5Location.p_get_ref_obj_type env id ref ref_type ∧
    ((∃ e, H5Location.getRefObjType env id ref ref_type = H5_cxx.throws e) ↔
      ((env.H5Rget_obj_type2 id ref_type ref env.H5O_TYPE_UNKNOWN).1 < 0 ∨
        (env.H5Rget_obj_type2 id ref_type ref env.H5O_TYPE_UNKNOWN).2 = env.H5O_TYPE_UNKNOWN ∨
        env.H5O_TYPE_NTYPES ≤ (env.H5Rget_obj_type2 id ref_type ref env.H5O_TYPE_UNKNOWN).2)) ∧
    (∀ e, H5Location.getRefObjType env id ref ref_type = H5_cxx.throws e →
      ∃ m, e = H5_Exception.ReferenceException "getRefObjType" m) ∧
    (¬ ((env.H5Rget_obj_type2 id ref_type ref env.H5O_TYPE_UNKNOWN).1 < 0 ∨
        (env.H5Rget_obj_type2 id ref_type ref env.H5O_TYPE_UNKNOWN).2 = env.H5O_TYPE_UNKNOWN ∨
        env.H5O_TYPE_NTYPES ≤ (env.H5Rget_obj_type2 id ref_type ref env.H5O_TYPE_UNKNOWN).2) →
      H5Location.getRefObjType env id ref ref_type =
        H5_cxx.value (env.H5Rget_obj_type2 id ref_type ref env.H5O_TYPE_UNKNOWN).2) ∧
    (∀ v, H5Location.getRefObjType env id ref ref_type = H5_cxx.value v →
      v = (env.H5Rget_obj_type2 id ref_type ref env.H5O_TYPE_UNKNOWN).2 ∧
      v ≠ env.H5O_TYPE_UNKNOWN ∧ v < env.H5O_TYPE_NTYPES ∧
      (env.H5O_TYPE_UNKNOWN ≤ v → env.H5O_TYPE_UNKNOWN < v)) ∧
    H5Location.getRefObjType env id ref ref_type ≠ H5_cxx.undefined := by
  have hp : H5Location.getRefObjType env id ref ref_type =
      H5Location.p_get_ref_obj_type env id ref ref_type := by
    rcases H5Location_p_get_ref_obj_type_cases env id ref ref_type with
      ⟨_, hr⟩ | ⟨_, _, hr⟩ | ⟨_, _, hr⟩ <;>
    · unfold H5Location.getRefObjType
      rw [hr]
  refine ⟨hp, ?_⟩
  rcases H5Location_getRefObjType_cases env id ref ref_type with
    ⟨h1, hr⟩ | ⟨h1, h2, hr⟩ | ⟨h1, h2, hr⟩
  · rw [hr]
    refine ⟨⟨fun _ => Or.inl h1, fun _ => ⟨_, rfl⟩⟩, ?_, fun h => absurd (Or.inl h1) h, ?_, ?_⟩
    · intro e he
      cases he
      exact ⟨_, rfl⟩
    · intro v hv; cases hv
    · intro h; cases h
  · rw [hr]
    refine ⟨⟨fun _ => Or.inr h2, fun _ => ⟨_, rfl⟩⟩, ?_, fun h => absurd (Or.inr h2) h, ?_, ?_⟩
    · intro e he
      cases he
      exact ⟨_, rfl⟩
    · intro v hv; cases hv
    · intro h; cases h
  · rw [hr]
    have h3 : ¬ ((env.H5Rget_obj_type2 id ref_type ref env.H5O_TYPE_UNKNOWN).1 < 0 ∨
        (env.H5Rget_obj_type2 id ref_type ref env.H5O_TYPE_UNKNOWN).2 = env.H5O_TYPE_UNKNOWN ∨
        env.H5O_TYPE_NTYPES ≤ (env.H5Rget_obj_type2 id ref_type ref env.H5O_TYPE_UNKNOWN).2) :=
      fun h => h.elim h1 h2
    refine ⟨⟨fun h => ?_, fun h => absurd h h3⟩, ?_, fun _ => rfl, ?_, ?_⟩
    · obtain ⟨e, he⟩ := h
      cases he
    · intro e he; cases he
    · intro v hv
      cases hv
      refine ⟨rfl, fun h => h2 (Or.inl h), lt_of_not_le (fun h => h2 (Or.inr h)), fun h => ?_⟩
      exact lt_of_le_of_ne h (fun h4 => h2 (Or.inl h4.symm))
    · intro h; cases h

/-- Witness for C27: the reference 2 of the sample C library is reported as
type 1 with status 0, and `getRefObjType` returns 1. -/
theorem C27_getRefObjType_valid_or_throws_witness :
    H5Location.getRefObjType (sample_location_env none) 1 2 0 = H5_cxx.value 1 :=
  (C27_getRefObjType_valid_or_throws (sample_location_env none) 1 2 0).2.2.2.1 (by decide)

/-! ## C28: the element `getComment` assigns -/

theorem H5Location_getComment_store (env : H5Location_env) (id : hid_t) (name : String)
    (buf_size : Nat) (comment : List Nat) (i : Nat)
    (h : (H5Location.getComment env id name buf_size comment).store = some i) :
    i = (buf_size + 2 ^ H5_SIZE_BITS - 1) % 2 ^ H5_SIZE_BITS ∧
    (1 ≤ buf_size → buf_size < 2 ^ 64 → i < buf_size) := by
  unfold H5Location.getComment at h
  dsimp only at h
  by_cases h1 : (env.H5Oget_comment_by_name id name (some comment) buf_size H5P_DEFAULT).1 < 0
  · rw [if_pos h1] at h; cases h
  rw [if_neg h1] at h
  by_cases h2 : buf_size ≤
      (env.H5Oget_comment_by_name id name (some comment) buf_size H5P_DEFAULT).1.toNat %
        2 ^ H5_SIZE_BITS
  · rw [if_pos h2] at h
    have h3 : (buf_size + 2 ^ H5_SIZE_BITS - 1) % 2 ^ H5_SIZE_BITS = i := Option.some.inj h
    refine ⟨h3.symm, fun hb1 hb2 => ?_⟩
    rw [← h3, H5_size_pred buf_size hb1 hb2]
    omega
  · rw [if_neg h2] at h; cases h

/-- C28, failing input: `getComment(name, 0, comment)` on an object whose
comment is `hi`, with an empty buffer and with a buffer of three bytes.  The C
call returns 2, `2 >= 0` holds, and the function assigns `comment[buf_size-1]`
with `buf_size-1` computed in `size_t`: the index is 18446744073709551615, not
below `buf_size` and outside both buffers. -/
theorem C28_store_outside_buffer :
    (H5Location.getComment (sample_location_env (some [104, 105])) 1 "obj" 0 []).store =
      some 18446744073709551615 ∧
    (H5Location.getComment (sample_location_env (some [104, 105])) 1 "obj" 0 []).ret =
      H5_cxx.value 2 ∧
    (H5Location.getComment (sample_location_env (some [104, 105])) 1 "obj" 0
      [7, 7, 7]).store = some 18446744073709551615 ∧
    ¬ (18446744073709551615 < 0) ∧
    ¬ (18446744073709551615 < [7, 7, 7].length) := by
  decide

/-! ## C29: the creation properties handed to the backend -/

theorem H5Dcreate_ff_stored {ids ids1 ids2 ids3 : H5I_registry} {dcpl type_id space_id lcpl : hid_t}
    (hs1 : H5P_set ids dcpl H5P_key.H5VL_DSET_TYPE_ID type_id = (SUCCEED, ids1))
    (hs2 : H5P_set ids1 dcpl H5P_key.H5VL_DSET_SPACE_ID space_id = (SUCCEED, ids2))
    (hs3 : H5P_set ids2 dcpl H5P_key.H5VL_DSET_LCPL_ID lcpl = (SUCCEED, ids3)) :
    H5P_get ids3 dcpl H5P_key.H5VL_DSET_TYPE_ID = some type_id ∧
    H5P_get ids3 dcpl H5P_key.H5VL_DSET_SPACE_ID = some space_id ∧
    H5P_get ids3 dcpl H5P_key.H5VL_DSET_LCPL_ID = some lcpl := by
  have g1 := H5P_set_get hs1
  have g2 := H5P_set_get hs2
  have g3 := H5P_set_get hs3
  have e2 : ids2 = (H5P_set ids1 dcpl H5P_key.H5VL_DSET_SPACE_ID space_id).2 := by rw [hs2]
  have e3 : ids3 = (H5P_set ids2 dcpl H5P_key.H5VL_DSET_LCPL_ID lcpl).2 := by rw [hs3]
  refine ⟨?_, ?_, g3⟩
  · rw [e3, H5P_set_get_frame _ _ _ _ _ _ (Or.inr (by decide)), e2,
      H5P_set_get_frame _ _ _ _ _ _ (Or.inr (by decide))]
    exact g1
  · rw [e3, H5P_set_get_frame _ _ _ _ _ _ (Or.inr (by decide))]
    exact g2

theorem H5Dcreate_ff_at_call {σ : Type} (env : H5_env σ) (st : H5_state σ)
    (loc_id : hid_t) (name : Option String)
    (type_id space_id lcpl_id dcpl_id dapl_id : hid_t) (trans : Nat) (eq_id : hid_t) :
    ∀ ev ∈ (H5Dcreate_ff env st loc_id name type_id space_id lcpl_id dcpl_id dapl_id trans eq_id).calls,
      H5P_get ev.ids (if H5P_DEFAULT = dcpl_id then env.H5P_DATASET_CREATE_DEFAULT else dcpl_id)
        H5P_key.H5VL_DSET_TYPE_ID = some type_id ∧
      H5P_get ev.ids (if H5P_DEFAULT = dcpl_id then env.H5P_DATASET_CREATE_DEFAULT else dcpl_id)
        H5P_key.H5VL_DSET_SPACE_ID = some space_id ∧
      H5P_get ev.ids (if H5P_DEFAULT = dcpl_id then env.H5P_DATASET_CREATE_DEFAULT else dcpl_id)
        H5P_key.H5VL_DSET_LCPL_ID =
        some (if H5P_DEFAULT = lcpl_id then env.H5P_LINK_CREATE_DEFAULT else lcpl_id) := by
  intro ev hev
  rcases H5Dcreate_ff_cases env st loc_id name type_id space_id lcpl_id dcpl_id dapl_id trans eq_id with
    ⟨st1, maj, min, msg, hr, _⟩ | ⟨nm, ids1, ids2, ids3, _, _, hs1, hs2, hs3, hr⟩
  · rw [hr] at hev; exact absurd hev (List.not_mem_nil ev)
  have hst := H5Dcreate_ff_stored hs1 hs2 hs3
  rw [hr] at hev
  rcases H5Dcreate_ff_vol_calls env { ids := ids3, vol := st.vol } loc_id nm
      (if H5P_DEFAULT = dcpl_id then env.H5P_DATASET_CREATE_DEFAULT else dcpl_id)
      (if H5P_DEFAULT = dapl_id then env.H5P_DATASET_ACCESS_DEFAULT else dapl_id) eq_id with
    ⟨_, hnil⟩ | ⟨obj, vp, ret, rest, _, _, hcalls, hrest⟩
  · rw [hnil] at hev; exact absurd hev (List.not_mem_nil ev)
  · rw [hcalls] at hev
    rcases List.mem_cons.mp hev with h | h
    · rw [h]; exact hst
    · rw [(hrest ev h).2]; exact hst

theorem H5Dcreate_ff_stores {σ : Type} (env : H5_env σ) (st : H5_state σ)
    (loc_id : hid_t) (name : Option String)
    (type_id space_id lcpl_id dcpl_id dapl_id : hid_t) (trans : Nat) (eq_id : hid_t)
    (hn1 : name ≠ none) (hn2 : name ≠ some "")
    (hp0 : H5P_DEFAULT = lcpl_id ∨ TRUE = H5P_isa_class st.ids lcpl_id H5P_class_t.H5P_LINK_CREATE)
    (hp1 : H5P_DEFAULT = dcpl_id ∨ TRUE = H5P_isa_class st.ids dcpl_id H5P_class_t.H5P_DATASET_CREATE)
    (hp2 : H5P_DEFAULT = dapl_id ∨ TRUE = H5P_isa_class st.ids dapl_id H5P_class_t.H5P_DATASET_ACCESS)
    (hsets : ∃ ids1 ids2 ids3,
            H5P_set st.ids
              (if H5P_DEFAULT = dcpl_id then env.H5P_DATASET_CREATE_DEFAULT else dcpl_id)
              H5P_key.H5VL_DSET_TYPE_ID type_id = (SUCCEED, ids1) ∧
            H5P_set ids1
              (if H5P_DEFAULT = dcpl_id then env.H5P_DATASET_CREATE_DEFAULT else dcpl_id)
              H5P_key.H5VL_DSET_SPACE_ID space_id = (SUCCEED, ids2) ∧
            H5P_set ids2
              (if H5P_DEFAULT = dcpl_id then env.H5P_DATASET_CREATE_DEFAULT else dcpl_id)
              H5P_key.H5VL_DSET_LCPL_ID
              (if H5P_DEFAULT = lcpl_id then env.H5P_LINK_CREATE_DEFAULT else lcpl_id) =
              (SUCCEED, ids3)) :
    H5P_get (H5Dcreate_ff env st loc_id name type_id space_id lcpl_id dcpl_id dapl_id trans eq_id).st.ids (if H5P_DEFAULT = dcpl_id then env.H5P_DATASET_CREATE_DEFAULT else dcpl_id)
      H5P_key.H5VL_DSET_TYPE_ID = some type_id ∧
    H5P_get (H5Dcreate_ff env st loc_id name type_id space_id lcpl_id dcpl_id dapl_id trans eq_id).st.ids (if H5P_DEFAULT = dcpl_id then env.H5P_DATASET_CREATE_DEFAULT else dcpl_id)
      H5P_key.H5VL_DSET_SPACE_ID = some space_id ∧
    H5P_get (H5Dcreate_ff env st loc_id name type_id space_id lcpl_id dcpl_id dapl_id trans eq_id).st.ids (if H5P_DEFAULT = dcpl_id then env.H5P_DATASET_CREATE_DEFAULT else dcpl_id)
      H5P_key.H5VL_DSET_LCPL_ID =
      some (if H5P_DEFAULT = lcpl_id then env.H5P_LINK_CREATE_DEFAULT else lcpl_id) := by
  have h0 : ¬ (name = none ∨ name = some "") := fun h => h.elim hn1 hn2
  unfold H5Dcreate_ff
  dsimp only
  simp only [H5Dcreate_ff_done_none]
  rw [if_neg h0]
  rw [if_neg (fun h => hp0.elim h.1 (fun h2 => h.2 h2))]
  rw [if_neg (fun h => hp1.elim h.1 (fun h2 => h.2 h2))]
  rw [if_neg (fun h => hp2.elim h.1 (fun h2 => h.2 h2))]
  obtain ⟨ids1, ids2, ids3, hs1, hs2, hs3⟩ := hsets
  have hst := H5Dcreate_ff_stored hs1 hs2 hs3
  have hobj : H5I_object st.ids (if H5P_DEFAULT = dcpl_id then env.H5P_DATASET_CREATE_DEFAULT else dcpl_id) ≠ none := by
    intro hnone
    rw [H5P_set_none _ _ hnone] at hs1
    have h1 : FAIL = SUCCEED := congrArg Prod.fst hs1
    exact absurd h1 (by decide)
  cases hco : H5I_object st.ids (if H5P_DEFAULT = dcpl_id then env.H5P_DATASET_CREATE_DEFAULT else dcpl_id) with
  | none => exact absurd hco hobj
  | some o =>
    dsimp only
    rw [hs1]
    dsimp only
    rw [if_neg (by decide : ¬ SUCCEED < 0), hs2]
    dsimp only
    rw [if_neg (by decide : ¬ SUCCEED < 0), hs3]
    dsimp only
    rw [if_neg (by decide : ¬ SUCCEED < 0)]
    simp only [H5Dcreate_ff_vol_plist_frame]
    exact hst

theorem H5Dcreate_ff_creation_properties {σ : Type} (env : H5_env σ) (st : H5_state σ)
    (loc_id : hid_t) (name : Option String)
    (type_id space_id lcpl_id dcpl_id dapl_id : hid_t) (trans : Nat) (eq_id : hid_t) :
    (∀ ev ∈ (H5Dcreate_ff env st loc_id name type_id space_id lcpl_id dcpl_id dapl_id trans eq_id).calls,
        H5P_get ev.ids (if H5P_DEFAULT = dcpl_id then env.H5P_DATASET_CREATE_DEFAULT else dcpl_id)
          H5P_key.H5VL_DSET_TYPE_ID = some type_id ∧
        H5P_get ev.ids (if H5P_DEFAULT = dcpl_id then env.H5P_DATASET_CREATE_DEFAULT else dcpl_id)
          H5P_key.H5VL_DSET_SPACE_ID = some space_id ∧
        H5P_get ev.ids (if H5P_DEFAULT = dcpl_id then env.H5P_DATASET_CREATE_DEFAULT else dcpl_id)
          H5P_key.H5VL_DSET_LCPL_ID =
          some (if H5P_DEFAULT = lcpl_id then env.H5P_LINK_CREATE_DEFAULT else lcpl_id)) ∧
      (name ≠ none → name ≠ some "" →
      (H5P_DEFAULT = lcpl_id ∨ TRUE = H5P_isa_class st.ids lcpl_id H5P_class_t.H5P_LINK_CREATE) →
      (H5P_DEFAULT = dcpl_id ∨ TRUE = H5P_isa_class st.ids dcpl_id H5P_class_t.H5P_DATASET_CREATE) →
      (H5P_DEFAULT = dapl_id ∨ TRUE = H5P_isa_class st.ids dapl_id H5P_class_t.H5P_DATASET_ACCESS) →
      (∃ ids1 ids2 ids3,
            H5P_set st.ids
              (if H5P_DEFAULT = dcpl_id then env.H5P_DATASET_CREATE_DEFAULT else dcpl_id)
              H5P_key.H5VL_DSET_TYPE_ID type_id = (SUCCEED, ids1) ∧
            H5P_set ids1
              (if H5P_DEFAULT = dcpl_id then env.H5P_DATASET_CREATE_DEFAULT else dcpl_id)
              H5P_key.H5VL_DSET_SPACE_ID space_id = (SUCCEED, ids2) ∧
            H5P_set ids2
              (if H5P_DEFAULT = dcpl_id then env.H5P_DATASET_CREATE_DEFAULT else dcpl_id)
              H5P_key.H5VL_DSET_LCPL_ID
              (if H5P_DEFAULT = lcpl_id then env.H5P_LINK_CREATE_DEFAULT else lcpl_id) =
              (SUCCEED, ids3)) →
        (H5P_get (H5Dcreate_ff env st loc_id name type_id space_id lcpl_id dcpl_id dapl_id trans eq_id).st.ids (if H5P_DEFAULT = dcpl_id then env.H5P_DATASET_CREATE_DEFAULT else dcpl_id)
          H5P_key.H5VL_DSET_TYPE_ID = some type_id ∧
        H5P_get (H5Dcreate_ff env st loc_id name type_id space_id lcpl_id dcpl_id dapl_id trans eq_id).st.ids (if H5P_DEFAULT = dcpl_id then env.H5P_DATASET_CREATE_DEFAULT else dcpl_id)
          H5P_key.H5VL_DSET_SPACE_ID = some space_id ∧
        H5P_get (H5Dcreate_ff env st loc_id name type_id space_id lcpl_id dcpl_id dapl_id trans eq_id).st.ids (if H5P_DEFAULT = dcpl_id then env.H5P_DATASET_CREATE_DEFAULT else dcpl_id)
          H5P_key.H5VL_DSET_LCPL_ID =
          some (if H5P_DEFAULT = lcpl_id then env.H5P_LINK_CREATE_DEFAULT else lcpl_id)) ∧
        ((H5VL_get_object st.ids loc_id = none ∨ H5I_get_aux st.ids loc_id = none) →
          (H5Dcreate_ff env st loc_id name type_id space_id lcpl_id dcpl_id dapl_id trans eq_id).ret_value = FAIL ∧
          (H5Dcreate_ff env st loc_id name type_id space_id lcpl_id dcpl_id dapl_id trans eq_id).calls = [])) := by
  refine ⟨H5Dcreate_ff_at_call env st loc_id name type_id space_id lcpl_id dcpl_id dapl_id trans eq_id, fun hn1 hn2 hp0 hp1 hp2 hsets => ⟨?_, fun hloc => ?_⟩⟩
  · exact H5Dcreate_ff_stores env st loc_id name type_id space_id lcpl_id dcpl_id dapl_id trans eq_id hn1 hn2 hp0 hp1 hp2 hsets
  · obtain ⟨h1, h2, _⟩ := H5Dcreate_ff_bad_loc env st loc_id name type_id space_id lcpl_id dcpl_id dapl_id trans eq_id hloc
    exact ⟨h1, h2⟩

theorem H5Gcreate_ff_at_call {σ : Type} (env : H5_env σ) (st : H5_state σ)
    (loc_id : hid_t) (name : Option String) (lcpl_id gcpl_id gapl_id : hid_t)
    (trans : Nat) (eq_id : hid_t) :
    ∀ ev ∈ (H5Gcreate_ff env st loc_id name lcpl_id gcpl_id gapl_id trans eq_id).calls,
      H5P_get ev.ids (if H5P_DEFAULT = gcpl_id then env.H5P_GROUP_CREATE_DEFAULT else gcpl_id)
        H5P_key.H5VL_GRP_LCPL_ID =
        some (if H5P_DEFAULT = lcpl_id then env.H5P_LINK_CREATE_DEFAULT else lcpl_id) := by
  intro ev hev
  rcases H5Gcreate_ff_cases env st loc_id name lcpl_id gcpl_id gapl_id trans eq_id with
    ⟨maj, min, msg, hr⟩ | ⟨nm, ids3, _, _, hs3, hr⟩
  · rw [hr] at hev; exact absurd hev (List.not_mem_nil ev)
  have hst := H5P_set_get hs3
  rw [hr] at hev
  rcases H5Gcreate_ff_vol_calls env { ids := ids3, vol := st.vol } loc_id nm
      (if H5P_DEFAULT = gcpl_id then env.H5P_GROUP_CREATE_DEFAULT else gcpl_id)
      (if H5P_DEFAULT = gapl_id then env.H5P_GROUP_ACCESS_DEFAULT else gapl_id) eq_id with
    ⟨_, hnil⟩ | ⟨obj, vp, ret, rest, _, _, hcalls, hrest⟩
  · rw [hnil] at hev; exact absurd hev (List.not_mem_nil ev)
  · rw [hcalls] at hev
    rcases List.mem_cons.mp hev with h | h
    · rw [h]; exact hst
    · rw [(hrest ev h).2]; exact hst

theorem H5Gcreate_ff_stores {σ : Type} (env : H5_env σ) (st : H5_state σ)
    (loc_id : hid_t) (name : Option String) (lcpl_id gcpl_id gapl_id : hid_t)
    (trans : Nat) (eq_id : hid_t)
    (hn1 : name ≠ none) (hn2 : name ≠ some "")
    (hp0 : H5P_DEFAULT = lcpl_id ∨ TRUE = H5P_isa_class st.ids lcpl_id H5P_class_t.H5P_LINK_CREATE)
    (hp1 : H5P_DEFAULT = gcpl_id ∨ TRUE = H5P_isa_class st.ids gcpl_id H5P_class_t.H5P_GROUP_CREATE)
    (hp2 : H5P_DEFAULT = gapl_id ∨ TRUE = H5P_isa_class st.ids gapl_id H5P_class_t.H5P_GROUP_ACCESS)
    (hsets : ∃ ids1, H5P_set st.ids
              (if H5P_DEFAULT = gcpl_id then env.H5P_GROUP_CREATE_DEFAULT else gcpl_id)
              H5P_key.H5VL_GRP_LCPL_ID
              (if H5P_DEFAULT = lcpl_id then env.H5P_LINK_CREATE_DEFAULT else lcpl_id) =
            (SUCCEED, ids1)) :
    H5P_get (H5Gcreate_ff env st loc_id name lcpl_id gcpl_id gapl_id trans eq_id).st.ids (if H5P_DEFAULT = gcpl_id then env.H5P_GROUP_CREATE_DEFAULT else gcpl_id)
      H5P_key.H5VL_GRP_LCPL_ID =
      some (if H5P_DEFAULT = lcpl_id then env.H5P_LINK_CREATE_DEFAULT else lcpl_id) := by
  have h0 : ¬ (name = none ∨ name = some "") := fun h => h.elim hn1 hn2
  unfold H5Gcreate_ff
  dsimp only
  simp only [H5Gcreate_ff_done_none]
  rw [if_neg h0]
  rw [if_neg (fun h => hp0.elim h.1 (fun h2 => h.2 h2))]
  rw [if_neg (fun h => hp1.elim h.1 (fun h2 => h.2 h2))]
  rw [if_neg (fun h => hp2.elim h.1 (fun h2 => h.2 h2))]
  obtain ⟨ids3, hs3⟩ := hsets
  have hst := H5P_set_get hs3
  have hobj : H5I_object st.ids (if H5P_DEFAULT = gcpl_id then env.H5P_GROUP_CREATE_DEFAULT else gcpl_id) ≠ none := by
    intro hnone
    rw [H5P_set_none _ _ hnone] at hs3
    have h1 : FAIL = SUCCEED := congrArg Prod.fst hs3
    exact absurd h1 (by decide)
  cases hco : H5I_object st.ids (if H5P_DEFAULT = gcpl_id then env.H5P_GROUP_CREATE_DEFAULT else gcpl_id) with
  | none => exact absurd hco hobj
  | some o =>
    dsimp only
    rw [hs3]
    dsimp only
    rw [if_neg (by decide : ¬ SUCCEED < 0)]
    simp only [H5Gcreate_ff_vol_plist_frame]
    exact hst

theorem H5Gcreate_ff_creation_properties {σ : Type} (env : H5_env σ) (st : H5_state σ)
    (loc_id : hid_t) (name : Option String) (lcpl_id gcpl_id gapl_id : hid_t)
    (trans : Nat) (eq_id : hid_t) :
    (∀ ev ∈ (H5Gcreate_ff env st loc_id name lcpl_id gcpl_id gapl_id trans eq_id).calls,
        H5P_get ev.ids (if H5P_DEFAULT = gcpl_id then env.H5P_GROUP_CREATE_DEFAULT else gcpl_id)
          H5P_key.H5VL_GRP_LCPL_ID =
          some (if H5P_DEFAULT = lcpl_id then env.H5P_LINK_CREATE_DEFAULT else lcpl_id)) ∧
      (name ≠ none → name ≠ some "" →
      (H5P_DEFAULT = lcpl_id ∨ TRUE = H5P_isa_class st.ids lcpl_id H5P_class_t.H5P_LINK_CREATE) →
      (H5P_DEFAULT = gcpl_id ∨ TRUE = H5P_isa_class st.ids gcpl_id H5P_class_t.H5P_GROUP_CREATE) →
      (H5P_DEFAULT = gapl_id ∨ TRUE = H5P_isa_class st.ids gapl_id H5P_class_t.H5P_GROUP_ACCESS) →
      (∃ ids1, H5P_set st.ids
              (if H5P_DEFAULT = gcpl_id then env.H5P_GROUP_CREATE_DEFAULT else gcpl_id)
              H5P_key.H5VL_GRP_LCPL_ID
              (if H5P_DEFAULT = lcpl_id then env.H5P_LINK_CREATE_DEFAULT else lcpl_id) =
            (SUCCEED, ids1)) →
        (H5P_get (H5Gcreate_ff env st loc_id name lcpl_id gcpl_id gapl_id trans eq_id).st.ids (if H5P_DEFAULT = gcpl_id then env.H5P_GROUP_CREATE_DEFAULT else gcpl_id)
          H5P_key.H5VL_GRP_LCPL_ID =
          some (if H5P_DEFAULT = lcpl_id then env.H5P_LINK_CREATE_DEFAULT else lcpl_id)) ∧
        ((H5I_object st.ids loc_id = none ∨ H5I_get_aux st.ids loc_id = none) →
          (H5Gcreate_ff env st loc_id name lcpl_id gcpl_id gapl_id trans eq_id).ret_value = FAIL ∧
          (H5Gcreate_ff env st loc_id name lcpl_id gcpl_id gapl_id trans eq_id).calls = [])) := by
  refine ⟨H5Gcreate_ff_at_call env st loc_id name lcpl_id gcpl_id gapl_id trans eq_id, fun hn1 hn2 hp0 hp1 hp2 hsets => ⟨?_, fun hloc => ?_⟩⟩
  · exact H5Gcreate_ff_stores env st loc_id name lcpl_id gcpl_id gapl_id trans eq_id hn1 hn2 hp0 hp1 hp2 hsets
  · obtain ⟨h1, h2, _⟩ := H5Gcreate_ff_bad_loc env st loc_id name lcpl_id gcpl_id gapl_id trans eq_id hloc
    exact ⟨h1, h2⟩

/-- C29: at every backend call of `H5Dcreate_ff` the dataset creation list,
after default substitution, reads `type_id`, `space_id` and the substituted
link creation list identifier under `H5VL_DSET_TYPE_ID`, `H5VL_DSET_SPACE_ID`,
`H5VL_DSET_LCPL_ID`, in the registry the backend sees; at every backend call of
`H5Gcreate_ff` the group creation list reads the substituted link creation list
identifier under `H5VL_GRP_LCPL_ID`.  When the name and the property lists pass
the checks and the properties can be stored, the values are in the registry the
call leaves, whatever happens afterwards; in particular they are there when the
location identifier does not resolve or has no backend, in which case the call
returns `FAIL` without a backend call. -/
theorem C29_creation_properties_stored {σ : Type} (env : H5_env σ) (st : H5_state σ) :
    (∀ (loc_id : hid_t) (name : Option String)
        (type_id space_id lcpl_id dcpl_id dapl_id : hid_t) (trans : Nat) (eq_id : hid_t),
      (∀ ev ∈ (H5Dcreate_ff env st loc_id name type_id space_id lcpl_id dcpl_id dapl_id trans eq_id).calls,
        H5P_get ev.ids (if H5P_DEFAULT = dcpl_id then env.H5P_DATASET_CREATE_DEFAULT else dcpl_id)
          H5P_key.H5VL_DSET_TYPE_ID = some type_id ∧
        H5P_get ev.ids (if H5P_DEFAULT = dcpl_id then env.H5P_DATASET_CREATE_DEFAULT else dcpl_id)
          H5P_key.H5VL_DSET_SPACE_ID = some space_id ∧
        H5P_get ev.ids (if H5P_DEFAULT = dcpl_id then env.H5P_DATASET_CREATE_DEFAULT else dcpl_id)
          H5P_key.H5VL_DSET_LCPL_ID =
          some (if H5P_DEFAULT = lcpl_id then env.H5P_LINK_CREATE_DEFAULT else lcpl_id)) ∧
      (name ≠ none → name ≠ some "" →
      (H5P_DEFAULT = lcpl_id ∨ TRUE = H5P_isa_class st.ids lcpl_id H5P_class_t.H5P_LINK_CREATE) →
      (H5P_DEFAULT = dcpl_id ∨ TRUE = H5P_isa_class st.ids dcpl_id H5P_class_t.H5P_DATASET_CREATE) →
      (H5P_DEFAULT = dapl_id ∨ TRUE = H5P_isa_class st.ids dapl_id H5P_class_t.H5P_DATASET_ACCESS) →
      (∃ ids1 ids2 ids3,
            H5P_set st.ids
              (if H5P_DEFAULT = dcpl_id then env.H5P_DATASET_CREATE_DEFAULT else dcpl_id)
              H5P_key.H5VL_DSET_TYPE_ID type_id = (SUCCEED, ids1) ∧
            H5P_set ids1
              (if H5P_DEFAULT = dcpl_id then env.H5P_DATASET_CREATE_DEFAULT else dcpl_id)
              H5P_key.H5VL_DSET_SPACE_ID space_id = (SUCCEED, ids2) ∧
            H5P_set ids2
              (if H5P_DEFAULT = dcpl_id then env.H5P_DATASET_CREATE_DEFAULT else dcpl_id)
              H5P_key.H5VL_DSET_LCPL_ID
              (if H5P_DEFAULT = lcpl_id then env.H5P_LINK_CREATE_DEFAULT else lcpl_id) =
              (SUCCEED, ids3)) →
        (H5P_get (H5Dcreate_ff env st loc_id name type_id space_id lcpl_id dcpl_id dapl_id trans eq_id).st.ids (if H5P_DEFAULT = dcpl_id then env.H5P_DATASET_CREATE_DEFAULT else dcpl_id)
          H5P_key.H5VL_DSET_TYPE_ID = some type_id ∧
        H5P_get (H5Dcreate_ff env st loc_id name type_id space_id lcpl_id dcpl_id dapl_id trans eq_id).st.ids (if H5P_DEFAULT = dcpl_id then env.H5P_DATASET_CREATE_DEFAULT else dcpl_id)
          H5P_key.H5VL_DSET_SPACE_ID = some space_id ∧
        H5P_get (H5Dcreate_ff env st loc_id name type_id space_id lcpl_id dcpl_id dapl_id trans eq_id).st.ids (if H5P_DEFAULT = dcpl_id then env.H5P_DATASET_CREATE_DEFAULT else dcpl_id)
          H5P_key.H5VL_DSET_LCPL_ID =
          some (if H5P_DEFAULT = lcpl_id then env.H5P_LINK_CREATE_DEFAULT else lcpl_id)) ∧
        ((H5VL_get_object st.ids loc_id = none ∨ H5I_get_aux st.ids loc_id = none) →
          (H5Dcreate_ff env st loc_id name type_id space_id lcpl_id dcpl_id dapl_id trans eq_id).ret_value = FAIL ∧
          (H5Dcreate_ff env st loc_id name type_id space_id lcpl_id dcpl_id dapl_id trans eq_id).calls = []))) ∧
    (∀ (loc_id : hid_t) (name : Option String) (lcpl_id gcpl_id gapl_id : hid_t)
        (trans : Nat) (eq_id : hid_t),
      (∀ ev ∈ (H5Gcreate_ff env st loc_id name lcpl_id gcpl_id gapl_id trans eq_id).calls,
        H5P_get ev.ids (if H5P_DEFAULT = gcpl_id then env.H5P_GROUP_CREATE_DEFAULT else gcpl_id)
          H5P_key.H5VL_GRP_LCPL_ID =
          some (if H5P_DEFAULT = lcpl_id then env.H5P_LINK_CREATE_DEFAULT else lcpl_id)) ∧
      (name ≠ none → name ≠ some "" →
      (H5P_DEFAULT = lcpl_id ∨ TRUE = H5P_isa_class st.ids lcpl_id H5P_class_t.H5P_LINK_CREATE) →
      (H5P_DEFAULT = gcpl_id ∨ TRUE = H5P_isa_class st.ids gcpl_id H5P_class_t.H5P_GROUP_CREATE) →
      (H5P_DEFAULT = gapl_id ∨ TRUE = H5P_isa_class st.ids gapl_id H5P_class_t.H5P_GROUP_ACCESS) →
      (∃ ids1, H5P_set st.ids
              (if H5P_DEFAULT = gcpl_id then env.H5P_GROUP_CREATE_DEFAULT else gcpl_id)
              H5P_key.H5VL_GRP_LCPL_ID
              (if H5P_DEFAULT = lcpl_id then env.H5P_LINK_CREATE_DEFAULT else lcpl_id) =
            (SUCCEED, ids1)) →
        (H5P_get (H5Gcreate_ff env st loc_id name lcpl_id gcpl_id gapl_id trans eq_id).st.ids (if H5P_DEFAULT = gcpl_id then env.H5P_GROUP_CREATE_DEFAULT else gcpl_id)
          H5P_key.H5VL_GRP_LCPL_ID =
          some (if H5P_DEFAULT = lcpl_id then env.H5P_LINK_CREATE_DEFAULT else lcpl_id)) ∧
        ((H5I_object st.ids loc_id = none ∨ H5I_get_aux st.ids loc_id = none) →
          (H5Gcreate_ff env st loc_id name lcpl_id gcpl_id gapl_id trans eq_id).ret_value = FAIL ∧
          (H5Gcreate_ff env st loc_id name lcpl_id gcpl_id gapl_id trans eq_id).calls = []))) :=
  ⟨H5Dcreate_ff_creation_properties env st,
   H5Gcreate_ff_creation_properties env st⟩

/-- Witness for C29: `H5Dcreate_ff` on the unknown location 999 with type 5 and
dataspace 6 fails without a backend call and leaves 5, 6 and the default link
creation list 103 in the default dataset creation list 106. -/
theorem C29_creation_properties_stored_witness :
    (H5P_get (H5Dcreate_ff sample_env sample_st 999 (some "d") 5 6 0 0 0 0 0).st.ids
        (if H5P_DEFAULT = (0 : hid_t) then sample_env.H5P_DATASET_CREATE_DEFAULT else 0)
        H5P_key.H5VL_DSET_TYPE_ID = some 5 ∧
      H5P_get (H5Dcreate_ff sample_env sample_st 999 (some "d") 5 6 0 0 0 0 0).st.ids
        (if H5P_DEFAULT = (0 : hid_t) then sample_env.H5P_DATASET_CREATE_DEFAULT else 0)
        H5P_key.H5VL_DSET_SPACE_ID = some 6 ∧
      H5P_get (H5Dcreate_ff sample_env sample_st 999 (some "d") 5 6 0 0 0 0 0).st.ids
        (if H5P_DEFAULT = (0 : hid_t) then sample_env.H5P_DATASET_CREATE_DEFAULT else 0)
        H5P_key.H5VL_DSET_LCPL_ID =
        some (if H5P_DEFAULT = (0 : hid_t) then sample_env.H5P_LINK_CREATE_DEFAULT else 0)) ∧
    (H5Dcreate_ff sample_env sample_st 999 (some "d") 5 6 0 0 0 0 0).ret_value = FAIL ∧
    (H5Dcreate_ff sample_env sample_st 999 (some "d") 5 6 0 0 0 0 0).calls = [] :=
  have h := ((C29_creation_properties_stored sample_env sample_st).1 999 (some "d") 5 6 0 0 0
    0 0).2 (by decide) (by decide) (Or.inl rfl) (Or.inl rfl) (Or.inl rfl)
    ⟨(H5P_set sample_st.ids 106 H5P_key.H5VL_DSET_TYPE_ID 5).2,
     (H5P_set (H5P_set sample_st.ids 106 H5P_key.H5VL_DSET_TYPE_ID 5).2 106
        H5P_key.H5VL_DSET_SPACE_ID 6).2,
     (H5P_set (H5P_set (H5P_set sample_st.ids 106 H5P_key.H5VL_DSET_TYPE_ID 5).2 106
        H5P_key.H5VL_DSET_SPACE_ID 6).2 106 H5P_key.H5VL_DSET_LCPL_ID 103).2,
     by decide, by decide, by decide⟩
  ⟨h.1, (h.2 (Or.inl (by decide))).1, (h.2 (Or.inl (by decide))).2⟩

/-! ## C30: the argument checks of `H5Dwrite_ff` and `H5Dread_ff` -/

/-- C30, failing input: dataset 2 of `sample_st` with the memory dataspace -3.
`H5Dread_ff` fails on `mem_space_id < 0` without a backend call, `H5Dwrite_ff`
has no such check and hands -3 to the backend write.  Conversely, in a
registry where the identifier 0 is a dataset, `H5Dwrite_ff` fails on
`!dset_id` and `H5Dread_ff`, which has no such check, reaches the backend. -/
theorem C30_write_and_read_checks_differ :
    (H5Dread_ff sample_env sample_st 2 5 (-3) 6 0 [0] 0 0).calls = [] ∧
    (H5Dread_ff sample_env sample_st 2 5 (-3) 6 0 [0] 0 0).ret_value = FAIL ∧
    (H5Dwrite_ff sample_env sample_st 2 5 (-3) 6 0 [1] 0 0).calls.map (fun ev => ev.call) =
      [H5VL_call.dataset_write (H5_object.token 51) 7 5 (-3) 6 108 [1] 0] ∧
    (H5Dwrite_ff sample_env sample_st 2 5 (-3) 6 0 [1] 0 0).ret_value = SUCCEED ∧
    (H5Dwrite_ff sample_env
      { ids := { entries := [{ id := 0, type := H5I_type_t.H5I_DATASET,
                               obj_ptr := H5_object.token 51, aux_ptr := some 7, count := 1,
                               app_count := 1 }],
                 capacity := 4 },
        vol := 60 } 0 5 6 6 0 [1] 0 0).calls = [] ∧
    (H5Dread_ff sample_env
      { ids := { entries := [{ id := 0, type := H5I_type_t.H5I_DATASET,
                               obj_ptr := H5_object.token 51, aux_ptr := some 7, count := 1,
                               app_count := 1 }],
                 capacity := 4 },
        vol := 60 } 0 5 6 6 0 [0] 0 0).calls.map (fun ev => ev.call) =
      [H5VL_call.dataset_read (H5_object.token 51) 7 5 6 6 108 [0] 0] := by
  decide

end H5FF
